import Mathlib

/-! # The render loops and the software layer of the Qt Quick 2D renderer

A shallow embedding of `src/plugins/scenegraph/softwarecontext/threadedrenderloop.cpp`,
followed by `softwarelayer.cpp` and `renderloop.cpp` of the same directory.

* Pointers to `QQuickWindow` and `QRunnable` are natural numbers (object identities).
* A `Window *` into `m_windows` is an index into the list; the record owns its
  `RenderThread` (one heap object per record, never null once the record exists).
* Calls into collaborators outside the file (`QQuickWindow`, `QQuickWindowPrivate`,
  the animation driver, `QObject` timers, mutexes and wait conditions) are appended
  to a log in call order; they do not re-enter the render loop, except where the section of
  a class says which calls do.
* A function of the GUI side that blocks in `waitCondition.wait` is split at the wait:
  the part before the wait ends in `Call.waiting`, the part after it is a second
  function named `...Resume`. A whole call, named `...Whole` when the source name is taken
  by the first part, runs the first part, then the render thread, then the second part.
* `QThread::currentThread()` is an explicit argument `current`.
-/

namespace SoftwareContext

/-- Identity of a `QQuickWindow` object. -/
abbrev WindowId := Nat

/-- Identity of a `QRunnable` object. -/
abbrev JobId := Nat

/-- The class `QSize`. -/
structure QSize where
  width : Int
  height : Int
deriving DecidableEq, Repr

/-- The class `QImage`: either the null image `QImage()` or the content read back from the
backing store of a window after rendering it at a size. -/
inductive QImage where
  | null
  | frame (window : WindowId) (size : QSize)
deriving DecidableEq, Repr

/-- Identity of a `QThread`: the thread of `QCoreApplication::instance()`, the thread of a
`RenderThread` object, or any other thread. -/
inductive QThreadRef where
  | gui
  | render (id : Nat)
  | other (id : Nat)
deriving DecidableEq, Repr

/-- The custom events `WM_Obscure` .. `WM_PostJob` with the members of their classes
(`WMWindowEvent`, `WMSyncEvent`, `WMTryReleaseEvent`, `WMGrabEvent`, `WMJobEvent`).
The result pointer of `WMGrabEvent` always points at the local `result` of
`ThreadedRenderLoop::grab`, which is the field `grabResult` of the loop state.
A null `job` pointer is `none`. -/
inductive WMEvent where
  | obscure (window : WindowId)
  | requestSync (window : WindowId) (size : QSize) (syncInExpose : Bool) (forceRenderPass : Bool)
  | requestRepaint (window : WindowId)
  | tryRelease (window : WindowId) (inDestructor : Bool) (fallbackSurface : Bool)
  | grab (window : WindowId)
  | postJob (window : WindowId) (job : Option JobId)
deriving DecidableEq, Repr

/-- Calls that leave the file, in the order they are made. The `Nat` of the mutex and
wait-condition calls is the `id` of the `RenderThread` owning the mutex. -/
inductive Effect where
  | requestUpdate (window : WindowId)
  | killTimer (id : Int)
  | startTimer (interval : Int)
  | advance
  | timeToIncubate
  | polishItems (window : WindowId)
  | flushDelayedTouchEvent (window : WindowId)
  | afterAnimating (window : WindowId)
  | createWindow (window : WindowId)
  | warning
  | runJob (job : JobId)
  | deleteJob (job : JobId)
  | mutexLock (thread : Nat)
  | mutexUnlock (thread : Nat)
  | wakeOne (thread : Nat)
  | fireAboutToStop (window : WindowId)
  | cleanupNodesOnShutdown (window : WindowId)
  | syncSceneGraph (window : WindowId)
  | renderSceneGraph (window : WindowId) (size : QSize)
  | baseEvent
  | toImage (window : WindowId)
  | clearChangedFlag (window : WindowId)
  | connectSceneGraphChanged (window : WindowId)
  | sendPostedDeferredDelete
  | msleep (ms : Int)
  | animatorAdvance (thread : Nat)
  | fireFrameSwapped (window : WindowId)
  | initializeIfNeeded
  | processAppEvents
  | installAnimationDriver (thread : Nat)
  | deleteAnimationDriver (thread : Nat)
  | startThread (thread : Nat)
  | waitThread (thread : Nat)
  | deleteThread (thread : Nat)
  | createFallbackSurface (format : Nat)
  | deleteFallbackSurface
  | invalidateContext
deriving DecidableEq, Repr

/-! ## RenderThreadEventQueue -/

/-- The class `RenderThreadEventQueue`: a `QQueue<QEvent *>` and the flag `waiting`.
The mutex makes every member function atomic, so each is one state transformer. -/
structure RenderThreadEventQueue where
  events : List WMEvent
  waiting : Bool
deriving DecidableEq, Repr

/-- Outcome of `takeEvent`. `QQueue::dequeue()` requires a non-empty queue
(`Q_ASSERT(!isEmpty())` in `QList::first`); calling it on an empty queue is
`dequeueOnEmpty`. A caller parked in `condition.wait` is `blocks`. -/
inductive Taken where
  | event (e : WMEvent) (q : RenderThreadEventQueue)
  | blocks (q : RenderThreadEventQueue)
  | dequeueOnEmpty
deriving DecidableEq, Repr

namespace RenderThreadEventQueue

/-- The constructor: an empty queue with `waiting(false)`. -/
def new : RenderThreadEventQueue := { events := [], waiting := false }

/-- The member `addEvent`: `enqueue(e)` appends at the tail. Waking a parked taker changes
no field here: the taker itself clears `waiting` when it resumes in `takeEventWoken`. -/
def addEvent (q : RenderThreadEventQueue) (e : WMEvent) : RenderThreadEventQueue :=
  { q with events := q.events ++ [e] }

/-- The call `dequeue()` and the return of `takeEvent`. -/
def dequeue (q : RenderThreadEventQueue) : Taken :=
  match q.events with
  | [] => Taken.dequeueOnEmpty
  | e :: rest => Taken.event e { q with events := rest }

/-- The member `takeEvent(wait)` up to its return or up to `condition.wait`. -/
def takeEvent (q : RenderThreadEventQueue) (wait : Bool) : Taken :=
  if q.events.length = 0 ∧ wait = true then
    Taken.blocks { q with waiting := true }
  else
    dequeue q

/-- The rest of `takeEvent(true)` after `condition.wait` has returned:
`waiting = false; e = dequeue();`. -/
def takeEventWoken (q : RenderThreadEventQueue) : Taken :=
  dequeue { q with waiting := false }

/-- The member `hasMoreEvents`. -/
def hasMoreEvents (q : RenderThreadEventQueue) : Bool :=
  !q.events.isEmpty

end RenderThreadEventQueue

/-- One call made on an event queue by some thread. -/
inductive QueueOp where
  | addEvent (e : WMEvent)
  | takeEvent (wait : Bool)
deriving DecidableEq, Repr

/-- The events passed to `addEvent` by a sequence of calls, in call order. -/
def addedEvents : List QueueOp → List WMEvent
  | [] => []
  | QueueOp.addEvent e :: ops => e :: addedEvents ops
  | QueueOp.takeEvent _ :: ops => addedEvents ops

/-- No `takeEvent` of the sequence is made while the queue is empty; `n` is the number
of queued events before the first call. -/
def noTakeOnEmpty : List QueueOp → Nat → Bool
  | [], _ => true
  | QueueOp.addEvent _ :: ops, n => noTakeOnEmpty ops (n + 1)
  | QueueOp.takeEvent _ :: _, 0 => false
  | QueueOp.takeEvent _ :: ops, n + 1 => noTakeOnEmpty ops n

/-- Runs a sequence of calls on a queue and collects what the `takeEvent` calls return, in
call order. The run stops with `none` at a `takeEvent` that returns no event. -/
def runQueueOps : List QueueOp → RenderThreadEventQueue →
    Option (List WMEvent × RenderThreadEventQueue)
  | [], q => some ([], q)
  | QueueOp.addEvent e :: ops, q => runQueueOps ops (q.addEvent e)
  | QueueOp.takeEvent wait :: ops, q =>
    match q.takeEvent wait with
    | Taken.event e q1 =>
      match runQueueOps ops q1 with
      | some (taken, q2) => some (e :: taken, q2)
      | none => none
    | Taken.blocks _ => none
    | Taken.dequeueOnEmpty => none

/-! ## RenderThread and the state of ThreadedRenderLoop -/

/-- The enumerator `SyncRequest = 0x01` of `RenderThread::UpdateRequest`. -/
def SyncRequest : Nat := 0x01

/-- The enumerator `RepaintRequest = 0x02`. -/
def RepaintRequest : Nat := 0x02

/-- The enumerator `ExposeRequest = 0x04 | RepaintRequest | SyncRequest`. -/
def ExposeRequest : Nat := 0x04 ||| RepaintRequest ||| SyncRequest

/-- The members of the class `RenderThread` that the render loop reads or writes.
`id` is the identity of the object as a `QThread`, `isRunning` is `QThread::isRunning()`,
a null `window` is `none`, `animatorRunning` is `animatorDriver->isRunning()`, and
`vsyncDelta` holds an integral number of milliseconds. -/
structure RenderThread where
  id : Nat
  isRunning : Bool
  pendingUpdate : Nat
  sleeping : Bool
  syncResultedInChanges : Bool
  active : Bool
  window : Option WindowId
  windowSize : QSize
  stopEventProcessing : Bool
  eventQueue : RenderThreadEventQueue
  vsyncDelta : Int := 16
  animatorRunning : Bool := false
deriving DecidableEq, Repr

/-- The constructor `RenderThread(w, renderContext)`. The member `windowSize` is default
constructed: `QSize()` has width and height -1. Its last statement,
`vsyncDelta = qsgrl_animation_interval()`, is made where the thread is created, in
`handleExposureRecord`. -/
def RenderThread.new (id : Nat) : RenderThread :=
  { id := id, isRunning := false, pendingUpdate := 0, sleeping := false,
    syncResultedInChanges := false, active := false, window := none,
    windowSize := { width := -1, height := -1 }, stopEventProcessing := false,
    eventQueue := RenderThreadEventQueue.new }

/-- The member `RenderThread::requestRepaint`. -/
def RenderThread.requestRepaint (t : RenderThread) : RenderThread :=
  let t1 := if t.sleeping then { t with stopEventProcessing := true } else t
  if t1.window.isSome then { t1 with pendingUpdate := t1.pendingUpdate ||| RepaintRequest }
  else t1

/-- The member `RenderThread::postEvent`. -/
def RenderThread.postEvent (t : RenderThread) (e : WMEvent) : RenderThread :=
  { t with eventQueue := t.eventQueue.addEvent e }

/-- The struct `ThreadedRenderLoop::Window`: one record of `m_windows`. -/
structure Window where
  window : WindowId
  thread : RenderThread
  actualWindowFormat : Nat
  updateDuringSync : Bool
  forceRenderPass : Bool
deriving DecidableEq, Repr

/-- What the render loop reads from a `QQuickWindow` and its private part: `isVisible()`,
`isExposed()`, `size()`, whether `handle()` is non-null, and `format()`; `offScreen` is
`isTopLevel() && !geometry().intersects(screen()->availableGeometry())`, `renderer` says
whether `d->renderer` is non-null, `customRenderStage` whether `d->customRenderStage` is.
Two fields say what the next `d->syncSceneGraph()` does as far as the render thread can
see it: `syncCreatesRenderer`, whether it leaves a renderer when there was none, and
`sceneGraphChanges`, whether the signal `sceneGraphChanged()` reaches the slot of the render
thread during the call. -/
structure QQuickWindow where
  isVisible : Bool
  isExposed : Bool
  size : QSize
  handle : Bool
  format : Nat
  offScreen : Bool := false
  renderer : Bool := false
  customRenderStage : Bool := false
  syncCreatesRenderer : Bool := true
  sceneGraphChanges : Bool := false

/-- The class `ThreadedRenderLoop` with the part of the process it reads:
`animationRunning` is `m_animation_driver->isRunning()`, `hasInstance` says whether
`QCoreApplication::instance()` is non-null, `refreshRate` is
`QGuiApplication::primaryScreen()->refreshRate()`, `qwindow` gives every window object,
`timerSeed` numbers the timers handed out by `QObject::startTimer`, `grabResult` is the
local `result` of `grab`, and `log` holds the outside calls made so far. `elapsed` is what
`waitTimer.elapsed()` returns in `syncAndRender`, and `startSucceeds` says whether a thread
is running after `QThread::start()`. -/
structure ThreadedRenderLoop where
  m_windows : List Window
  m_animation_timer : Int
  animationRunning : Bool
  m_lockedForSync : Bool
  hasInstance : Bool
  refreshRate : ℚ
  qwindow : WindowId → QQuickWindow
  timerSeed : Nat
  grabResult : QImage
  log : List Effect
  elapsed : Int := 0
  startSucceeds : Bool := true

/-- Result of the part of a GUI-side call that runs before its first `waitCondition.wait`:
it returned a value, it is parked in the wait, or it dereferenced a null pointer. -/
inductive Call (α : Type) where
  | returned (rl : ThreadedRenderLoop) (value : α)
  | waiting (rl : ThreadedRenderLoop)
  | nullDereference

namespace ThreadedRenderLoop

/-- Appends one outside call to the log. -/
def emit (rl : ThreadedRenderLoop) (e : Effect) : ThreadedRenderLoop :=
  { rl with log := rl.log ++ [e] }

/-- A write through a `Window *`: replaces the record at index `i`. -/
def setWindow (rl : ThreadedRenderLoop) (i : Nat) (w : Window) : ThreadedRenderLoop :=
  { rl with m_windows := rl.m_windows.set i w }

/-- A write through `w->thread`: replaces the render thread of the record at index `i`. -/
def setThread (rl : ThreadedRenderLoop) (i : Nat) (t : RenderThread) : ThreadedRenderLoop :=
  match rl.m_windows[i]? with
  | some w => rl.setWindow i { w with thread := t }
  | none => rl

/-- The call `d->syncSceneGraph()` on the private part of a window: afterwards the window
has a renderer if it had one or if the call creates one. -/
def syncSceneGraph (rl : ThreadedRenderLoop) (window : WindowId) : ThreadedRenderLoop :=
  { rl.emit (Effect.syncSceneGraph window) with
    qwindow := fun x =>
      if x = window then
        { rl.qwindow window with
          renderer := (rl.qwindow window).renderer || (rl.qwindow window).syncCreatesRenderer }
      else rl.qwindow x }

/-- The call `window->create()`: the window has a platform handle afterwards. -/
def createWindow (rl : ThreadedRenderLoop) (window : WindowId) : ThreadedRenderLoop :=
  { rl.emit (Effect.createWindow window) with
    qwindow := fun x =>
      if x = window then { rl.qwindow window with handle := true } else rl.qwindow x }

end ThreadedRenderLoop

/-- The template `windowFor`: the first record whose `window` is the one asked for, as its
index (the returned pointer) together with the record it points to; `none` is the null
pointer. -/
def windowFor : List Window → WindowId → Option (Nat × Window)
  | [], _ => none
  | t :: rest, window =>
    if t.window = window then some (0, t)
    else
      match windowFor rest window with
      | some (i, w) => some (i + 1, w)
      | none => none

/-! ## The render thread: event handling -/

/-- The member `RenderThread::event`, run by the render thread of the record at index `i`.
Returns the state after the handler together with the event object as the handler left it
(the `WM_PostJob` handler nulls `ce->job`). The Boolean result of the C++ function is
dropped by both of its callers and is not modelled; `Q_ASSERT`s compile to nothing. -/
def RenderThread.event (rl : ThreadedRenderLoop) (i : Nat) (e : WMEvent) :
    ThreadedRenderLoop × WMEvent :=
  match rl.m_windows[i]? with
  | none => (rl, e)
  | some w =>
    let t := w.thread
    match e with
    | WMEvent.obscure _ =>
      let rl1 := rl.emit (Effect.mutexLock t.id)
      let rl2 :=
        match t.window with
        | some win =>
          ((rl1.emit (Effect.fireAboutToStop win)).emit
            (Effect.cleanupNodesOnShutdown win)).setThread i { t with window := none }
        | none => rl1
      ((rl2.emit (Effect.wakeOne t.id)).emit (Effect.mutexUnlock t.id), e)
    | WMEvent.requestSync window size syncInExpose forceRenderPass =>
      let t1 := if t.sleeping then { t with stopEventProcessing := true } else t
      let t2 := { t1 with window := some window, windowSize := size,
                          pendingUpdate := t1.pendingUpdate ||| SyncRequest }
      let t3 := if syncInExpose then
          { t2 with pendingUpdate := t2.pendingUpdate ||| ExposeRequest } else t2
      let t4 := if forceRenderPass then
          { t3 with pendingUpdate := t3.pendingUpdate ||| RepaintRequest } else t3
      (rl.setThread i t4, e)
    | WMEvent.tryRelease _ inDestructor _ =>
      let rl1 := { rl.emit (Effect.mutexLock t.id) with m_lockedForSync := true }
      let rl2 :=
        if t.window.isNone ∨ inDestructor = true then
          let t1 := { t with active := false }
          let t2 := if t1.sleeping then { t1 with stopEventProcessing := true } else t1
          rl1.setThread i t2
        else rl1
      let rl3 := { rl2.emit (Effect.wakeOne t.id) with m_lockedForSync := false }
      (rl3.emit (Effect.mutexUnlock t.id), e)
    | WMEvent.grab _ =>
      let rl1 := rl.emit (Effect.mutexLock t.id)
      let rl2 :=
        match t.window with
        | some win =>
          { (((rl1.syncSceneGraph win).emit (Effect.renderSceneGraph win t.windowSize)).emit
              (Effect.toImage win)) with
            grabResult := QImage.frame win t.windowSize }
        | none => rl1
      ((rl2.emit (Effect.wakeOne t.id)).emit (Effect.mutexUnlock t.id), e)
    | WMEvent.postJob window job =>
      match t.window, job with
      | some _, some j =>
        ((rl.emit (Effect.runJob j)).emit (Effect.deleteJob j), WMEvent.postJob window none)
      | _, _ => (rl, e)
    | WMEvent.requestRepaint _ =>
      ((rl.setThread i { t with pendingUpdate := t.pendingUpdate ||| RepaintRequest }).emit
        Effect.baseEvent, e)

/-- The statement `delete e;` of the event loops: the destructor `~WMJobEvent` deletes a job
that is still attached; the other event classes own nothing. -/
def deleteEvent (rl : ThreadedRenderLoop) (e : WMEvent) : ThreadedRenderLoop :=
  match e with
  | WMEvent.postJob _ (some j) => rl.emit (Effect.deleteJob j)
  | _ => rl

/-- The body of the loops of `processEvents` and `processEventsAndWaitForMore` once an
event has been taken: `event(e); delete e;`. -/
def dispatch (rl : ThreadedRenderLoop) (i : Nat) (e : WMEvent) : ThreadedRenderLoop :=
  deleteEvent (RenderThread.event rl i e).1 (RenderThread.event rl i e).2

/-- The loop of `RenderThread::processEvents` for the render thread of record `i`, with a
bound on the number of iterations: `none` when the bound is used up, when the record does
not exist, or when `takeEvent(false)` returns no event. -/
def processEventsLoop : Nat → ThreadedRenderLoop → Nat → Option ThreadedRenderLoop
  | 0, _, _ => none
  | fuel + 1, rl, i =>
    match rl.m_windows[i]? with
    | none => none
    | some w =>
      if w.thread.eventQueue.hasMoreEvents then
        match w.thread.eventQueue.takeEvent false with
        | Taken.event e q =>
          processEventsLoop fuel (dispatch (rl.setThread i { w.thread with eventQueue := q }) i e) i
        | Taken.blocks _ => none
        | Taken.dequeueOnEmpty => none
      else some rl

/-- The member `RenderThread::processEvents`: the loop run with one iteration more than
there are queued events, which is what it needs when nothing is posted meanwhile. -/
def RenderThread.processEvents (rl : ThreadedRenderLoop) (i : Nat) : Option ThreadedRenderLoop :=
  match rl.m_windows[i]? with
  | none => none
  | some w => processEventsLoop (w.thread.eventQueue.events.length + 1) rl i

/-! ## The render loop on the GUI side -/

/-- The conversion `int(x)` of a non-integral value: truncation toward zero. -/
def toInt (x : ℚ) : Int :=
  if 0 ≤ x then ⌊x⌋ else ⌈x⌉

/-- Rounding of a rational to the nearest integer, ties to the even one. -/
def roundHalfEven (x : ℚ) : Int :=
  if x - ⌊x⌋ < 1 / 2 then ⌊x⌋
  else if 1 / 2 < x - ⌊x⌋ then ⌊x⌋ + 1
  else if ⌊x⌋ % 2 = 0 then ⌊x⌋ else ⌊x⌋ + 1

/-- The exponent of the unit in the last place of the doubles around a positive value: 52
below the exponent of the value for a normal number, and -1074 for a subnormal one. -/
def ulpExponent (x : ℚ) : Int :=
  max (Int.log 2 x - 52) (-1074)

/-- The double nearest a non-negative rational, ties to the even significand: the rounding
of IEEE 754 binary64 arithmetic in its default mode, below the overflow threshold. -/
def roundToDouble (x : ℚ) : ℚ :=
  if x ≤ 0 then 0 else (roundHalfEven (x / 2 ^ ulpExponent x) : ℚ) * 2 ^ ulpExponent x

/-- The function `qsgrl_animation_interval`, with the refresh rate of the primary screen as
its argument. The `qreal` is a double, given by its rational value; the quotient
`1000 / refreshRate` is the double nearest the exact quotient, and `int(...)` truncates
it. -/
def qsgrl_animation_interval (refreshRate : ℚ) : Int :=
  if refreshRate < 1 then 16
  else toInt (roundToDouble (1000 / refreshRate))

/-- The double 0x1.d69696969696ap+5, about 58.8235: the double nearest 1000/17. -/
def rateNear1000Over17 : ℚ := 4139337892803765 / 70368744177664

/-- The interval in the words of the specification: `round(1000 / refreshRate)`, the
quotient rounded to the nearest integer. -/
def specAnimationInterval (refreshRate : ℚ) : Int :=
  round (1000 / refreshRate)

/-- The call `QObject::startTimer(interval)` as Qt documents it: zero when no timer could be
started, which for a call on the thread of the object is the case of a negative interval,
and otherwise a timer id, which is positive. -/
def startTimer (rl : ThreadedRenderLoop) (interval : Int) : ThreadedRenderLoop × Int :=
  let rl1 := rl.emit (Effect.startTimer interval)
  if interval < 0 then (rl1, 0)
  else ({ rl1 with timerSeed := rl1.timerSeed + 1 }, (rl1.timerSeed : Int) + 1)

namespace ThreadedRenderLoop

/-- The member `maybePostPolishRequest`, for a non-null `w`. -/
def maybePostPolishRequest (rl : ThreadedRenderLoop) (w : Window) : ThreadedRenderLoop :=
  rl.emit (Effect.requestUpdate w.window)

/-- The condition `w.window->isVisible() && w.window->isExposed()`. -/
def showing (rl : ThreadedRenderLoop) (w : Window) : Bool :=
  (rl.qwindow w.window).isVisible && (rl.qwindow w.window).isExposed

/-- The first loop of `startOrStopAnimationTimer`: the final values of `exposedWindows`
and `theOne` (`none` is the null pointer). -/
def exposedScan (rl : ThreadedRenderLoop) : Nat × Option Window :=
  rl.m_windows.foldl
    (fun acc w => if rl.showing w then (acc.1 + 1, some w) else acc) (0, none)

/-- The member `startOrStopAnimationTimer`; `none` when `maybePostPolishRequest` is called
with a null `theOne`, which it dereferences. -/
def startOrStopAnimationTimer (rl : ThreadedRenderLoop) : Option ThreadedRenderLoop :=
  let exposedWindows := rl.exposedScan.1
  let theOne := rl.exposedScan.2
  if rl.m_animation_timer ≠ 0 ∧ (exposedWindows = 1 ∨ rl.animationRunning = false) then
    let rl1 := { rl.emit (Effect.killTimer rl.m_animation_timer) with m_animation_timer := 0 }
    if rl1.animationRunning then
      match theOne with
      | some w => some (rl1.maybePostPolishRequest w)
      | none => none
    else some rl1
  else if rl.m_animation_timer = 0 ∧ exposedWindows ≠ 1 ∧ rl.animationRunning = true then
    let r := startTimer rl (qsgrl_animation_interval rl.refreshRate)
    some { r.1 with m_animation_timer := r.2 }
  else some rl

end ThreadedRenderLoop

/-- The events delivered to `ThreadedRenderLoop::event`: a `QTimerEvent` with its
`timerId()`, or an event of another type. -/
inductive QEvent where
  | timer (timerId : Int)
  | other
deriving DecidableEq, Repr

namespace ThreadedRenderLoop

/-- The member `ThreadedRenderLoop::event`. A timer event that is not the animation timer
falls through to `default` and reaches `return QObject::event(e)`, whose result is the
argument `base`. -/
def event (rl : ThreadedRenderLoop) (base : Bool) (e : QEvent) : ThreadedRenderLoop × Bool :=
  match e with
  | QEvent.timer timerId =>
    if timerId = rl.m_animation_timer then
      ((rl.emit Effect.advance).emit Effect.timeToIncubate, true)
    else (rl.emit Effect.baseEvent, base)
  | QEvent.other => (rl.emit Effect.baseEvent, base)

/-- The member `maybeUpdate(Window *w)`; an index without a record is the null pointer.
The source repeats the test `!w || !w->thread->isRunning()` after the thread check; nothing
changes in between, so the second test is the first one. -/
def maybeUpdateW (rl : ThreadedRenderLoop) (current : QThreadRef) (i : Nat) :
    ThreadedRenderLoop :=
  if rl.hasInstance = false then rl
  else
    match rl.m_windows[i]? with
    | none => rl
    | some w =>
      if w.thread.isRunning = false then rl
      else if current ≠ QThreadRef.gui ∧
          (current ≠ QThreadRef.render w.thread.id ∨ rl.m_lockedForSync = false) then
        rl.emit Effect.warning
      else if current = QThreadRef.render w.thread.id then
        rl.setWindow i { w with updateDuringSync := true }
      else rl.maybePostPolishRequest w

/-- The member `maybeUpdate(QQuickWindow *window)`. -/
def maybeUpdate (rl : ThreadedRenderLoop) (current : QThreadRef) (window : WindowId) :
    ThreadedRenderLoop :=
  match windowFor rl.m_windows window with
  | some (i, _) => rl.maybeUpdateW current i
  | none => rl

/-- The member `update(QQuickWindow *window)`. -/
def update (rl : ThreadedRenderLoop) (current : QThreadRef) (window : WindowId) :
    ThreadedRenderLoop :=
  match windowFor rl.m_windows window with
  | none => rl
  | some (i, w) =>
    if QThreadRef.render w.thread.id = current then
      rl.setThread i w.thread.requestRepaint
    else
      (rl.setWindow i { w with forceRenderPass := true }).maybeUpdateW current i

/-- The member `postJob`; `delete job` is the outside call `deleteJob`. -/
def postJob (rl : ThreadedRenderLoop) (window : WindowId) (job : JobId) :
    ThreadedRenderLoop :=
  match windowFor rl.m_windows window with
  | some (i, w) =>
    if w.thread.window.isSome then
      rl.setThread i (w.thread.postEvent (WMEvent.postJob window (some job)))
    else rl.emit (Effect.deleteJob job)
  | none => rl.emit (Effect.deleteJob job)

/-- The member `grab` up to its return or up to `waitCondition.wait`. With a null `w` the
`Q_ASSERT` fails and `w->thread` dereferences the null pointer. -/
def grab (rl : ThreadedRenderLoop) (window : WindowId) : Call QImage :=
  match windowFor rl.m_windows window with
  | none => Call.nullDereference
  | some (i, w) =>
    if w.thread.isRunning = false then Call.returned rl QImage.null
    else
      let rl1 := if (rl.qwindow window).handle = false then rl.createWindow window else rl
      let rl2 := rl1.emit (Effect.polishItems window)
      let rl3 := { rl2.emit (Effect.mutexLock w.thread.id) with
                   grabResult := QImage.null, m_lockedForSync := true }
      Call.waiting (rl3.setThread i (w.thread.postEvent (WMEvent.grab window)))

/-- The rest of `grab` once the wait on the render thread of record `i` has returned. -/
def grabResume (rl : ThreadedRenderLoop) (i : Nat) : ThreadedRenderLoop × QImage :=
  match rl.m_windows[i]? with
  | none => (rl, rl.grabResult)
  | some w =>
    ({ rl with m_lockedForSync := false }.emit (Effect.mutexUnlock w.thread.id), rl.grabResult)

/-- The member `polishAndSync(Window *w, bool inExpose)` up to its return or up to
`waitCondition.wait`. `w` is looked up again after `flushDelayedTouchEvent`, as in the
source. -/
def polishAndSync (rl : ThreadedRenderLoop) (i : Nat) (inExpose : Bool) : Call Unit :=
  match rl.m_windows[i]? with
  | none => Call.nullDereference
  | some w0 =>
    let window := w0.window
    if w0.thread.window.isNone then Call.returned rl ()
    else
      let rl1 := rl.emit (Effect.flushDelayedTouchEvent window)
      match windowFor rl1.m_windows window with
      | none => Call.returned rl1 ()
      | some (j, w) =>
        if w.thread.window.isNone then Call.returned rl1 ()
        else
          let rl2 := rl1.emit (Effect.polishItems window)
          let rl3 := (rl2.setWindow j { w with updateDuringSync := false }).emit
            (Effect.afterAnimating window)
          let rl4 := { rl3.emit (Effect.mutexLock w.thread.id) with m_lockedForSync := true }
          let sync := WMEvent.requestSync window (rl4.qwindow window).size inExpose
            w.forceRenderPass
          Call.waiting (rl4.setWindow j
            { w with updateDuringSync := false, forceRenderPass := false,
                     thread := w.thread.postEvent sync })

/-- The rest of `polishAndSync` once the wait on the render thread of record `j` has
returned. -/
def polishAndSyncResume (rl : ThreadedRenderLoop) (j : Nat) : ThreadedRenderLoop :=
  match rl.m_windows[j]? with
  | none => rl
  | some w =>
    let rl1 := { rl with m_lockedForSync := false }.emit (Effect.mutexUnlock w.thread.id)
    if rl1.m_animation_timer = 0 ∧ rl1.animationRunning = true then
      ((rl1.emit Effect.advance).maybePostPolishRequest w).emit Effect.timeToIncubate
    else if w.updateDuringSync then rl1.maybePostPolishRequest w
    else rl1

end ThreadedRenderLoop

/-- A write of the event queue of the render thread of record `i`. -/
def ThreadedRenderLoop.setQueue (rl : ThreadedRenderLoop) (i : Nat)
    (q : RenderThreadEventQueue) : ThreadedRenderLoop :=
  match rl.m_windows[i]? with
  | some w => rl.setThread i { w.thread with eventQueue := q }
  | none => rl

/-! ## States used to instantiate the theorems -/

/-- A render thread that is running, active and bound to window 1. -/
def sampleThread : RenderThread :=
  { RenderThread.new 7 with isRunning := true, active := true, window := some 1 }

/-- A window object that is visible and exposed, 640 by 480, with a platform handle. -/
def sampleWindowObject : QQuickWindow :=
  { isVisible := true, isExposed := true, size := { width := 640, height := 480 },
    handle := true, format := 0 }

/-- The record of window 1, owning `sampleThread`. -/
def sampleWindow : Window :=
  { window := 1, thread := sampleThread, actualWindowFormat := 0,
    updateDuringSync := false, forceRenderPass := false }

/-- A render loop tracking window 1 only, with no timer and a stopped animation driver, on a
60 Hz screen. -/
def sampleLoop : ThreadedRenderLoop :=
  { m_windows := [sampleWindow], m_animation_timer := 0, animationRunning := false,
    m_lockedForSync := false, hasInstance := true, refreshRate := 60,
    qwindow := fun _ => sampleWindowObject, timerSeed := 0, grabResult := QImage.null,
    log := [] }

/-- Two tracked windows, both visible and exposed, with the animation driver running and
the animation timer 5 active. -/
def tickingLoop : ThreadedRenderLoop :=
  { sampleLoop with
    m_windows := [sampleWindow, { sampleWindow with window := 2, thread := RenderThread.new 8 }],
    m_animation_timer := 5, animationRunning := true }

/-- Window 1 is tracked and its render thread exists but is not running. -/
def idleLoop : ThreadedRenderLoop :=
  { sampleLoop with m_windows := [{ sampleWindow with thread := RenderThread.new 7 }] }

/-- Window 1 is tracked and bound to its render thread, whose `isRunning()` is false. -/
def boundNotRunningLoop : ThreadedRenderLoop :=
  { sampleLoop with
    m_windows := [{ sampleWindow with thread := { sampleThread with isRunning := false } }] }

/-- Window 1 is tracked and obscured: its render thread runs with no bound window. -/
def obscuredLoop : ThreadedRenderLoop :=
  { sampleLoop with
    m_windows := [{ sampleWindow with thread := { sampleThread with window := none } }] }

/-- The state of `sampleLoop` when `QCoreApplication::instance()` is null. -/
def noInstanceLoop : ThreadedRenderLoop :=
  { sampleLoop with hasInstance := false }

/-! ## The render thread: synchronising, rendering and the run loop -/

/-- The block of `RenderThread::sync` under `if (current)`, for the render thread `t` of
record `i` and its bound window `win`: the changed flag of an existing renderer is cleared,
the scene graph is synchronised, `syncResultedInChanges` is set by the slot
`sceneGraphChanged` or because the renderer was created, and deferred deletes are
processed. -/
def RenderThread.syncCurrent (rl : ThreadedRenderLoop) (i : Nat) (t : RenderThread)
    (win : WindowId) : ThreadedRenderLoop :=
  let hadRenderer := (rl.qwindow win).renderer
  let rl2 := if hadRenderer then rl.emit (Effect.clearChangedFlag win) else rl
  let rl3 := rl2.syncSceneGraph win
  let rl4 := if (rl.qwindow win).sceneGraphChanges then
      rl3.setThread i { t with syncResultedInChanges := true } else rl3
  let rl5 := if hadRenderer = false ∧ (rl3.qwindow win).renderer = true then
      (rl4.setThread i { t with syncResultedInChanges := true }).emit
        (Effect.connectSceneGraphChanged win)
    else rl4
  rl5.emit Effect.sendPostedDeferredDelete

/-- The end of `RenderThread::sync`: `if (!inExpose) { waitCondition.wakeOne();
mutex.unlock(); }`. -/
def RenderThread.syncWake (rl : ThreadedRenderLoop) (id : Nat) (inExpose : Bool) :
    ThreadedRenderLoop :=
  if inExpose then rl else (rl.emit (Effect.wakeOne id)).emit (Effect.mutexUnlock id)

/-- The member `RenderThread::sync`, run by the render thread of record `i`. `none` when no
window is bound while the size is positive: `QQuickWindowPrivate::get(window)` is then used
on a null pointer. The profiling and logging statements are left out. -/
def RenderThread.sync (rl : ThreadedRenderLoop) (i : Nat) (inExpose : Bool) :
    Option ThreadedRenderLoop :=
  match rl.m_windows[i]? with
  | none => none
  | some w =>
    if 0 < w.thread.windowSize.width ∧ 0 < w.thread.windowSize.height then
      match w.thread.window with
      | none => none
      | some win =>
        some (RenderThread.syncWake
          (RenderThread.syncCurrent (rl.emit (Effect.mutexLock w.thread.id)) i w.thread win)
          w.thread.id inExpose)
    else
      some (RenderThread.syncWake (rl.emit (Effect.mutexLock w.thread.id)) w.thread.id inExpose)

/-- The part of `RenderThread::syncAndRender` after the test that skips the frame, for the
render thread `t` of record `i` and its bound window `win`: the animator driver is advanced
when it is running, the scene graph is rendered when there is a renderer and the size is
positive, and after an expose the GUI thread is woken and the mutex unlocked. -/
def RenderThread.renderFrame (rl : ThreadedRenderLoop) (t : RenderThread) (win : WindowId)
    (exposeRequested : Bool) : ThreadedRenderLoop :=
  let rl3 := if t.animatorRunning then rl.emit (Effect.animatorAdvance t.id) else rl
  let rl4 :=
    if (rl3.qwindow win).renderer = true ∧ 0 < t.windowSize.width ∧ 0 < t.windowSize.height then
      (rl3.emit (Effect.renderSceneGraph win t.windowSize)).emit (Effect.fireFrameSwapped win)
    else rl3
  if exposeRequested then (rl4.emit (Effect.wakeOne t.id)).emit (Effect.mutexUnlock t.id)
  else rl4

/-- The part of `RenderThread::syncAndRender` after the call of `sync`, with the locals
`repaintRequested` and `exposeRequested`: either the frame is skipped and the thread sleeps
for what is left of `vsyncDelta`, or the frame is rendered. -/
def RenderThread.afterSync (rl : ThreadedRenderLoop) (i : Nat) (win : WindowId)
    (repaintRequested exposeRequested : Bool) : Option ThreadedRenderLoop :=
  match rl.m_windows[i]? with
  | none => none
  | some w =>
    if w.thread.syncResultedInChanges = false ∧ repaintRequested = false then
      if 0 < w.thread.vsyncDelta - rl.elapsed then
        some (rl.emit (Effect.msleep (w.thread.vsyncDelta - rl.elapsed)))
      else some rl
    else some (RenderThread.renderFrame rl w.thread win exposeRequested)

/-- The local `repaintRequested` of `syncAndRender`. -/
def RenderThread.repaintRequested (rl : ThreadedRenderLoop) (t : RenderThread)
    (win : WindowId) : Bool :=
  decide (t.pendingUpdate &&& RepaintRequest ≠ 0) || (rl.qwindow win).customRenderStage

/-- The local `syncRequested` of `syncAndRender`. -/
def RenderThread.syncRequested (t : RenderThread) : Bool :=
  decide (t.pendingUpdate &&& SyncRequest ≠ 0)

/-- The local `exposeRequested` of `syncAndRender`. -/
def RenderThread.exposeRequested (t : RenderThread) : Bool :=
  decide (t.pendingUpdate &&& ExposeRequest = ExposeRequest)

/-- The call of `sync` in `syncAndRender`: `if (syncRequested) sync(exposeRequested);`. -/
def RenderThread.syncIfRequested (rl : ThreadedRenderLoop) (i : Nat)
    (syncRequested exposeRequested : Bool) : Option ThreadedRenderLoop :=
  if syncRequested then RenderThread.sync rl i exposeRequested else some rl

/-- The member `RenderThread::syncAndRender`, run by the render thread of record `i`.
`none` when no window is bound (`QQuickWindowPrivate::get(window)` on a null pointer). -/
def RenderThread.syncAndRender (rl : ThreadedRenderLoop) (i : Nat) :
    Option ThreadedRenderLoop :=
  match rl.m_windows[i]? with
  | none => none
  | some w =>
    match w.thread.window with
    | none => none
    | some win =>
      match RenderThread.syncIfRequested
          (rl.setThread i { w.thread with syncResultedInChanges := false, pendingUpdate := 0 })
          i w.thread.syncRequested w.thread.exposeRequested with
      | none => none
      | some rl2 =>
        RenderThread.afterSync rl2 i win (RenderThread.repaintRequested rl w.thread win)
          w.thread.exposeRequested

/-- The two loop tests of `RenderThread::run` at which the thread can be picked up: the test
of `while (active)` and the test of `while (!stopEventProcessing)` inside
`processEventsAndWaitForMore`. -/
inductive RunPoint where
  | activeTest
  | stopTest
deriving DecidableEq, Repr

/-- The statement `if (window) { initializeIfNeeded(); syncAndRender(); }` of `run`. -/
def RenderThread.frame (rl : ThreadedRenderLoop) (i : Nat) : Option ThreadedRenderLoop :=
  match rl.m_windows[i]? with
  | none => none
  | some w =>
    if w.thread.window.isSome then
      RenderThread.syncAndRender (rl.emit Effect.initializeIfNeeded) i
    else some rl

/-- The loop of `RenderThread::run` for the render thread of record `i`, from one of its two
loop tests on, with `processEventsAndWaitForMore` inlined and a bound on the number of loop
tests. The result is the state in which the thread stops running: either it is parked in
`takeEvent(true)` on an empty queue (`eventQueue.waiting` is set), or `run` has returned
(`isRunning` is false). `none` when the bound is used up or a null pointer is used. -/
def RenderThread.runFrom : Nat → RunPoint → ThreadedRenderLoop → Nat →
    Option ThreadedRenderLoop
  | 0, _, _, _ => none
  | fuel + 1, RunPoint.activeTest, rl, i =>
    match rl.m_windows[i]? with
    | none => none
    | some w =>
      if w.thread.active = false then
        some ((rl.emit (Effect.deleteAnimationDriver w.thread.id)).setThread i
          { w.thread with isRunning := false })
      else
        match RenderThread.frame rl i with
        | none => none
        | some rl1 =>
          match RenderThread.processEvents rl1 i with
          | none => none
          | some rl2 =>
            match (rl2.emit Effect.processAppEvents).m_windows[i]? with
            | none => none
            | some w3 =>
              if w3.thread.active = true ∧
                  (w3.thread.pendingUpdate = 0 ∨ w3.thread.window.isNone) then
                RenderThread.runFrom fuel RunPoint.stopTest
                  ((rl2.emit Effect.processAppEvents).setThread i
                    { w3.thread with sleeping := true, stopEventProcessing := false }) i
              else RenderThread.runFrom fuel RunPoint.activeTest
                (rl2.emit Effect.processAppEvents) i
  | fuel + 1, RunPoint.stopTest, rl, i =>
    match rl.m_windows[i]? with
    | none => none
    | some w =>
      if w.thread.stopEventProcessing then
        RenderThread.runFrom fuel RunPoint.activeTest
          (rl.setThread i { w.thread with sleeping := false }) i
      else
        match w.thread.eventQueue.takeEvent true with
        | Taken.event e q =>
          RenderThread.runFrom fuel RunPoint.stopTest
            (dispatch (rl.setThread i { w.thread with eventQueue := q }) i e) i
        | Taken.blocks q => some (rl.setThread i { w.thread with eventQueue := q })
        | Taken.dequeueOnEmpty => none

/-- A bound on the loop tests a render thread makes before it parks or finishes when nothing
is posted meanwhile: one per queued event and a few for the frame that follows. -/
def RenderThread.fuel (t : RenderThread) : Nat :=
  t.eventQueue.events.length + 8

/-- The member `RenderThread::run` from its first line, for a thread that has just been
started. -/
def RenderThread.run (rl : ThreadedRenderLoop) (i : Nat) : Option ThreadedRenderLoop :=
  match rl.m_windows[i]? with
  | none => none
  | some w =>
    RenderThread.runFrom w.thread.fuel RunPoint.activeTest
      (rl.emit (Effect.installAnimationDriver w.thread.id)) i

/-- A render thread parked in `takeEvent(true)` goes on after an event has been posted:
`waiting = false; e = dequeue();`, then `event(e); delete e;` and the loop test of
`processEventsAndWaitForMore`. `none` when the thread is not parked. -/
def RenderThread.wake (rl : ThreadedRenderLoop) (i : Nat) : Option ThreadedRenderLoop :=
  match rl.m_windows[i]? with
  | none => none
  | some w =>
    if w.thread.isRunning = true ∧ w.thread.eventQueue.waiting = true then
      match w.thread.eventQueue.takeEventWoken with
      | Taken.event e q =>
        RenderThread.runFrom w.thread.fuel RunPoint.stopTest
          (dispatch (rl.setThread i { w.thread with eventQueue := q }) i e) i
      | Taken.blocks _ => none
      | Taken.dequeueOnEmpty => none
    else none

/-! ## The render loop on the GUI side: exposure, obscurity, release and destruction

The functions of this section run on the GUI thread and wait for the render thread. While
the GUI thread waits it executes nothing, so a whole call is the part before the wait, then
what the render thread does once the event is posted, then the part after the wait. A
render thread that is running is taken to be parked in `takeEvent(true)` when the call is
made; a thread started by the call runs `run` from its first line. -/

/-- The wait of the GUI thread on `waitCondition` of the render thread with identity `id`.
`before` is the state when the wait starts, `ran` the state in which the render thread
stops running. The wait returns when the render thread has called `wakeOne` on the
condition in between; otherwise the GUI thread waits for ever, which is `none`. -/
def awaitWake (before : ThreadedRenderLoop) (ran : Option ThreadedRenderLoop) (id : Nat) :
    Option ThreadedRenderLoop :=
  match ran with
  | none => none
  | some after =>
    if before.log.count (Effect.wakeOne id) < after.log.count (Effect.wakeOne id) then
      some after
    else none

/-- The loop at the end of `windowDestroyed`: removes the first record of the window. -/
def removeWindow : List Window → WindowId → List Window
  | [], _ => []
  | t :: rest, window =>
    if t.window = window then rest else t :: removeWindow rest window

namespace ThreadedRenderLoop

/-- The pointer returned by `new RenderThread(...)`: an identity that no render thread of a
record has. -/
def newThreadId (rl : ThreadedRenderLoop) : Nat :=
  (rl.m_windows.map (fun w => w.thread.id)).foldr max 0 + 1

/-- The first block of `handleExposure`: the record of the window is looked up and, when
there is none, created and appended. Returns the pointer `w` as an index. -/
def handleExposureRecord (rl : ThreadedRenderLoop) (window : WindowId) :
    ThreadedRenderLoop × Nat :=
  match windowFor rl.m_windows window with
  | some (i, _) => (rl, i)
  | none =>
    let win : Window :=
      { window := window,
        actualWindowFormat := (rl.qwindow window).format,
        thread := { RenderThread.new rl.newThreadId with
                    vsyncDelta := qsgrl_animation_interval rl.refreshRate },
        updateDuringSync := false,
        forceRenderPass := true }
    ({ rl with m_windows := rl.m_windows ++ [win] }, rl.m_windows.length)

/-- The geometry check of `handleExposure` and the creation of the platform window. The
warning is that of a build without `QT_NO_DEBUG`. -/
def handleExposurePrepare (rl : ThreadedRenderLoop) (window : WindowId) : ThreadedRenderLoop :=
  let q := rl.qwindow window
  let rl2 := if q.size.width ≤ 0 ∨ q.size.height ≤ 0 ∨ q.offScreen = true then
      rl.emit Effect.warning else rl
  if (rl2.qwindow window).handle = false then rl2.createWindow window else rl2

/-- The middle of `handleExposure`, from `w->thread->window = window` to the start of the
render thread. The moves of objects between threads are not part of the state. Returns
whether the thread was started; `none` is `qFatal`, which ends the process. -/
def handleExposureStart (rl : ThreadedRenderLoop) (i : Nat) (window : WindowId) :
    Option (ThreadedRenderLoop × Bool) :=
  match rl.m_windows[i]? with
  | none => none
  | some w =>
    let t1 : RenderThread := { w.thread with window := some window }
    let rl1 := (rl.setThread i t1).handleExposurePrepare w.window
    if w.thread.isRunning = false then
      let rl2 := (rl1.setThread i { t1 with active := true }).emit (Effect.startThread t1.id)
      if rl.startSucceeds then
        some (rl2.setThread i { t1 with active := true, isRunning := true }, true)
      else none
    else some (rl1, false)

/-- The member `handleExposure`. -/
def handleExposure (rl : ThreadedRenderLoop) (window : WindowId) : Option ThreadedRenderLoop :=
  match (rl.handleExposureRecord window).1.handleExposureStart
      (rl.handleExposureRecord window).2 window with
  | none => none
  | some (rl1, started) =>
    let i := (rl.handleExposureRecord window).2
    match rl1.polishAndSync i true with
    | Call.nullDereference => none
    | Call.returned rl2 _ =>
      match (if started then RenderThread.run rl2 i else some rl2) with
      | none => none
      | some rl3 => rl3.startOrStopAnimationTimer
    | Call.waiting rl2 =>
      match windowFor rl2.m_windows window with
      | none => none
      | some (j, w) =>
        match awaitWake rl2 (if started then RenderThread.run rl2 j else RenderThread.wake rl2 j)
            w.thread.id with
        | none => none
        | some rl3 => (rl3.polishAndSyncResume j).startOrStopAnimationTimer

/-- The member `handleObscurity(Window *w)` up to its return or up to `waitCondition.wait`. -/
def handleObscurity (rl : ThreadedRenderLoop) (i : Nat) : Call Unit :=
  match rl.m_windows[i]? with
  | none => Call.nullDereference
  | some w =>
    if w.thread.isRunning then
      Call.waiting ((rl.emit (Effect.mutexLock w.thread.id)).setThread i
        (w.thread.postEvent (WMEvent.obscure w.window)))
    else
      match rl.startOrStopAnimationTimer with
      | some rl1 => Call.returned rl1 ()
      | none => Call.nullDereference

/-- The rest of `handleObscurity` once the wait on the render thread of record `i` has
returned. -/
def handleObscurityResume (rl : ThreadedRenderLoop) (i : Nat) : Option ThreadedRenderLoop :=
  match rl.m_windows[i]? with
  | none => none
  | some w => (rl.emit (Effect.mutexUnlock w.thread.id)).startOrStopAnimationTimer

/-- A whole call of `handleObscurity(Window *w)`. -/
def handleObscurityWhole (rl : ThreadedRenderLoop) (i : Nat) : Option ThreadedRenderLoop :=
  match rl.handleObscurity i with
  | Call.nullDereference => none
  | Call.returned rl1 _ => some rl1
  | Call.waiting rl1 =>
    match rl1.m_windows[i]? with
    | none => none
    | some w =>
      match awaitWake rl1 (RenderThread.wake rl1 i) w.thread.id with
      | none => none
      | some rl2 => rl2.handleObscurityResume i

/-- The member `releaseResources(Window *w, bool inDestructor)` up to its return or up to
`waitCondition.wait`. The event carries whether a fallback surface was created. -/
def releaseResourcesW (rl : ThreadedRenderLoop) (i : Nat) (inDestructor : Bool) : Call Unit :=
  match rl.m_windows[i]? with
  | none => Call.nullDereference
  | some w =>
    let rl1 := rl.emit (Effect.mutexLock w.thread.id)
    if w.thread.isRunning = true ∧ w.thread.active = true then
      let fallback := !(rl1.qwindow w.window).handle
      let rl2 := if fallback then rl1.emit (Effect.createFallbackSurface w.actualWindowFormat)
        else rl1
      Call.waiting (rl2.setThread i
        (w.thread.postEvent (WMEvent.tryRelease w.window inDestructor fallback)))
    else Call.returned (rl1.emit (Effect.mutexUnlock w.thread.id)) ()

/-- The rest of `releaseResources(Window *w, bool inDestructor)` once the wait has returned;
`fallback` is the local of that name. `QThread::wait()` returns when the thread has
finished; `none` when it has not and never will, being parked. -/
def releaseResourcesWResume (rl : ThreadedRenderLoop) (i : Nat) (fallback : Bool) :
    Option ThreadedRenderLoop :=
  match rl.m_windows[i]? with
  | none => none
  | some w =>
    let rl1 := if fallback then rl.emit Effect.deleteFallbackSurface else rl
    if w.thread.active = false then
      if w.thread.isRunning then none
      else some ((rl1.emit (Effect.waitThread w.thread.id)).emit (Effect.mutexUnlock w.thread.id))
    else some (rl1.emit (Effect.mutexUnlock w.thread.id))

/-- A whole call of `releaseResources(Window *w, bool inDestructor)`. -/
def releaseResourcesWWhole (rl : ThreadedRenderLoop) (i : Nat) (inDestructor : Bool) :
    Option ThreadedRenderLoop :=
  match rl.releaseResourcesW i inDestructor with
  | Call.nullDereference => none
  | Call.returned rl1 _ => some rl1
  | Call.waiting rl1 =>
    match rl.m_windows[i]? with
    | none => none
    | some w =>
      match awaitWake rl1 (RenderThread.wake rl1 i) w.thread.id with
      | none => none
      | some rl2 => rl2.releaseResourcesWResume i (!(rl.qwindow w.window).handle)

/-- The member `releaseResources(QQuickWindow *window)`. -/
def releaseResources (rl : ThreadedRenderLoop) (window : WindowId) :
    Option ThreadedRenderLoop :=
  match windowFor rl.m_windows window with
  | some (i, _) => rl.releaseResourcesWWhole i false
  | none => some rl

/-- The member `hide`. With an exposed window that has no record, `handleObscurity` is
called with a null pointer. -/
def hide (rl : ThreadedRenderLoop) (window : WindowId) : Option ThreadedRenderLoop :=
  let obscured :=
    if (rl.qwindow window).isExposed then
      match windowFor rl.m_windows window with
      | some (i, _) => rl.handleObscurityWhole i
      | none => none
    else some rl
  match obscured with
  | none => none
  | some rl1 => rl1.releaseResources window

/-- The member `windowDestroyed`. The loop `while (thread->isRunning()) yieldCurrentThread()`
ends when the thread has finished; `none` when it has not and never will, being parked. -/
def windowDestroyed (rl : ThreadedRenderLoop) (window : WindowId) :
    Option ThreadedRenderLoop :=
  match windowFor rl.m_windows window with
  | none => some rl
  | some (i, _) =>
    match rl.handleObscurityWhole i with
    | none => none
    | some rl1 =>
      match rl1.releaseResourcesWWhole i true with
      | none => none
      | some rl2 =>
        match rl2.m_windows[i]? with
        | none => none
        | some w =>
          if w.thread.isRunning then none
          else
            some { rl2.emit (Effect.deleteThread w.thread.id) with
                   m_windows := removeWindow rl2.m_windows window }

/-- The member `exposureChanged`. -/
def exposureChanged (rl : ThreadedRenderLoop) (window : WindowId) :
    Option ThreadedRenderLoop :=
  if (rl.qwindow window).isExposed then rl.handleExposure window
  else
    match windowFor rl.m_windows window with
    | some (i, _) => rl.handleObscurityWhole i
    | none => some rl

end ThreadedRenderLoop

/-! ## Frame conditions and the calls of a trace -/

/-- Between two states only the record at index `i` may differ, and that record keeps its
window and the identity of its render thread; no record is added or removed. -/
structure TouchesOnly (i : Nat) (rl rl1 : ThreadedRenderLoop) : Prop where
  length : rl1.m_windows.length = rl.m_windows.length
  others : ∀ k, k ≠ i → rl1.m_windows[k]? = rl.m_windows[k]?
  same : ∀ w, rl.m_windows[i]? = some w →
    ∃ w1, rl1.m_windows[i]? = some w1 ∧ w1.window = w.window ∧ w1.thread.id = w.thread.id

/-- The identity of each record in list order: its window and its render thread. -/
def recordIds (l : List Window) : List (WindowId × Nat) :=
  l.map (fun w => (w.window, w.thread.id))

/-- A render thread at rest between two calls of the GUI thread: it is running and active,
and it is parked in `takeEvent(true)` of `processEventsAndWaitForMore` with nothing
queued, so `sleeping` is set and `stopEventProcessing` is clear. -/
def RenderThread.parked (t : RenderThread) : Bool :=
  t.isRunning && t.active && t.sleeping && !t.stopEventProcessing &&
    t.eventQueue.events.isEmpty && t.eventQueue.waiting

/-- The outside calls of the `WM_Obscure` handler under `if (window)`, for the value of
`window` the handler finds. -/
def obscureCalls : Option WindowId → List Effect
  | some b => [Effect.fireAboutToStop b, Effect.cleanupNodesOnShutdown b]
  | none => []

/-- The thread `sampleThread` at rest: parked in `takeEvent(true)` with nothing queued. -/
def parkedThread : RenderThread :=
  { sampleThread with sleeping := true, eventQueue := { events := [], waiting := true } }

/-- The record of window 1, owning `parkedThread`. -/
def parkedWindow : Window :=
  { sampleWindow with thread := parkedThread }

/-- A render loop tracking window 1 only, whose render thread is parked. -/
def parkedLoop : ThreadedRenderLoop :=
  { sampleLoop with m_windows := [parkedWindow] }

/-- A render loop that tracks no window, on a screen that reports no refresh rate. -/
def emptyLoop : ThreadedRenderLoop :=
  { sampleLoop with m_windows := [], refreshRate := 0 }

/-- One step of a trace of the GUI thread: a call of one of the members `exposureChanged`,
`handleExposure`, `handleObscurity`, `hide`, `releaseResources` or `windowDestroyed` for a
window, or a change of a window object between two calls. -/
inductive GuiCall where
  | exposureChanged (window : WindowId)
  | handleExposure (window : WindowId)
  | handleObscurity (window : WindowId)
  | hide (window : WindowId)
  | releaseResources (window : WindowId)
  | windowDestroyed (window : WindowId)
  | windowChanged (window : WindowId) (object : QQuickWindow)

/-- Runs one step of a trace. `handleObscurity` takes the pointer that `windowFor` returns
for the window, as its callers do; `none` when a call does not return. -/
def GuiCall.run (rl : ThreadedRenderLoop) : GuiCall → Option ThreadedRenderLoop
  | GuiCall.exposureChanged window => rl.exposureChanged window
  | GuiCall.handleExposure window => rl.handleExposure window
  | GuiCall.handleObscurity window =>
    match windowFor rl.m_windows window with
    | some (i, _) => rl.handleObscurityWhole i
    | none => none
  | GuiCall.hide window => rl.hide window
  | GuiCall.releaseResources window => rl.releaseResources window
  | GuiCall.windowDestroyed window => rl.windowDestroyed window
  | GuiCall.windowChanged window object =>
    some { rl with qwindow := fun x => if x = window then object else rl.qwindow x }

/-- The windows that have been exposed and not been destroyed since, after one step of a
trace: `handleExposure`, and `exposureChanged` for a window that is exposed, expose the
window; `windowDestroyed` destroys it. -/
def liveAfter (rl : ThreadedRenderLoop) (live : WindowId → Bool) : GuiCall → WindowId → Bool
  | GuiCall.handleExposure window => fun x => if x = window then true else live x
  | GuiCall.exposureChanged window =>
    if (rl.qwindow window).isExposed then fun x => if x = window then true else live x
    else live
  | GuiCall.windowDestroyed window => fun x => if x = window then false else live x
  | _ => live

/-- Runs a trace from a state, keeping track of the windows that have been exposed and not
been destroyed since. `none` when one of the calls does not return. -/
def runCalls : List GuiCall → ThreadedRenderLoop → (WindowId → Bool) →
    Option (ThreadedRenderLoop × (WindowId → Bool))
  | [], rl, live => some (rl, live)
  | c :: cs, rl, live =>
    match c.run rl with
    | some r => runCalls cs r (liveAfter rl live c)
    | none => none

/-- A window object that is visible but not exposed. -/
def obscuredWindowObject : QQuickWindow :=
  { sampleWindowObject with isExposed := false }

/-- A trace over two windows: both are exposed, window 1 is obscured and exposed again,
window 2 is hidden, released and exposed again, and window 1 is destroyed. -/
def sampleTrace : List GuiCall :=
  [GuiCall.exposureChanged 1, GuiCall.handleExposure 2,
   GuiCall.windowChanged 1 obscuredWindowObject, GuiCall.exposureChanged 1,
   GuiCall.handleObscurity 2, GuiCall.windowChanged 1 sampleWindowObject,
   GuiCall.exposureChanged 1, GuiCall.hide 2, GuiCall.releaseResources 2,
   GuiCall.handleExposure 2, GuiCall.windowDestroyed 1, GuiCall.windowDestroyed 3]

/-! ## The outside calls of `sync` and of `syncAndRender` -/

/-- The outside calls of the block of `RenderThread::sync` under `if (current)`, in call
order, for the window object `q` as it is before the call. -/
def syncCurrentCalls (q : QQuickWindow) (win : WindowId) : List Effect :=
  (if q.renderer then [Effect.clearChangedFlag win] else []) ++
    [Effect.syncSceneGraph win] ++
    (if q.renderer = false ∧ q.syncCreatesRenderer = true then
      [Effect.connectSceneGraphChanged win] else []) ++
    [Effect.sendPostedDeferredDelete]

/-- The two calls `waitCondition.wakeOne(); mutex.unlock();` of the render thread `id` when
`wake` holds, and no call otherwise. -/
def wakeCalls (id : Nat) (wake : Bool) : List Effect :=
  if wake then [Effect.wakeOne id, Effect.mutexUnlock id] else []

/-- The outside calls of the rendering part of `syncAndRender`, in call order, for the
render thread `t`, its window `win` and the window object `q` after `sync`. -/
def renderCalls (t : RenderThread) (q : QQuickWindow) (win : WindowId) (expose : Bool) :
    List Effect :=
  (if t.animatorRunning then [Effect.animatorAdvance t.id] else []) ++
    (if q.renderer = true ∧ 0 < t.windowSize.width ∧ 0 < t.windowSize.height then
      [Effect.renderSceneGraph win t.windowSize, Effect.fireFrameSwapped win] else []) ++
    wakeCalls t.id expose

/-- The milliseconds a list of outside calls spends in `msleep`. -/
def msleepTotal : List Effect → Int
  | [] => 0
  | Effect.msleep ms :: rest => ms + msleepTotal rest
  | _ :: rest => msleepTotal rest

/-- The outside calls of one call of `RenderThread::sync`, in call order, for the render
thread `t`, its window `win` and the window object `q` before the call. -/
def syncCalls (t : RenderThread) (q : QQuickWindow) (win : WindowId) (inExpose : Bool) :
    List Effect :=
  [Effect.mutexLock t.id] ++
    (if 0 < t.windowSize.width ∧ 0 < t.windowSize.height then syncCurrentCalls q win else []) ++
    wakeCalls t.id (!inExpose)

/-! ## The sleep test of the run loop, and further states of the render thread -/

/-- The condition `active && (pendingUpdate == 0 || !window)` under which `run` enters
`processEventsAndWaitForMore`. -/
def RenderThread.sleepCondition (t : RenderThread) : Bool :=
  t.active && (t.pendingUpdate == 0 || t.window.isNone)

/-- The condition for sleeping in the words of the specification: nothing is pending, and no
window is bound or the queue is empty. -/
def specSleepCondition (t : RenderThread) : Bool :=
  t.pendingUpdate == 0 && (t.window.isNone || t.eventQueue.events.isEmpty)

/-- A render thread at the test of `while (active)`, bound to window 1, with a repaint
request and an obscure event queued. -/
def repaintObscureLoop : ThreadedRenderLoop :=
  { sampleLoop with
    m_windows := [{ sampleWindow with thread := { sampleThread with
      eventQueue := { events := [WMEvent.requestRepaint 1, WMEvent.obscure 1],
                      waiting := false } } }] }

/-- The thread `sampleThread` with the size 640 by 480 stored. -/
def sizedThread : RenderThread :=
  { sampleThread with windowSize := { width := 640, height := 480 } }

/-- The record of window 1, owning `sizedThread`. -/
def sizedWindow : Window :=
  { sampleWindow with thread := sizedThread }

/-- A render loop tracking window 1 only, whose render thread has a positive size stored. -/
def sizedLoop : ThreadedRenderLoop :=
  { sampleLoop with m_windows := [sizedWindow] }

/-- The record of window 1 with all Expose bits pending in its render thread. -/
def exposingWindow : Window :=
  { sampleWindow with thread := { sizedThread with pendingUpdate := ExposeRequest } }

/-- A render loop tracking window 1 only, with all Expose bits pending. -/
def exposingLoop : ThreadedRenderLoop :=
  { sampleLoop with m_windows := [exposingWindow] }

/-- The record of window 1 whose render thread sleeps in `processEventsAndWaitForMore` with a
`WM_RequestSync` queued. -/
def syncPostedWindow : Window :=
  { sampleWindow with thread := { sampleThread with
      sleeping := true,
      eventQueue := { events := [WMEvent.requestSync 1 { width := 640, height := 480 }
                                  false false],
                      waiting := false } } }

/-- A render loop tracking window 1 only, to whose sleeping render thread a sync request has
been posted. -/
def syncPostedLoop : ThreadedRenderLoop :=
  { sampleLoop with m_windows := [syncPostedWindow] }

/-- The record of window 1 whose render thread is at the test of `while (active)` with a
release from the destructor queued. -/
def releasingWindow : Window :=
  { sampleWindow with thread := { sampleThread with
      eventQueue := { events := [WMEvent.tryRelease 1 true false], waiting := false } } }

/-- A render loop tracking window 1 only, to whose busy render thread a release from the
destructor has been posted. -/
def releasingLoop : ThreadedRenderLoop :=
  { sampleLoop with m_windows := [releasingWindow] }

/-! ## SoftwareLayer

A shallow embedding of `softwarelayer.cpp`. Signals emitted by the layer and calls into the
renderer and the scene graph nodes are appended to the log of the layer. The renderer is
connected to the slot `markDirtyTexture`; whether its signal `sceneGraphChanged()` reaches
the slot when a node is marked dirty is the field `sceneGraphChanges`. -/

/-- A scene graph node as `SoftwareLayer::grab` sees it: its identity, whether `type()` is
`QSGNode::RootNodeType`, and the chain of first children below it. -/
inductive QSGNode where
  | leaf (id : Nat) (isRoot : Bool)
  | parent (id : Nat) (isRoot : Bool) (firstChild : QSGNode)
deriving DecidableEq, Repr

/-- The identity of a node: two pointers are equal when the identities are. -/
def QSGNode.id : QSGNode → Nat
  | QSGNode.leaf id _ => id
  | QSGNode.parent id _ _ => id

/-- The test `type() == QSGNode::RootNodeType`. -/
def QSGNode.isRootNodeType : QSGNode → Bool
  | QSGNode.leaf _ r => r
  | QSGNode.parent _ r _ => r

/-- The loop `while (root->firstChild() && root->type() != QSGNode::RootNodeType)
root = root->firstChild();` of `grab`, started at a node: the node it ends at. -/
def QSGNode.findRoot : QSGNode → QSGNode
  | QSGNode.leaf id r => QSGNode.leaf id r
  | QSGNode.parent id r c => if r then QSGNode.parent id r c else c.findRoot

/-- The member `QSize::isNull`: both width and height are zero. -/
def QSize.isNull (s : QSize) : Bool :=
  s.width == 0 && s.height == 0

/-- The class `QRectF`. -/
structure QRectF where
  x : ℚ
  y : ℚ
  width : ℚ
  height : ℚ
deriving DecidableEq

/-- The class `QPixmap` as far as the layer uses it: the null pixmap, or a pixmap of a size
with the identity of the root node last rendered into it (`none` when nothing has been). -/
inductive QPixmap where
  | null
  | image (size : QSize) (content : Option Nat)
deriving DecidableEq, Repr

/-- The constructor `QPixmap(size)`: a null pixmap unless width and height are positive. -/
def QPixmap.ofSize (s : QSize) : QPixmap :=
  if 0 < s.width ∧ 0 < s.height then QPixmap.image s none else QPixmap.null

/-- The member `QPixmap::size`; the null pixmap has size (0, 0). -/
def QPixmap.size : QPixmap → QSize
  | QPixmap.null => { width := 0, height := 0 }
  | QPixmap.image s _ => s

/-- The member `QPixmap::isNull`. -/
def QPixmap.isNull : QPixmap → Bool
  | QPixmap.null => true
  | QPixmap.image _ _ => false

/-- The call `m_renderer->render(&m_pixmap)` for the root node `root`: nothing can be painted
on a null pixmap. -/
def QPixmap.render (p : QPixmap) (root : Nat) : QPixmap :=
  match p with
  | QPixmap.null => QPixmap.null
  | QPixmap.image s _ => QPixmap.image s (some root)

/-- The signals a `SoftwareLayer` emits and the calls it makes on its renderer and on scene
graph nodes, in the order they are made. `renderScene` stands for the calls from
`setDeviceRect` to `render(&m_pixmap)`. -/
inductive LayerEffect where
  | updateRequested
  | scheduledUpdateCompleted
  | newRenderer
  | deleteRenderer
  | setRootNode (root : Nat)
  | markDirty (node : Nat)
  | nodeChanged (node : Nat)
  | renderScene (root : Nat) (size : QSize)
deriving DecidableEq, Repr

/-- The members of the class `SoftwareLayer`. A null `m_item` is `none`, `m_renderer` says
whether the pointer is non-null, `log` holds the signals and outside calls made so far, and
`sceneGraphChanges` says whether the signal `sceneGraphChanged()` of the renderer reaches the
slot `markDirtyTexture` when the layer marks a node dirty. -/
structure SoftwareLayer where
  m_item : Option QSGNode
  m_renderer : Bool
  m_rect : QRectF
  m_size : QSize
  m_pixmap : QPixmap
  m_device_pixel_ratio : ℚ
  m_mirrorHorizontal : Bool
  m_mirrorVertical : Bool
  m_live : Bool
  m_grab : Bool
  m_recursive : Bool
  m_dirtyTexture : Bool
  sceneGraphChanges : Bool
  log : List LayerEffect

namespace SoftwareLayer

/-- The constructor `SoftwareLayer(renderContext)`; the members without an initialiser are
default-constructed: `QRectF()` is empty at the origin, `QSize()` is (-1, -1), `QPixmap()`
is null. -/
def new (sceneGraphChanges : Bool) : SoftwareLayer :=
  { m_item := none, m_renderer := false,
    m_rect := { x := 0, y := 0, width := 0, height := 0 },
    m_size := { width := -1, height := -1 }, m_pixmap := QPixmap.null,
    m_device_pixel_ratio := 1, m_mirrorHorizontal := false, m_mirrorVertical := false,
    m_live := true, m_grab := true, m_recursive := false, m_dirtyTexture := true,
    sceneGraphChanges := sceneGraphChanges, log := [] }

/-- Appends one signal or outside call to the log. -/
def emit (l : SoftwareLayer) (e : LayerEffect) : SoftwareLayer :=
  { l with log := l.log ++ [e] }

/-- The slot `markDirtyTexture`. -/
def markDirtyTexture (l : SoftwareLayer) : SoftwareLayer :=
  let l1 := { l with m_dirtyTexture := true }
  if l1.m_live || l1.m_grab then l1.emit LayerEffect.updateRequested else l1

/-- The member `setItem`. -/
def setItem (l : SoftwareLayer) (item : Option QSGNode) : SoftwareLayer :=
  if item.map QSGNode.id = l.m_item.map QSGNode.id then l
  else
    let l1 := { l with m_item := item }
    let l2 := if l1.m_live = true ∧ l1.m_item.isNone = true then
        { l1 with m_pixmap := QPixmap.null } else l1
    l2.markDirtyTexture

/-- The member `setRect`. -/
def setRect (l : SoftwareLayer) (rect : QRectF) : SoftwareLayer :=
  if rect = l.m_rect then l
  else { l with m_rect := rect }.markDirtyTexture

/-- The member `setSize`. -/
def setSize (l : SoftwareLayer) (size : QSize) : SoftwareLayer :=
  if size = l.m_size then l
  else
    let l1 := { l with m_size := size }
    let l2 := if l1.m_live = true ∧ l1.m_size.isNull = true then
        { l1 with m_pixmap := QPixmap.null } else l1
    l2.markDirtyTexture

/-- The member `scheduleUpdate`. -/
def scheduleUpdate (l : SoftwareLayer) : SoftwareLayer :=
  if l.m_grab then l
  else
    let l1 := { l with m_grab := true }
    if l1.m_dirtyTexture then l1.emit LayerEffect.updateRequested else l1

/-- The member `setLive`. -/
def setLive (l : SoftwareLayer) (live : Bool) : SoftwareLayer :=
  if live = l.m_live then l
  else
    let l1 := { l with m_live := live }
    let l2 := if l1.m_live = true ∧ (l1.m_item.isNone = true ∨ l1.m_size.isNull = true) then
        { l1 with m_pixmap := QPixmap.null } else l1
    l2.markDirtyTexture

/-- The member `setRecursive`. -/
def setRecursive (l : SoftwareLayer) (recursive : Bool) : SoftwareLayer :=
  { l with m_recursive := recursive }

/-- The member `setDevicePixelRatio`. -/
def setDevicePixelRatio (l : SoftwareLayer) (ratio : ℚ) : SoftwareLayer :=
  { l with m_device_pixel_ratio := ratio }

/-- The member `setMirrorHorizontal`. -/
def setMirrorHorizontal (l : SoftwareLayer) (mirror : Bool) : SoftwareLayer :=
  if l.m_mirrorHorizontal = mirror then l
  else { l with m_mirrorHorizontal := mirror }.markDirtyTexture

/-- The member `setMirrorVertical`. -/
def setMirrorVertical (l : SoftwareLayer) (mirror : Bool) : SoftwareLayer :=
  if l.m_mirrorVertical = mirror then l
  else { l with m_mirrorVertical := mirror }.markDirtyTexture

/-- The member `invalidated`. -/
def invalidated (l : SoftwareLayer) : SoftwareLayer :=
  if l.m_renderer then { l.emit LayerEffect.deleteRenderer with m_renderer := false }
  else l

/-- A call that marks a node dirty or tells the renderer that a node changed: when the
renderer exists and its signal reaches the slot, `markDirtyTexture` runs. -/
def notified (l : SoftwareLayer) (e : LayerEffect) : SoftwareLayer :=
  if l.sceneGraphChanges then (l.emit e).markDirtyTexture else l.emit e

/-- The part of `grab` from `if (!m_renderer)` to `m_renderer->setRootNode(...)`. -/
def grabRenderer (l : SoftwareLayer) (root : Nat) : SoftwareLayer :=
  (if l.m_renderer then l else { l.emit LayerEffect.newRenderer with m_renderer := true }).emit
    (LayerEffect.setRootNode root)

/-- The statement `if (m_pixmap.size() != m_size) { m_pixmap = QPixmap(m_size); ... }`. -/
def grabPixmap (l : SoftwareLayer) : SoftwareLayer :=
  if l.m_pixmap.size ≠ l.m_size then { l with m_pixmap := QPixmap.ofSize l.m_size } else l

/-- The part of `grab` from the first `root->markDirty` to `m_renderer->render(&m_pixmap)`. -/
def grabRender (l : SoftwareLayer) (root : Nat) : SoftwareLayer :=
  let l1 := (l.notified (LayerEffect.markDirty root)).notified (LayerEffect.nodeChanged root)
  let l2 := { l1 with m_dirtyTexture := false }
  { l2.emit (LayerEffect.renderScene root l2.m_size) with m_pixmap := l2.m_pixmap.render root }

/-- The end of `grab`: the second `root->markDirty` and
`if (m_recursive) markDirtyTexture();`. -/
def grabFinish (l : SoftwareLayer) (root : Nat) : SoftwareLayer :=
  let l1 := l.notified (LayerEffect.markDirty root)
  if l1.m_recursive then l1.markDirtyTexture else l1

/-- The member `grab`. -/
def grab (l : SoftwareLayer) : SoftwareLayer :=
  match l.m_item with
  | none => { l with m_pixmap := QPixmap.null, m_dirtyTexture := false }
  | some item =>
    if l.m_size.isNull then { l with m_pixmap := QPixmap.null, m_dirtyTexture := false }
    else if item.findRoot.isRootNodeType = false then l
    else
      (((l.grabRenderer item.findRoot.id).grabPixmap).grabRender item.findRoot.id).grabFinish
        item.findRoot.id

/-- The local `doGrab` of `updateTexture`. -/
def doGrab (l : SoftwareLayer) : Bool :=
  (l.m_live || l.m_grab) && l.m_dirtyTexture

/-- The member `updateTexture`, with its result. -/
def updateTexture (l : SoftwareLayer) : SoftwareLayer × Bool :=
  let l1 := if l.doGrab then l.grab else l
  let l2 := if l1.m_grab then l1.emit LayerEffect.scheduledUpdateCompleted else l1
  ({ l2 with m_grab := false }, l.doGrab)

end SoftwareLayer

/-- One call made on a `SoftwareLayer` from outside. -/
inductive LayerCall where
  | setItem (item : Option QSGNode)
  | setRect (rect : QRectF)
  | setSize (size : QSize)
  | setLive (live : Bool)
  | setRecursive (recursive : Bool)
  | setMirrorHorizontal (mirror : Bool)
  | setMirrorVertical (mirror : Bool)
  | scheduleUpdate
  | updateTexture
  | grab

/-- Runs one call on a layer. -/
def LayerCall.run (l : SoftwareLayer) : LayerCall → SoftwareLayer
  | LayerCall.setItem item => l.setItem item
  | LayerCall.setRect rect => l.setRect rect
  | LayerCall.setSize size => l.setSize size
  | LayerCall.setLive live => l.setLive live
  | LayerCall.setRecursive recursive => l.setRecursive recursive
  | LayerCall.setMirrorHorizontal mirror => l.setMirrorHorizontal mirror
  | LayerCall.setMirrorVertical mirror => l.setMirrorVertical mirror
  | LayerCall.scheduleUpdate => l.scheduleUpdate
  | LayerCall.updateTexture => l.updateTexture.1
  | LayerCall.grab => l.grab

/-- A root node with identity 1 under an item node with identity 2. -/
def sampleItem : QSGNode :=
  QSGNode.parent 2 false (QSGNode.leaf 1 true)

/-- A sequence of calls on a layer: an item and a size are set, the texture is updated, and
the item is taken away again. -/
def sampleLayerCalls : List LayerCall :=
  [LayerCall.setItem (some sampleItem), LayerCall.setSize { width := 64, height := 32 },
   LayerCall.updateTexture, LayerCall.scheduleUpdate, LayerCall.setItem none]

/-! ## The basic render loop

A shallow embedding of `renderloop.cpp`, the render loop that renders on the GUI thread.
Calls into `QQuickWindow` and `QQuickWindowPrivate` are appended to the log. Two of them can
call back into the render loop, and the source provides for both: the delivery of a delayed
touch event can destroy the window (`touchDestroys`), and `syncSceneGraph()` can request
another update (`syncUpdates`). -/

/-- The struct `RenderLoop::WindowData`. -/
structure WindowData where
  updatePending : Bool
  grabOnly : Bool
deriving DecidableEq, Repr

/-- The class `RenderLoop` with the part of the process it reads. `m_windows` is the
`QHash<QQuickWindow *, WindowData>` as a list of entries, `qwindow` gives every window
object, `isRenderable` is `QQuickWindowPrivate::isRenderable()`, `touchDestroys` says whether
the handlers run by `flushDelayedTouchEvent()` destroy the window, `syncUpdates` whether
`maybeUpdate(window)` is called during `syncSceneGraph()`, and `log` holds the outside calls
made so far. -/
structure RenderLoop where
  m_windows : List (WindowId × WindowData)
  qwindow : WindowId → QQuickWindow
  isRenderable : WindowId → Bool
  touchDestroys : WindowId → Bool
  syncUpdates : WindowId → Bool
  log : List Effect

namespace RenderLoop

/-- Appends one outside call to the log. -/
def emit (rl : RenderLoop) (e : Effect) : RenderLoop :=
  { rl with log := rl.log ++ [e] }

/-- The call `m_windows.contains(window)`. -/
def contains (rl : RenderLoop) (window : WindowId) : Bool :=
  rl.m_windows.any (fun e => e.1 == window)

/-- The entry `m_windows[window]` of a tracked window; `none` when the window is not
tracked. -/
def value (rl : RenderLoop) (window : WindowId) : Option WindowData :=
  (rl.m_windows.find? (fun e => e.1 == window)).map Prod.snd

/-- A write through the reference `m_windows[window]` of a tracked window. -/
def setData (rl : RenderLoop) (window : WindowId) (data : WindowData) : RenderLoop :=
  { rl with m_windows := rl.m_windows.map (fun e => if e.1 = window then (window, data) else e) }

/-- The call `m_windows.remove(window)`. -/
def remove (rl : RenderLoop) (window : WindowId) : RenderLoop :=
  { rl with m_windows := rl.m_windows.filter (fun e => e.1 ≠ window) }

/-- The member `maybeUpdate`. -/
def maybeUpdate (rl : RenderLoop) (window : WindowId) : RenderLoop :=
  match rl.value window with
  | none => rl
  | some data =>
    (rl.setData window { data with updatePending := true }).emit (Effect.requestUpdate window)

/-- The member `hide`. -/
def hide (rl : RenderLoop) (window : WindowId) : RenderLoop :=
  rl.emit (Effect.fireAboutToStop window)

/-- The member `windowDestroyed`. -/
def windowDestroyed (rl : RenderLoop) (window : WindowId) : RenderLoop :=
  let rl1 := ((rl.remove window).hide window).emit (Effect.cleanupNodesOnShutdown window)
  if rl1.m_windows.length = 0 then
    (rl1.emit Effect.invalidateContext).emit Effect.sendPostedDeferredDelete
  else rl1

/-- The call `cd->flushDelayedTouchEvent()`: the event is delivered, and the window is
destroyed when a handler does that. -/
def flushDelayedTouchEvent (rl : RenderLoop) (window : WindowId) : RenderLoop :=
  if rl.touchDestroys window then
    (rl.emit (Effect.flushDelayedTouchEvent window)).windowDestroyed window
  else rl.emit (Effect.flushDelayedTouchEvent window)

/-- The call `cd->syncSceneGraph()`, during which `maybeUpdate(window)` may be called. -/
def syncSceneGraph (rl : RenderLoop) (window : WindowId) : RenderLoop :=
  if rl.syncUpdates window then (rl.emit (Effect.syncSceneGraph window)).maybeUpdate window
  else rl.emit (Effect.syncSceneGraph window)

/-- The start of `renderWindow` for a tracked window with entry `data`:
`ctx->initializeIfNeeded(); bool alsoSwap = data.updatePending; data.updatePending = false;`. -/
def renderWindowBegin (rl : RenderLoop) (window : WindowId) (data : WindowData) : RenderLoop :=
  (rl.emit Effect.initializeIfNeeded).setData window { data with updatePending := false }

/-- The statement `if (data.grabOnly) { data.grabOnly = false; }`. -/
def clearGrabOnly (rl : RenderLoop) (window : WindowId) : RenderLoop :=
  match rl.value window with
  | some d => if d.grabOnly then rl.setData window { d with grabOnly := false } else rl
  | none => rl

/-- The statement `if (alsoSwap && window->isVisible()) { cd->fireFrameSwapped(); }`. -/
def swap (rl : RenderLoop) (window : WindowId) (alsoSwap : Bool) : RenderLoop :=
  if alsoSwap = true ∧ (rl.qwindow window).isVisible = true then
    rl.emit (Effect.fireFrameSwapped window)
  else rl

/-- The end of `renderWindow`: `if (data.updatePending) maybeUpdate(window);`. -/
def updateAgain (rl : RenderLoop) (window : WindowId) : RenderLoop :=
  match rl.value window with
  | some d => if d.updatePending then rl.maybeUpdate window else rl
  | none => rl

/-- The part of `renderWindow` from `cd->polishItems()` to its end, with the local
`alsoSwap`. The profiling and logging statements are left out. -/
def renderWindowFrame (rl : RenderLoop) (window : WindowId) (alsoSwap : Bool) : RenderLoop :=
  let rl1 := ((rl.emit (Effect.polishItems window)).emit
    (Effect.afterAnimating window)).syncSceneGraph window
  let rl2 := rl1.emit (Effect.renderSceneGraph window (rl1.qwindow window).size)
  ((rl2.clearGrabOnly window).swap window alsoSwap).updateAgain window

/-- The member `renderWindow`. -/
def renderWindow (rl : RenderLoop) (window : WindowId) : RenderLoop :=
  if rl.isRenderable window = false ∨ rl.contains window = false then rl
  else
    match rl.value window with
    | none => rl
    | some data =>
      if data.grabOnly = false then
        if ((rl.renderWindowBegin window data).flushDelayedTouchEvent window).contains window
            = false then
          (rl.renderWindowBegin window data).flushDelayedTouchEvent window
        else
          ((rl.renderWindowBegin window data).flushDelayedTouchEvent window).renderWindowFrame
            window data.updatePending
      else (rl.renderWindowBegin window data).renderWindowFrame window data.updatePending

end RenderLoop

/-- A basic render loop tracking window 1, which is renderable, visible and has an update
pending, and whose delayed touch event is handled without destroying the window. -/
def basicLoop : RenderLoop :=
  { m_windows := [(1, { updatePending := true, grabOnly := false })],
    qwindow := fun _ => sampleWindowObject, isRenderable := fun _ => true,
    touchDestroys := fun _ => false, syncUpdates := fun _ => false, log := [] }

/-- The state of `basicLoop` when a handler of the delayed touch event destroys window 1. -/
def touchedLoop : RenderLoop :=
  { basicLoop with touchDestroys := fun _ => true }

/-! ## The render thread step by step

The loops of `RenderThread::run` followed from one loop test to the next. With it the GUI
thread goes on at the moment the render thread has woken it and unlocked the mutex, while
the render thread is still on its way, and `QThread::wait()` is the place where the GUI
thread lets the render thread run to its end. -/

/-- Where a render thread stands between two steps: at the test of `while (active)`, in
`syncAndRender` after the call of `sync` (with the locals of `syncAndRender`), at the test
of the loop of `processEvents`, at the test of `while (!stopEventProcessing)`, blocked in
`condition.wait` inside `takeEvent(true)`, or after the return of `run`. -/
inductive WorkerPoint where
  | activeTest
  | afterSync (win : WindowId) (repaintRequested : Bool) (exposeRequested : Bool)
  | drainTest
  | stopTest
  | inTakeEvent
  | finished
deriving DecidableEq, Repr

/-- Outcome of an attempt of the render thread to make a step: it made one, or it cannot
move (it is blocked in `takeEvent(true)` with nothing queued, it has finished, or it waits
for the mutex that the GUI thread holds), or it used a null pointer. -/
inductive Stepped where
  | next (rl : ThreadedRenderLoop) (p : WorkerPoint)
  | rests
  | fails

/-- Whether the handler of an event in `RenderThread::event` starts with `mutex.lock()`. -/
def WMEvent.locksMutex : WMEvent → Bool
  | WMEvent.obscure _ => true
  | WMEvent.tryRelease _ _ _ => true
  | WMEvent.grab _ => true
  | _ => false

/-- One event taken from the queue `q` is handled and deleted; the thread comes to the loop
test `p` again. A handler that locks the mutex cannot go on while the GUI thread holds
it. -/
def RenderThread.stepEvent (held : Bool) (rl : ThreadedRenderLoop) (i : Nat) (t : RenderThread)
    (e : WMEvent) (q : RenderThreadEventQueue) (p : WorkerPoint) : Stepped :=
  if e.locksMutex = true ∧ held = true then Stepped.rests
  else Stepped.next (dispatch (rl.setThread i { t with eventQueue := q }) i e) p

/-- The step at the test of `while (active)`: `run` returns, or the loop body runs up to the
return of `sync`. The call of `sync` cannot go on while the GUI thread holds the mutex. -/
def RenderThread.stepActive (held : Bool) (rl : ThreadedRenderLoop) (i : Nat) : Stepped :=
  match rl.m_windows[i]? with
  | none => Stepped.fails
  | some w =>
    if w.thread.active = false then
      Stepped.next ((rl.emit (Effect.deleteAnimationDriver w.thread.id)).setThread i
        { w.thread with isRunning := false }) WorkerPoint.finished
    else
      match w.thread.window with
      | none => Stepped.next rl WorkerPoint.drainTest
      | some win =>
        if w.thread.syncRequested = true ∧ held = true then Stepped.rests
        else
          match RenderThread.syncIfRequested
              ((rl.emit Effect.initializeIfNeeded).setThread i
                { w.thread with syncResultedInChanges := false, pendingUpdate := 0 })
              i w.thread.syncRequested w.thread.exposeRequested with
          | none => Stepped.fails
          | some rl2 =>
            Stepped.next rl2
              (WorkerPoint.afterSync win
                (RenderThread.repaintRequested (rl.emit Effect.initializeIfNeeded) w.thread win)
                w.thread.exposeRequested)

/-- The step at the test of the loop of `processEvents`: one queued event is handled, or
the loop ends, `QCoreApplication::processEvents()` is called and the sleep test is made. -/
def RenderThread.stepDrain (held : Bool) (rl : ThreadedRenderLoop) (i : Nat) : Stepped :=
  match rl.m_windows[i]? with
  | none => Stepped.fails
  | some w =>
    if w.thread.eventQueue.hasMoreEvents then
      match w.thread.eventQueue.takeEvent false with
      | Taken.event e q => RenderThread.stepEvent held rl i w.thread e q WorkerPoint.drainTest
      | Taken.blocks _ => Stepped.fails
      | Taken.dequeueOnEmpty => Stepped.fails
    else if w.thread.sleepCondition then
      Stepped.next ((rl.emit Effect.processAppEvents).setThread i
        { w.thread with sleeping := true, stopEventProcessing := false }) WorkerPoint.stopTest
    else Stepped.next (rl.emit Effect.processAppEvents) WorkerPoint.activeTest

/-- The step at the test of `while (!stopEventProcessing)`: the wait loop ends and
`sleeping` is cleared, or one event is taken and handled, or the thread blocks in
`takeEvent(true)`. -/
def RenderThread.stepStop (held : Bool) (rl : ThreadedRenderLoop) (i : Nat) : Stepped :=
  match rl.m_windows[i]? with
  | none => Stepped.fails
  | some w =>
    if w.thread.stopEventProcessing then
      Stepped.next (rl.setThread i { w.thread with sleeping := false }) WorkerPoint.activeTest
    else
      match w.thread.eventQueue.takeEvent true with
      | Taken.event e q => RenderThread.stepEvent held rl i w.thread e q WorkerPoint.stopTest
      | Taken.blocks q =>
        Stepped.next (rl.setThread i { w.thread with eventQueue := q }) WorkerPoint.inTakeEvent
      | Taken.dequeueOnEmpty => Stepped.fails

/-- The step of a thread blocked in `takeEvent(true)`: it stays there while nothing is
queued; otherwise `waiting = false; e = dequeue();` and the event is handled. -/
def RenderThread.stepWoken (held : Bool) (rl : ThreadedRenderLoop) (i : Nat) : Stepped :=
  match rl.m_windows[i]? with
  | none => Stepped.fails
  | some w =>
    if w.thread.eventQueue.events.isEmpty then Stepped.rests
    else
      match w.thread.eventQueue.takeEventWoken with
      | Taken.event e q => RenderThread.stepEvent held rl i w.thread e q WorkerPoint.stopTest
      | Taken.blocks _ => Stepped.fails
      | Taken.dequeueOnEmpty => Stepped.fails

/-- One step of the render thread of record `i` from the point where it stands; `held` says
whether the GUI thread holds the mutex of the thread meanwhile. -/
def RenderThread.step (held : Bool) (rl : ThreadedRenderLoop) (i : Nat) :
    WorkerPoint → Stepped
  | WorkerPoint.activeTest => RenderThread.stepActive held rl i
  | WorkerPoint.afterSync win repaintRequested exposeRequested =>
    match RenderThread.afterSync rl i win repaintRequested exposeRequested with
    | none => Stepped.fails
    | some rl1 => Stepped.next rl1 WorkerPoint.drainTest
  | WorkerPoint.drainTest => RenderThread.stepDrain held rl i
  | WorkerPoint.stopTest => RenderThread.stepStop held rl i
  | WorkerPoint.inTakeEvent => RenderThread.stepWoken held rl i
  | WorkerPoint.finished => Stepped.rests

/-- The render thread runs, without the GUI thread holding its mutex, until a step in which
it has made the outside call `wake` more often than `before` times: the GUI thread, which
waits on the condition, goes on after that step. `none` when the thread comes to rest
without that call, so that the GUI thread waits for ever, when a null pointer is used, or
when the bound on the number of steps is used up. -/
def RenderThread.runToWake : Nat → ThreadedRenderLoop → Nat → WorkerPoint → Effect → Nat →
    Option (ThreadedRenderLoop × WorkerPoint)
  | 0, _, _, _, _, _ => none
  | fuel + 1, rl, i, p, wake, before =>
    match RenderThread.step false rl i p with
    | Stepped.next rl1 q =>
      if before < rl1.log.count wake then some (rl1, q)
      else RenderThread.runToWake fuel rl1 i q wake before
    | Stepped.rests => none
    | Stepped.fails => none

/-- The render thread runs until it cannot move; `none` when a null pointer is used or the
bound on the number of steps is used up. -/
def RenderThread.runToRest (held : Bool) : Nat → ThreadedRenderLoop → Nat → WorkerPoint →
    Option (ThreadedRenderLoop × WorkerPoint)
  | 0, _, _, _ => none
  | fuel + 1, rl, i, p =>
    match RenderThread.step held rl i p with
    | Stepped.next rl1 q => RenderThread.runToRest held fuel rl1 i q
    | Stepped.rests => some (rl, p)
    | Stepped.fails => none

/-- Whether a render thread standing at a point owes the GUI thread no wake-up and will
notice a request to stop: no sync is pending at the test of `while (active)`, no expose is
being rendered, and in the wait loop `sleeping` is set and `stopEventProcessing` clear. -/
def WorkerPoint.free (t : RenderThread) : WorkerPoint → Bool
  | WorkerPoint.activeTest => !t.syncRequested
  | WorkerPoint.afterSync _ _ exposeRequested => !exposeRequested
  | WorkerPoint.drainTest => true
  | WorkerPoint.stopTest => t.sleeping && !t.stopEventProcessing
  | WorkerPoint.inTakeEvent => t.sleeping && !t.stopEventProcessing
  | WorkerPoint.finished => false

namespace ThreadedRenderLoop

/-- The rest of `releaseResources(Window *w, bool inDestructor)` once the wait has returned,
with the render thread standing at `q`. The GUI thread holds the mutex again. When `active`
is clear, `QThread::wait()` lets the render thread run on until it cannot move and returns
when it has finished; `none` when it has not, since the wait then never returns. -/
def releaseResourcesJoin (rl : ThreadedRenderLoop) (i : Nat) (fallback : Bool)
    (q : WorkerPoint) : Option (ThreadedRenderLoop × WorkerPoint) :=
  match rl.m_windows[i]? with
  | none => none
  | some w =>
    if w.thread.active = false then
      match RenderThread.runToRest true w.thread.fuel
          (if fallback then rl.emit Effect.deleteFallbackSurface else rl) i q with
      | none => none
      | some r =>
        if r.2 = WorkerPoint.finished then
          some ((r.1.emit (Effect.waitThread w.thread.id)).emit
            (Effect.mutexUnlock w.thread.id), WorkerPoint.finished)
        else none
    else
      some ((if fallback then rl.emit Effect.deleteFallbackSurface else rl).emit
        (Effect.mutexUnlock w.thread.id), q)

/-- A whole call of `releaseResources(Window *w, bool inDestructor)` with the render thread
followed step by step from the point `p` where it stands when the call is made. Returns the
point where the render thread stands when the call returns. -/
def releaseResourcesStepwise (rl : ThreadedRenderLoop) (i : Nat) (inDestructor : Bool)
    (p : WorkerPoint) : Option (ThreadedRenderLoop × WorkerPoint) :=
  match rl.releaseResourcesW i inDestructor with
  | Call.nullDereference => none
  | Call.returned rl1 _ => some (rl1, p)
  | Call.waiting rl1 =>
    match rl1.m_windows[i]? with
    | none => none
    | some w =>
      match RenderThread.runToWake w.thread.fuel rl1 i p (Effect.wakeOne w.thread.id)
          (rl1.log.count (Effect.wakeOne w.thread.id)) with
      | none => none
      | some r => r.1.releaseResourcesJoin i (!(rl.qwindow w.window).handle) r.2

end ThreadedRenderLoop

/-! ## Properties of the event queue -/

/-- A run in which no `takeEvent` meets an empty queue returns an event at every `takeEvent`,
and what was taken followed by what is still queued is what was queued before followed by
what was added, in order. -/
theorem runQueueOps_order (ops : List QueueOp) :
    ∀ q : RenderThreadEventQueue, noTakeOnEmpty ops q.events.length = true →
      ∃ taken q1, runQueueOps ops q = some (taken, q1) ∧
        taken ++ q1.events = q.events ++ addedEvents ops := by
  induction ops with
  | nil => intro q _; exact ⟨[], q, rfl, by simp [addedEvents]⟩
  | cons op ops ih =>
    intro q h
    cases op with
    | addEvent e =>
      have h1 : noTakeOnEmpty ops (q.addEvent e).events.length = true := by
        simpa [noTakeOnEmpty, RenderThreadEventQueue.addEvent] using h
      obtain ⟨taken, q1, hrun, hord⟩ := ih (q.addEvent e) h1
      refine ⟨taken, q1, by simpa [runQueueOps] using hrun, ?_⟩
      simpa [addedEvents, RenderThreadEventQueue.addEvent] using hord
    | takeEvent wait =>
      obtain ⟨events, waiting⟩ := q
      cases events with
      | nil => simp [noTakeOnEmpty] at h
      | cons e rest =>
        have h1 : noTakeOnEmpty ops rest.length = true := by
          simpa [noTakeOnEmpty] using h
        obtain ⟨taken, q1, hrun, hord⟩ := ih { events := rest, waiting := waiting } h1
        refine ⟨e :: taken, q1, ?_, ?_⟩
        · simp [runQueueOps, RenderThreadEventQueue.takeEvent,
            RenderThreadEventQueue.dequeue, hrun]
        · simpa [addedEvents] using hord

/-- Handling an event neither reads nor writes the event queue: it commutes with a write of
the queue of the handling thread. -/
theorem dispatch_setQueue (rl : ThreadedRenderLoop) (i : Nat) (q : RenderThreadEventQueue)
    (e : WMEvent) :
    dispatch (rl.setQueue i q) i e = (dispatch rl i e).setQueue i q := by
  cases hw : rl.m_windows[i]? with
  | none =>
    cases e with
    | postJob win job =>
      cases job <;>
      simp [dispatch, ThreadedRenderLoop.setQueue, RenderThread.event, hw, deleteEvent,
        ThreadedRenderLoop.emit]
    | _ => simp [dispatch, ThreadedRenderLoop.setQueue, RenderThread.event, hw, deleteEvent]
  | some w =>
    have hi : i < rl.m_windows.length := (List.getElem?_eq_some.1 hw).1
    cases e with
    | obscure win =>
      cases hwin : w.thread.window <;>
      simp [dispatch, ThreadedRenderLoop.setQueue, RenderThread.event, hw, deleteEvent,
        ThreadedRenderLoop.setThread, ThreadedRenderLoop.setWindow, ThreadedRenderLoop.emit, hi, hwin]
    | requestSync win size ex force =>
      cases hs : w.thread.sleeping <;> cases ex <;> cases force <;>
      simp [dispatch, ThreadedRenderLoop.setQueue, RenderThread.event, hw, deleteEvent,
        ThreadedRenderLoop.setThread, ThreadedRenderLoop.setWindow, ThreadedRenderLoop.emit, hi, hs]
    | requestRepaint win =>
      simp [dispatch, ThreadedRenderLoop.setQueue, RenderThread.event, hw, deleteEvent,
        ThreadedRenderLoop.setThread, ThreadedRenderLoop.setWindow, ThreadedRenderLoop.emit, hi]
    | tryRelease win d f =>
      cases hs : w.thread.sleeping <;> cases d <;> cases hwin : w.thread.window <;>
      simp [dispatch, ThreadedRenderLoop.setQueue, RenderThread.event, hw, deleteEvent,
        ThreadedRenderLoop.setThread, ThreadedRenderLoop.setWindow, ThreadedRenderLoop.emit, hi, hs, hwin]
    | grab win =>
      cases hwin : w.thread.window <;>
      simp [dispatch, ThreadedRenderLoop.setQueue, RenderThread.event, hw, deleteEvent,
        ThreadedRenderLoop.setThread, ThreadedRenderLoop.setWindow, ThreadedRenderLoop.emit,
        ThreadedRenderLoop.syncSceneGraph, hi, hwin]
    | postJob win job =>
      cases job <;> cases hwin : w.thread.window <;>
      simp [dispatch, ThreadedRenderLoop.setQueue, RenderThread.event, hw, deleteEvent,
        ThreadedRenderLoop.setThread, ThreadedRenderLoop.setWindow, ThreadedRenderLoop.emit, hi, hwin]

/-- Handling an event neither adds nor removes a record. -/
theorem dispatch_length (rl : ThreadedRenderLoop) (i : Nat) (e : WMEvent) :
    (dispatch rl i e).m_windows.length = rl.m_windows.length := by
  cases hw : rl.m_windows[i]? with
  | none =>
    cases e with
    | postJob win job =>
      cases job <;>
      simp [dispatch, RenderThread.event, hw, deleteEvent, ThreadedRenderLoop.emit]
    | _ => simp [dispatch, RenderThread.event, hw, deleteEvent]
  | some w =>
    cases e with
    | obscure win =>
      cases hwin : w.thread.window <;>
      simp [dispatch, RenderThread.event, hw, deleteEvent,
        ThreadedRenderLoop.setThread, ThreadedRenderLoop.setWindow, ThreadedRenderLoop.emit, hwin]
    | requestSync win size ex force =>
      simp [dispatch, RenderThread.event, hw, deleteEvent,
        ThreadedRenderLoop.setThread, ThreadedRenderLoop.setWindow, ThreadedRenderLoop.emit]
    | requestRepaint win =>
      simp [dispatch, RenderThread.event, hw, deleteEvent,
        ThreadedRenderLoop.setThread, ThreadedRenderLoop.setWindow, ThreadedRenderLoop.emit]
    | tryRelease win d f =>
      cases d <;> cases hwin : w.thread.window <;>
      simp [dispatch, RenderThread.event, hw, deleteEvent,
        ThreadedRenderLoop.setThread, ThreadedRenderLoop.setWindow, ThreadedRenderLoop.emit, hwin]
    | grab win =>
      cases hwin : w.thread.window <;>
      simp [dispatch, RenderThread.event, hw, deleteEvent, ThreadedRenderLoop.syncSceneGraph,
        ThreadedRenderLoop.setThread, ThreadedRenderLoop.setWindow, ThreadedRenderLoop.emit, hwin]
    | postJob win job =>
      cases job <;> cases hwin : w.thread.window <;>
      simp [dispatch, RenderThread.event, hw, deleteEvent,
        ThreadedRenderLoop.setThread, ThreadedRenderLoop.setWindow, ThreadedRenderLoop.emit, hwin]

/-- After a write of the queue of an existing record, the record holds that queue. -/
theorem setQueue_getElem (rl : ThreadedRenderLoop) (i : Nat) (q : RenderThreadEventQueue)
    (h : i < rl.m_windows.length) :
    ∃ w, (rl.setQueue i q).m_windows[i]? = some w ∧ w.thread.eventQueue = q := by
  have hw : rl.m_windows[i]? = some rl.m_windows[i] := List.getElem?_eq_getElem h
  refine ⟨{ rl.m_windows[i] with thread := { rl.m_windows[i].thread with eventQueue := q } }, ?_, rfl⟩
  simp [ThreadedRenderLoop.setQueue, hw, ThreadedRenderLoop.setThread,
    ThreadedRenderLoop.setWindow, h]

/-- The later of two writes of the same queue wins. -/
theorem setQueue_setQueue (rl : ThreadedRenderLoop) (i : Nat) (q1 q2 : RenderThreadEventQueue) :
    (rl.setQueue i q1).setQueue i q2 = rl.setQueue i q2 := by
  cases hw : rl.m_windows[i]? with
  | none => simp [ThreadedRenderLoop.setQueue, hw]
  | some w =>
    have hi : i < rl.m_windows.length := (List.getElem?_eq_some.1 hw).1
    simp [ThreadedRenderLoop.setQueue, hw, ThreadedRenderLoop.setThread,
      ThreadedRenderLoop.setWindow, hi]

/-- Writing back the queue a record already holds changes nothing. -/
theorem setQueue_self (rl : ThreadedRenderLoop) (i : Nat) (w : Window)
    (hw : rl.m_windows[i]? = some w) : rl.setQueue i w.thread.eventQueue = rl := by
  have hi : i < rl.m_windows.length := (List.getElem?_eq_some.1 hw).1
  have hget : rl.m_windows[i] = w := (List.getElem?_eq_some.1 hw).2
  have hset : rl.m_windows.set i w = rl.m_windows := by
    apply List.ext_getElem?
    intro j
    rw [List.getElem?_set]
    by_cases hj : i = j
    · subst hj; simp [hi, hw]
    · simp [hj]
  simp only [ThreadedRenderLoop.setQueue, hw, ThreadedRenderLoop.setThread,
    ThreadedRenderLoop.setWindow]
  rw [hset]

/-- With more iterations allowed than there are queued events, the loop of `processEvents`
returns the state obtained by handling the queued events one after the other from the head
of the queue, and leaves the queue empty. -/
theorem processEventsLoop_fold (events : List WMEvent) :
    ∀ (fuel : Nat) (rl : ThreadedRenderLoop) (i : Nat) (w : Window),
      rl.m_windows[i]? = some w → w.thread.eventQueue.events = events →
      events.length < fuel →
      processEventsLoop fuel rl i =
        some (events.foldl (fun s e => dispatch s i e)
          (rl.setQueue i { w.thread.eventQueue with events := [] })) := by
  induction events with
  | nil =>
    intro fuel rl i w hw hq hfuel
    cases fuel with
    | zero => simp at hfuel
    | succ n =>
      have hself : rl.setQueue i { w.thread.eventQueue with events := [] } = rl := by
        have : ({ w.thread.eventQueue with events := [] } : RenderThreadEventQueue)
            = w.thread.eventQueue := by
          cases hqq : w.thread.eventQueue; simp [hqq] at hq; simp [hq]
        rw [this]; exact setQueue_self rl i w hw
      simp [processEventsLoop, hw, RenderThreadEventQueue.hasMoreEvents, hq, hself]
  | cons e rest ih =>
    intro fuel rl i w hw hq hfuel
    cases fuel with
    | zero => simp at hfuel
    | succ n =>
      have hi : i < rl.m_windows.length := (List.getElem?_eq_some.1 hw).1
      have hstep : rl.setThread i
          { w.thread with eventQueue := { w.thread.eventQueue with events := rest } }
          = rl.setQueue i { w.thread.eventQueue with events := rest } := by
        simp [ThreadedRenderLoop.setQueue, hw]
      have hlen : i < (dispatch rl i e).m_windows.length := by
        rw [dispatch_length]; exact hi
      obtain ⟨w1, hw1, hq1⟩ := setQueue_getElem (dispatch rl i e) i
        { w.thread.eventQueue with events := rest } hlen
      have hrec := ih n ((dispatch rl i e).setQueue i
        { w.thread.eventQueue with events := rest }) i w1 hw1 (by rw [hq1])
        (by simpa using hfuel)
      simp only [processEventsLoop, hw, RenderThreadEventQueue.hasMoreEvents, hq,
        RenderThreadEventQueue.takeEvent, RenderThreadEventQueue.dequeue]
      simp only [List.isEmpty_cons, Bool.not_false, if_true, List.length_cons,
        Nat.succ_ne_zero, false_and, if_false, List.foldl_cons]
      rw [hstep, dispatch_setQueue, hrec, setQueue_setQueue, dispatch_setQueue, hq1]

/-- C1: the event queue is first-in first-out. In every sequence of `addEvent` and
`takeEvent` calls on a queue that starts empty and in which no `takeEvent` meets an empty
queue, every `takeEvent` returns an event and the k-th event taken is the k-th event added.
`processEvents` takes the queued events one by one from the head and dispatches each to
`event` in that order, so two events posted back-to-back (two `RequestSync` in particular)
are handled in post order, after everything queued before them. -/
theorem eventQueue_fifo (ops : List QueueOp) (q : RenderThreadEventQueue)
    (rl : ThreadedRenderLoop) (i : Nat) (w : Window) (e1 e2 : WMEvent)
    (hq : q.events = []) (hops : noTakeOnEmpty ops 0 = true)
    (hw : rl.m_windows[i]? = some w) :
    (∃ taken q1, runQueueOps ops q = some (taken, q1) ∧
      ∀ k, k < taken.length → taken[k]? = (addedEvents ops)[k]?) ∧
    RenderThread.processEvents rl i =
      some (w.thread.eventQueue.events.foldl (fun s e => dispatch s i e)
        (rl.setQueue i { w.thread.eventQueue with events := [] })) ∧
    RenderThread.processEvents
        (rl.setThread i ((w.thread.postEvent e1).postEvent e2)) i =
      some (dispatch (dispatch
        (w.thread.eventQueue.events.foldl (fun s e => dispatch s i e)
          (rl.setQueue i { w.thread.eventQueue with events := [] })) i e1) i e2) := by
  have hi : i < rl.m_windows.length := (List.getElem?_eq_some.1 hw).1
  refine ⟨?_, ?_, ?_⟩
  · obtain ⟨taken, q1, hrun, hord⟩ := runQueueOps_order ops q (by simpa [hq] using hops)
    refine ⟨taken, q1, hrun, ?_⟩
    intro k hk
    rw [hq, List.nil_append] at hord
    rw [← hord, List.getElem?_append_left hk]
  · simp only [RenderThread.processEvents, hw]
    exact processEventsLoop_fold _ _ rl i w hw rfl (Nat.lt_succ_self _)
  · have hw2 : (rl.setThread i ((w.thread.postEvent e1).postEvent e2)).m_windows[i]? =
        some { w with thread := (w.thread.postEvent e1).postEvent e2 } := by
      simp [ThreadedRenderLoop.setThread, hw, ThreadedRenderLoop.setWindow, hi]
    simp only [RenderThread.processEvents, hw2]
    rw [processEventsLoop_fold _ _ _ i _ hw2 rfl (Nat.lt_succ_self _)]
    have hset : (rl.setThread i ((w.thread.postEvent e1).postEvent e2)).setQueue i
        { ((w.thread.postEvent e1).postEvent e2).eventQueue with events := [] } =
        rl.setQueue i { w.thread.eventQueue with events := [] } := by
      simp [ThreadedRenderLoop.setQueue, hw, ThreadedRenderLoop.setThread,
        ThreadedRenderLoop.setWindow, hi, RenderThread.postEvent,
        RenderThreadEventQueue.addEvent]
    simp only [hset]
    simp [RenderThread.postEvent, RenderThreadEventQueue.addEvent, List.foldl_append]

/-- Witness of `eventQueue_fifo`: two events added and taken on a fresh queue, and two
`RequestSync` posted to the render thread of `sampleLoop`. -/
theorem eventQueue_fifo_witness :
    (∃ taken q1, runQueueOps
        [QueueOp.addEvent (WMEvent.obscure 1), QueueOp.addEvent (WMEvent.grab 1),
         QueueOp.takeEvent false, QueueOp.takeEvent true] RenderThreadEventQueue.new
        = some (taken, q1) ∧
      ∀ k, k < taken.length → taken[k]? =
        (addedEvents [QueueOp.addEvent (WMEvent.obscure 1), QueueOp.addEvent (WMEvent.grab 1),
          QueueOp.takeEvent false, QueueOp.takeEvent true])[k]?) ∧
    RenderThread.processEvents sampleLoop 0 =
      some (sampleWindow.thread.eventQueue.events.foldl (fun s e => dispatch s 0 e)
        (sampleLoop.setQueue 0 { sampleWindow.thread.eventQueue with events := [] })) ∧
    RenderThread.processEvents
        (sampleLoop.setThread 0
          ((sampleWindow.thread.postEvent
            (WMEvent.requestSync 1 { width := 640, height := 480 } false false)).postEvent
            (WMEvent.requestSync 1 { width := 800, height := 600 } false true))) 0 =
      some (dispatch (dispatch
        (sampleWindow.thread.eventQueue.events.foldl (fun s e => dispatch s 0 e)
          (sampleLoop.setQueue 0 { sampleWindow.thread.eventQueue with events := [] })) 0
        (WMEvent.requestSync 1 { width := 640, height := 480 } false false)) 0
        (WMEvent.requestSync 1 { width := 800, height := 600 } false true)) :=
  eventQueue_fifo _ RenderThreadEventQueue.new sampleLoop 0 sampleWindow _ _ rfl
    (by decide) rfl

/-! ## Properties of the GUI side -/

/-- Counterexample to C2 as stated: on a fresh, empty queue `takeEvent(false)` calls
`dequeue()` on the empty `QQueue`; no no-event result is returned. -/
theorem takeEvent_empty_fails :
    RenderThreadEventQueue.new.takeEvent false = Taken.dequeueOnEmpty := by
  decide

/-- C2 (amended): `takeEvent(false)` never blocks. On a non-empty queue it returns the head
event and removes exactly that event. On an empty queue it has no no-event result: it calls
`QQueue::dequeue()` on the empty queue. `processEvents` calls it only after
`hasMoreEvents()` returned true, so for an existing render thread it always runs to the end
without reaching that case. -/
theorem takeEvent_without_wait (q : RenderThreadEventQueue) (rl : ThreadedRenderLoop)
    (i : Nat) :
    (q.takeEvent false =
      match q.events with
      | [] => Taken.dequeueOnEmpty
      | e :: rest => Taken.event e { q with events := rest }) ∧
    (RenderThread.processEvents rl i).isSome = (rl.m_windows[i]?).isSome := by
  constructor
  · cases hq : q.events <;>
      simp [RenderThreadEventQueue.takeEvent, RenderThreadEventQueue.dequeue, hq]
  · cases hw : rl.m_windows[i]? with
    | none => simp [RenderThread.processEvents, hw]
    | some w =>
      simp only [RenderThread.processEvents, hw]
      rw [processEventsLoop_fold _ _ rl i w hw rfl (Nat.lt_succ_self _)]
      rfl

/-- The loop of `startOrStopAnimationTimer` counts the records that satisfy the test, and its
pointer is non-null as soon as one record satisfied it. -/
theorem exposedScan_fold (p : Window → Bool) (l : List Window) :
    ∀ acc : Nat × Option Window,
      (l.foldl (fun acc w => if p w then (acc.1 + 1, some w) else acc) acc).1
        = acc.1 + l.countP p ∧
      ((acc.2.isSome ∨ 0 < l.countP p) →
        (l.foldl (fun acc w => if p w then (acc.1 + 1, some w) else acc) acc).2.isSome) := by
  induction l with
  | nil => intro acc; simp
  | cons w rest ih =>
    intro acc
    by_cases hp : p w = true
    · have h := ih (acc.1 + 1, some w)
      simp only [List.foldl_cons, hp, if_true, List.countP_cons_of_pos]
      refine ⟨by rw [h.1]; simp; omega, fun _ => h.2 (Or.inl rfl)⟩
    · have h := ih acc
      simp only [List.foldl_cons, hp, if_false]
      rw [List.countP_cons_of_neg _ _ hp]
      exact h

/-- Rounding to the nearest integer stays between two integers that enclose the value. -/
theorem roundHalfEven_between (x : ℚ) (a b : Int) (ha : (a : ℚ) ≤ x) (hb : x ≤ (b : ℚ)) :
    a ≤ roundHalfEven x ∧ roundHalfEven x ≤ b := by
  have hfa : a ≤ ⌊x⌋ := Int.le_floor.2 ha
  have hfx : (⌊x⌋ : ℚ) ≤ x := Int.floor_le x
  have hfb : ⌊x⌋ ≤ b := by exact_mod_cast (le_trans hfx hb)
  unfold roundHalfEven
  by_cases h1 : x - ⌊x⌋ < 1 / 2
  · rw [if_pos h1]
    exact ⟨hfa, hfb⟩
  · rw [if_neg h1]
    have hlt : ⌊x⌋ < b := by
      rcases lt_or_eq_of_le hfb with h | h
      · exact h
      · exfalso
        apply h1
        have hxb : x = ⌊x⌋ := le_antisymm (by rw [h]; exact hb) hfx
        have : x - (⌊x⌋ : ℚ) = 0 := sub_eq_zero.2 hxb
        rw [this]
        norm_num
    split
    · exact ⟨by omega, by omega⟩
    · split
      · exact ⟨hfa, hfb⟩
      · exact ⟨by omega, by omega⟩

/-- Below 2 to the power 53 the unit in the last place is at most one. -/
theorem ulpExponent_nonpos (x : ℚ) (h0 : 0 < x) (h : x < 2 ^ (53 : ℤ)) :
    ulpExponent x ≤ 0 := by
  have hlog : Int.log 2 x < 53 := by
    have := (Int.lt_zpow_iff_log_lt (b := 2) (by norm_num) h0 (x := 53)).1
      (by exact_mod_cast h)
    exact this
  unfold ulpExponent
  omega

/-- The double nearest a positive value below 2 to the power 53 lies between two natural
numbers that enclose the value: every such number is a double. -/
theorem roundToDouble_between (x : ℚ) (n : Nat) (h0 : 0 < x) (h : x < 2 ^ (53 : ℤ))
    (hn : (n : ℚ) ≤ x) (hx : x ≤ (n : ℚ) + 1) :
    (n : ℚ) ≤ roundToDouble x ∧ roundToDouble x ≤ (n : ℚ) + 1 := by
  have hk := ulpExponent_nonpos x h0 h
  obtain ⟨m, hm⟩ : ∃ m : Nat, ulpExponent x = -(m : ℤ) := ⟨(-ulpExponent x).toNat, by omega⟩
  have hpow : (2 : ℚ) ^ ulpExponent x = ((2 : ℚ) ^ m)⁻¹ := by
    rw [hm, zpow_neg, zpow_natCast]
  have hpos : (0 : ℚ) < (2 : ℚ) ^ m := by positivity
  have hdiv : x / 2 ^ ulpExponent x = x * 2 ^ m := by
    rw [hpow, div_inv_eq_mul]
  have ha : (((n * 2 ^ m : Nat) : Int) : ℚ) ≤ x / 2 ^ ulpExponent x := by
    rw [hdiv]
    push_cast
    exact mul_le_mul_of_nonneg_right hn hpos.le
  have hb : x / 2 ^ ulpExponent x ≤ ((((n + 1) * 2 ^ m : Nat) : Int) : ℚ) := by
    rw [hdiv]
    push_cast
    exact mul_le_mul_of_nonneg_right hx hpos.le
  obtain ⟨r1, r2⟩ := roundHalfEven_between _ _ _ ha hb
  have r1q : (((n * 2 ^ m : Nat) : Int) : ℚ) ≤ (roundHalfEven (x / 2 ^ ulpExponent x) : ℚ) := by
    exact_mod_cast r1
  have r2q : (roundHalfEven (x / 2 ^ ulpExponent x) : ℚ) ≤ ((((n + 1) * 2 ^ m : Nat) : Int) : ℚ) := by
    exact_mod_cast r2
  push_cast at r1q r2q
  unfold roundToDouble
  rw [if_neg (not_le.2 h0)]
  generalize (roundHalfEven (x / 2 ^ ulpExponent x) : ℚ) = y at r1q r2q ⊢
  rw [hpow]
  constructor
  · rw [le_mul_inv_iff₀ hpos]
    exact r1q
  · rw [mul_inv_le_iff₀ hpos]
    exact r2q

/-- The double nearest a value is never negative. -/
theorem roundToDouble_nonneg (x : ℚ) : 0 ≤ roundToDouble x := by
  unfold roundToDouble
  split
  · exact le_refl 0
  · rename_i hx
    have hx0 : 0 < x := not_le.1 hx
    have hp : (0 : ℚ) < 2 ^ ulpExponent x := by positivity
    have hq : ((0 : Int) : ℚ) ≤ x / 2 ^ ulpExponent x := by
      simp only [Int.cast_zero]
      positivity
    have hr := (roundHalfEven_between (x / 2 ^ ulpExponent x) 0
      (⌊x / 2 ^ ulpExponent x⌋ + 1) hq (by push_cast; exact (Int.lt_floor_add_one _).le)).1
    have : (0 : ℚ) ≤ (roundHalfEven (x / 2 ^ ulpExponent x) : ℚ) := by exact_mod_cast hr
    positivity

/-- The animation interval is never negative, so `startTimer` is never refused for it. -/
theorem qsgrl_animation_interval_nonneg (r : ℚ) : 0 ≤ qsgrl_animation_interval r := by
  unfold qsgrl_animation_interval
  split
  · decide
  · have := roundToDouble_nonneg (1000 / r)
    simp [toInt, this, Int.floor_nonneg]

/-- C3: after `startOrStopAnimationTimer`, from any prior timer state, the animation timer is
active (`m_animation_timer` is non-zero) if and only if the animation driver is running and
the number of tracked windows that are visible and exposed is different from one. The call
always returns: it never dereferences a null `theOne`. -/
theorem startOrStopAnimationTimer_active (rl : ThreadedRenderLoop) :
    ∃ rl1, rl.startOrStopAnimationTimer = some rl1 ∧
      (rl1.m_animation_timer ≠ 0 ↔
        (rl.animationRunning = true ∧ rl.m_windows.countP rl.showing ≠ 1)) := by
  have hscan := exposedScan_fold rl.showing rl.m_windows (0, none)
  have hcount : rl.exposedScan.1 = rl.m_windows.countP rl.showing := by
    simpa [ThreadedRenderLoop.exposedScan] using hscan.1
  have hone : rl.m_windows.countP rl.showing = 1 → rl.exposedScan.2.isSome := by
    intro h
    have := hscan.2 (Or.inr (by omega))
    simpa [ThreadedRenderLoop.exposedScan] using this
  have hint := qsgrl_animation_interval_nonneg rl.refreshRate
  unfold ThreadedRenderLoop.startOrStopAnimationTimer
  simp only [hcount]
  by_cases ht : rl.m_animation_timer = 0
  · by_cases hc : rl.m_windows.countP rl.showing = 1
    · simp [ht, hc]
    · cases hr : rl.animationRunning
      · simp [ht, hc, hr]
      · have hnot : ¬ qsgrl_animation_interval rl.refreshRate < 0 := not_lt.2 hint
        simp [ht, hc, hr, startTimer, hnot, ThreadedRenderLoop.emit]
        omega
  · by_cases hc : rl.m_windows.countP rl.showing = 1
    · cases hr : rl.animationRunning
      · simp [ht, hc, hr, ThreadedRenderLoop.emit]
      · have hsome := hone hc
        cases hth : rl.exposedScan.2 with
        | none => simp [hth] at hsome
        | some w =>
          simp [ht, hc, hr, ThreadedRenderLoop.emit, ThreadedRenderLoop.maybePostPolishRequest]
    · cases hr : rl.animationRunning
      · simp [ht, hc, hr, ThreadedRenderLoop.emit]
      · simp [ht, hc, hr]

/-- The unit in the last place of a normal double, from the powers of two that enclose the
value. -/
theorem ulpExponent_eq (x : ℚ) (e : ℤ) (h1 : (2 : ℚ) ^ e ≤ x) (h2 : x < (2 : ℚ) ^ (e + 1))
    (he : -1022 ≤ e) : ulpExponent x = e - 52 := by
  have h0 : 0 < x := lt_of_lt_of_le (by positivity) h1
  have a := (Int.zpow_le_iff_le_log (b := 2) (by norm_num) h0 (x := e)).1
    (by exact_mod_cast h1)
  have b := (Int.lt_zpow_iff_log_lt (b := 2) (by norm_num) h0 (x := e + 1)).1
    (by exact_mod_cast h2)
  unfold ulpExponent
  omega

/-- At 60 Hz the quotient 1000/60 is rounded to the double 4691249611844267 / 2^48, which
is below 17. -/
theorem roundToDouble_at_60 :
    roundToDouble (1000 / 60) = 4691249611844267 / 281474976710656 := by
  have hk : ulpExponent (1000 / 60) = -48 := by
    rw [ulpExponent_eq (1000 / 60) 4 (by norm_num) (by norm_num) (by norm_num)]
    norm_num
  have hfl : ⌊(1000 / 60 : ℚ) / 2 ^ (-48 : ℤ)⌋ = 4691249611844266 := by
    rw [Int.floor_eq_iff]
    norm_num
  have hr : roundHalfEven ((1000 / 60 : ℚ) / 2 ^ (-48 : ℤ)) = 4691249611844267 := by
    unfold roundHalfEven
    rw [hfl]
    norm_num
  unfold roundToDouble
  rw [if_neg (by norm_num), hk, hr]
  norm_num

/-- At the double nearest 1000/17 the quotient is below 17 and is rounded to 17. -/
theorem roundToDouble_near_17 :
    roundToDouble (1000 / rateNear1000Over17) = 17 ∧ ⌊1000 / rateNear1000Over17⌋ = 16 := by
  have hk : ulpExponent (1000 / rateNear1000Over17) = -48 := by
    rw [ulpExponent_eq (1000 / rateNear1000Over17) 4 (by norm_num [rateNear1000Over17])
      (by norm_num [rateNear1000Over17]) (by norm_num)]
    norm_num
  have hfl : ⌊(1000 / rateNear1000Over17 : ℚ) / 2 ^ (-48 : ℤ)⌋ = 4785074604081151 := by
    rw [Int.floor_eq_iff]
    norm_num [rateNear1000Over17]
  have hr : roundHalfEven ((1000 / rateNear1000Over17 : ℚ) / 2 ^ (-48 : ℤ)) =
      4785074604081152 := by
    unfold roundHalfEven
    rw [hfl]
    norm_num [rateNear1000Over17]
  refine ⟨?_, ?_⟩
  · unfold roundToDouble
    rw [if_neg (by norm_num [rateNear1000Over17]), hk, hr]
    norm_num
  · rw [Int.floor_eq_iff]
    norm_num [rateNear1000Over17]

/-- Counterexample to C4 as stated: at 60 Hz the code computes 16 ms, while 1000/60 rounded
to the nearest integer is 17. -/
theorem animation_interval_not_rounded :
    qsgrl_animation_interval 60 = 16 ∧ specAnimationInterval 60 = 17 ∧
      qsgrl_animation_interval 60 ≠ specAnimationInterval 60 := by
  have h1 : qsgrl_animation_interval 60 = 16 := by
    have hlt : ¬ ((60 : ℚ) < 1) := by norm_num
    simp only [qsgrl_animation_interval, hlt, if_false, toInt, roundToDouble_at_60]
    rw [if_pos (by norm_num), Int.floor_eq_iff]
    norm_num
  have h2 : specAnimationInterval 60 = 17 := by
    simp only [specAnimationInterval]
    rw [round_eq, Int.floor_eq_iff]; norm_num
  exact ⟨h1, h2, by rw [h1, h2]; decide⟩

/-- C4 (amended): for every refresh rate of at least 1 Hz the interval is the quotient
1000/r of double arithmetic, truncated to an integer. It is the largest integer not above
the exact quotient, or that integer plus one; it is the latter exactly when the division
rounds the quotient up to that next integer. When the exact quotient is itself a double, the
interval is the largest integer not above it. -/
theorem animation_interval_truncates (r : ℚ) (h : 1 ≤ r) :
    qsgrl_animation_interval r = ⌊roundToDouble (1000 / r)⌋ ∧
      ⌊1000 / r⌋ ≤ qsgrl_animation_interval r ∧ qsgrl_animation_interval r ≤ ⌊1000 / r⌋ + 1 ∧
      (qsgrl_animation_interval r = ⌊1000 / r⌋ + 1 ↔
        roundToDouble (1000 / r) = ((⌊1000 / r⌋ + 1 : Int) : ℚ)) ∧
      (roundToDouble (1000 / r) = 1000 / r → qsgrl_animation_interval r = ⌊1000 / r⌋) := by
  have hlt : ¬ (r < 1) := not_lt.2 h
  have hr0 : (0 : ℚ) < r := lt_of_lt_of_le one_pos h
  have hq0 : (0 : ℚ) < 1000 / r := by positivity
  have hq1 : 1000 / r ≤ 1000 := by
    rw [div_le_iff₀ hr0]
    nlinarith
  have hq53 : 1000 / r < (2 : ℚ) ^ (53 : ℤ) := lt_of_le_of_lt hq1 (by norm_num)
  have hfl0 : 0 ≤ ⌊1000 / r⌋ := Int.floor_nonneg.2 hq0.le
  obtain ⟨n, hn⟩ : ∃ n : Nat, ⌊1000 / r⌋ = (n : Int) := ⟨⌊1000 / r⌋.toNat, by omega⟩
  have hnq : (n : ℚ) ≤ 1000 / r := by
    have := Int.floor_le (1000 / r)
    rw [hn] at this
    exact_mod_cast this
  have hqn : 1000 / r ≤ (n : ℚ) + 1 := by
    have := (Int.lt_floor_add_one (1000 / r)).le
    rw [hn] at this
    exact_mod_cast this
  obtain ⟨b1, b2⟩ := roundToDouble_between (1000 / r) n hq0 hq53 hnq hqn
  have hnn := roundToDouble_nonneg (1000 / r)
  have heq : qsgrl_animation_interval r = ⌊roundToDouble (1000 / r)⌋ := by
    simp [qsgrl_animation_interval, hlt, toInt, hnn]
  have hlow : (n : Int) ≤ ⌊roundToDouble (1000 / r)⌋ := Int.le_floor.2 (by exact_mod_cast b1)
  have hup : ⌊roundToDouble (1000 / r)⌋ ≤ (n : Int) + 1 := by
    have : ((⌊roundToDouble (1000 / r)⌋ : Int) : ℚ) ≤ (((n : Int) + 1 : Int) : ℚ) := by
      push_cast
      exact le_trans (Int.floor_le _) b2
    exact_mod_cast this
  rw [heq, hn]
  refine ⟨rfl, hlow, hup, ?_, ?_⟩
  · constructor
    · intro hfl
      have h1 : (((n : Int) + 1 : Int) : ℚ) ≤ roundToDouble (1000 / r) := by
        rw [← hfl]
        exact Int.floor_le _
      exact le_antisymm (by push_cast; exact b2) h1
    · intro hv
      rw [hv]
      exact Int.floor_intCast _
  · intro hex
    rw [hex, hn]

/-- Witness of `animation_interval_truncates`. At the double nearest 1000/17, about
58.8235 Hz, the exact quotient is below 17 and the interval is 17; at 60 Hz the interval is
the truncated quotient of double arithmetic. -/
theorem animation_interval_truncates_witness :
    qsgrl_animation_interval rateNear1000Over17 = 17 ∧ ⌊1000 / rateNear1000Over17⌋ = 16 ∧
      qsgrl_animation_interval 60 = ⌊roundToDouble (1000 / 60)⌋ ∧ ⌊(1000 : ℚ) / 60⌋ ≤ qsgrl_animation_interval 60 := by
  have h17 := animation_interval_truncates rateNear1000Over17 (by norm_num [rateNear1000Over17])
  have h60 := animation_interval_truncates 60 (by norm_num)
  obtain ⟨r1, r2⟩ := roundToDouble_near_17
  refine ⟨?_, r2, h60.1, h60.2.1⟩
  have := h17.2.2.2.1.2 (by rw [r1, r2]; norm_num)
  rw [this, r2]
  norm_num

/-- Counterexample to C5 as stated: with two exposed windows and the animation timer 5
active, the timer event 5 advances the driver and emits `timeToIncubate`, and posts no
update request to the exposed window 1. -/
theorem timer_tick_posts_nothing :
    tickingLoop.showing sampleWindow = true ∧
      (tickingLoop.event true (QEvent.timer 5)).1.log =
        [Effect.advance, Effect.timeToIncubate] ∧
      Effect.requestUpdate 1 ∉ (tickingLoop.event true (QEvent.timer 5)).1.log := by
  refine ⟨rfl, ?_, ?_⟩
  · rfl
  · have h : (tickingLoop.event true (QEvent.timer 5)).1.log =
        [Effect.advance, Effect.timeToIncubate] := rfl
    rw [h]; decide

/-- C5 (amended): a timer event whose id is `m_animation_timer` advances the animation
driver exactly once, then emits `timeToIncubate`, returns true and does nothing else: the
handler itself posts no polish request. A timer event with any other id advances nothing
and is passed to `QObject::event`. -/
theorem event_timer (rl : ThreadedRenderLoop) (base : Bool) (timerId : Int) :
    (timerId = rl.m_animation_timer →
      rl.event base (QEvent.timer timerId) =
        ({ rl with log := rl.log ++ [Effect.advance, Effect.timeToIncubate] }, true)) ∧
    (timerId ≠ rl.m_animation_timer →
      rl.event base (QEvent.timer timerId) =
        ({ rl with log := rl.log ++ [Effect.baseEvent] }, base)) := by
  constructor
  · intro h
    simp [ThreadedRenderLoop.event, h, ThreadedRenderLoop.emit]
  · intro h
    simp [ThreadedRenderLoop.event, h, ThreadedRenderLoop.emit]

/-- Witness of `event_timer`: the timer events 5 and 6 delivered to `tickingLoop`. -/
theorem event_timer_witness :
    tickingLoop.event true (QEvent.timer 5) =
        ({ tickingLoop with log := tickingLoop.log ++ [Effect.advance, Effect.timeToIncubate] },
          true) ∧
      tickingLoop.event false (QEvent.timer 6) =
        ({ tickingLoop with log := tickingLoop.log ++ [Effect.baseEvent] }, false) :=
  ⟨(event_timer tickingLoop true 5).1 rfl, (event_timer tickingLoop false 6).2 (by decide)⟩

/-- The pointer returned by `windowFor` points at a record of the list, and that record
is one of the window asked for. -/
theorem windowFor_spec (l : List Window) (window : WindowId) :
    ∀ (i : Nat) (w : Window), windowFor l window = some (i, w) →
      l[i]? = some w ∧ w.window = window := by
  induction l with
  | nil => intro i w h; simp [windowFor] at h
  | cons t rest ih =>
    intro i w h
    by_cases ht : t.window = window
    · simp [windowFor, ht] at h
      obtain ⟨rfl, rfl⟩ := h
      exact ⟨by simp, ht⟩
    · simp only [windowFor, ht, if_false] at h
      cases hr : windowFor rest window with
      | none => simp [hr] at h
      | some p =>
        obtain ⟨j, v⟩ := p
        simp [hr] at h
        obtain ⟨rfl, rfl⟩ := h
        have := ih j v hr
        exact ⟨by simpa using this.1, this.2⟩

/-- A write through the pointer returned by `windowFor` that keeps the `window` member
leaves the lookup pointing at the same place. -/
theorem windowFor_set (l : List Window) (window : WindowId) (v : Window) :
    ∀ (i : Nat) (w : Window), windowFor l window = some (i, w) → v.window = w.window →
      windowFor (l.set i v) window = some (i, v) := by
  induction l with
  | nil => intro i w h; simp [windowFor] at h
  | cons t rest ih =>
    intro i w h hv
    by_cases ht : t.window = window
    · simp [windowFor, ht] at h
      obtain ⟨rfl, rfl⟩ := h
      simp [windowFor, hv, ht]
    · simp only [windowFor, ht, if_false] at h
      cases hr : windowFor rest window with
      | none => simp [hr] at h
      | some p =>
        obtain ⟨j, u⟩ := p
        simp [hr] at h
        obtain ⟨rfl, rfl⟩ := h
        have := ih j u hr hv
        simp [windowFor, ht, this]

/-- C6: for a tracked window whose render thread is not running, `grab` returns the null
image at once and leaves the whole state as it was: no event is posted, no polish pass runs
and the wait is not reached. -/
theorem grab_not_running (rl : ThreadedRenderLoop) (window : WindowId) (i : Nat) (w : Window)
    (hfor : windowFor rl.m_windows window = some (i, w))
    (hrun : w.thread.isRunning = false) :
    rl.grab window = Call.returned rl QImage.null := by
  simp [ThreadedRenderLoop.grab, hfor, hrun]

/-- Witness of `grab_not_running` on `idleLoop`. -/
theorem grab_not_running_witness :
    idleLoop.grab 1 = Call.returned idleLoop QImage.null :=
  grab_not_running idleLoop 1 0 { sampleWindow with thread := RenderThread.new 7 } rfl rfl

/-- Counterexample to C7 as stated: the render thread of window 1 is not running but has a
bound window, and `postJob` enqueues the job event instead of deleting the job. -/
theorem postJob_ignores_isRunning :
    windowFor boundNotRunningLoop.m_windows 1 =
        some (0, { sampleWindow with thread := { sampleThread with isRunning := false } }) ∧
      (boundNotRunningLoop.postJob 1 9).m_windows =
        [{ sampleWindow with
           thread := { sampleThread with
             isRunning := false,
             eventQueue := { events := [WMEvent.postJob 1 (some 9)], waiting := false } } }] ∧
      (boundNotRunningLoop.postJob 1 9).log = [] := by
  refine ⟨rfl, rfl, rfl⟩

/-- C7 (amended): `postJob` enqueues one `PostJob` event, at the tail of the queue of the
render thread of the window, when the window is tracked and that render thread has a bound
window, whether or not the thread is running; the job is then neither run nor deleted. In
every other case (untracked window, no bound window) the job is deleted exactly once without
being run and nothing else changes. -/
theorem postJob_bound (rl : ThreadedRenderLoop) (window : WindowId) (job : JobId) :
    (∀ i w, windowFor rl.m_windows window = some (i, w) → w.thread.window.isSome = true →
      (rl.postJob window job).m_windows =
        rl.m_windows.set i
          { w with thread := { w.thread with eventQueue :=
              { w.thread.eventQueue with
                events := w.thread.eventQueue.events ++ [WMEvent.postJob window (some job)] } } } ∧
      (rl.postJob window job).log = rl.log) ∧
    ((∀ i w, windowFor rl.m_windows window = some (i, w) → w.thread.window = none) →
      rl.postJob window job = { rl with log := rl.log ++ [Effect.deleteJob job] }) := by
  constructor
  · intro i w hfor hbound
    have hw := (windowFor_spec _ _ i w hfor).1
    simp [ThreadedRenderLoop.postJob, hfor, hbound, ThreadedRenderLoop.setThread, hw,
      ThreadedRenderLoop.setWindow, RenderThread.postEvent, RenderThreadEventQueue.addEvent]
  · intro h
    cases hfor : windowFor rl.m_windows window with
    | none => simp [ThreadedRenderLoop.postJob, hfor, ThreadedRenderLoop.emit]
    | some p =>
      obtain ⟨i, w⟩ := p
      have := h i w hfor
      simp [ThreadedRenderLoop.postJob, hfor, this, ThreadedRenderLoop.emit]

/-- Witness of `postJob_bound`: a bound render thread in `sampleLoop`, an unbound one in
`obscuredLoop`. -/
theorem postJob_bound_witness :
    ((sampleLoop.postJob 1 9).m_windows =
        sampleLoop.m_windows.set 0
          { sampleWindow with thread := { sampleWindow.thread with eventQueue :=
              { sampleWindow.thread.eventQueue with
                events := sampleWindow.thread.eventQueue.events ++
                  [WMEvent.postJob 1 (some 9)] } } } ∧
      (sampleLoop.postJob 1 9).log = sampleLoop.log) ∧
    obscuredLoop.postJob 1 9 =
      { obscuredLoop with log := obscuredLoop.log ++ [Effect.deleteJob 9] } :=
  ⟨(postJob_bound sampleLoop 1 9).1 0 sampleWindow rfl rfl,
   (postJob_bound obscuredLoop 1 9).2 (by
      intro i w h
      have h0 : windowFor obscuredLoop.m_windows 1 =
        some (0, { sampleWindow with thread := { sampleThread with window := none } }) := rfl
      rw [h0] at h
      cases h
      rfl)⟩

/-- Counterexample to C8 as stated: window 1 is tracked and obscured; `update` called from
its render thread changes no record and the Repaint bit stays clear. -/
theorem update_on_obscured_render_thread :
    windowFor obscuredLoop.m_windows 1 =
        some (0, { sampleWindow with thread := { sampleThread with window := none } }) ∧
      (obscuredLoop.update (QThreadRef.render 7) 1).m_windows = obscuredLoop.m_windows ∧
      ∀ w ∈ (obscuredLoop.update (QThreadRef.render 7) 1).m_windows,
        w.thread.pendingUpdate &&& RepaintRequest = 0 := by
  refine ⟨rfl, rfl, ?_⟩
  have h : (obscuredLoop.update (QThreadRef.render 7) 1).m_windows = obscuredLoop.m_windows := rfl
  rw [h]
  decide

/-- After `pendingUpdate |= RepaintRequest` the Repaint bit is set. -/
theorem or_repaint_sets_bit (p : Nat) : (p ||| RepaintRequest) &&& RepaintRequest = RepaintRequest := by
  apply Nat.eq_of_testBit_eq
  intro j
  simp only [Nat.testBit_and, Nat.testBit_or]
  cases Nat.testBit RepaintRequest j <;> simp

/-- C8 (amended): `update` for a tracked window called from the render thread of that window
only runs `requestRepaint` on that thread: nothing is logged (no polish request, no
warning), the event queue, `forceRenderPass` and every other record are unchanged. The
Repaint bit is set after the call when the render thread has a bound window, and the
bitmask is unchanged when it has none. -/
theorem update_from_render_thread (rl : ThreadedRenderLoop) (window : WindowId) (i : Nat)
    (w : Window) (hfor : windowFor rl.m_windows window = some (i, w)) :
    rl.update (QThreadRef.render w.thread.id) window =
        { rl with m_windows := (rl.m_windows.set i { w with thread := w.thread.requestRepaint }) } ∧
      w.thread.requestRepaint.eventQueue = w.thread.eventQueue ∧
      (w.thread.window.isSome = true →
        w.thread.requestRepaint.pendingUpdate = w.thread.pendingUpdate ||| RepaintRequest ∧
        w.thread.requestRepaint.pendingUpdate &&& RepaintRequest = RepaintRequest) ∧
      (w.thread.window = none →
        w.thread.requestRepaint.pendingUpdate = w.thread.pendingUpdate) := by
  have hw := (windowFor_spec _ _ i w hfor).1
  refine ⟨?_, ?_, ?_, ?_⟩
  · simp [ThreadedRenderLoop.update, hfor, ThreadedRenderLoop.setThread, hw,
      ThreadedRenderLoop.setWindow]
  · cases hs : w.thread.sleeping <;> cases hb : w.thread.window <;>
      simp [RenderThread.requestRepaint, hs, hb]
  · intro hb
    have hp : w.thread.requestRepaint.pendingUpdate = w.thread.pendingUpdate ||| RepaintRequest := by
      cases hs : w.thread.sleeping <;> simp [RenderThread.requestRepaint, hs, hb]
    exact ⟨hp, by rw [hp]; exact or_repaint_sets_bit _⟩
  · intro hb
    cases hs : w.thread.sleeping <;> simp [RenderThread.requestRepaint, hs, hb]

/-- Witness of `update_from_render_thread` on `sampleLoop`. -/
theorem update_from_render_thread_witness :
    sampleLoop.update (QThreadRef.render sampleWindow.thread.id) 1 =
        { sampleLoop with m_windows :=
            (sampleLoop.m_windows.set 0
              { sampleWindow with thread := sampleWindow.thread.requestRepaint }) } ∧
      sampleWindow.thread.requestRepaint.eventQueue = sampleWindow.thread.eventQueue ∧
      (sampleWindow.thread.window.isSome = true →
        sampleWindow.thread.requestRepaint.pendingUpdate =
          sampleWindow.thread.pendingUpdate ||| RepaintRequest ∧
        sampleWindow.thread.requestRepaint.pendingUpdate &&& RepaintRequest = RepaintRequest) ∧
      (sampleWindow.thread.window = none →
        sampleWindow.thread.requestRepaint.pendingUpdate = sampleWindow.thread.pendingUpdate) :=
  update_from_render_thread sampleLoop 1 0 sampleWindow rfl

/-- In `polishAndSync`, a tracked record whose render thread has a bound window reaches the
wait: exactly one `RequestSync` with the window size, `inExpose` and the `forceRenderPass`
of the record is appended to the queue of the render thread, `forceRenderPass` and
`updateDuringSync` are cleared and `m_lockedForSync` is set. -/
theorem polishAndSync_posts (rl : ThreadedRenderLoop) (window : WindowId) (i : Nat)
    (w : Window) (inExpose : Bool)
    (hfor : windowFor rl.m_windows window = some (i, w))
    (hbound : w.thread.window.isSome = true) :
    rl.polishAndSync i inExpose = Call.waiting
      { rl with
        m_windows := (rl.m_windows.set i
          { w with updateDuringSync := false, forceRenderPass := false,
                   thread := w.thread.postEvent
                     (WMEvent.requestSync window (rl.qwindow window).size inExpose
                       w.forceRenderPass) }),
        m_lockedForSync := true,
        log := rl.log ++ [Effect.flushDelayedTouchEvent window, Effect.polishItems window,
          Effect.afterAnimating window, Effect.mutexLock w.thread.id] } := by
  obtain ⟨hw, hwin⟩ := windowFor_spec _ _ i w hfor
  have hne : w.thread.window.isNone = false := by
    cases hb : w.thread.window <;> simp [hb] at hbound ⊢
  simp only [ThreadedRenderLoop.polishAndSync, hw, hne, hwin, ThreadedRenderLoop.emit, hfor]
  simp [ThreadedRenderLoop.setWindow]

/-- The part of `polishAndSync` after the wait changes no record and no window object. -/
theorem polishAndSyncResume_frame (rl : ThreadedRenderLoop) (j : Nat) :
    (rl.polishAndSyncResume j).m_windows = rl.m_windows ∧
      (rl.polishAndSyncResume j).qwindow = rl.qwindow := by
  unfold ThreadedRenderLoop.polishAndSyncResume
  cases hw : rl.m_windows[j]? with
  | none => exact ⟨rfl, rfl⟩
  | some w =>
    simp only []
    constructor <;> (repeat' split) <;> rfl

/-- Counterexample to C10 as stated: window 1 is tracked, its render thread runs and the
caller is the GUI thread, but `QCoreApplication::instance()` is null: nothing is requested. -/
theorem maybeUpdate_without_instance :
    windowFor noInstanceLoop.m_windows 1 = some (0, sampleWindow) ∧
      sampleWindow.thread.isRunning = true ∧
      (noInstanceLoop.maybeUpdate QThreadRef.gui 1).log = [] ∧
      (noInstanceLoop.maybeUpdate QThreadRef.gui 1).m_windows = noInstanceLoop.m_windows := by
  refine ⟨rfl, rfl, rfl, rfl⟩

/-- While the application object exists, `maybeUpdate` for a tracked window with a running
render thread warns and drops the request exactly for a caller that is neither the GUI
thread nor the render thread of the window during a rendezvous. -/
theorem maybeUpdate_with_instance (rl : ThreadedRenderLoop) (window : WindowId) (i : Nat)
    (w : Window) (current : QThreadRef)
    (hinst : rl.hasInstance = true)
    (hfor : windowFor rl.m_windows window = some (i, w))
    (hrun : w.thread.isRunning = true) :
    (rl.maybeUpdate current window = { rl with log := rl.log ++ [Effect.warning] } ↔
      (current ≠ QThreadRef.gui ∧
        ¬ (current = QThreadRef.render w.thread.id ∧ rl.m_lockedForSync = true))) ∧
    (current = QThreadRef.gui →
      rl.maybeUpdate current window =
        { rl with log := rl.log ++ [Effect.requestUpdate window] }) ∧
    (current = QThreadRef.render w.thread.id ∧ rl.m_lockedForSync = true →
      rl.maybeUpdate current window =
        { rl with m_windows := (rl.m_windows.set i { w with updateDuringSync := true }) }) := by
  obtain ⟨hw, hwin⟩ := windowFor_spec _ _ i w hfor
  have hgui : rl.maybeUpdate QThreadRef.gui window =
      { rl with log := rl.log ++ [Effect.requestUpdate window] } := by
    simp [ThreadedRenderLoop.maybeUpdate, hfor, ThreadedRenderLoop.maybeUpdateW, hinst, hw,
      hrun, ThreadedRenderLoop.maybePostPolishRequest, ThreadedRenderLoop.emit, hwin]
  have hrender : rl.m_lockedForSync = true →
      rl.maybeUpdate (QThreadRef.render w.thread.id) window =
        { rl with m_windows := (rl.m_windows.set i { w with updateDuringSync := true }) } := by
    intro hl
    simp [ThreadedRenderLoop.maybeUpdate, hfor, ThreadedRenderLoop.maybeUpdateW, hinst, hw,
      hrun, hl, ThreadedRenderLoop.setWindow]
  have hrej : (current ≠ QThreadRef.gui ∧
      ¬ (current = QThreadRef.render w.thread.id ∧ rl.m_lockedForSync = true)) →
      rl.maybeUpdate current window = { rl with log := rl.log ++ [Effect.warning] } := by
    intro ⟨h1, h2⟩
    have h3 : current ≠ QThreadRef.render w.thread.id ∨ rl.m_lockedForSync = false := by
      by_cases hc : current = QThreadRef.render w.thread.id
      · right
        cases hl : rl.m_lockedForSync
        · rfl
        · exact absurd ⟨hc, hl⟩ h2
      · left; exact hc
    simp [ThreadedRenderLoop.maybeUpdate, hfor, ThreadedRenderLoop.maybeUpdateW, hinst, hw,
      hrun, h1, h3, ThreadedRenderLoop.emit]
  refine ⟨⟨?_, hrej⟩, ?_, ?_⟩
  · intro heq
    by_cases hg : current = QThreadRef.gui
    · subst hg
      rw [hgui] at heq
      have := congrArg ThreadedRenderLoop.log heq
      simp at this
    · refine ⟨hg, ?_⟩
      rintro ⟨hc, hl⟩
      subst hc
      rw [hrender hl] at heq
      have := congrArg ThreadedRenderLoop.log heq
      simp at this
  · intro hg; subst hg; exact hgui
  · rintro ⟨hc, hl⟩; subst hc; exact hrender hl

/-- C10 (amended): for a tracked window whose render thread is running, and while the
application object exists, `maybeUpdate` is rejected (a warning, nothing else) if and only
if the caller is neither the GUI thread nor the render thread of the window while
`m_lockedForSync` is set. From the GUI thread it posts an update request for the window;
from the render thread during a rendezvous it sets `updateDuringSync`. With no application
object it returns at once and changes nothing, for every caller. -/
theorem maybeUpdate_rejects (rl : ThreadedRenderLoop) (window : WindowId) (i : Nat)
    (w : Window) (current : QThreadRef)
    (hfor : windowFor rl.m_windows window = some (i, w))
    (hrun : w.thread.isRunning = true) :
    (rl.hasInstance = false → rl.maybeUpdate current window = rl) ∧
    (rl.hasInstance = true →
      (rl.maybeUpdate current window = { rl with log := rl.log ++ [Effect.warning] } ↔
        (current ≠ QThreadRef.gui ∧
          ¬ (current = QThreadRef.render w.thread.id ∧ rl.m_lockedForSync = true))) ∧
      (current = QThreadRef.gui →
        rl.maybeUpdate current window =
          { rl with log := rl.log ++ [Effect.requestUpdate window] }) ∧
      (current = QThreadRef.render w.thread.id ∧ rl.m_lockedForSync = true →
        rl.maybeUpdate current window =
          { rl with m_windows := (rl.m_windows.set i { w with updateDuringSync := true }) })) := by
  constructor
  · intro h
    simp [ThreadedRenderLoop.maybeUpdate, hfor, ThreadedRenderLoop.maybeUpdateW, h]
  · intro h
    exact maybeUpdate_with_instance rl window i w current h hfor hrun

/-- Witness of `maybeUpdate_rejects`: on `sampleLoop` a call from an unrelated thread is
rejected and a call from the GUI thread posts an update request; on `noInstanceLoop`
nothing happens. -/
theorem maybeUpdate_rejects_witness :
    sampleLoop.maybeUpdate (QThreadRef.other 3) 1 =
        { sampleLoop with log := sampleLoop.log ++ [Effect.warning] } ∧
      sampleLoop.maybeUpdate QThreadRef.gui 1 =
        { sampleLoop with log := sampleLoop.log ++ [Effect.requestUpdate 1] } ∧
      noInstanceLoop.maybeUpdate QThreadRef.gui 1 = noInstanceLoop :=
  ⟨((maybeUpdate_rejects sampleLoop 1 0 sampleWindow (QThreadRef.other 3) rfl rfl).2 rfl).1.2
      ⟨by decide, by decide⟩,
   ((maybeUpdate_rejects sampleLoop 1 0 sampleWindow QThreadRef.gui rfl rfl).2 rfl).2.1 rfl,
   (maybeUpdate_rejects noInstanceLoop 1 0 sampleWindow QThreadRef.gui rfl rfl).1 rfl⟩


/-! ## Properties of the event handlers of the render thread -/

/-- Bits that are pending stay pending when further bits are ORed in. -/
theorem or_keeps_bits (p a : Nat) : (p ||| a) &&& p = p := by
  apply Nat.eq_of_testBit_eq
  intro j
  simp only [Nat.testBit_and, Nat.testBit_or]
  cases Nat.testBit p j <;> simp

/-- C17: handling `WM_TryRelease` clears `active` exactly when no window is bound or the
event says `inDestructor`, and leaves `active` as it was otherwise. In both cases the handler
calls `waitCondition.wakeOne()` once, between locking and unlocking the mutex of the thread,
`m_lockedForSync` is false afterwards, and the bound window and `pendingUpdate` are
unchanged. -/
theorem tryRelease_handler (rl : ThreadedRenderLoop) (i : Nat) (w : Window) (win : WindowId)
    (inDestructor fallback : Bool) (hw : rl.m_windows[i]? = some w) :
    ∃ w1, (RenderThread.event rl i (WMEvent.tryRelease win inDestructor fallback)).1.m_windows[i]?
        = some w1 ∧
      w1.thread.active =
        (if w.thread.window = none ∨ inDestructor = true then false else w.thread.active) ∧
      w1.thread.window = w.thread.window ∧
      w1.thread.pendingUpdate = w.thread.pendingUpdate ∧
      (RenderThread.event rl i (WMEvent.tryRelease win inDestructor fallback)).1.m_lockedForSync
        = false ∧
      (RenderThread.event rl i (WMEvent.tryRelease win inDestructor fallback)).1.log =
        rl.log ++ [Effect.mutexLock w.thread.id, Effect.wakeOne w.thread.id,
          Effect.mutexUnlock w.thread.id] := by
  have hi : i < rl.m_windows.length := (List.getElem?_eq_some.1 hw).1
  cases hs : w.thread.sleeping <;> cases inDestructor <;> cases hwin : w.thread.window <;>
    simp [RenderThread.event, hw, ThreadedRenderLoop.setThread, ThreadedRenderLoop.setWindow,
      ThreadedRenderLoop.emit, hi, hs, hwin]

/-- Witness of `tryRelease_handler`: a release of the bound window of `sampleLoop` that is
not made from the destructor. -/
theorem tryRelease_handler_witness :
    ∃ w1, (RenderThread.event sampleLoop 0 (WMEvent.tryRelease 1 false false)).1.m_windows[0]?
        = some w1 ∧
      w1.thread.active =
        (if sampleWindow.thread.window = none ∨ false = true then false
          else sampleWindow.thread.active) ∧
      w1.thread.window = sampleWindow.thread.window ∧
      w1.thread.pendingUpdate = sampleWindow.thread.pendingUpdate ∧
      (RenderThread.event sampleLoop 0 (WMEvent.tryRelease 1 false false)).1.m_lockedForSync
        = false ∧
      (RenderThread.event sampleLoop 0 (WMEvent.tryRelease 1 false false)).1.log =
        sampleLoop.log ++ [Effect.mutexLock sampleWindow.thread.id,
          Effect.wakeOne sampleWindow.thread.id, Effect.mutexUnlock sampleWindow.thread.id] :=
  tryRelease_handler sampleLoop 0 sampleWindow 1 false false rfl

/-- C18: handling `WM_RequestSync` stores the window and the size of the event in the render
thread and ORs into `pendingUpdate` the Sync bit, the Expose bits when `syncInExpose` is set
and the Repaint bit when `forceRenderPass` is set. The Expose bits contain the Sync and the
Repaint bit. Every bit that was pending before is pending after, `active` is unchanged, and
the handler takes no lock, wakes nobody and makes no outside call: the log and
`m_lockedForSync` are as before. -/
theorem requestSync_handler (rl : ThreadedRenderLoop) (i : Nat) (w : Window) (win : WindowId)
    (size : QSize) (inExpose force : Bool) (hw : rl.m_windows[i]? = some w) :
    ∃ w1, (RenderThread.event rl i (WMEvent.requestSync win size inExpose force)).1.m_windows[i]?
        = some w1 ∧
      w1.thread.window = some win ∧
      w1.thread.windowSize = size ∧
      w1.thread.pendingUpdate =
        ((w.thread.pendingUpdate ||| SyncRequest) ||| (if inExpose then ExposeRequest else 0))
          ||| (if force then RepaintRequest else 0) ∧
      w1.thread.pendingUpdate &&& w.thread.pendingUpdate = w.thread.pendingUpdate ∧
      ExposeRequest &&& SyncRequest = SyncRequest ∧
      ExposeRequest &&& RepaintRequest = RepaintRequest ∧
      w1.thread.active = w.thread.active ∧
      (RenderThread.event rl i (WMEvent.requestSync win size inExpose force)).1.log = rl.log ∧
      (RenderThread.event rl i (WMEvent.requestSync win size inExpose force)).1.m_lockedForSync
        = rl.m_lockedForSync := by
  have hi : i < rl.m_windows.length := (List.getElem?_eq_some.1 hw).1
  have hbits : ∀ a b c : Nat,
      (((w.thread.pendingUpdate ||| a) ||| b) ||| c) &&& w.thread.pendingUpdate
        = w.thread.pendingUpdate := by
    intro a b c
    rw [Nat.lor_assoc, Nat.lor_assoc]
    exact or_keeps_bits _ _
  cases hs : w.thread.sleeping <;> cases inExpose <;> cases force <;>
    simp [RenderThread.event, hw, ThreadedRenderLoop.setThread, ThreadedRenderLoop.setWindow,
      hi, hs] <;>
    first
      | exact ⟨by simpa using hbits SyncRequest 0 0, by decide, by decide⟩
      | exact ⟨by simpa using hbits SyncRequest 0 RepaintRequest, by decide, by decide⟩
      | exact ⟨by simpa using hbits SyncRequest ExposeRequest 0, by decide, by decide⟩
      | exact ⟨by simpa using hbits SyncRequest ExposeRequest RepaintRequest, by decide, by decide⟩

/-- Witness of `requestSync_handler`: a sync request in expose for window 1 of `sampleLoop`. -/
theorem requestSync_handler_witness :
    ∃ w1, (RenderThread.event sampleLoop 0
          (WMEvent.requestSync 1 { width := 640, height := 480 } true false)).1.m_windows[0]?
        = some w1 ∧
      w1.thread.window = some 1 ∧
      w1.thread.windowSize = { width := 640, height := 480 } ∧
      w1.thread.pendingUpdate =
        ((sampleWindow.thread.pendingUpdate ||| SyncRequest) |||
            (if true = true then ExposeRequest else 0))
          ||| (if false = true then RepaintRequest else 0) ∧
      w1.thread.pendingUpdate &&& sampleWindow.thread.pendingUpdate
        = sampleWindow.thread.pendingUpdate ∧
      ExposeRequest &&& SyncRequest = SyncRequest ∧
      ExposeRequest &&& RepaintRequest = RepaintRequest ∧
      w1.thread.active = sampleWindow.thread.active ∧
      (RenderThread.event sampleLoop 0
        (WMEvent.requestSync 1 { width := 640, height := 480 } true false)).1.log
        = sampleLoop.log ∧
      (RenderThread.event sampleLoop 0
        (WMEvent.requestSync 1 { width := 640, height := 480 } true false)).1.m_lockedForSync
        = sampleLoop.m_lockedForSync :=
  requestSync_handler sampleLoop 0 sampleWindow 1 { width := 640, height := 480 } true false rfl

/-- C19: handling `WM_Grab` on a render thread with a bound window locks the mutex, calls
`syncSceneGraph`, then `renderSceneGraph` with the stored `windowSize`, then reads the
backing store with `toImage` and stores that image in the result of `grab`, and then calls
`wakeOne` once and unlocks. With no bound window it makes neither call and leaves the result as it was; it
still calls `wakeOne` once. No record changes in either case. -/
theorem grab_handler (rl : ThreadedRenderLoop) (i : Nat) (w : Window) (win : WindowId)
    (hw : rl.m_windows[i]? = some w) :
    (∀ bound, w.thread.window = some bound →
      (RenderThread.event rl i (WMEvent.grab win)).1.log =
        rl.log ++ [Effect.mutexLock w.thread.id, Effect.syncSceneGraph bound,
          Effect.renderSceneGraph bound w.thread.windowSize, Effect.toImage bound,
          Effect.wakeOne w.thread.id, Effect.mutexUnlock w.thread.id] ∧
      (RenderThread.event rl i (WMEvent.grab win)).1.grabResult =
        QImage.frame bound w.thread.windowSize) ∧
    (w.thread.window = none →
      (RenderThread.event rl i (WMEvent.grab win)).1.log =
        rl.log ++ [Effect.mutexLock w.thread.id, Effect.wakeOne w.thread.id,
          Effect.mutexUnlock w.thread.id] ∧
      (RenderThread.event rl i (WMEvent.grab win)).1.grabResult = rl.grabResult) ∧
    (RenderThread.event rl i (WMEvent.grab win)).1.m_windows = rl.m_windows := by
  refine ⟨?_, ?_, ?_⟩
  · intro bound hb
    simp [RenderThread.event, hw, hb, ThreadedRenderLoop.emit, ThreadedRenderLoop.syncSceneGraph]
  · intro hb
    simp [RenderThread.event, hw, hb, ThreadedRenderLoop.emit]
  · cases hb : w.thread.window <;>
      simp [RenderThread.event, hw, hb, ThreadedRenderLoop.emit,
        ThreadedRenderLoop.syncSceneGraph]

/-- Witness of `grab_handler` on `sampleLoop`, whose render thread is bound to window 1. -/
theorem grab_handler_witness :
    (∀ bound, sampleWindow.thread.window = some bound →
      (RenderThread.event sampleLoop 0 (WMEvent.grab 1)).1.log =
        sampleLoop.log ++ [Effect.mutexLock sampleWindow.thread.id, Effect.syncSceneGraph bound,
          Effect.renderSceneGraph bound sampleWindow.thread.windowSize, Effect.toImage bound,
          Effect.wakeOne sampleWindow.thread.id, Effect.mutexUnlock sampleWindow.thread.id] ∧
      (RenderThread.event sampleLoop 0 (WMEvent.grab 1)).1.grabResult =
        QImage.frame bound sampleWindow.thread.windowSize) ∧
    (sampleWindow.thread.window = none →
      (RenderThread.event sampleLoop 0 (WMEvent.grab 1)).1.log =
        sampleLoop.log ++ [Effect.mutexLock sampleWindow.thread.id,
          Effect.wakeOne sampleWindow.thread.id, Effect.mutexUnlock sampleWindow.thread.id] ∧
      (RenderThread.event sampleLoop 0 (WMEvent.grab 1)).1.grabResult = sampleLoop.grabResult) ∧
    (RenderThread.event sampleLoop 0 (WMEvent.grab 1)).1.m_windows = sampleLoop.m_windows :=
  grab_handler sampleLoop 0 sampleWindow 1 rfl

/-- C20: handling `WM_PostJob` for a non-null job and then deleting the event, as both event
loops do. With a bound window the handler runs the job once, deletes it and nulls the
pointer of the event, so the destructor of the event deletes nothing. With no bound window
the handler does nothing and the destructor of the event deletes the job, which is never
run. In both cases the job is deleted exactly once and nothing but the log changes. -/
theorem postJob_handler (rl : ThreadedRenderLoop) (i : Nat) (w : Window) (win : WindowId)
    (j : JobId) (hw : rl.m_windows[i]? = some w) :
    (w.thread.window.isSome = true →
      RenderThread.event rl i (WMEvent.postJob win (some j)) =
        ({ rl with log := rl.log ++ [Effect.runJob j, Effect.deleteJob j] },
          WMEvent.postJob win none) ∧
      dispatch rl i (WMEvent.postJob win (some j)) =
        { rl with log := rl.log ++ [Effect.runJob j, Effect.deleteJob j] }) ∧
    (w.thread.window = none →
      RenderThread.event rl i (WMEvent.postJob win (some j)) =
        (rl, WMEvent.postJob win (some j)) ∧
      dispatch rl i (WMEvent.postJob win (some j)) =
        { rl with log := rl.log ++ [Effect.deleteJob j] }) ∧
    ((dispatch rl i (WMEvent.postJob win (some j))).log.count (Effect.deleteJob j) =
      rl.log.count (Effect.deleteJob j) + 1) ∧
    ((dispatch rl i (WMEvent.postJob win (some j))).log.count (Effect.runJob j) =
      rl.log.count (Effect.runJob j) + (if w.thread.window.isSome then 1 else 0)) := by
  cases hb : w.thread.window <;>
    simp [dispatch, RenderThread.event, hw, hb, deleteEvent, ThreadedRenderLoop.emit,
      List.count_append]

/-- Witness of `postJob_handler` on `sampleLoop`, whose render thread is bound to window 1. -/
theorem postJob_handler_witness :
    (sampleWindow.thread.window.isSome = true →
      RenderThread.event sampleLoop 0 (WMEvent.postJob 1 (some 9)) =
        ({ sampleLoop with log := sampleLoop.log ++ [Effect.runJob 9, Effect.deleteJob 9] },
          WMEvent.postJob 1 none) ∧
      dispatch sampleLoop 0 (WMEvent.postJob 1 (some 9)) =
        { sampleLoop with log := sampleLoop.log ++ [Effect.runJob 9, Effect.deleteJob 9] }) ∧
    (sampleWindow.thread.window = none →
      RenderThread.event sampleLoop 0 (WMEvent.postJob 1 (some 9)) =
        (sampleLoop, WMEvent.postJob 1 (some 9)) ∧
      dispatch sampleLoop 0 (WMEvent.postJob 1 (some 9)) =
        { sampleLoop with log := sampleLoop.log ++ [Effect.deleteJob 9] }) ∧
    ((dispatch sampleLoop 0 (WMEvent.postJob 1 (some 9))).log.count (Effect.deleteJob 9) =
      sampleLoop.log.count (Effect.deleteJob 9) + 1) ∧
    ((dispatch sampleLoop 0 (WMEvent.postJob 1 (some 9))).log.count (Effect.runJob 9) =
      sampleLoop.log.count (Effect.runJob 9) +
        (if sampleWindow.thread.window.isSome then 1 else 0)) :=
  postJob_handler sampleLoop 0 sampleWindow 1 9 rfl

/-- C16: the part of `polishAndSync` after the wait. It unlocks the mutex and clears
`m_lockedForSync`. When no animation timer is active and the animation driver is running it
advances the driver once, asks once for another polish-and-sync of the window
(`requestUpdate`) and emits `timeToIncubate` once. Otherwise it advances nothing and emits
nothing, and asks for another polish-and-sync once exactly when `updateDuringSync` of the
record is set. No record changes. -/
theorem polishAndSync_after_wait (rl : ThreadedRenderLoop) (j : Nat) (w : Window)
    (hw : rl.m_windows[j]? = some w) :
    (rl.polishAndSyncResume j).log =
      rl.log ++ [Effect.mutexUnlock w.thread.id] ++
        (if rl.m_animation_timer = 0 ∧ rl.animationRunning = true then
          [Effect.advance, Effect.requestUpdate w.window, Effect.timeToIncubate]
        else if w.updateDuringSync = true then [Effect.requestUpdate w.window]
        else []) ∧
    ((rl.polishAndSyncResume j).log.count Effect.advance =
      rl.log.count Effect.advance +
        (if rl.m_animation_timer = 0 ∧ rl.animationRunning = true then 1 else 0)) ∧
    ((rl.polishAndSyncResume j).log.count Effect.timeToIncubate =
      rl.log.count Effect.timeToIncubate +
        (if rl.m_animation_timer = 0 ∧ rl.animationRunning = true then 1 else 0)) ∧
    ((rl.polishAndSyncResume j).log.count (Effect.requestUpdate w.window) =
      rl.log.count (Effect.requestUpdate w.window) +
        (if (rl.m_animation_timer = 0 ∧ rl.animationRunning = true) ∨ w.updateDuringSync = true
          then 1 else 0)) ∧
    (rl.polishAndSyncResume j).m_windows = rl.m_windows ∧
    (rl.polishAndSyncResume j).m_lockedForSync = false := by
  by_cases hc : rl.m_animation_timer = 0 ∧ rl.animationRunning = true
  · simp [ThreadedRenderLoop.polishAndSyncResume, hw, ThreadedRenderLoop.emit,
      ThreadedRenderLoop.maybePostPolishRequest, hc, List.count_append]
  · cases hu : w.updateDuringSync <;>
      simp [ThreadedRenderLoop.polishAndSyncResume, hw, ThreadedRenderLoop.emit,
        ThreadedRenderLoop.maybePostPolishRequest, hc, hu, List.count_append]

/-- Witness of `polishAndSync_after_wait` on `sampleLoop`: no timer, driver stopped,
`updateDuringSync` clear, so only the mutex is unlocked. -/
theorem polishAndSync_after_wait_witness :
    (sampleLoop.polishAndSyncResume 0).log =
      sampleLoop.log ++ [Effect.mutexUnlock sampleWindow.thread.id] ++
        (if sampleLoop.m_animation_timer = 0 ∧ sampleLoop.animationRunning = true then
          [Effect.advance, Effect.requestUpdate sampleWindow.window, Effect.timeToIncubate]
        else if sampleWindow.updateDuringSync = true then
          [Effect.requestUpdate sampleWindow.window]
        else []) ∧
    ((sampleLoop.polishAndSyncResume 0).log.count Effect.advance =
      sampleLoop.log.count Effect.advance +
        (if sampleLoop.m_animation_timer = 0 ∧ sampleLoop.animationRunning = true
          then 1 else 0)) ∧
    ((sampleLoop.polishAndSyncResume 0).log.count Effect.timeToIncubate =
      sampleLoop.log.count Effect.timeToIncubate +
        (if sampleLoop.m_animation_timer = 0 ∧ sampleLoop.animationRunning = true
          then 1 else 0)) ∧
    ((sampleLoop.polishAndSyncResume 0).log.count (Effect.requestUpdate sampleWindow.window) =
      sampleLoop.log.count (Effect.requestUpdate sampleWindow.window) +
        (if (sampleLoop.m_animation_timer = 0 ∧ sampleLoop.animationRunning = true) ∨
            sampleWindow.updateDuringSync = true
          then 1 else 0)) ∧
    (sampleLoop.polishAndSyncResume 0).m_windows = sampleLoop.m_windows ∧
    (sampleLoop.polishAndSyncResume 0).m_lockedForSync = false :=
  polishAndSync_after_wait sampleLoop 0 sampleWindow rfl




/-! ## Frame conditions of the render thread and of the GUI-side calls -/

/-- A state touches nothing relative to itself. -/
theorem TouchesOnly.refl (i : Nat) (rl : ThreadedRenderLoop) : TouchesOnly i rl rl :=
  ⟨rfl, fun _ _ => rfl, fun w hw => ⟨w, hw, rfl, rfl⟩⟩

/-- The frame condition composes. -/
theorem TouchesOnly.trans {i : Nat} {a b c : ThreadedRenderLoop}
    (h1 : TouchesOnly i a b) (h2 : TouchesOnly i b c) : TouchesOnly i a c := by
  refine ⟨h2.length.trans h1.length, fun k hk => (h2.others k hk).trans (h1.others k hk), ?_⟩
  intro w hw
  obtain ⟨w1, hw1, hwin1, hid1⟩ := h1.same w hw
  obtain ⟨w2, hw2, hwin2, hid2⟩ := h2.same w1 hw1
  exact ⟨w2, hw2, hwin2.trans hwin1, hid2.trans hid1⟩

/-- A step that leaves the record list as it is keeps the frame condition. -/
theorem TouchesOnly.of_eq {i : Nat} {a b : ThreadedRenderLoop}
    (h : b.m_windows = a.m_windows) : TouchesOnly i a b := by
  refine ⟨by rw [h], fun k _ => by rw [h], fun w hw => ⟨w, by rw [h]; exact hw, rfl, rfl⟩⟩

/-- A write through `w->thread` that keeps the identity of the thread keeps the frame
condition. -/
theorem TouchesOnly.setThread (i : Nat) (rl : ThreadedRenderLoop) (t : RenderThread)
    (ht : ∀ w, rl.m_windows[i]? = some w → t.id = w.thread.id) :
    TouchesOnly i rl (rl.setThread i t) := by
  cases hw : rl.m_windows[i]? with
  | none =>
    have : rl.setThread i t = rl := by simp [ThreadedRenderLoop.setThread, hw]
    rw [this]; exact TouchesOnly.refl i rl
  | some w =>
    have hi : i < rl.m_windows.length := (List.getElem?_eq_some.1 hw).1
    refine ⟨?_, ?_, ?_⟩
    · simp [ThreadedRenderLoop.setThread, hw, ThreadedRenderLoop.setWindow]
    · intro k hk
      simp [ThreadedRenderLoop.setThread, hw, ThreadedRenderLoop.setWindow,
        List.getElem?_set, Ne.symm hk]
    · intro w0 hw0
      refine ⟨{ w0 with thread := t }, ?_, rfl, ht w0 hw0⟩
      simp [ThreadedRenderLoop.setThread, hw0, ThreadedRenderLoop.setWindow, hi]

/-- A write through a `Window *` that keeps the window and the identity of the thread keeps
the frame condition. -/
theorem TouchesOnly.setWindow (i : Nat) (rl : ThreadedRenderLoop) (v : Window)
    (hv : ∀ w, rl.m_windows[i]? = some w → v.window = w.window ∧ v.thread.id = w.thread.id) :
    TouchesOnly i rl (rl.setWindow i v) := by
  refine ⟨?_, ?_, ?_⟩
  · simp [ThreadedRenderLoop.setWindow]
  · intro k hk
    simp [ThreadedRenderLoop.setWindow, List.getElem?_set, Ne.symm hk]
  · intro w hw
    have hi : i < rl.m_windows.length := (List.getElem?_eq_some.1 hw).1
    exact ⟨v, by simp [ThreadedRenderLoop.setWindow, hi], (hv w hw).1, (hv w hw).2⟩

/-- Handling an event touches only the record of the handling thread. -/
theorem event_touches (rl : ThreadedRenderLoop) (i : Nat) (e : WMEvent) :
    TouchesOnly i rl (RenderThread.event rl i e).1 := by
  cases hw : rl.m_windows[i]? with
  | none => simp only [RenderThread.event, hw]; exact TouchesOnly.refl i rl
  | some w =>
    have hi : i < rl.m_windows.length := (List.getElem?_eq_some.1 hw).1
    refine ⟨?_, ?_, ?_⟩
    · have := dispatch_length rl i e
      cases e with
      | obscure win =>
        cases hwin : w.thread.window <;>
        simp [RenderThread.event, hw, ThreadedRenderLoop.setThread,
          ThreadedRenderLoop.setWindow, ThreadedRenderLoop.emit, hwin]
      | requestSync win size ex force =>
        simp [RenderThread.event, hw, ThreadedRenderLoop.setThread,
          ThreadedRenderLoop.setWindow, ThreadedRenderLoop.emit]
      | requestRepaint win =>
        simp [RenderThread.event, hw, ThreadedRenderLoop.setThread,
          ThreadedRenderLoop.setWindow, ThreadedRenderLoop.emit]
      | tryRelease win d f =>
        cases d <;> cases hwin : w.thread.window <;>
        simp [RenderThread.event, hw, ThreadedRenderLoop.setThread,
          ThreadedRenderLoop.setWindow, ThreadedRenderLoop.emit, hwin]
      | grab win =>
        cases hwin : w.thread.window <;>
        simp [RenderThread.event, hw, ThreadedRenderLoop.syncSceneGraph,
          ThreadedRenderLoop.setThread, ThreadedRenderLoop.setWindow, ThreadedRenderLoop.emit,
          hwin]
      | postJob win job =>
        cases job <;> cases hwin : w.thread.window <;>
        simp [RenderThread.event, hw, ThreadedRenderLoop.setThread,
          ThreadedRenderLoop.setWindow, ThreadedRenderLoop.emit, hwin]
    · intro k hk
      have hk2 : ¬ i = k := fun h => hk h.symm
      cases e with
      | obscure win =>
        cases hwin : w.thread.window <;>
        simp [RenderThread.event, hw, ThreadedRenderLoop.setThread,
          ThreadedRenderLoop.setWindow, ThreadedRenderLoop.emit, hwin, List.getElem?_set, hk2]
      | requestSync win size ex force =>
        simp [RenderThread.event, hw, ThreadedRenderLoop.setThread,
          ThreadedRenderLoop.setWindow, ThreadedRenderLoop.emit, List.getElem?_set, hk2]
      | requestRepaint win =>
        simp [RenderThread.event, hw, ThreadedRenderLoop.setThread,
          ThreadedRenderLoop.setWindow, ThreadedRenderLoop.emit, List.getElem?_set, hk2]
      | tryRelease win d f =>
        cases d <;> cases hwin : w.thread.window <;>
        simp [RenderThread.event, hw, ThreadedRenderLoop.setThread,
          ThreadedRenderLoop.setWindow, ThreadedRenderLoop.emit, hwin, List.getElem?_set, hk2]
      | grab win =>
        cases hwin : w.thread.window <;>
        simp [RenderThread.event, hw, ThreadedRenderLoop.syncSceneGraph,
          ThreadedRenderLoop.setThread, ThreadedRenderLoop.setWindow, ThreadedRenderLoop.emit,
          hwin]
      | postJob win job =>
        cases job <;> cases hwin : w.thread.window <;>
        simp [RenderThread.event, hw, ThreadedRenderLoop.setThread,
          ThreadedRenderLoop.setWindow, ThreadedRenderLoop.emit, hwin]
    · intro w0 hw0
      rw [hw] at hw0
      cases hw0
      cases e with
      | obscure win =>
        cases hwin : w.thread.window <;>
        simp [RenderThread.event, hw, ThreadedRenderLoop.setThread,
          ThreadedRenderLoop.setWindow, ThreadedRenderLoop.emit, hwin, hi]
      | requestSync win size ex force =>
        cases hs : w.thread.sleeping <;> cases ex <;> cases force <;>
        simp [RenderThread.event, hw, ThreadedRenderLoop.setThread,
          ThreadedRenderLoop.setWindow, ThreadedRenderLoop.emit, hi, hs]
      | requestRepaint win =>
        simp [RenderThread.event, hw, ThreadedRenderLoop.setThread,
          ThreadedRenderLoop.setWindow, ThreadedRenderLoop.emit, hi]
      | tryRelease win d f =>
        cases hs : w.thread.sleeping <;> cases d <;> cases hwin : w.thread.window <;>
        simp [RenderThread.event, hw, ThreadedRenderLoop.setThread,
          ThreadedRenderLoop.setWindow, ThreadedRenderLoop.emit, hwin, hi, hs]
      | grab win =>
        cases hwin : w.thread.window <;>
        simp [RenderThread.event, hw, ThreadedRenderLoop.syncSceneGraph,
          ThreadedRenderLoop.setThread, ThreadedRenderLoop.setWindow, ThreadedRenderLoop.emit,
          hwin]
      | postJob win job =>
        cases job <;> cases hwin : w.thread.window <;>
        simp [RenderThread.event, hw, ThreadedRenderLoop.setThread,
          ThreadedRenderLoop.setWindow, ThreadedRenderLoop.emit, hwin]

/-- Handling an event and deleting it touches only the record of the handling thread. -/
theorem dispatch_touches (rl : ThreadedRenderLoop) (i : Nat) (e : WMEvent) :
    TouchesOnly i rl (dispatch rl i e) := by
  refine TouchesOnly.trans (event_touches rl i e) (TouchesOnly.of_eq ?_)
  unfold dispatch deleteEvent
  split <;> rfl

/-- An outside call after a step keeps the frame condition of the step. -/
theorem TouchesOnly.emit {i : Nat} {a b : ThreadedRenderLoop} (h : TouchesOnly i a b)
    (e : Effect) : TouchesOnly i a (b.emit e) :=
  h.trans (TouchesOnly.of_eq rfl)

/-- A call of `syncSceneGraph` after a step keeps the frame condition of the step. -/
theorem TouchesOnly.syncSceneGraph {i : Nat} {a b : ThreadedRenderLoop}
    (h : TouchesOnly i a b) (window : WindowId) : TouchesOnly i a (b.syncSceneGraph window) :=
  h.trans (TouchesOnly.of_eq rfl)

/-- A call of `create` after a step keeps the frame condition of the step. -/
theorem TouchesOnly.createWindow {i : Nat} {a b : ThreadedRenderLoop}
    (h : TouchesOnly i a b) (window : WindowId) : TouchesOnly i a (b.createWindow window) :=
  h.trans (TouchesOnly.of_eq rfl)

/-- A write through `w->thread` after a step keeps the frame condition of the step when it
keeps the identity of the thread. -/
theorem TouchesOnly.setThread_of {i : Nat} {a b : ThreadedRenderLoop}
    (h : TouchesOnly i a b) (w : Window) (hw : a.m_windows[i]? = some w) (t : RenderThread)
    (ht : t.id = w.thread.id) : TouchesOnly i a (b.setThread i t) := by
  refine h.trans (TouchesOnly.setThread i b t ?_)
  intro w1 hw1
  obtain ⟨w2, h2, _, hid⟩ := h.same w hw
  rw [hw1] at h2
  cases h2
  rw [ht, hid]

/-- A write through a `Window *` after a step keeps the frame condition of the step when it
keeps the window and the identity of the thread. -/
theorem TouchesOnly.setWindow_of {i : Nat} {a b : ThreadedRenderLoop}
    (h : TouchesOnly i a b) (w : Window) (hw : a.m_windows[i]? = some w) (v : Window)
    (hv : v.window = w.window ∧ v.thread.id = w.thread.id) :
    TouchesOnly i a (b.setWindow i v) := by
  refine h.trans (TouchesOnly.setWindow i b v ?_)
  intro w1 hw1
  obtain ⟨w2, h2, hwin, hid⟩ := h.same w hw
  rw [hw1] at h2
  cases h2
  exact ⟨hv.1.trans hwin.symm, hv.2.trans hid.symm⟩

/-- The loop of `processEvents` touches only the record of the thread. -/
theorem processEventsLoop_touches : ∀ (fuel : Nat) (rl : ThreadedRenderLoop) (i : Nat)
    (rl1 : ThreadedRenderLoop), processEventsLoop fuel rl i = some rl1 →
    TouchesOnly i rl rl1 := by
  intro fuel
  induction fuel with
  | zero => intro rl i rl1 h; simp [processEventsLoop] at h
  | succ n ih =>
    intro rl i rl1 h
    cases hw : rl.m_windows[i]? with
    | none => simp [processEventsLoop, hw] at h
    | some w =>
      simp only [processEventsLoop, hw] at h
      split at h
      · split at h
        · rename_i e q _
          have h1 := ih _ i rl1 h
          refine TouchesOnly.trans (TouchesOnly.trans
            (TouchesOnly.setThread_of (TouchesOnly.refl i rl) w hw _ ?_)
            (dispatch_touches _ i e)) h1
          rfl
        · cases h
        · cases h
      · cases h
        exact TouchesOnly.refl i rl

/-- The member `processEvents` touches only the record of the thread. -/
theorem processEvents_touches (rl : ThreadedRenderLoop) (i : Nat) (rl1 : ThreadedRenderLoop)
    (h : RenderThread.processEvents rl i = some rl1) : TouchesOnly i rl rl1 := by
  cases hw : rl.m_windows[i]? with
  | none => simp [RenderThread.processEvents, hw] at h
  | some w =>
    simp only [RenderThread.processEvents, hw] at h
    exact processEventsLoop_touches _ rl i rl1 h

/-- The block of `sync` under `if (current)` keeps the frame condition of the step before
it. -/
theorem TouchesOnly.syncCurrent {i : Nat} {a b : ThreadedRenderLoop} (h : TouchesOnly i a b)
    (w : Window) (hw : a.m_windows[i]? = some w) (t : RenderThread) (ht : t.id = w.thread.id)
    (win : WindowId) : TouchesOnly i a (RenderThread.syncCurrent b i t win) := by
  unfold RenderThread.syncCurrent
  simp only []
  repeat' split
  all_goals
    repeat (first
      | exact h
      | exact ht
      | apply TouchesOnly.emit
      | apply TouchesOnly.syncSceneGraph
      | apply TouchesOnly.setThread_of _ w hw)

/-- The end of `sync` keeps the frame condition of the step before it. -/
theorem TouchesOnly.syncWake {i : Nat} {a b : ThreadedRenderLoop} (h : TouchesOnly i a b)
    (id : Nat) (inExpose : Bool) : TouchesOnly i a (RenderThread.syncWake b id inExpose) := by
  unfold RenderThread.syncWake
  split
  · exact h
  · exact (h.emit _).emit _

/-- The member `sync` touches only the record of the thread. -/
theorem sync_touches (rl : ThreadedRenderLoop) (i : Nat) (inExpose : Bool)
    (rl1 : ThreadedRenderLoop) (h : RenderThread.sync rl i inExpose = some rl1) :
    TouchesOnly i rl rl1 := by
  cases hw : rl.m_windows[i]? with
  | none => simp [RenderThread.sync, hw] at h
  | some w =>
    simp only [RenderThread.sync, hw] at h
    split at h
    · split at h
      · cases h
      · cases h
        exact (((TouchesOnly.refl i rl).emit _).syncCurrent w hw _ rfl _).syncWake _ _
    · cases h
      exact ((TouchesOnly.refl i rl).emit _).syncWake _ _

/-- The rendering part of `syncAndRender` keeps the frame condition of the step before
it. -/
theorem TouchesOnly.renderFrame {i : Nat} {a b : ThreadedRenderLoop} (h : TouchesOnly i a b)
    (t : RenderThread) (win : WindowId) (exposeRequested : Bool) :
    TouchesOnly i a (RenderThread.renderFrame b t win exposeRequested) := by
  unfold RenderThread.renderFrame
  simp only []
  repeat' split
  all_goals
    repeat (first
      | exact h
      | apply TouchesOnly.emit)

/-- The part of `syncAndRender` after `sync` touches only the record of the thread. -/
theorem afterSync_touches (rl : ThreadedRenderLoop) (i : Nat) (win : WindowId)
    (repaint expose : Bool) (rl1 : ThreadedRenderLoop)
    (h : RenderThread.afterSync rl i win repaint expose = some rl1) :
    TouchesOnly i rl rl1 := by
  cases hw : rl.m_windows[i]? with
  | none => simp [RenderThread.afterSync, hw] at h
  | some w =>
    simp only [RenderThread.afterSync, hw] at h
    split at h
    · split at h
      · cases h; exact (TouchesOnly.refl i rl).emit _
      · cases h; exact TouchesOnly.refl i rl
    · cases h; exact (TouchesOnly.refl i rl).renderFrame _ _ _

/-- The member `syncAndRender` touches only the record of the thread. -/
theorem syncAndRender_touches (rl : ThreadedRenderLoop) (i : Nat) (rl1 : ThreadedRenderLoop)
    (h : RenderThread.syncAndRender rl i = some rl1) : TouchesOnly i rl rl1 := by
  cases hw : rl.m_windows[i]? with
  | none => simp [RenderThread.syncAndRender, hw] at h
  | some w =>
    simp only [RenderThread.syncAndRender, hw] at h
    split at h
    · cases h
    · split at h
      · cases h
      · rename_i win _ rl2 h2
        have h0 : TouchesOnly i rl
            (rl.setThread i { w.thread with syncResultedInChanges := false, pendingUpdate := 0 }) :=
          (TouchesOnly.refl i rl).setThread_of w hw _ rfl
        have h1 : TouchesOnly i rl rl2 := by
          unfold RenderThread.syncIfRequested at h2
          split at h2
          · exact h0.trans (sync_touches _ i _ rl2 h2)
          · cases h2; exact h0
        exact h1.trans (afterSync_touches rl2 i _ _ _ rl1 h)

/-- The statement `if (window) ...` of `run` touches only the record of the thread. -/
theorem frame_touches (rl : ThreadedRenderLoop) (i : Nat) (rl1 : ThreadedRenderLoop)
    (h : RenderThread.frame rl i = some rl1) : TouchesOnly i rl rl1 := by
  cases hw : rl.m_windows[i]? with
  | none => simp [RenderThread.frame, hw] at h
  | some w =>
    simp only [RenderThread.frame, hw] at h
    split at h
    · exact ((TouchesOnly.refl i rl).emit _).trans (syncAndRender_touches _ i rl1 h)
    · cases h; exact TouchesOnly.refl i rl

/-- The run loop of a render thread touches only the record of the thread. -/
theorem runFrom_touches : ∀ (fuel : Nat) (p : RunPoint) (rl : ThreadedRenderLoop) (i : Nat)
    (rl1 : ThreadedRenderLoop), RenderThread.runFrom fuel p rl i = some rl1 →
    TouchesOnly i rl rl1 := by
  intro fuel
  induction fuel with
  | zero => intro p rl i rl1 h; simp [RenderThread.runFrom] at h
  | succ n ih =>
    intro p rl i rl1 h
    cases hw : rl.m_windows[i]? with
    | none => cases p <;> simp [RenderThread.runFrom, hw] at h
    | some w =>
      cases p with
      | activeTest =>
        simp only [RenderThread.runFrom, hw] at h
        split at h
        · cases h
          exact ((TouchesOnly.refl i rl).emit _).setThread_of w hw _ rfl
        · split at h
          · cases h
          · rename_i rlf hf
            have h1 := frame_touches rl i rlf hf
            split at h
            · cases h
            · rename_i rlp hp
              have h2 := h1.trans (processEvents_touches rlf i rlp hp)
              have h3 : TouchesOnly i rl (rlp.emit Effect.processAppEvents) := h2.emit _
              split at h
              · cases h
              · rename_i w3 hw3
                obtain ⟨w3b, hw3b, _, hid3⟩ := h3.same w hw
                rw [hw3] at hw3b
                cases hw3b
                split at h
                · have h5 := ih _ _ i rl1 h
                  refine TouchesOnly.trans (TouchesOnly.setThread_of h3 w hw _ ?_) h5
                  exact hid3
                · exact h3.trans (ih _ _ i rl1 h)
      | stopTest =>
        simp only [RenderThread.runFrom, hw] at h
        split at h
        · have h5 := ih _ _ i rl1 h
          refine TouchesOnly.trans (TouchesOnly.setThread_of (TouchesOnly.refl i rl) w hw _ ?_) h5
          rfl
        · split at h
          · rename_i e q _
            refine TouchesOnly.trans (TouchesOnly.trans
              ((TouchesOnly.refl i rl).setThread_of w hw _ ?_) (dispatch_touches _ i e))
              (ih _ _ i rl1 h)
            rfl
          · cases h
            exact (TouchesOnly.refl i rl).setThread_of w hw _ rfl
          · cases h

/-- The member `run` of a started thread touches only the record of the thread. -/
theorem run_touches (rl : ThreadedRenderLoop) (i : Nat) (rl1 : ThreadedRenderLoop)
    (h : RenderThread.run rl i = some rl1) : TouchesOnly i rl rl1 := by
  cases hw : rl.m_windows[i]? with
  | none => simp [RenderThread.run, hw] at h
  | some w =>
    simp only [RenderThread.run, hw] at h
    exact ((TouchesOnly.refl i rl).emit _).trans (runFrom_touches _ _ _ i rl1 h)

/-- A parked render thread that goes on touches only its record. -/
theorem wake_touches (rl : ThreadedRenderLoop) (i : Nat) (rl1 : ThreadedRenderLoop)
    (h : RenderThread.wake rl i = some rl1) : TouchesOnly i rl rl1 := by
  cases hw : rl.m_windows[i]? with
  | none => simp [RenderThread.wake, hw] at h
  | some w =>
    simp only [RenderThread.wake, hw] at h
    split at h
    · split at h
      · rename_i e q _
        refine TouchesOnly.trans (TouchesOnly.trans
          ((TouchesOnly.refl i rl).setThread_of w hw _ ?_) (dispatch_touches _ i e))
          (runFrom_touches _ _ _ i rl1 h)
        rfl
      · cases h
      · cases h
    · cases h

/-- What the GUI thread finds after its wait differs from the state before the render
thread ran as the run of the render thread says. -/
theorem awaitWake_eq (before : ThreadedRenderLoop) (ran : Option ThreadedRenderLoop)
    (id : Nat) (rl1 : ThreadedRenderLoop) (h : awaitWake before ran id = some rl1) :
    ran = some rl1 := by
  unfold awaitWake at h
  split at h
  · cases h
  · split at h
    · cases h; rfl
    · cases h


/-- A step that touches one record only keeps the identities of all records. -/
theorem TouchesOnly.recordIds {i : Nat} {a b : ThreadedRenderLoop} (h : TouchesOnly i a b) :
    recordIds b.m_windows = recordIds a.m_windows := by
  apply List.ext_getElem?
  intro k
  simp only [SoftwareContext.recordIds, List.getElem?_map]
  by_cases hk : k = i
  · subst hk
    cases hw : a.m_windows[k]? with
    | none =>
      have hlen : a.m_windows.length ≤ k := List.getElem?_eq_none_iff.1 hw
      have : b.m_windows[k]? = none := List.getElem?_eq_none_iff.2 (by rw [h.length]; exact hlen)
      simp [this]
    | some w =>
      obtain ⟨w1, hw1, hwin, hid⟩ := h.same w hw
      simp [hw1, hwin, hid]
  · rw [h.others k hk]

/-- The index returned by `windowFor` depends on the windows of the records only. -/
theorem windowFor_index_congr (window : WindowId) :
    ∀ (l l1 : List Window), l1.map (fun w => w.window) = l.map (fun w => w.window) →
      (windowFor l1 window).map Prod.fst = (windowFor l window).map Prod.fst := by
  intro l
  induction l with
  | nil =>
    intro l1 h
    cases l1 with
    | nil => rfl
    | cons t rest => simp at h
  | cons t rest ih =>
    intro l1 h
    cases l1 with
    | nil => simp at h
    | cons t1 rest1 =>
      simp only [List.map_cons, List.cons.injEq] at h
      have hrec := ih rest1 h.2
      by_cases ht : t.window = window
      · have ht1 : t1.window = window := h.1.trans ht
        simp [windowFor, ht, ht1]
      · have ht1 : ¬ t1.window = window := fun hc => ht (h.1.symm.trans hc)
        simp only [windowFor, ht, ht1, if_false]
        cases h1 : windowFor rest1 window with
        | none =>
          cases h2 : windowFor rest window with
          | none => rfl
          | some p => rw [h1, h2] at hrec; simp at hrec
        | some p1 =>
          cases h2 : windowFor rest window with
          | none => rw [h1, h2] at hrec; simp at hrec
          | some p =>
            rw [h1, h2] at hrec
            simp only [Option.map_some', Option.some.injEq] at hrec
            simp [hrec]

/-- The windows of the records are the first components of their identities. -/
theorem recordIds_windows (l : List Window) :
    (recordIds l).map Prod.fst = l.map (fun w => w.window) := by
  simp [recordIds, List.map_map, Function.comp_def]

/-- After a step that touches one record only, `windowFor` returns the same pointer. -/
theorem TouchesOnly.windowFor {i : Nat} {a b : ThreadedRenderLoop} (h : TouchesOnly i a b)
    (window : WindowId) :
    (SoftwareContext.windowFor b.m_windows window).map Prod.fst =
      (SoftwareContext.windowFor a.m_windows window).map Prod.fst := by
  apply windowFor_index_congr
  rw [← recordIds_windows, ← recordIds_windows, h.recordIds]

/-- The member `startOrStopAnimationTimer` always returns, and it changes neither a record
nor a window object. -/
theorem startOrStopAnimationTimer_returns (rl : ThreadedRenderLoop) :
    ∃ rl1, rl.startOrStopAnimationTimer = some rl1 ∧ rl1.m_windows = rl.m_windows ∧
      rl1.qwindow = rl.qwindow := by
  have hscan := exposedScan_fold rl.showing rl.m_windows (0, none)
  have hcount : rl.exposedScan.1 = rl.m_windows.countP rl.showing := by
    simpa [ThreadedRenderLoop.exposedScan] using hscan.1
  have hone : rl.m_windows.countP rl.showing = 1 → rl.exposedScan.2.isSome := by
    intro h
    have := hscan.2 (Or.inr (by omega))
    simpa [ThreadedRenderLoop.exposedScan] using this
  unfold ThreadedRenderLoop.startOrStopAnimationTimer
  simp only [hcount]
  by_cases ht : rl.m_animation_timer = 0
  · by_cases hc : rl.m_windows.countP rl.showing = 1
    · simp [ht, hc]
    · cases hr : rl.animationRunning
      · simp [ht, hc, hr]
      · by_cases hneg : qsgrl_animation_interval rl.refreshRate < 0 <;>
          simp [ht, hc, hr, startTimer, hneg, ThreadedRenderLoop.emit]
  · by_cases hc : rl.m_windows.countP rl.showing = 1
    · cases hr : rl.animationRunning
      · simp [ht, hc, hr, ThreadedRenderLoop.emit]
      · have hsome := hone hc
        cases hth : rl.exposedScan.2 with
        | none => simp [hth] at hsome
        | some w =>
          simp [ht, hc, hr, ThreadedRenderLoop.emit, ThreadedRenderLoop.maybePostPolishRequest]
    · cases hr : rl.animationRunning
      · simp [ht, hc, hr, ThreadedRenderLoop.emit]
      · simp [ht, hc, hr]

/-- The member `startOrStopAnimationTimer` changes no record. -/
theorem startOrStopAnimationTimer_windows (rl rl1 : ThreadedRenderLoop)
    (h : rl.startOrStopAnimationTimer = some rl1) : rl1.m_windows = rl.m_windows := by
  obtain ⟨r, hr, hm, _⟩ := startOrStopAnimationTimer_returns rl
  rw [hr] at h
  cases h
  exact hm


/-- A whole call of `handleObscurity(Window *w)` touches only the record `w` points to. -/
theorem handleObscurityWhole_touches (rl : ThreadedRenderLoop) (i : Nat)
    (r : ThreadedRenderLoop) (h : rl.handleObscurityWhole i = some r) : TouchesOnly i rl r := by
  cases hw : rl.m_windows[i]? with
  | none => simp [ThreadedRenderLoop.handleObscurityWhole, ThreadedRenderLoop.handleObscurity, hw] at h
  | some w =>
    cases hrun : w.thread.isRunning with
    | false =>
      obtain ⟨r1, hr1, hm1, _⟩ := startOrStopAnimationTimer_returns rl
      simp [ThreadedRenderLoop.handleObscurityWhole, ThreadedRenderLoop.handleObscurity, hw,
        hrun, hr1] at h
      subst h
      exact TouchesOnly.of_eq hm1
    | true =>
      simp only [ThreadedRenderLoop.handleObscurityWhole, ThreadedRenderLoop.handleObscurity, hw,
        hrun, if_true] at h
      have h0 : TouchesOnly i rl ((rl.emit (Effect.mutexLock w.thread.id)).setThread i
          (w.thread.postEvent (WMEvent.obscure w.window))) :=
        ((TouchesOnly.refl i rl).emit _).setThread_of w hw _ rfl
      split at h
      · cases h
      · rename_i w1 hw1
        split at h
        · cases h
        · rename_i rl2 h2
          have h3 := wake_touches _ i rl2 (awaitWake_eq _ _ _ _ h2)
          have h4 : TouchesOnly i rl rl2 := h0.trans h3
          unfold ThreadedRenderLoop.handleObscurityResume at h
          split at h
          · cases h
          · exact h4.trans (TouchesOnly.of_eq
              ((startOrStopAnimationTimer_windows _ _ h).trans rfl))

/-- A whole call of `releaseResources(Window *w, bool)` touches only the record `w` points
to. -/
theorem releaseResourcesWWhole_touches (rl : ThreadedRenderLoop) (i : Nat) (d : Bool)
    (r : ThreadedRenderLoop) (h : rl.releaseResourcesWWhole i d = some r) :
    TouchesOnly i rl r := by
  cases hw : rl.m_windows[i]? with
  | none =>
    simp [ThreadedRenderLoop.releaseResourcesWWhole, ThreadedRenderLoop.releaseResourcesW, hw] at h
  | some w =>
    by_cases hc : w.thread.isRunning = true ∧ w.thread.active = true
    · simp only [ThreadedRenderLoop.releaseResourcesWWhole, ThreadedRenderLoop.releaseResourcesW,
        hw, hc, and_self, if_true] at h
      split at h
      · cases h
      · rename_i rl2 h2
        have h3 := wake_touches _ i rl2 (awaitWake_eq _ _ _ _ h2)
        have h0 : TouchesOnly i rl
            ((if (!((rl.emit (Effect.mutexLock w.thread.id)).qwindow w.window).handle) = true then
                (rl.emit (Effect.mutexLock w.thread.id)).emit
                  (Effect.createFallbackSurface w.actualWindowFormat)
              else rl.emit (Effect.mutexLock w.thread.id)).setThread i
              (w.thread.postEvent (WMEvent.tryRelease w.window d
                (!((rl.emit (Effect.mutexLock w.thread.id)).qwindow w.window).handle)))) := by
          refine TouchesOnly.setThread_of ?_ w hw _ ?_
          · split
            · exact ((TouchesOnly.refl i rl).emit _).emit _
            · exact (TouchesOnly.refl i rl).emit _
          · rfl
        have h4 : TouchesOnly i rl rl2 := h0.trans h3
        unfold ThreadedRenderLoop.releaseResourcesWResume at h
        repeat' split at h
        all_goals
          cases h <;> repeat (first
            | exact h4
            | apply TouchesOnly.emit)
    · simp only [ThreadedRenderLoop.releaseResourcesWWhole, ThreadedRenderLoop.releaseResourcesW,
        hw, hc, if_false] at h
      cases h
      exact ((TouchesOnly.refl i rl).emit _).emit _


/-- The fields of a parked render thread. -/
theorem parked_fields (t : RenderThread) (h : t.parked = true) :
    t.isRunning = true ∧ t.active = true ∧ t.sleeping = true ∧
      t.stopEventProcessing = false ∧ t.eventQueue = { events := [], waiting := true } := by
  unfold RenderThread.parked at h
  simp only [Bool.and_eq_true, Bool.not_eq_true', List.isEmpty_iff] at h
  obtain ⟨⟨⟨⟨⟨h1, h2⟩, h3⟩, h4⟩, h5⟩, h6⟩ := h
  refine ⟨h1, h2, h3, h4, ?_⟩
  cases hq : t.eventQueue
  rw [hq] at h5 h6
  simp only at h5 h6
  rw [h5, h6]

/-- A parked render thread to which `WM_Obscure` has been posted handles the event and parks
again: its window is unbound, the hooks run when a window was bound, and the GUI thread is
woken once. -/
theorem wake_obscure (rl : ThreadedRenderLoop) (i : Nat) (w : Window) (win : WindowId)
    (hw : rl.m_windows[i]? = some w) (hp : w.thread.parked = true) :
    RenderThread.wake (rl.setThread i (w.thread.postEvent (WMEvent.obscure win))) i =
      some { rl with
        m_windows := (rl.m_windows.set i { w with thread := { w.thread with window := none } }),
        log := rl.log ++ [Effect.mutexLock w.thread.id] ++ obscureCalls w.thread.window ++
          [Effect.wakeOne w.thread.id, Effect.mutexUnlock w.thread.id] } := by
  obtain ⟨h1, h2, h3, h4, h5⟩ := parked_fields w.thread hp
  have hi : i < rl.m_windows.length := (List.getElem?_eq_some.1 hw).1
  cases hb : w.thread.window <;>
    simp [RenderThread.wake, ThreadedRenderLoop.setThread, ThreadedRenderLoop.setWindow, hw, hi,
      RenderThread.postEvent, RenderThreadEventQueue.addEvent, h1, h2, h3, h4, h5,
      RenderThreadEventQueue.takeEventWoken, RenderThreadEventQueue.dequeue,
      RenderThread.fuel, RenderThread.runFrom, dispatch, RenderThread.event, deleteEvent,
      ThreadedRenderLoop.emit, hb, RenderThreadEventQueue.takeEvent, obscureCalls]

/-- At the test of `while (!stopEventProcessing)` with the flag set, the render thread
leaves `processEventsAndWaitForMore`, clears `sleeping` and goes to the test of
`while (active)`. -/
theorem runFrom_stopTest_stop (n : Nat) (rl : ThreadedRenderLoop) (i : Nat) (w : Window)
    (hw : rl.m_windows[i]? = some w) (hs : w.thread.stopEventProcessing = true) :
    RenderThread.runFrom (n + 1) RunPoint.stopTest rl i =
      RenderThread.runFrom n RunPoint.activeTest
        (rl.setThread i { w.thread with sleeping := false }) i := by
  simp [RenderThread.runFrom, hw, hs]

/-- At the test of `while (!stopEventProcessing)` with the flag clear and nothing queued, the
render thread parks in `takeEvent(true)`. -/
theorem runFrom_stopTest_park (n : Nat) (rl : ThreadedRenderLoop) (i : Nat) (w : Window)
    (hw : rl.m_windows[i]? = some w) (hs : w.thread.stopEventProcessing = false)
    (hq : w.thread.eventQueue.events = []) :
    RenderThread.runFrom (n + 1) RunPoint.stopTest rl i =
      some (rl.setThread i
        { w.thread with eventQueue := { w.thread.eventQueue with waiting := true } }) := by
  simp [RenderThread.runFrom, hw, hs, RenderThreadEventQueue.takeEvent, hq]

/-- At the test of `while (!stopEventProcessing)` with the flag clear and an event queued,
the render thread takes the event, handles and deletes it, and comes back to the test. -/
theorem runFrom_stopTest_event (n : Nat) (rl : ThreadedRenderLoop) (i : Nat) (w : Window)
    (e : WMEvent) (rest : List WMEvent)
    (hw : rl.m_windows[i]? = some w) (hs : w.thread.stopEventProcessing = false)
    (hq : w.thread.eventQueue.events = e :: rest) :
    RenderThread.runFrom (n + 1) RunPoint.stopTest rl i =
      RenderThread.runFrom n RunPoint.stopTest
        (dispatch (rl.setThread i
          { w.thread with eventQueue := { w.thread.eventQueue with events := rest } }) i e) i := by
  simp [RenderThread.runFrom, hw, hs, RenderThreadEventQueue.takeEvent, hq,
    RenderThreadEventQueue.dequeue]

/-- At the test of `while (active)` with the flag clear, `run` returns: the thread has
finished. -/
theorem runFrom_activeTest_exit (n : Nat) (rl : ThreadedRenderLoop) (i : Nat) (w : Window)
    (hw : rl.m_windows[i]? = some w) (ha : w.thread.active = false) :
    RenderThread.runFrom (n + 1) RunPoint.activeTest rl i =
      some ((rl.emit (Effect.deleteAnimationDriver w.thread.id)).setThread i
        { w.thread with isRunning := false }) := by
  simp [RenderThread.runFrom, hw, ha]

/-- A running render thread that is parked with an event queued takes the event, handles and
deletes it, and comes to the test of `while (!stopEventProcessing)`. -/
theorem wake_event (rl : ThreadedRenderLoop) (i : Nat) (w : Window) (e : WMEvent)
    (rest : List WMEvent) (hw : rl.m_windows[i]? = some w)
    (hr : w.thread.isRunning = true) (hwait : w.thread.eventQueue.waiting = true)
    (hq : w.thread.eventQueue.events = e :: rest) :
    RenderThread.wake rl i =
      RenderThread.runFrom (rest.length + 9) RunPoint.stopTest
        (dispatch (rl.setThread i
          { w.thread with eventQueue := { events := rest, waiting := false } }) i e) i := by
  simp [RenderThread.wake, hw, hr, hwait, RenderThreadEventQueue.takeEventWoken,
    RenderThreadEventQueue.dequeue, hq, RenderThread.fuel]

/-- Two writes through `w->thread` in a row are the second one. -/
theorem setThread_setThread (rl : ThreadedRenderLoop) (i : Nat) (t1 t2 : RenderThread) :
    (rl.setThread i t1).setThread i t2 = rl.setThread i t2 := by
  cases hw : rl.m_windows[i]? with
  | none => simp [ThreadedRenderLoop.setThread, hw]
  | some w =>
    have hi : i < rl.m_windows.length := (List.getElem?_eq_some.1 hw).1
    simp [ThreadedRenderLoop.setThread, hw, ThreadedRenderLoop.setWindow, hi]

/-- After a write through `w->thread` the record holds the thread written. -/
theorem setThread_getElem (rl : ThreadedRenderLoop) (i : Nat) (w : Window) (t : RenderThread)
    (hw : rl.m_windows[i]? = some w) :
    (rl.setThread i t).m_windows[i]? = some { w with thread := t } := by
  have hi : i < rl.m_windows.length := (List.getElem?_eq_some.1 hw).1
  simp [ThreadedRenderLoop.setThread, hw, ThreadedRenderLoop.setWindow, hi]

/-- A write through `w->thread` in terms of the record list. -/
theorem setThread_eq (rl : ThreadedRenderLoop) (i : Nat) (w : Window) (t : RenderThread)
    (hw : rl.m_windows[i]? = some w) :
    rl.setThread i t = { rl with m_windows := rl.m_windows.set i { w with thread := t } } := by
  simp [ThreadedRenderLoop.setThread, hw, ThreadedRenderLoop.setWindow]




/-- At the test of `while (!stopEventProcessing)` with the flag set and `active` clear, the
render thread leaves both loops and finishes. -/
theorem runFrom_stop_then_exit (n : Nat) (rl : ThreadedRenderLoop) (i : Nat) (w : Window)
    (hw : rl.m_windows[i]? = some w) (hs : w.thread.stopEventProcessing = true)
    (ha : w.thread.active = false) :
    RenderThread.runFrom (n + 2) RunPoint.stopTest rl i =
      some ((rl.emit (Effect.deleteAnimationDriver w.thread.id)).setThread i
        { w.thread with sleeping := false, isRunning := false }) := by
  have hi : i < rl.m_windows.length := (List.getElem?_eq_some.1 hw).1
  rw [runFrom_stopTest_stop (n + 1) rl i w hw hs]
  rw [runFrom_activeTest_exit n _ i { w with thread := { w.thread with sleeping := false } }
    (setThread_getElem rl i w _ hw) ha]
  simp [ThreadedRenderLoop.setThread, ThreadedRenderLoop.setWindow, hi, hw,
    ThreadedRenderLoop.emit]

/-- A parked render thread to which `WM_TryRelease` has been posted while it has no window,
or from the destructor, handles the event, leaves both of its loops and finishes: `active`
and `isRunning` are false afterwards. -/
theorem wake_tryRelease_exit (rl : ThreadedRenderLoop) (i : Nat) (w : Window)
    (win : WindowId) (d f : Bool)
    (hw : rl.m_windows[i]? = some w) (hp : w.thread.parked = true)
    (hc : w.thread.window = none ∨ d = true) :
    RenderThread.wake (rl.setThread i (w.thread.postEvent (WMEvent.tryRelease win d f))) i =
      some { rl with
        m_windows := (rl.m_windows.set i
          { w with thread := { w.thread with
              active := false, isRunning := false, sleeping := false,
              stopEventProcessing := true,
              eventQueue := { events := [], waiting := false } } }),
        m_lockedForSync := false,
        log := rl.log ++ [Effect.mutexLock w.thread.id, Effect.wakeOne w.thread.id,
          Effect.mutexUnlock w.thread.id, Effect.deleteAnimationDriver w.thread.id] } := by
  obtain ⟨h1, h2, h3, h4, h5⟩ := parked_fields w.thread hp
  have hi : i < rl.m_windows.length := (List.getElem?_eq_some.1 hw).1
  have hc2 : w.thread.window.isNone = true ∨ d = true := by
    cases hc with
    | inl h => left; simp [h]
    | inr h => right; exact h
  have hw0 := setThread_getElem rl i w (w.thread.postEvent (WMEvent.tryRelease win d f)) hw
  rw [wake_event _ i _ (WMEvent.tryRelease win d f) [] hw0 h1
    (by simp [RenderThread.postEvent, RenderThreadEventQueue.addEvent, h5])
    (by simp [RenderThread.postEvent, RenderThreadEventQueue.addEvent, h5])]
  rw [setThread_setThread]
  have hd : dispatch (rl.setThread i
        { (w.thread.postEvent (WMEvent.tryRelease win d f)) with
          eventQueue := { events := [], waiting := false } }) i
        (WMEvent.tryRelease win d f) =
      { rl with
        m_windows := (rl.m_windows.set i
          { w with thread := { w.thread with
              active := false, stopEventProcessing := true,
              eventQueue := { events := [], waiting := false } } }),
        m_lockedForSync := false,
        log := rl.log ++ [Effect.mutexLock w.thread.id, Effect.wakeOne w.thread.id,
          Effect.mutexUnlock w.thread.id] } := by
    simp [dispatch, RenderThread.event, deleteEvent, ThreadedRenderLoop.setThread,
      ThreadedRenderLoop.setWindow, hw, hi, RenderThread.postEvent, ThreadedRenderLoop.emit,
      hc, hc2, h3]
  simp only [List.length_nil, Nat.zero_add]
  rw [hd]
  rw [runFrom_stop_then_exit 7 _ i
    { w with thread := { w.thread with
        active := false, stopEventProcessing := true,
        eventQueue := { events := [], waiting := false } } } (by simp [hi]) rfl rfl]
  simp [ThreadedRenderLoop.setThread, ThreadedRenderLoop.setWindow, hi, ThreadedRenderLoop.emit]

/-- Writing back the record a pointer points to changes nothing. -/
theorem set_self (l : List Window) (i : Nat) (w : Window) (hw : l[i]? = some w) :
    l.set i w = l := by
  have hi : i < l.length := (List.getElem?_eq_some.1 hw).1
  apply List.ext_getElem?
  intro j
  rw [List.getElem?_set]
  by_cases hj : i = j
  · subst hj; simp [hi, hw]
  · simp [hj]

/-- A parked render thread to which `WM_TryRelease` has been posted while it has a window,
and not from the destructor, handles the event and parks again; only the GUI thread is
woken. -/
theorem wake_tryRelease_stay (rl : ThreadedRenderLoop) (i : Nat) (w : Window)
    (win : WindowId) (f : Bool)
    (hw : rl.m_windows[i]? = some w) (hp : w.thread.parked = true)
    (hb : w.thread.window.isSome = true) :
    RenderThread.wake (rl.setThread i (w.thread.postEvent (WMEvent.tryRelease win false f))) i =
      some { rl with
        m_lockedForSync := false,
        log := rl.log ++ [Effect.mutexLock w.thread.id, Effect.wakeOne w.thread.id,
          Effect.mutexUnlock w.thread.id] } := by
  obtain ⟨h1, h2, h3, h4, h5⟩ := parked_fields w.thread hp
  have hi : i < rl.m_windows.length := (List.getElem?_eq_some.1 hw).1
  have hc2 : ¬ (w.thread.window = none) := by
    cases hwin : w.thread.window <;> simp [hwin] at hb ⊢
  have hw0 := setThread_getElem rl i w (w.thread.postEvent (WMEvent.tryRelease win false f)) hw
  rw [wake_event _ i _ (WMEvent.tryRelease win false f) [] hw0 h1
    (by simp [RenderThread.postEvent, RenderThreadEventQueue.addEvent, h5])
    (by simp [RenderThread.postEvent, RenderThreadEventQueue.addEvent, h5])]
  rw [setThread_setThread]
  have hd : dispatch (rl.setThread i
        { (w.thread.postEvent (WMEvent.tryRelease win false f)) with
          eventQueue := { events := [], waiting := false } }) i
        (WMEvent.tryRelease win false f) =
      { rl with
        m_windows := (rl.m_windows.set i
          { w with thread := { w.thread with
              eventQueue := { events := [], waiting := false } } }),
        m_lockedForSync := false,
        log := rl.log ++ [Effect.mutexLock w.thread.id, Effect.wakeOne w.thread.id,
          Effect.mutexUnlock w.thread.id] } := by
    simp [dispatch, RenderThread.event, deleteEvent, ThreadedRenderLoop.setThread,
      ThreadedRenderLoop.setWindow, hw, hi, RenderThread.postEvent, ThreadedRenderLoop.emit,
      hc2]
  simp only [List.length_nil, Nat.zero_add]
  rw [hd]
  rw [runFrom_stopTest_park 8 _ i
    { w with thread := { w.thread with
        eventQueue := { events := [], waiting := false } } } (by simp [hi]) h4 rfl]
  have hback : ({ w with thread := { w.thread with
      eventQueue := { events := [], waiting := true } } } : Window) = w := by
    rw [← h5]
  simp [ThreadedRenderLoop.setThread, ThreadedRenderLoop.setWindow, hi, hback,
    set_self rl.m_windows i w hw]

/-- The wait of the GUI thread returns with the state the render thread ran to when the log
of that state extends the log before the wait by calls among which `wakeOne` on the wait
condition occurs. -/
theorem awaitWake_some (before after : ThreadedRenderLoop) (id : Nat) (added : List Effect)
    (hlog : after.log = before.log ++ added) (hmem : Effect.wakeOne id ∈ added) :
    awaitWake before (some after) id = some after := by
  have hpos : 0 < added.count (Effect.wakeOne id) := List.count_pos_iff.2 hmem
  simp only [awaitWake, hlog, List.count_append]
  rw [if_pos (by omega)]

/-- A whole call of `handleObscurity(Window *w)` for a record whose render thread is parked:
the render thread handles `WM_Obscure`, is unbound from its window and parks again, and the
GUI thread goes on to `startOrStopAnimationTimer`. -/
theorem handleObscurityWhole_parked (rl : ThreadedRenderLoop) (i : Nat) (w : Window)
    (hw : rl.m_windows[i]? = some w) (hp : w.thread.parked = true) :
    rl.handleObscurityWhole i =
      ThreadedRenderLoop.startOrStopAnimationTimer
        { rl with
          m_windows := (rl.m_windows.set i { w with thread := { w.thread with window := none } }),
          log := rl.log ++ [Effect.mutexLock w.thread.id, Effect.mutexLock w.thread.id] ++
            obscureCalls w.thread.window ++
            [Effect.wakeOne w.thread.id, Effect.mutexUnlock w.thread.id,
              Effect.mutexUnlock w.thread.id] } := by
  obtain ⟨h1, h2, h3, h4, h5⟩ := parked_fields w.thread hp
  have hi : i < rl.m_windows.length := (List.getElem?_eq_some.1 hw).1
  have hwake := wake_obscure (rl.emit (Effect.mutexLock w.thread.id)) i w w.window hw hp
  have hw1 := setThread_getElem (rl.emit (Effect.mutexLock w.thread.id)) i w
    (w.thread.postEvent (WMEvent.obscure w.window)) hw
  simp only [ThreadedRenderLoop.handleObscurityWhole, ThreadedRenderLoop.handleObscurity, hw,
    h1, if_true, hw1, hwake]
  rw [awaitWake_some _ _ _
    ([Effect.mutexLock w.thread.id] ++ obscureCalls w.thread.window ++
      [Effect.wakeOne w.thread.id, Effect.mutexUnlock w.thread.id])
    (by simp [ThreadedRenderLoop.setThread, ThreadedRenderLoop.setWindow, hw,
      ThreadedRenderLoop.emit]) (by simp [RenderThread.postEvent])]
  simp [ThreadedRenderLoop.handleObscurityResume, hi, ThreadedRenderLoop.emit]

/-- A whole call of `releaseResources(Window *w, bool)` for a record whose render thread is
neither running nor active: the mutex is locked and unlocked and nothing else happens. -/
theorem releaseResourcesWWhole_idle (rl : ThreadedRenderLoop) (i : Nat) (w : Window) (d : Bool)
    (hw : rl.m_windows[i]? = some w)
    (hc : ¬ (w.thread.isRunning = true ∧ w.thread.active = true)) :
    rl.releaseResourcesW i d =
        Call.returned { rl with log := rl.log ++ [Effect.mutexLock w.thread.id,
          Effect.mutexUnlock w.thread.id] } () ∧
    rl.releaseResourcesWWhole i d =
        some { rl with log := rl.log ++ [Effect.mutexLock w.thread.id,
          Effect.mutexUnlock w.thread.id] } := by
  simp [ThreadedRenderLoop.releaseResourcesWWhole, ThreadedRenderLoop.releaseResourcesW, hw, hc,
    ThreadedRenderLoop.emit]

/-- A whole call of `releaseResources(Window *w, bool)` for a record whose render thread is
parked and either has no window or is released from the destructor: the render thread
handles `WM_TryRelease` and finishes, and the call returns after `QThread::wait()`. -/
theorem releaseResourcesWWhole_exit (rl : ThreadedRenderLoop) (i : Nat) (w : Window) (d : Bool)
    (hw : rl.m_windows[i]? = some w) (hp : w.thread.parked = true)
    (hc : w.thread.window = none ∨ d = true) :
    rl.releaseResourcesWWhole i d =
      some { rl with
        m_windows := (rl.m_windows.set i
          { w with thread := { w.thread with
              active := false, isRunning := false, sleeping := false,
              stopEventProcessing := true,
              eventQueue := { events := [], waiting := false } } }),
        m_lockedForSync := false,
        log := rl.log ++ [Effect.mutexLock w.thread.id] ++
          (if (rl.qwindow w.window).handle = false then
            [Effect.createFallbackSurface w.actualWindowFormat] else []) ++
          [Effect.mutexLock w.thread.id, Effect.wakeOne w.thread.id,
            Effect.mutexUnlock w.thread.id, Effect.deleteAnimationDriver w.thread.id] ++
          (if (rl.qwindow w.window).handle = false then [Effect.deleteFallbackSurface] else []) ++
          [Effect.waitThread w.thread.id, Effect.mutexUnlock w.thread.id] } := by
  obtain ⟨h1, h2, h3, h4, h5⟩ := parked_fields w.thread hp
  have hi : i < rl.m_windows.length := (List.getElem?_eq_some.1 hw).1
  cases hh : (rl.qwindow w.window).handle with
  | false =>
    have hwake := wake_tryRelease_exit
      ((rl.emit (Effect.mutexLock w.thread.id)).emit
        (Effect.createFallbackSurface w.actualWindowFormat)) i w w.window d true hw hp hc
    simp only [ThreadedRenderLoop.releaseResourcesWWhole, ThreadedRenderLoop.releaseResourcesW,
      hw, h1, h2, and_self, if_true]
    have hq : ((rl.emit (Effect.mutexLock w.thread.id)).qwindow w.window).handle = false := hh
    simp only [hq, Bool.not_false, if_true, hwake, hh]
    rw [awaitWake_some _ _ _
      [Effect.mutexLock w.thread.id, Effect.wakeOne w.thread.id,
        Effect.mutexUnlock w.thread.id, Effect.deleteAnimationDriver w.thread.id]
      (by simp [ThreadedRenderLoop.setThread, ThreadedRenderLoop.setWindow, hw,
        ThreadedRenderLoop.emit]) (by simp [RenderThread.postEvent])]
    simp [ThreadedRenderLoop.releaseResourcesWResume, hi, ThreadedRenderLoop.emit]
  | true =>
    have hwake := wake_tryRelease_exit
      (rl.emit (Effect.mutexLock w.thread.id)) i w w.window d false hw hp hc
    simp only [ThreadedRenderLoop.releaseResourcesWWhole, ThreadedRenderLoop.releaseResourcesW,
      hw, h1, h2, and_self, if_true]
    have hq : ((rl.emit (Effect.mutexLock w.thread.id)).qwindow w.window).handle = true := hh
    simp only [hq, Bool.not_true, Bool.false_eq_true, if_false, hwake, hh]
    rw [awaitWake_some _ _ _
      [Effect.mutexLock w.thread.id, Effect.wakeOne w.thread.id,
        Effect.mutexUnlock w.thread.id, Effect.deleteAnimationDriver w.thread.id]
      (by simp [ThreadedRenderLoop.setThread, ThreadedRenderLoop.setWindow, hw,
        ThreadedRenderLoop.emit]) (by simp [RenderThread.postEvent])]
    simp [ThreadedRenderLoop.releaseResourcesWResume, hi, ThreadedRenderLoop.emit]

/-- A whole call of `releaseResources(Window *w, false)` for a record whose render thread is
parked and has a window: the render thread handles `WM_TryRelease`, stays active and parks
again; no record changes. -/
theorem releaseResourcesWWhole_stay (rl : ThreadedRenderLoop) (i : Nat) (w : Window)
    (hw : rl.m_windows[i]? = some w) (hp : w.thread.parked = true)
    (hb : w.thread.window.isSome = true) :
    rl.releaseResourcesWWhole i false =
      some { rl with
        m_lockedForSync := false,
        log := rl.log ++ [Effect.mutexLock w.thread.id] ++
          (if (rl.qwindow w.window).handle = false then
            [Effect.createFallbackSurface w.actualWindowFormat] else []) ++
          [Effect.mutexLock w.thread.id, Effect.wakeOne w.thread.id,
            Effect.mutexUnlock w.thread.id] ++
          (if (rl.qwindow w.window).handle = false then [Effect.deleteFallbackSurface] else []) ++
          [Effect.mutexUnlock w.thread.id] } := by
  obtain ⟨h1, h2, h3, h4, h5⟩ := parked_fields w.thread hp
  have hi : i < rl.m_windows.length := (List.getElem?_eq_some.1 hw).1
  cases hh : (rl.qwindow w.window).handle with
  | false =>
    have hwake := wake_tryRelease_stay
      ((rl.emit (Effect.mutexLock w.thread.id)).emit
        (Effect.createFallbackSurface w.actualWindowFormat)) i w w.window true hw hp hb
    simp only [ThreadedRenderLoop.releaseResourcesWWhole, ThreadedRenderLoop.releaseResourcesW,
      hw, h1, h2, and_self, if_true]
    have hq : ((rl.emit (Effect.mutexLock w.thread.id)).qwindow w.window).handle = false := hh
    simp only [hq, Bool.not_false, if_true, hwake, hh]
    rw [awaitWake_some _ _ _
      [Effect.mutexLock w.thread.id, Effect.wakeOne w.thread.id,
        Effect.mutexUnlock w.thread.id]
      (by simp [ThreadedRenderLoop.setThread, ThreadedRenderLoop.setWindow, hw,
        ThreadedRenderLoop.emit]) (by simp [RenderThread.postEvent])]
    simp [ThreadedRenderLoop.releaseResourcesWResume, hi, hw, h2, ThreadedRenderLoop.emit]
  | true =>
    have hwake := wake_tryRelease_stay
      (rl.emit (Effect.mutexLock w.thread.id)) i w w.window false hw hp hb
    simp only [ThreadedRenderLoop.releaseResourcesWWhole, ThreadedRenderLoop.releaseResourcesW,
      hw, h1, h2, and_self, if_true]
    have hq : ((rl.emit (Effect.mutexLock w.thread.id)).qwindow w.window).handle = true := hh
    simp only [hq, Bool.not_true, Bool.false_eq_true, if_false, hwake, hh]
    rw [awaitWake_some _ _ _
      [Effect.mutexLock w.thread.id, Effect.wakeOne w.thread.id,
        Effect.mutexUnlock w.thread.id]
      (by simp [ThreadedRenderLoop.setThread, ThreadedRenderLoop.setWindow, hw,
        ThreadedRenderLoop.emit]) (by simp [RenderThread.postEvent])]
    simp [ThreadedRenderLoop.releaseResourcesWResume, hi, hw, h2, ThreadedRenderLoop.emit]


/-- The removal loop of `windowDestroyed` removes the record `windowFor` points to. -/
theorem removeWindow_eq_eraseIdx (window : WindowId) :
    ∀ (l : List Window) (i : Nat) (w : Window), windowFor l window = some (i, w) →
      removeWindow l window = l.eraseIdx i := by
  intro l
  induction l with
  | nil => intro i w h; simp [windowFor] at h
  | cons t rest ih =>
    intro i w h
    by_cases ht : t.window = window
    · simp [windowFor, ht] at h
      obtain ⟨rfl, _⟩ := h
      simp [removeWindow, ht]
    · simp only [windowFor, ht, if_false] at h
      cases hr : windowFor rest window with
      | none => simp [hr] at h
      | some p =>
        obtain ⟨j, v⟩ := p
        simp [hr] at h
        obtain ⟨rfl, rfl⟩ := h
        simp [removeWindow, ht, ih j v hr]

/-- After a step that touches record `i` only, the list without record `i` is as before. -/
theorem TouchesOnly.eraseIdx {i : Nat} {a b : ThreadedRenderLoop} (h : TouchesOnly i a b) :
    b.m_windows.eraseIdx i = a.m_windows.eraseIdx i := by
  apply List.ext_getElem?
  intro k
  rw [List.getElem?_eraseIdx, List.getElem?_eraseIdx]
  by_cases hk : k < i
  · simp only [hk, if_true]
    exact h.others k (by omega)
  · simp only [hk, if_false]
    exact h.others (k + 1) (by omega)

/-- After a step that touches record `i` only, a lookup that returned the pointer `i`
returns it again, and the record it points to has the same thread identity. -/
theorem TouchesOnly.windowFor_some {i : Nat} {a b : ThreadedRenderLoop}
    (h : TouchesOnly i a b) (window : WindowId) (w : Window)
    (hfor : SoftwareContext.windowFor a.m_windows window = some (i, w)) :
    ∃ w1, SoftwareContext.windowFor b.m_windows window = some (i, w1) ∧
      b.m_windows[i]? = some w1 ∧ w1.window = window ∧ w1.thread.id = w.thread.id := by
  have hidx := h.windowFor window
  rw [hfor] at hidx
  cases hb : SoftwareContext.windowFor b.m_windows window with
  | none => rw [hb] at hidx; simp at hidx
  | some p =>
    obtain ⟨j, w1⟩ := p
    rw [hb] at hidx
    simp only [Option.map_some', Option.some.injEq] at hidx
    subst hidx
    obtain ⟨hw1, hwin1⟩ := windowFor_spec _ _ _ _ hb
    obtain ⟨hw, _⟩ := windowFor_spec _ _ _ _ hfor
    obtain ⟨w2, hw2, _, hid⟩ := h.same w hw
    rw [hw1] at hw2
    cases hw2
    exact ⟨w1, rfl, hw1, hwin1, hid⟩

/-- Whenever `windowDestroyed` returns for a tracked window, it has gone through
`handleObscurity` and `releaseResources(w, true)`, the thread has finished, and the result
is the state after the release with the thread deleted and the record of the window
removed from the list as it was before the call. -/
theorem windowDestroyed_steps (rl : ThreadedRenderLoop) (window : WindowId) (i : Nat)
    (w : Window) (r : ThreadedRenderLoop)
    (hfor : windowFor rl.m_windows window = some (i, w))
    (h : rl.windowDestroyed window = some r) :
    ∃ rl1 rl2 w2,
      rl.handleObscurityWhole i = some rl1 ∧
      rl1.releaseResourcesWWhole i true = some rl2 ∧
      rl2.m_windows[i]? = some w2 ∧ w2.thread.id = w.thread.id ∧
      w2.thread.isRunning = false ∧
      r = { rl2 with log := rl2.log ++ [Effect.deleteThread w.thread.id],
                     m_windows := rl.m_windows.eraseIdx i } := by
  simp only [ThreadedRenderLoop.windowDestroyed, hfor] at h
  split at h
  · cases h
  · rename_i rl1 h1
    split at h
    · cases h
    · rename_i rl2 h2
      split at h
      · cases h
      · rename_i w2 hw2
        split at h
        · cases h
        · rename_i hrun
          have ht : TouchesOnly i rl rl2 :=
            (handleObscurityWhole_touches rl i rl1 h1).trans
              (releaseResourcesWWhole_touches rl1 i true rl2 h2)
          obtain ⟨w3, hfor3, hw3, _, hid3⟩ := ht.windowFor_some window w hfor
          rw [hw2] at hw3
          cases hw3
          refine ⟨rl1, rl2, w2, h1, h2, hw2, hid3, by simpa using hrun, ?_⟩
          cases h
          rw [removeWindow_eq_eraseIdx window _ i w2 hfor3, ht.eraseIdx, hid3]
          rfl

/-- A whole call of `handleObscurity(Window *w)` for a record whose render thread is not
running only runs `startOrStopAnimationTimer`. -/
theorem handleObscurityWhole_idle (rl : ThreadedRenderLoop) (i : Nat) (w : Window)
    (hw : rl.m_windows[i]? = some w) (hrun : w.thread.isRunning = false) :
    rl.handleObscurityWhole i = rl.startOrStopAnimationTimer := by
  obtain ⟨r1, hr1, _, _⟩ := startOrStopAnimationTimer_returns rl
  simp [ThreadedRenderLoop.handleObscurityWhole, ThreadedRenderLoop.handleObscurity, hw, hrun,
    hr1]

/-- The member `windowDestroyed` returns for a tracked window whose render thread is parked
or not running. -/
theorem windowDestroyed_returns (rl : ThreadedRenderLoop) (window : WindowId) (i : Nat)
    (w : Window) (hfor : windowFor rl.m_windows window = some (i, w))
    (hq : w.thread.parked = true ∨ w.thread.isRunning = false) :
    ∃ r, rl.windowDestroyed window = some r := by
  obtain ⟨hw, _⟩ := windowFor_spec _ _ _ _ hfor
  have hi : i < rl.m_windows.length := (List.getElem?_eq_some.1 hw).1
  cases hq with
  | inl hp =>
    obtain ⟨rl1, hr1, hm1, _⟩ := startOrStopAnimationTimer_returns
      { rl with
        m_windows := (rl.m_windows.set i { w with thread := { w.thread with window := none } }),
        log := rl.log ++ [Effect.mutexLock w.thread.id, Effect.mutexLock w.thread.id] ++
          obscureCalls w.thread.window ++
          [Effect.wakeOne w.thread.id, Effect.mutexUnlock w.thread.id,
            Effect.mutexUnlock w.thread.id] }
    have h1 : rl.handleObscurityWhole i = some rl1 := by
      rw [handleObscurityWhole_parked rl i w hw hp, hr1]
    have hw1 : rl1.m_windows[i]? =
        some { w with thread := { w.thread with window := none } } := by
      rw [hm1]; simp [hi]
    have hp1 : ({ w.thread with window := none } : RenderThread).parked = true := hp
    have h2 := releaseResourcesWWhole_exit rl1 i
      { w with thread := { w.thread with window := none } } true hw1 hp1 (Or.inr rfl)
    have hi1 : i < rl1.m_windows.length := (List.getElem?_eq_some.1 hw1).1
    simp [ThreadedRenderLoop.windowDestroyed, hfor, h1, h2, hi1]
  | inr hrun =>
    obtain ⟨rl1, hr1, hm1, _⟩ := startOrStopAnimationTimer_returns rl
    have h1 : rl.handleObscurityWhole i = some rl1 := by
      rw [handleObscurityWhole_idle rl i w hw hrun, hr1]
    have hw1 : rl1.m_windows[i]? = some w := by rw [hm1]; exact hw
    have h2 := (releaseResourcesWWhole_idle rl1 i w true hw1 (by simp [hrun])).2
    simp [ThreadedRenderLoop.windowDestroyed, hfor, h1, h2, hw1, hrun]

/-! ## Obscurity, release and destruction -/

/-- The part of `releaseResources(Window *w, bool)` after the wait changes no record, and it
returns with `active` false only when the thread is not running. -/
theorem releaseResourcesWResume_some (rl : ThreadedRenderLoop) (i : Nat) (fallback : Bool)
    (r : ThreadedRenderLoop) (h : rl.releaseResourcesWResume i fallback = some r) :
    r.m_windows = rl.m_windows ∧
      ∀ w, rl.m_windows[i]? = some w → w.thread.active = false →
        w.thread.isRunning = false := by
  cases hw : rl.m_windows[i]? with
  | none => simp [ThreadedRenderLoop.releaseResourcesWResume, hw] at h
  | some w =>
    cases hfb : fallback <;> cases ha : w.thread.active <;> cases hr : w.thread.isRunning <;>
      simp [ThreadedRenderLoop.releaseResourcesWResume, hw, hfb, ha, hr,
        ThreadedRenderLoop.emit] at h <;>
      (subst h; simp [ha, hr])

/-- C13: `windowDestroyed` for a window without a record changes nothing. For a window with
a record it returns when the render thread of the record is parked or not running, and
whenever it returns it has made a whole call of `handleObscurity`, then a whole call of
`releaseResources(w, true)`, after which the render thread is not running; the thread is
then deleted and the record of the window removed. The resulting list is the list before
the call without that record: one record fewer, every record before it and every record
after it unchanged and in the same order. -/
theorem windowDestroyed_frame (rl : ThreadedRenderLoop) (window : WindowId) :
    (windowFor rl.m_windows window = none → rl.windowDestroyed window = some rl) ∧
    (∀ i w, windowFor rl.m_windows window = some (i, w) →
      ((w.thread.parked = true ∨ w.thread.isRunning = false) →
        ∃ r, rl.windowDestroyed window = some r) ∧
      (∀ r, rl.windowDestroyed window = some r →
        ∃ rl1 rl2 w2,
          rl.handleObscurityWhole i = some rl1 ∧
          rl1.releaseResourcesWWhole i true = some rl2 ∧
          rl2.m_windows[i]? = some w2 ∧ w2.thread.id = w.thread.id ∧
          w2.thread.isRunning = false ∧
          r = { rl2 with log := rl2.log ++ [Effect.deleteThread w.thread.id],
                         m_windows := rl.m_windows.eraseIdx i } ∧
          r.m_windows.length + 1 = rl.m_windows.length ∧
          (∀ k, k < i → r.m_windows[k]? = rl.m_windows[k]?) ∧
          (∀ k, i ≤ k → r.m_windows[k]? = rl.m_windows[k + 1]?))) := by
  refine ⟨?_, ?_⟩
  · intro h
    simp [ThreadedRenderLoop.windowDestroyed, h]
  · intro i w hfor
    refine ⟨windowDestroyed_returns rl window i w hfor, ?_⟩
    intro r h
    obtain ⟨rl1, rl2, w2, h1, h2, hw2, hid, hrun, hr⟩ :=
      windowDestroyed_steps rl window i w r hfor h
    have hi : i < rl.m_windows.length :=
      (List.getElem?_eq_some.1 (windowFor_spec _ _ _ _ hfor).1).1
    have hm : r.m_windows = rl.m_windows.eraseIdx i := by rw [hr]
    refine ⟨rl1, rl2, w2, h1, h2, hw2, hid, hrun, hr, ?_, ?_, ?_⟩
    · rw [hm, List.length_eraseIdx, if_pos hi]
      omega
    · intro k hk
      rw [hm, List.getElem?_eraseIdx, if_pos hk]
    · intro k hk
      rw [hm, List.getElem?_eraseIdx, if_neg (by omega)]

/-- Witness of `windowDestroyed_frame` on `parkedLoop`: window 2 has no record, window 1 has
one with a parked render thread. -/
theorem windowDestroyed_frame_witness :
    parkedLoop.windowDestroyed 2 = some parkedLoop ∧
      ∃ r, parkedLoop.windowDestroyed 1 = some r :=
  ⟨(windowDestroyed_frame parkedLoop 2).1 rfl,
   ((windowDestroyed_frame parkedLoop 1).2 0 parkedWindow rfl).1 (Or.inl rfl)⟩

/-- C15: handling `WM_Obscure` leaves the render thread with no bound window and calls
`wakeOne` once, between locking and unlocking the mutex. With a bound window,
`fireAboutToStop` and `cleanupNodesOnShutdown` are each called once on it, before the
wake-up; with none, neither is called. `active`, `isRunning` and `pendingUpdate` are
unchanged. A whole call of `handleObscurity` for a record whose render thread is parked
returns, and afterwards the thread differs only in having no window: it is still running,
active and parked. -/
theorem obscure_handler (rl : ThreadedRenderLoop) (i : Nat) (w : Window) (win : WindowId)
    (hw : rl.m_windows[i]? = some w) :
    (∃ w1, (RenderThread.event rl i (WMEvent.obscure win)).1.m_windows[i]? = some w1 ∧
      w1.thread.window = none ∧ w1.thread.active = w.thread.active ∧
      w1.thread.isRunning = w.thread.isRunning ∧
      w1.thread.pendingUpdate = w.thread.pendingUpdate) ∧
    (∀ b, w.thread.window = some b →
      (RenderThread.event rl i (WMEvent.obscure win)).1.log =
        rl.log ++ [Effect.mutexLock w.thread.id, Effect.fireAboutToStop b,
          Effect.cleanupNodesOnShutdown b, Effect.wakeOne w.thread.id,
          Effect.mutexUnlock w.thread.id]) ∧
    (w.thread.window = none →
      (RenderThread.event rl i (WMEvent.obscure win)).1.log =
        rl.log ++ [Effect.mutexLock w.thread.id, Effect.wakeOne w.thread.id,
          Effect.mutexUnlock w.thread.id]) ∧
    (w.thread.parked = true →
      ∃ r, rl.handleObscurityWhole i = some r ∧
        r.m_windows = rl.m_windows.set i { w with thread := { w.thread with window := none } } ∧
        ({ w.thread with window := none } : RenderThread).parked = true) := by
  have hi : i < rl.m_windows.length := (List.getElem?_eq_some.1 hw).1
  refine ⟨?_, ?_, ?_, ?_⟩
  · cases hb : w.thread.window <;>
      simp [RenderThread.event, hw, hb, ThreadedRenderLoop.setThread,
        ThreadedRenderLoop.setWindow, ThreadedRenderLoop.emit, hi]
  · intro b hb
    simp [RenderThread.event, hw, hb, ThreadedRenderLoop.setThread,
      ThreadedRenderLoop.setWindow, ThreadedRenderLoop.emit]
  · intro hb
    simp [RenderThread.event, hw, hb, ThreadedRenderLoop.emit]
  · intro hp
    obtain ⟨r, hr, hm, _⟩ := startOrStopAnimationTimer_returns
      { rl with
        m_windows := (rl.m_windows.set i { w with thread := { w.thread with window := none } }),
        log := rl.log ++ [Effect.mutexLock w.thread.id, Effect.mutexLock w.thread.id] ++
          obscureCalls w.thread.window ++
          [Effect.wakeOne w.thread.id, Effect.mutexUnlock w.thread.id,
            Effect.mutexUnlock w.thread.id] }
    refine ⟨r, ?_, hm, hp⟩
    rw [handleObscurityWhole_parked rl i w hw hp, hr]

/-- Witness of `obscure_handler` on `parkedLoop`: the handler unbinds window 1 and runs both
hooks, and a whole call of `handleObscurity` leaves the thread parked. -/
theorem obscure_handler_witness :
    (RenderThread.event parkedLoop 0 (WMEvent.obscure 1)).1.log =
        parkedLoop.log ++ [Effect.mutexLock parkedWindow.thread.id, Effect.fireAboutToStop 1,
          Effect.cleanupNodesOnShutdown 1, Effect.wakeOne parkedWindow.thread.id,
          Effect.mutexUnlock parkedWindow.thread.id] ∧
    ∃ r, parkedLoop.handleObscurityWhole 0 = some r ∧
      r.m_windows = parkedLoop.m_windows.set 0
        { parkedWindow with thread := { parkedWindow.thread with window := none } } ∧
      ({ parkedWindow.thread with window := none } : RenderThread).parked = true :=
  ⟨(obscure_handler parkedLoop 0 parkedWindow 1 rfl).2.1 1 rfl,
   (obscure_handler parkedLoop 0 parkedWindow 1 rfl).2.2.2 rfl⟩


/-! ## Exposure -/

/-- The identity given to a new render thread is larger than the identity of every render
thread of a record, hence different from each. -/
theorem newThreadId_fresh (rl : ThreadedRenderLoop) :
    ∀ w ∈ rl.m_windows, w.thread.id < rl.newThreadId := by
  intro w hw
  unfold ThreadedRenderLoop.newThreadId
  have hmem : w.thread.id ∈ rl.m_windows.map (fun w => w.thread.id) :=
    List.mem_map.2 ⟨w, hw, rfl⟩
  have : w.thread.id ≤ (rl.m_windows.map (fun w => w.thread.id)).foldr max 0 :=
    List.le_max_of_le hmem (le_refl _)
  omega

/-- A lookup that finds nothing in a list finds an appended record when it is one of the
window asked for. -/
theorem windowFor_append (window : WindowId) (v : Window) (hv : v.window = window) :
    ∀ l : List Window, windowFor l window = none →
      windowFor (l ++ [v]) window = some (l.length, v) := by
  intro l
  induction l with
  | nil => intro _; simp [windowFor, hv]
  | cons t rest ih =>
    intro h
    by_cases ht : t.window = window
    · simp [windowFor, ht] at h
    · simp only [windowFor, ht, if_false] at h
      cases hr : windowFor rest window with
      | none => simp [windowFor, ht, ih hr]
      | some p => simp [hr] at h

/-- The geometry check and the creation of the platform window change no record. -/
theorem handleExposurePrepare_windows (rl : ThreadedRenderLoop) (window : WindowId) :
    (rl.handleExposurePrepare window).m_windows = rl.m_windows := by
  unfold ThreadedRenderLoop.handleExposurePrepare
  simp only []
  repeat' split
  all_goals rfl

/-- The middle of `handleExposure` touches only the record it is given; afterwards the
render thread of the record is the same object as before, bound to the window and running,
and it was started by the call exactly when it was not running before. -/
theorem handleExposureStart_spec (rl : ThreadedRenderLoop) (i : Nat) (window : WindowId)
    (w : Window) (hw : rl.m_windows[i]? = some w) (r : ThreadedRenderLoop) (started : Bool)
    (h : rl.handleExposureStart i window = some (r, started)) :
    TouchesOnly i rl r ∧
      ∃ w1, r.m_windows[i]? = some w1 ∧ w1.window = w.window ∧
        w1.thread.id = w.thread.id ∧ w1.thread.window = some window ∧
        w1.thread.isRunning = true ∧ started = !w.thread.isRunning ∧
        w1.updateDuringSync = w.updateDuringSync ∧ w1.forceRenderPass = w.forceRenderPass ∧
        w1.thread.eventQueue = w.thread.eventQueue := by
  have hi : i < rl.m_windows.length := (List.getElem?_eq_some.1 hw).1
  have h0 : TouchesOnly i rl
      ((rl.setThread i { w.thread with window := some window }).handleExposurePrepare
        w.window) := by
    refine TouchesOnly.trans (TouchesOnly.setThread_of (TouchesOnly.refl i rl) w hw _ ?_)
      (TouchesOnly.of_eq (handleExposurePrepare_windows _ _))
    rfl
  have hrec : ((rl.setThread i { w.thread with window := some window }).handleExposurePrepare
      w.window).m_windows[i]? = some { w with thread := { w.thread with window := some window } } := by
    rw [handleExposurePrepare_windows]
    exact setThread_getElem rl i w _ hw
  simp only [ThreadedRenderLoop.handleExposureStart, hw] at h
  by_cases hrun : w.thread.isRunning = false
  · rw [if_pos hrun] at h
    by_cases hs : rl.startSucceeds = true
    · rw [if_pos hs] at h
      simp only [Option.some.injEq, Prod.mk.injEq] at h
      obtain ⟨hr, hst⟩ := h
      subst hr
      subst hst
      refine ⟨?_, ?_⟩
      · refine TouchesOnly.setThread_of (TouchesOnly.emit
          (TouchesOnly.setThread_of h0 w hw _ ?_) _) w hw _ ?_ <;> rfl
      · have hrec2 := setThread_getElem _ i _
          { w.thread with window := some window, active := true } hrec
        have hrec3 := setThread_getElem
          ((((rl.setThread i { w.thread with window := some window }).handleExposurePrepare
            w.window).setThread i { w.thread with window := some window, active := true }).emit
              (Effect.startThread w.thread.id)) i _
          { w.thread with window := some window, active := true, isRunning := true } hrec2
        exact ⟨_, hrec3, rfl, rfl, rfl, rfl, by rw [hrun]; rfl, rfl, rfl, rfl⟩
    · rw [if_neg hs] at h
      cases h
  · rw [if_neg hrun] at h
    simp only [Option.some.injEq, Prod.mk.injEq] at h
    obtain ⟨hr, hst⟩ := h
    subst hr
    subst hst
    have hrun2 : w.thread.isRunning = true := by simpa using hrun
    exact ⟨h0, _, hrec, rfl, rfl, rfl, hrun2, by rw [hrun2]; rfl, rfl, rfl, rfl⟩

/-- After the first block of `handleExposure` the pointer `w` is what `windowFor` returns
for the window: the record found, or the record just appended. -/
theorem handleExposureRecord_for (rl : ThreadedRenderLoop) (window : WindowId) :
    ∃ w, windowFor (rl.handleExposureRecord window).1.m_windows window =
      some ((rl.handleExposureRecord window).2, w) := by
  cases hfor : windowFor rl.m_windows window with
  | some p =>
    obtain ⟨i, w⟩ := p
    exact ⟨w, by simp [ThreadedRenderLoop.handleExposureRecord, hfor]⟩
  | none =>
    simp only [ThreadedRenderLoop.handleExposureRecord, hfor]
    exact ⟨_, windowFor_append window _ rfl rl.m_windows hfor⟩

/-- Whenever `handleExposure` returns, everything after its first block has touched only
the record of the window. -/
theorem handleExposure_touches (rl : ThreadedRenderLoop) (window : WindowId)
    (r : ThreadedRenderLoop) (h : rl.handleExposure window = some r) :
    TouchesOnly (rl.handleExposureRecord window).2 (rl.handleExposureRecord window).1 r := by
  obtain ⟨w0, hfor0⟩ := handleExposureRecord_for rl window
  obtain ⟨hw0, hwin0⟩ := windowFor_spec _ _ _ _ hfor0
  unfold ThreadedRenderLoop.handleExposure at h
  split at h
  · cases h
  · rename_i rl1 started hstart
    obtain ⟨ht1, w1, hw1, hwin1, hid1, hbound1, _, _, _, _, _⟩ :=
      handleExposureStart_spec _ _ window w0 hw0 rl1 started hstart
    obtain ⟨w1b, hfor1, hw1b, _, _⟩ := ht1.windowFor_some window w0 hfor0
    rw [hw1] at hw1b
    cases hw1b
    have hpost := polishAndSync_posts rl1 window _ w1 true hfor1 (by rw [hbound1]; rfl)
    simp only [hpost] at h
    have htx : TouchesOnly (rl.handleExposureRecord window).2 rl1
        { rl1 with
          m_windows := (rl1.m_windows.set (rl.handleExposureRecord window).2
            { w1 with
              updateDuringSync := false
              forceRenderPass := false
              thread := (w1.thread.postEvent
                (WMEvent.requestSync window (rl1.qwindow window).size true
                  w1.forceRenderPass)) }),
          m_lockedForSync := true,
          log := rl1.log ++ [Effect.flushDelayedTouchEvent window, Effect.polishItems window,
            Effect.afterAnimating window, Effect.mutexLock w1.thread.id] } := by
      refine TouchesOnly.trans (TouchesOnly.setWindow _ rl1 _ ?_) (TouchesOnly.of_eq rfl)
      intro v hv
      rw [hw1] at hv
      cases hv
      exact ⟨rfl, rfl⟩
    have hforx := windowFor_set rl1.m_windows window
      { w1 with
        updateDuringSync := false
        forceRenderPass := false
        thread := (w1.thread.postEvent
          (WMEvent.requestSync window (rl1.qwindow window).size true
            w1.forceRenderPass)) } _ w1 hfor1 rfl
    simp only [hforx] at h
    split at h
    · cases h
    · rename_i rl3 hwake
      have hran := awaitWake_eq _ _ _ _ hwake
      have ht3 : TouchesOnly (rl.handleExposureRecord window).2 rl1 rl3 := by
        refine htx.trans ?_
        split at hran
        · exact run_touches _ _ _ hran
        · exact wake_touches _ _ _ hran
      have hm := startOrStopAnimationTimer_windows _ _ h
      exact (ht1.trans ht3).trans
        (TouchesOnly.of_eq (hm.trans (polishAndSyncResume_frame rl3 _).1))

/-- Whenever `handleExposure` returns, the records are those before the call, in the same
order and with the same render threads, followed by one new record for the window when it
had none. -/
theorem handleExposure_recordIds (rl : ThreadedRenderLoop) (window : WindowId)
    (r : ThreadedRenderLoop) (h : rl.handleExposure window = some r) :
    recordIds r.m_windows =
      recordIds rl.m_windows ++
        (match windowFor rl.m_windows window with
          | some _ => []
          | none => [(window, rl.newThreadId)]) := by
  rw [(handleExposure_touches rl window r h).recordIds]
  cases hfor : windowFor rl.m_windows window with
  | some p => simp [ThreadedRenderLoop.handleExposureRecord, hfor]
  | none =>
    simp [ThreadedRenderLoop.handleExposureRecord, hfor, recordIds, RenderThread.new]

/-- C11: `handleExposure` creates a record only when `windowFor` finds none for the window.
In that case its first block appends exactly one record, for that window, with
`updateDuringSync` false and `forceRenderPass` true, owning a new render thread that is not
running and whose identity differs from that of every render thread of a record. When a
record exists, the first block leaves the state as it is, and the middle of the function
binds the window to the render thread that the record already owned, which is running
afterwards. Whenever the whole call returns, the records are those before the call, in
the same order and with the same render threads, followed by the new record if one was
created. -/
theorem handleExposure_record (rl : ThreadedRenderLoop) (window : WindowId) :
    (windowFor rl.m_windows window = none →
      rl.handleExposureRecord window =
        ({ rl with m_windows := rl.m_windows ++
            [{ window := window,
               actualWindowFormat := (rl.qwindow window).format,
               thread := { RenderThread.new rl.newThreadId with
                           vsyncDelta := qsgrl_animation_interval rl.refreshRate },
               updateDuringSync := false,
               forceRenderPass := true }] }, rl.m_windows.length) ∧
      (RenderThread.new rl.newThreadId).isRunning = false ∧
      (RenderThread.new rl.newThreadId).window = none ∧
      ∀ w ∈ rl.m_windows, w.thread.id ≠ rl.newThreadId) ∧
    (∀ i w, windowFor rl.m_windows window = some (i, w) →
      rl.handleExposureRecord window = (rl, i) ∧
      ∀ r started, rl.handleExposureStart i window = some (r, started) →
        recordIds r.m_windows = recordIds rl.m_windows ∧
        ∃ w1, r.m_windows[i]? = some w1 ∧ w1.window = window ∧
          w1.thread.id = w.thread.id ∧ w1.thread.window = some window ∧
          w1.thread.isRunning = true) ∧
    (∀ r, rl.handleExposure window = some r →
      recordIds r.m_windows =
        recordIds rl.m_windows ++
          (match windowFor rl.m_windows window with
            | some _ => []
            | none => [(window, rl.newThreadId)])) := by
  refine ⟨?_, ?_, ?_⟩
  · intro hfor
    refine ⟨by simp [ThreadedRenderLoop.handleExposureRecord, hfor], rfl, rfl, ?_⟩
    intro w hw
    exact Nat.ne_of_lt (newThreadId_fresh rl w hw)
  · intro i w hfor
    obtain ⟨hw, hwin⟩ := windowFor_spec _ _ _ _ hfor
    refine ⟨by simp [ThreadedRenderLoop.handleExposureRecord, hfor], ?_⟩
    intro r started h
    obtain ⟨ht, w1, hw1, hwin1, hid1, hb1, hrun1, _⟩ :=
      handleExposureStart_spec rl i window w hw r started h
    exact ⟨ht.recordIds, w1, hw1, hwin1.trans hwin, hid1, hb1, hrun1⟩
  · intro r h
    exact handleExposure_recordIds rl window r h

/-- Witness of `handleExposure_record`: exposing window 1 on `emptyLoop` returns with one
record for it, owning thread 1, and exposing it again after it was obscured returns with
the same record and thread. -/
theorem handleExposure_record_witness :
    (∃ r, emptyLoop.handleExposure 1 = some r ∧ recordIds r.m_windows = [(1, 1)]) ∧
    (((emptyLoop.handleExposure 1).bind (fun r => r.handleObscurityWhole 0)).bind
      (fun r => r.handleExposure 1)).map (fun r => recordIds r.m_windows) = some [(1, 1)] := by
  refine ⟨?_, by decide⟩
  cases h : emptyLoop.handleExposure 1 with
  | none =>
    have : (emptyLoop.handleExposure 1).isSome = true := by decide
    rw [h] at this
    cases this
  | some r =>
    exact ⟨r, rfl, (handleExposure_record emptyLoop 1).2.2 r h⟩


/-! ## One record per window -/

/-- The number of records of a window, in terms of the identities of the records. -/
theorem countP_window (s : WindowId) (l : List Window) :
    l.countP (fun w => decide (w.window = s)) = ((recordIds l).map Prod.fst).count s := by
  induction l with
  | nil => rfl
  | cons t rest ih =>
    by_cases ht : t.window = s
    · simp [recordIds, List.countP_cons, ht] at ih ⊢
      exact ih
    · have hne : ¬ (t.window == s) = true := by simpa using ht
      simp [recordIds, List.countP_cons, ht, List.count_cons, hne] at ih ⊢
      exact ih

/-- A lookup finds nothing exactly when the window has no record. -/
theorem windowFor_none_iff (s : WindowId) (l : List Window) :
    windowFor l s = none ↔ l.countP (fun w => decide (w.window = s)) = 0 := by
  induction l with
  | nil => simp [windowFor]
  | cons t rest ih =>
    by_cases ht : t.window = s
    · simp [windowFor, ht, List.countP_cons]
    · simp only [windowFor, ht, if_false, List.countP_cons, decide_False, Bool.false_eq_true,
        Nat.add_zero]
      rw [← ih]
      cases windowFor rest s <;> simp

/-- Removing the element at an index lowers the count of that element by one and keeps the
count of every other element. -/
theorem count_eraseIdx (a : WindowId) :
    ∀ (l : List WindowId) (i : Nat) (b : WindowId), l[i]? = some b →
      (l.eraseIdx i).count a + (if b = a then 1 else 0) = l.count a := by
  intro l
  induction l with
  | nil => intro i b h; simp at h
  | cons t rest ih =>
    intro i b h
    cases i with
    | zero =>
      simp at h
      subst h
      by_cases hta : t = a
      · simp [hta]
      · have : ¬ (t == a) = true := by simpa using hta
        simp [hta, List.count_cons, this]
    | succ j =>
      simp at h
      have := ih j b h
      simp only [List.eraseIdx_cons_succ, List.count_cons]
      omega

/-- Mapping a function over a list without the element at an index. -/
theorem map_eraseIdx_list {α β : Type} (f : α → β) (l : List α) (i : Nat) :
    (l.eraseIdx i).map f = (l.map f).eraseIdx i := by
  induction l generalizing i with
  | nil => rfl
  | cons t rest ih =>
    cases i with
    | zero => rfl
    | succ j =>
      simp only [List.eraseIdx_cons_succ, List.map_cons]
      rw [ih j]

/-- The identities of a list without the record at an index. -/
theorem recordIds_eraseIdx (l : List Window) (i : Nat) :
    recordIds (l.eraseIdx i) = (recordIds l).eraseIdx i :=
  map_eraseIdx_list _ l i


/-- The identities of the render threads of the records, in terms of the identities of the
records. -/
theorem threads_recordIds (l : List Window) :
    l.map (fun w => w.thread.id) = (recordIds l).map Prod.snd := by
  simp [recordIds, List.map_map, Function.comp_def]

/-- Whenever `releaseResources(QQuickWindow *)` returns, the records and their render threads
are those before the call. -/
theorem releaseResources_recordIds (rl : ThreadedRenderLoop) (window : WindowId)
    (r : ThreadedRenderLoop) (h : rl.releaseResources window = some r) :
    recordIds r.m_windows = recordIds rl.m_windows := by
  unfold ThreadedRenderLoop.releaseResources at h
  split at h
  · exact (releaseResourcesWWhole_touches rl _ false r h).recordIds
  · cases h; rfl

/-- Whenever `hide` returns, the records and their render threads are those before the
call. -/
theorem hide_recordIds (rl : ThreadedRenderLoop) (window : WindowId)
    (r : ThreadedRenderLoop) (h : rl.hide window = some r) :
    recordIds r.m_windows = recordIds rl.m_windows := by
  unfold ThreadedRenderLoop.hide at h
  simp only [] at h
  split at h
  · cases h
  · rename_i rl1 h1
    rw [releaseResources_recordIds rl1 window r h]
    split at h1
    · split at h1
      · exact (handleObscurityWhole_touches rl _ rl1 h1).recordIds
      · cases h1
    · cases h1; rfl

/-- One step of a trace keeps the invariant: a window has one record when it has been
exposed and not been destroyed since, and none otherwise; and no two records own the same
render thread. -/
theorem run_invariant (rl : ThreadedRenderLoop) (live : WindowId → Bool) (c : GuiCall)
    (r : ThreadedRenderLoop)
    (hcount : ∀ s, rl.m_windows.countP (fun w => decide (w.window = s)) =
      if live s = true then 1 else 0)
    (hnodup : (rl.m_windows.map (fun w => w.thread.id)).Nodup)
    (h : c.run rl = some r) :
    (∀ s, r.m_windows.countP (fun w => decide (w.window = s)) =
      if liveAfter rl live c s = true then 1 else 0) ∧
    (r.m_windows.map (fun w => w.thread.id)).Nodup := by
  have hsame : ∀ r0 : ThreadedRenderLoop, recordIds r0.m_windows = recordIds rl.m_windows →
      (∀ s, r0.m_windows.countP (fun w => decide (w.window = s)) =
        if live s = true then 1 else 0) ∧
      (r0.m_windows.map (fun w => w.thread.id)).Nodup := by
    intro r0 hids
    refine ⟨?_, ?_⟩
    · intro s
      rw [countP_window, hids, ← countP_window]
      exact hcount s
    · rw [threads_recordIds, hids, ← threads_recordIds]
      exact hnodup
  have hexpose : ∀ window, rl.handleExposure window = some r →
      (∀ s, r.m_windows.countP (fun w => decide (w.window = s)) =
        if (if s = window then true else live s) = true then 1 else 0) ∧
      (r.m_windows.map (fun w => w.thread.id)).Nodup := by
    intro window hexp
    have hids := handleExposure_recordIds rl window r hexp
    cases hfor : windowFor rl.m_windows window with
    | some p =>
      rw [hfor] at hids
      simp only [List.append_nil] at hids
      obtain ⟨h1, h2⟩ := hsame r hids
      refine ⟨?_, h2⟩
      intro s
      rw [h1 s]
      by_cases hs : s = window
      · subst hs
        have hne : rl.m_windows.countP (fun w => decide (w.window = s)) ≠ 0 := by
          intro h0
          rw [(windowFor_none_iff s rl.m_windows).2 h0] at hfor
          cases hfor
        have := hcount s
        by_cases hl : live s = true
        · simp [hl]
        · rw [if_neg hl] at this
          exact absurd this hne
      · simp [hs]
    | none =>
      rw [hfor] at hids
      simp only at hids
      have hzero := (windowFor_none_iff window rl.m_windows).1 hfor
      refine ⟨?_, ?_⟩
      · intro s
        rw [countP_window, hids, List.map_append, List.count_append, ← countP_window]
        by_cases hs : s = window
        · subst hs
          simp [hzero]
        · have hne : ¬ (window == s) = true := by
            simpa using fun hc : window = s => hs hc.symm
          simp [hs, hcount s, List.count_cons, hne]
      · rw [threads_recordIds, hids, List.map_append, ← threads_recordIds]
        simp only [List.map_cons, List.map_nil]
        rw [List.nodup_append]
        refine ⟨hnodup, List.nodup_singleton _, ?_⟩
        intro a ha hb
        simp only [List.mem_singleton] at hb
        subst hb
        obtain ⟨w, hw, hwid⟩ := List.mem_map.1 ha
        have := newThreadId_fresh rl w hw
        omega
  cases c with
  | exposureChanged window =>
    simp only [GuiCall.run, ThreadedRenderLoop.exposureChanged] at h
    by_cases hexp : (rl.qwindow window).isExposed = true
    · rw [if_pos hexp] at h
      simp only [liveAfter, hexp, if_true]
      exact hexpose window h
    · rw [if_neg hexp] at h
      simp only [liveAfter, hexp, if_false]
      split at h
      · exact hsame r (handleObscurityWhole_touches rl _ r h).recordIds
      · cases h; exact hsame _ rfl
  | handleExposure window =>
    simp only [GuiCall.run] at h
    simp only [liveAfter]
    exact hexpose window h
  | handleObscurity window =>
    simp only [GuiCall.run] at h
    simp only [liveAfter]
    split at h
    · exact hsame r (handleObscurityWhole_touches rl _ r h).recordIds
    · cases h
  | hide window =>
    simp only [GuiCall.run] at h
    simp only [liveAfter]
    exact hsame r (hide_recordIds rl window r h)
  | releaseResources window =>
    simp only [GuiCall.run] at h
    simp only [liveAfter]
    exact hsame r (releaseResources_recordIds rl window r h)
  | windowDestroyed window =>
    simp only [GuiCall.run] at h
    simp only [liveAfter]
    cases hfor : windowFor rl.m_windows window with
    | none =>
      simp [ThreadedRenderLoop.windowDestroyed, hfor] at h
      subst h
      have hzero := (windowFor_none_iff window rl.m_windows).1 hfor
      refine ⟨?_, hnodup⟩
      intro s
      by_cases hs : s = window
      · subst hs; simp [hzero]
      · simp [hs, hcount s]
    | some p =>
      obtain ⟨i, w⟩ := p
      obtain ⟨rl1, rl2, w2, _, _, _, _, _, hr⟩ := windowDestroyed_steps rl window i w r hfor h
      have hm : r.m_windows = rl.m_windows.eraseIdx i := by rw [hr]
      obtain ⟨hw, hwin⟩ := windowFor_spec _ _ _ _ hfor
      have hidx : ((recordIds rl.m_windows).map Prod.fst)[i]? = some window := by
        simp [recordIds, hw, hwin]
      refine ⟨?_, ?_⟩
      · intro s
        have hc := count_eraseIdx s _ i window hidx
        rw [countP_window, hm, recordIds_eraseIdx, map_eraseIdx_list]
        have hold := hcount s
        rw [countP_window] at hold
        by_cases hs : s = window
        · subst hs
          simp only [if_true] at hc
          have hne : rl.m_windows.countP (fun w => decide (w.window = s)) ≠ 0 := by
            intro h0
            rw [(windowFor_none_iff s rl.m_windows).2 h0] at hfor
            cases hfor
          rw [countP_window] at hne
          by_cases hl : live s = true
          · rw [if_pos hl] at hold
            simp
            omega
          · rw [if_neg hl] at hold
            exact absurd hold hne
        · have hne : ¬ window = s := fun hc2 => hs hc2.symm
          simp only [hne, if_false, Nat.add_zero] at hc
          rw [hc, hold]
          simp [hs]
      · rw [hm, threads_recordIds, recordIds_eraseIdx, map_eraseIdx_list, ← threads_recordIds]
        exact List.Nodup.eraseIdx i hnodup
  | windowChanged window object =>
    simp only [GuiCall.run, Option.some.injEq] at h
    subst h
    simp only [liveAfter]
    exact hsame _ rfl

/-- A trace keeps the invariant of `run_invariant`. -/
theorem runCalls_invariant (calls : List GuiCall) :
    ∀ (rl : ThreadedRenderLoop) (live : WindowId → Bool) (r : ThreadedRenderLoop)
      (live1 : WindowId → Bool),
      (∀ s, rl.m_windows.countP (fun w => decide (w.window = s)) =
        if live s = true then 1 else 0) →
      (rl.m_windows.map (fun w => w.thread.id)).Nodup →
      runCalls calls rl live = some (r, live1) →
      (∀ s, r.m_windows.countP (fun w => decide (w.window = s)) =
        if live1 s = true then 1 else 0) ∧
      (r.m_windows.map (fun w => w.thread.id)).Nodup := by
  induction calls with
  | nil =>
    intro rl live r live1 hc hn h
    simp only [runCalls, Option.some.injEq, Prod.mk.injEq] at h
    obtain ⟨h1, h2⟩ := h
    subst h1
    subst h2
    exact ⟨hc, hn⟩
  | cons c cs ih =>
    intro rl live r live1 hc hn h
    simp only [runCalls] at h
    split at h
    · rename_i r1 hrun
      obtain ⟨hc1, hn1⟩ := run_invariant rl live c r1 hc hn hrun
      exact ih r1 _ r live1 hc1 hn1 h
    · cases h

/-- C12: start with no record and make any sequence of calls of `exposureChanged`,
`handleExposure`, `handleObscurity`, `hide`, `releaseResources` and `windowDestroyed`, for
any windows, with any changes of the window objects in between. If every call returns, then
afterwards every window that has been exposed and not been destroyed since has exactly one
record, every other window has none, and no two records own the same render thread. -/
theorem one_record_per_window (calls : List GuiCall) (rl : ThreadedRenderLoop)
    (r : ThreadedRenderLoop) (live : WindowId → Bool)
    (hempty : rl.m_windows = [])
    (h : runCalls calls rl (fun _ => false) = some (r, live)) :
    (∀ s, r.m_windows.countP (fun w => decide (w.window = s)) =
      if live s = true then 1 else 0) ∧
    (r.m_windows.map (fun w => w.thread.id)).Nodup := by
  refine runCalls_invariant calls rl (fun _ => false) r live ?_ ?_ h
  · intro s
    simp [hempty]
  · simp [hempty]

/-- Witness of `one_record_per_window`: `sampleTrace` runs to the end from `emptyLoop`;
afterwards window 2 is the only window exposed and not destroyed, and the only record is
the one of window 2 with the render thread created for it. -/
theorem one_record_per_window_witness :
    ∃ r live, runCalls sampleTrace emptyLoop (fun _ => false) = some (r, live) ∧
      live 1 = false ∧ live 2 = true ∧ live 3 = false ∧
      recordIds r.m_windows = [(2, 2)] ∧
      (∀ s, r.m_windows.countP (fun w => decide (w.window = s)) =
        if live s = true then 1 else 0) ∧
      (r.m_windows.map (fun w => w.thread.id)).Nodup := by
  have hfacts : (runCalls sampleTrace emptyLoop (fun _ => false)).map
      (fun p => (p.2 1, p.2 2, p.2 3, recordIds p.1.m_windows)) =
      some (false, true, false, [(2, 2)]) := by decide
  cases h : runCalls sampleTrace emptyLoop (fun _ => false) with
  | none => rw [h] at hfacts; cases hfacts
  | some p =>
    obtain ⟨r, live⟩ := p
    rw [h] at hfacts
    simp only [Option.map_some', Option.some.injEq, Prod.mk.injEq] at hfacts
    obtain ⟨h1, h2, h3, h4⟩ := hfacts
    exact ⟨r, live, rfl, h1, h2, h3, h4, one_record_per_window sampleTrace emptyLoop r live rfl h⟩

/-! ## The pointer `theOne` and the early return of `polishAndSync` -/

/-- The pointer `theOne` left by the loop of `startOrStopAnimationTimer` is either the one it
started with or points at a record of the list that satisfies the test. -/
theorem exposedScan_mem (p : Window → Bool) (l : List Window) :
    ∀ (acc : Nat × Option Window) (w : Window),
      (l.foldl (fun acc w => if p w then (acc.1 + 1, some w) else acc) acc).2 = some w →
        acc.2 = some w ∨ (w ∈ l ∧ p w = true) := by
  induction l with
  | nil => intro acc w h; exact Or.inl h
  | cons x rest ih =>
    intro acc w h
    by_cases hp : p x = true
    · simp only [List.foldl_cons, hp, if_true] at h
      rcases ih _ w h with h1 | h1
      · simp only [Option.some.injEq] at h1
        subst h1
        exact Or.inr ⟨List.mem_cons_self _ _, hp⟩
      · exact Or.inr ⟨List.mem_cons_of_mem _ h1.1, h1.2⟩
    · simp only [List.foldl_cons, hp, if_false] at h
      rcases ih _ w h with h1 | h1
      · exact Or.inl h1
      · exact Or.inr ⟨List.mem_cons_of_mem _ h1.1, h1.2⟩

/-- C26: for every record list, timer state and driver state, `startOrStopAnimationTimer`
returns without dereferencing a null `theOne`. It requests a polish (`requestUpdate`) exactly
when a timer was active, the animation driver is running and exactly one tracked window is
visible and exposed; the request then goes through `theOne`, which is non-null and points at
a record of the list whose window is visible and exposed. -/
theorem theOne_never_null (rl : ThreadedRenderLoop) :
    ∃ added rl1, rl.startOrStopAnimationTimer = some rl1 ∧ rl1.log = rl.log ++ added ∧
      ((∃ x, Effect.requestUpdate x ∈ added) ↔
        (rl.m_animation_timer ≠ 0 ∧ rl.animationRunning = true ∧
          rl.m_windows.countP rl.showing = 1)) ∧
      (∀ x, Effect.requestUpdate x ∈ added →
        ∃ w, rl.exposedScan.2 = some w ∧ w ∈ rl.m_windows ∧ rl.showing w = true ∧
          w.window = x ∧
          added = [Effect.killTimer rl.m_animation_timer, Effect.requestUpdate x]) := by
  have hscan := exposedScan_fold rl.showing rl.m_windows (0, none)
  have hcount : rl.exposedScan.1 = rl.m_windows.countP rl.showing := by
    simpa [ThreadedRenderLoop.exposedScan] using hscan.1
  have hone : rl.m_windows.countP rl.showing = 1 → rl.exposedScan.2.isSome := by
    intro h
    have := hscan.2 (Or.inr (by omega))
    simpa [ThreadedRenderLoop.exposedScan] using this
  have hmem : ∀ w, rl.exposedScan.2 = some w → w ∈ rl.m_windows ∧ rl.showing w = true := by
    intro w h
    rcases exposedScan_mem rl.showing rl.m_windows (0, none) w h with h1 | h1
    · simp at h1
    · exact h1
  unfold ThreadedRenderLoop.startOrStopAnimationTimer
  simp only [hcount]
  by_cases ht : rl.m_animation_timer = 0
  · by_cases hc : rl.m_windows.countP rl.showing = 1
    · refine ⟨[], ?_⟩
      simp [ht, hc]
    · cases hr : rl.animationRunning
      · refine ⟨[], ?_⟩
        simp [ht, hc, hr]
      · refine ⟨[Effect.startTimer (qsgrl_animation_interval rl.refreshRate)], ?_⟩
        by_cases hneg : qsgrl_animation_interval rl.refreshRate < 0 <;>
          simp [ht, hc, hr, startTimer, hneg, ThreadedRenderLoop.emit]
  · by_cases hc : rl.m_windows.countP rl.showing = 1
    · cases hr : rl.animationRunning
      · refine ⟨[Effect.killTimer rl.m_animation_timer], ?_⟩
        simp [ht, hc, hr, ThreadedRenderLoop.emit]
      · have hsome := hone hc
        cases hth : rl.exposedScan.2 with
        | none => simp [hth] at hsome
        | some w =>
          have hm := hmem w hth
          refine ⟨[Effect.killTimer rl.m_animation_timer, Effect.requestUpdate w.window], ?_⟩
          simp [ht, hc, hr, ThreadedRenderLoop.emit, ThreadedRenderLoop.maybePostPolishRequest,
            hm.1, hm.2]
    · cases hr : rl.animationRunning
      · refine ⟨[Effect.killTimer rl.m_animation_timer], ?_⟩
        simp [ht, hc, hr, ThreadedRenderLoop.emit]
      · refine ⟨[], ?_⟩
        simp [ht, hc, hr]

/-- C27: when the render thread of the record has no bound window (the window is obscured),
`polishAndSync` returns at its first test. The state on return is the state on entry: the
polish pass has not run, no event has been posted and the mutex has not been locked (nothing
is logged and no queue has changed), and `forceRenderPass`, `updateDuringSync` and
`m_lockedForSync` are what they were. -/
theorem polishAndSync_obscured (rl : ThreadedRenderLoop) (i : Nat) (w : Window)
    (inExpose : Bool) (hw : rl.m_windows[i]? = some w) (hwin : w.thread.window = none) :
    ∃ rl1, rl.polishAndSync i inExpose = Call.returned rl1 () ∧ rl1.log = rl.log ∧
      rl1.m_windows = rl.m_windows ∧ rl1.m_lockedForSync = rl.m_lockedForSync ∧
      rl1.m_windows[i]? = some w ∧ rl.polishAndSync i inExpose = Call.returned rl () := by
  refine ⟨rl, ?_, rfl, rfl, rfl, hw, ?_⟩ <;>
    simp [ThreadedRenderLoop.polishAndSync, hw, hwin]

/-- Witness of `polishAndSync_obscured`: the obscured window of `obscuredLoop`, in an
expose. -/
theorem polishAndSync_obscured_witness :
    ∃ rl1, obscuredLoop.polishAndSync 0 true = Call.returned rl1 () ∧
      rl1.log = obscuredLoop.log ∧
      rl1.m_windows = obscuredLoop.m_windows ∧
      rl1.m_lockedForSync = obscuredLoop.m_lockedForSync ∧
      rl1.m_windows[0]? = some { sampleWindow with thread := { sampleThread with window := none } } ∧
      obscuredLoop.polishAndSync 0 true = Call.returned obscuredLoop () :=
  polishAndSync_obscured obscuredLoop 0
    { sampleWindow with thread := { sampleThread with window := none } } true rfl rfl

/-! ## Synchronising and rendering -/

/-- A write through `w->thread` makes no outside call. -/
theorem setThread_log (rl : ThreadedRenderLoop) (i : Nat) (t : RenderThread) :
    (rl.setThread i t).log = rl.log := by
  unfold ThreadedRenderLoop.setThread
  split <;> rfl

/-- A write through `w->thread` changes no window object. -/
theorem setThread_qwindow (rl : ThreadedRenderLoop) (i : Nat) (t : RenderThread) :
    (rl.setThread i t).qwindow = rl.qwindow := by
  unfold ThreadedRenderLoop.setThread
  split <;> rfl

/-- The block of `sync` under `if (current)`, run for the thread of record `i`: its outside
calls, and what it leaves in `syncResultedInChanges`. -/
theorem syncCurrent_spec (rl : ThreadedRenderLoop) (i : Nat) (w : Window) (win : WindowId)
    (hw : rl.m_windows[i]? = some w) :
    (RenderThread.syncCurrent rl i w.thread win).log =
        rl.log ++ syncCurrentCalls (rl.qwindow win) win ∧
      (RenderThread.syncCurrent rl i w.thread win).m_windows[i]? =
        some { w with thread := { w.thread with
          syncResultedInChanges := w.thread.syncResultedInChanges ||
            ((rl.qwindow win).sceneGraphChanges ||
              (!(rl.qwindow win).renderer && (rl.qwindow win).syncCreatesRenderer)) } } ∧
      (RenderThread.syncCurrent rl i w.thread win).elapsed = rl.elapsed := by
  have hi : i < rl.m_windows.length := (List.getElem?_eq_some.1 hw).1
  cases hr : (rl.qwindow win).renderer <;> cases hc : (rl.qwindow win).syncCreatesRenderer <;>
    cases hs : (rl.qwindow win).sceneGraphChanges <;>
    simp [RenderThread.syncCurrent, syncCurrentCalls, ThreadedRenderLoop.syncSceneGraph,
      ThreadedRenderLoop.emit, ThreadedRenderLoop.setThread, ThreadedRenderLoop.setWindow,
      hw, hi, hr, hc, hs]

/-- The end of `sync`: its outside calls, and that it writes nothing else. -/
theorem syncWake_spec (rl : ThreadedRenderLoop) (id : Nat) (inExpose : Bool) :
    (RenderThread.syncWake rl id inExpose).log = rl.log ++ wakeCalls id (!inExpose) ∧
      (RenderThread.syncWake rl id inExpose).m_windows = rl.m_windows ∧
      (RenderThread.syncWake rl id inExpose).elapsed = rl.elapsed ∧
      (RenderThread.syncWake rl id inExpose).qwindow = rl.qwindow := by
  cases inExpose <;> simp [RenderThread.syncWake, wakeCalls, ThreadedRenderLoop.emit]

/-- The member `sync` for a render thread with a bound window: it returns, and these are its
outside calls, the value it leaves in `syncResultedInChanges`, and the fields it keeps. -/
theorem sync_result (rl : ThreadedRenderLoop) (i : Nat) (w : Window) (win : WindowId)
    (inExpose : Bool) (hw : rl.m_windows[i]? = some w) (hwin : w.thread.window = some win) :
    ∃ rl1, RenderThread.sync rl i inExpose = some rl1 ∧
      rl1.log = rl.log ++ [Effect.mutexLock w.thread.id] ++
        (if 0 < w.thread.windowSize.width ∧ 0 < w.thread.windowSize.height then
          syncCurrentCalls (rl.qwindow win) win else []) ++
        wakeCalls w.thread.id (!inExpose) ∧
      rl1.m_windows[i]? = some { w with thread := { w.thread with
        syncResultedInChanges := w.thread.syncResultedInChanges ||
          (decide (0 < w.thread.windowSize.width ∧ 0 < w.thread.windowSize.height) &&
            ((rl.qwindow win).sceneGraphChanges ||
              (!(rl.qwindow win).renderer && (rl.qwindow win).syncCreatesRenderer))) } } ∧
      rl1.elapsed = rl.elapsed := by
  have hw1 : (rl.emit (Effect.mutexLock w.thread.id)).m_windows[i]? = some w := hw
  obtain ⟨h1, h2, h3⟩ := syncCurrent_spec (rl.emit (Effect.mutexLock w.thread.id)) i w win hw1
  have hq : (rl.emit (Effect.mutexLock w.thread.id)).qwindow = rl.qwindow := rfl
  have hl : (rl.emit (Effect.mutexLock w.thread.id)).log =
      rl.log ++ [Effect.mutexLock w.thread.id] := rfl
  have he : (rl.emit (Effect.mutexLock w.thread.id)).elapsed = rl.elapsed := rfl
  rw [hq] at h1 h2
  rw [hl] at h1
  rw [he] at h3
  by_cases hpos : 0 < w.thread.windowSize.width ∧ 0 < w.thread.windowSize.height
  · have hs : RenderThread.sync rl i inExpose = some (RenderThread.syncWake
        (RenderThread.syncCurrent (rl.emit (Effect.mutexLock w.thread.id)) i w.thread win)
        w.thread.id inExpose) := by
      simp only [RenderThread.sync, hw, hwin, if_pos hpos]
    obtain ⟨k1, k2, k3, _⟩ := syncWake_spec
      (RenderThread.syncCurrent (rl.emit (Effect.mutexLock w.thread.id)) i w.thread win)
      w.thread.id inExpose
    refine ⟨_, hs, ?_, ?_, ?_⟩
    · rw [k1, h1, if_pos hpos]
    · rw [k2, h2]
      simp [hpos]
    · rw [k3, h3]
  · have hs : RenderThread.sync rl i inExpose = some (RenderThread.syncWake
        (rl.emit (Effect.mutexLock w.thread.id)) w.thread.id inExpose) := by
      simp only [RenderThread.sync, hw, if_neg hpos]
    obtain ⟨k1, k2, k3, _⟩ := syncWake_spec
      (rl.emit (Effect.mutexLock w.thread.id)) w.thread.id inExpose
    refine ⟨_, hs, ?_, ?_, ?_⟩
    · rw [k1, hl, if_neg hpos]
      simp
    · rw [k2, hw1]
      simp [hpos]
    · rw [k3, he]

/-- The rendering part of `syncAndRender`: its outside calls, and that it writes nothing
else. -/
theorem renderFrame_spec (rl : ThreadedRenderLoop) (t : RenderThread) (win : WindowId)
    (expose : Bool) :
    (RenderThread.renderFrame rl t win expose).log =
        rl.log ++ renderCalls t (rl.qwindow win) win expose ∧
      (RenderThread.renderFrame rl t win expose).m_windows = rl.m_windows := by
  unfold RenderThread.renderFrame renderCalls wakeCalls
  cases expose <;> cases t.animatorRunning <;>
    by_cases h : (rl.qwindow win).renderer = true ∧ 0 < t.windowSize.width ∧
      0 < t.windowSize.height <;>
    simp [ThreadedRenderLoop.emit, h]

/-- The call of `sync` in `syncAndRender` for a render thread with a bound window: it
returns, and these are its outside calls and the state of the thread after it, in which
`pendingUpdate` is zero. -/
theorem syncIfRequested_result (rl : ThreadedRenderLoop) (i : Nat) (w : Window)
    (win : WindowId) (hw : rl.m_windows[i]? = some w) (hwin : w.thread.window = some win) :
    ∃ rl2, RenderThread.syncIfRequested
        (rl.setThread i { w.thread with syncResultedInChanges := false, pendingUpdate := 0 })
        i w.thread.syncRequested w.thread.exposeRequested = some rl2 ∧
      rl2.log = rl.log ++
        (if w.thread.syncRequested = true then
          syncCalls w.thread (rl.qwindow win) win w.thread.exposeRequested else []) ∧
      rl2.m_windows[i]? = some { w with thread := { w.thread with
        pendingUpdate := 0,
        syncResultedInChanges := w.thread.syncRequested &&
          (decide (0 < w.thread.windowSize.width ∧ 0 < w.thread.windowSize.height) &&
            ((rl.qwindow win).sceneGraphChanges ||
              (!(rl.qwindow win).renderer && (rl.qwindow win).syncCreatesRenderer))) } } ∧
      rl2.elapsed = rl.elapsed := by
  have hw0 := setThread_getElem rl i w
    { w.thread with syncResultedInChanges := false, pendingUpdate := 0 } hw
  have hl0 := setThread_log rl i
    { w.thread with syncResultedInChanges := false, pendingUpdate := 0 }
  have hq0 := setThread_qwindow rl i
    { w.thread with syncResultedInChanges := false, pendingUpdate := 0 }
  have he0 : (rl.setThread i
      { w.thread with syncResultedInChanges := false, pendingUpdate := 0 }).elapsed =
      rl.elapsed := by
    unfold ThreadedRenderLoop.setThread
    split <;> rfl
  cases hs : w.thread.syncRequested
  · refine ⟨_, by simp [RenderThread.syncIfRequested], ?_, ?_, he0⟩
    · simp [hl0]
    · simp [hw0]
  · obtain ⟨rl1, h1, h2, h3, h4⟩ := sync_result _ i _ win w.thread.exposeRequested hw0 hwin
    refine ⟨rl1, by simp [RenderThread.syncIfRequested, h1], ?_, ?_, ?_⟩
    · rw [h2, hl0, hq0]
      simp [syncCalls]
    · rw [h3, hq0]
      simp
    · rw [h4, he0]

/-- The member `syncAndRender` in terms of the state `rl2` after its call of `sync`: either
the frame is skipped and the thread sleeps for what is left of `vsyncDelta`, or the frame is
rendered. -/
theorem syncAndRender_result (rl : ThreadedRenderLoop) (i : Nat) (w : Window) (win : WindowId)
    (rl2 : ThreadedRenderLoop) (w2 : Window)
    (hw : rl.m_windows[i]? = some w) (hwin : w.thread.window = some win)
    (hs : RenderThread.syncIfRequested
        (rl.setThread i { w.thread with syncResultedInChanges := false, pendingUpdate := 0 })
        i w.thread.syncRequested w.thread.exposeRequested = some rl2)
    (hw2 : rl2.m_windows[i]? = some w2) :
    RenderThread.syncAndRender rl i =
      some (if w2.thread.syncResultedInChanges = false ∧
            RenderThread.repaintRequested rl w.thread win = false then
          (if 0 < w2.thread.vsyncDelta - rl2.elapsed then
            rl2.emit (Effect.msleep (w2.thread.vsyncDelta - rl2.elapsed)) else rl2)
        else RenderThread.renderFrame rl2 w2.thread win w.thread.exposeRequested) := by
  simp only [RenderThread.syncAndRender, hw]
  split
  · rename_i hnone
    rw [hwin] at hnone
    cases hnone
  · rename_i win1 hsome
    have hwin1 : win1 = win := by
      rw [hwin] at hsome
      cases hsome
      rfl
    subst hwin1
    rw [hs]
    simp only [RenderThread.afterSync, hw2]
    split
    · split <;> rfl
    · rfl

/-- When all Expose bits are pending, the Sync bit and the Repaint bit are pending. -/
theorem expose_bits (p : Nat) (h : p &&& ExposeRequest = ExposeRequest) :
    p &&& SyncRequest ≠ 0 ∧ p &&& RepaintRequest ≠ 0 := by
  have h1 : p &&& SyncRequest = (p &&& ExposeRequest) &&& SyncRequest := by
    rw [Nat.land_assoc]
    rfl
  have h2 : p &&& RepaintRequest = (p &&& ExposeRequest) &&& RepaintRequest := by
    rw [Nat.land_assoc]
    rfl
  rw [h1, h2, h]
  exact ⟨by decide, by decide⟩

/-- When the Sync bit is not pending, the Expose bits are not all pending. -/
theorem expose_needs_sync (t : RenderThread) (h : t.syncRequested = false) :
    t.exposeRequested = false := by
  cases he : t.exposeRequested
  · rfl
  · have := (expose_bits t.pendingUpdate (by simpa [RenderThread.exposeRequested] using he)).1
    simp [RenderThread.syncRequested, this] at h

/-- The outside calls of `sync`, counted: the scene graph is synchronised once when the size
is positive, the GUI thread is woken and the mutex unlocked once unless `inExpose`, and no
warning is issued. -/
theorem syncCalls_count (t : RenderThread) (q : QQuickWindow) (win : WindowId)
    (inExpose : Bool) :
    (∀ x, (syncCalls t q win inExpose).count (Effect.syncSceneGraph x) =
      if (0 < t.windowSize.width ∧ 0 < t.windowSize.height) ∧ x = win then 1 else 0) ∧
    (∀ k, (syncCalls t q win inExpose).count (Effect.wakeOne k) =
      if inExpose = false ∧ k = t.id then 1 else 0) ∧
    (∀ k, (syncCalls t q win inExpose).count (Effect.mutexUnlock k) =
      if inExpose = false ∧ k = t.id then 1 else 0) ∧
    (syncCalls t q win inExpose).count Effect.warning = 0 := by
  refine ⟨fun x => ?_, fun k => ?_, fun k => ?_, ?_⟩
  · rcases eq_or_ne win x with hx | hx
    · subst hx
      by_cases hpos : 0 < t.windowSize.width ∧ 0 < t.windowSize.height <;>
        cases inExpose <;> cases hr : q.renderer <;> cases hc : q.syncCreatesRenderer <;>
        simp [syncCalls, syncCurrentCalls, wakeCalls, hpos, hr, hc, List.count_cons]
    · by_cases hpos : 0 < t.windowSize.width ∧ 0 < t.windowSize.height <;>
        cases inExpose <;> cases hr : q.renderer <;> cases hc : q.syncCreatesRenderer <;>
        simp [syncCalls, syncCurrentCalls, wakeCalls, hpos, hr, hc, List.count_cons, hx,
          hx.symm]
  · rcases eq_or_ne t.id k with hx | hx
    · subst hx
      by_cases hpos : 0 < t.windowSize.width ∧ 0 < t.windowSize.height <;>
        cases inExpose <;> cases hr : q.renderer <;> cases hc : q.syncCreatesRenderer <;>
        simp [syncCalls, syncCurrentCalls, wakeCalls, hpos, hr, hc, List.count_cons]
    · by_cases hpos : 0 < t.windowSize.width ∧ 0 < t.windowSize.height <;>
        cases inExpose <;> cases hr : q.renderer <;> cases hc : q.syncCreatesRenderer <;>
        simp [syncCalls, syncCurrentCalls, wakeCalls, hpos, hr, hc, List.count_cons, hx,
          hx.symm]
  · rcases eq_or_ne t.id k with hx | hx
    · subst hx
      by_cases hpos : 0 < t.windowSize.width ∧ 0 < t.windowSize.height <;>
        cases inExpose <;> cases hr : q.renderer <;> cases hc : q.syncCreatesRenderer <;>
        simp [syncCalls, syncCurrentCalls, wakeCalls, hpos, hr, hc, List.count_cons]
    · by_cases hpos : 0 < t.windowSize.width ∧ 0 < t.windowSize.height <;>
        cases inExpose <;> cases hr : q.renderer <;> cases hc : q.syncCreatesRenderer <;>
        simp [syncCalls, syncCurrentCalls, wakeCalls, hpos, hr, hc, List.count_cons, hx,
          hx.symm]
  · by_cases hpos : 0 < t.windowSize.width ∧ 0 < t.windowSize.height <;>
      cases inExpose <;> cases hr : q.renderer <;> cases hc : q.syncCreatesRenderer <;>
      simp [syncCalls, syncCurrentCalls, wakeCalls, hpos, hr, hc, List.count_cons]

/-- C22: `RenderThread::sync(inExpose)` locks the mutex and then synchronises the scene
graph of the bound window (`d->syncSceneGraph()`) if and only if the stored width and height
are both positive; it calls `waitCondition.wakeOne()` and unlocks the mutex, once each and
in this order, if and only if `inExpose` is false, whether or not the size is positive. A
non-positive size makes the call skip the synchronisation and return normally: no warning is
issued. The window pointer is only used when the size is positive. -/
theorem sync_iff_positive_size (rl : ThreadedRenderLoop) (i : Nat) (w : Window)
    (win : WindowId) (inExpose : Bool) (hw : rl.m_windows[i]? = some w)
    (hwin : 0 < w.thread.windowSize.width ∧ 0 < w.thread.windowSize.height →
      w.thread.window = some win) :
    ∃ rl1, RenderThread.sync rl i inExpose = some rl1 ∧
      rl1.log = rl.log ++ syncCalls w.thread (rl.qwindow win) win inExpose ∧
      (∀ x, (syncCalls w.thread (rl.qwindow win) win inExpose).count (Effect.syncSceneGraph x) =
        if (0 < w.thread.windowSize.width ∧ 0 < w.thread.windowSize.height) ∧ x = win
          then 1 else 0) ∧
      (∀ k, (syncCalls w.thread (rl.qwindow win) win inExpose).count (Effect.wakeOne k) =
        if inExpose = false ∧ k = w.thread.id then 1 else 0) ∧
      (∀ k, (syncCalls w.thread (rl.qwindow win) win inExpose).count (Effect.mutexUnlock k) =
        if inExpose = false ∧ k = w.thread.id then 1 else 0) ∧
      (syncCalls w.thread (rl.qwindow win) win inExpose).count Effect.warning = 0 ∧
      (syncCalls w.thread (rl.qwindow win) win inExpose).head? =
        some (Effect.mutexLock w.thread.id) ∧
      (inExpose = false →
        [Effect.wakeOne w.thread.id, Effect.mutexUnlock w.thread.id] <:+
          syncCalls w.thread (rl.qwindow win) win inExpose) := by
  obtain ⟨c1, c2, c3, c4⟩ := syncCalls_count w.thread (rl.qwindow win) win inExpose
  have hhead : (syncCalls w.thread (rl.qwindow win) win inExpose).head? =
      some (Effect.mutexLock w.thread.id) := by
    simp [syncCalls]
  have htail : inExpose = false →
      [Effect.wakeOne w.thread.id, Effect.mutexUnlock w.thread.id] <:+
        syncCalls w.thread (rl.qwindow win) win inExpose := by
    intro h
    subst h
    unfold syncCalls wakeCalls
    exact List.suffix_append _ _
  by_cases hpos : 0 < w.thread.windowSize.width ∧ 0 < w.thread.windowSize.height
  · obtain ⟨rl1, h1, h2, _, _⟩ := sync_result rl i w win inExpose hw (hwin hpos)
    exact ⟨rl1, h1, by rw [h2]; simp [syncCalls], c1, c2, c3, c4, hhead, htail⟩
  · have hs : RenderThread.sync rl i inExpose = some (RenderThread.syncWake
        (rl.emit (Effect.mutexLock w.thread.id)) w.thread.id inExpose) := by
      simp only [RenderThread.sync, hw, if_neg hpos]
    refine ⟨_, hs, ?_, c1, c2, c3, c4, hhead, htail⟩
    rw [(syncWake_spec _ _ _).1]
    simp [syncCalls, hpos, ThreadedRenderLoop.emit]

/-- The outside calls of the rendering part of `syncAndRender`, counted: the GUI thread is
woken and the mutex unlocked once when an expose was requested and not otherwise; the mutex
is not locked and no scene graph is synchronised. -/
theorem renderCalls_count (t : RenderThread) (q : QQuickWindow) (win : WindowId)
    (expose : Bool) :
    (renderCalls t q win expose).count (Effect.wakeOne t.id) = (if expose then 1 else 0) ∧
    (renderCalls t q win expose).count (Effect.mutexUnlock t.id) =
      (if expose then 1 else 0) ∧
    (∀ k, (renderCalls t q win expose).count (Effect.mutexLock k) = 0) ∧
    (∀ x, (renderCalls t q win expose).count (Effect.syncSceneGraph x) = 0) := by
  refine ⟨?_, ?_, fun k => ?_, fun x => ?_⟩ <;>
    by_cases h : q.renderer = true ∧ 0 < t.windowSize.width ∧ 0 < t.windowSize.height <;>
    cases expose <;> cases ha : t.animatorRunning <;>
    simp [renderCalls, wakeCalls, h, ha, List.count_cons]

/-- The Expose bits are all pending only when the Sync bit is pending and a repaint is
requested. -/
theorem exposeRequested_implies (rl : ThreadedRenderLoop) (t : RenderThread) (win : WindowId)
    (h : t.exposeRequested = true) :
    t.syncRequested = true ∧ RenderThread.repaintRequested rl t win = true := by
  have hb := expose_bits t.pendingUpdate (by simpa [RenderThread.exposeRequested] using h)
  simp [RenderThread.syncRequested, RenderThread.repaintRequested, hb.1, hb.2]

/-- Adds up the wakes of `sync` and of the render step. -/
theorem wake_total (sy ex : Bool) (a b : Nat) (hex : ex = true → sy = true)
    (ha : a = if sy = true ∧ ex = false then 1 else 0) (hb : b = if ex = true then 1 else 0) :
    a + b = if sy = true then 1 else 0 := by
  subst ha hb
  cases sy <;> cases ex <;> simp at hex ⊢

/-- One call of `syncAndRender` by a render thread with a bound window, in two parts: the
outside calls up to the return of `sync` are those of `sync` when the Sync bit is pending
and none otherwise; the calls after it wake the GUI thread and unlock the mutex once when
the Expose bits are all pending and not otherwise, and then the frame is rendered. -/
theorem syncAndRender_parts (rl : ThreadedRenderLoop) (i : Nat) (w : Window)
    (win : WindowId) (hw : rl.m_windows[i]? = some w) (hwin : w.thread.window = some win) :
    ∃ rl2 w2 rl1 rendered,
      RenderThread.syncIfRequested
        (rl.setThread i { w.thread with syncResultedInChanges := false, pendingUpdate := 0 })
        i w.thread.syncRequested w.thread.exposeRequested = some rl2 ∧
      rl2.m_windows[i]? = some w2 ∧
      rl2.log = rl.log ++ (if w.thread.syncRequested = true then
        syncCalls w.thread (rl.qwindow win) win w.thread.exposeRequested else []) ∧
      RenderThread.syncAndRender rl i = some rl1 ∧
      rl1.log = rl2.log ++ rendered ∧
      rl1.m_windows = rl2.m_windows ∧
      w2.thread = { w.thread with
        pendingUpdate := 0,
        syncResultedInChanges := w.thread.syncRequested &&
          (decide (0 < w.thread.windowSize.width ∧ 0 < w.thread.windowSize.height) &&
            ((rl.qwindow win).sceneGraphChanges ||
              (!(rl.qwindow win).renderer && (rl.qwindow win).syncCreatesRenderer))) } ∧
      rendered.count (Effect.wakeOne w.thread.id) =
        (if w.thread.exposeRequested = true then 1 else 0) ∧
      rendered.count (Effect.mutexUnlock w.thread.id) =
        (if w.thread.exposeRequested = true then 1 else 0) ∧
      (∀ k, rendered.count (Effect.mutexLock k) = 0) ∧
      (∀ x, rendered.count (Effect.syncSceneGraph x) = 0) ∧
      (w.thread.exposeRequested = true →
        rl1 = RenderThread.renderFrame rl2 w2.thread win true) := by
  obtain ⟨rl2, h1, h2, h3, h4⟩ := syncIfRequested_result rl i w win hw hwin
  have h5 := syncAndRender_result rl i w win rl2 _ hw hwin h1 h3
  obtain ⟨w2, hw2, hid, hthr, h5⟩ : ∃ w2, rl2.m_windows[i]? = some w2 ∧
      w2.thread.id = w.thread.id ∧
      w2.thread = { w.thread with
        pendingUpdate := 0,
        syncResultedInChanges := w.thread.syncRequested &&
          (decide (0 < w.thread.windowSize.width ∧ 0 < w.thread.windowSize.height) &&
            ((rl.qwindow win).sceneGraphChanges ||
              (!(rl.qwindow win).renderer && (rl.qwindow win).syncCreatesRenderer))) } ∧
      RenderThread.syncAndRender rl i =
        some (if w2.thread.syncResultedInChanges = false ∧
              RenderThread.repaintRequested rl w.thread win = false then
            (if 0 < w2.thread.vsyncDelta - rl2.elapsed then
              rl2.emit (Effect.msleep (w2.thread.vsyncDelta - rl2.elapsed)) else rl2)
          else RenderThread.renderFrame rl2 w2.thread win w.thread.exposeRequested) :=
    ⟨_, h3, rfl, rfl, h5⟩
  have hex := exposeRequested_implies rl w.thread win
  have r := renderCalls_count w2.thread (rl2.qwindow win) win w.thread.exposeRequested
  rw [hid] at r
  by_cases hskip : w2.thread.syncResultedInChanges = false ∧
      RenderThread.repaintRequested rl w.thread win = false
  · -- the frame is skipped: no expose was requested
    have hne : w.thread.exposeRequested = false := by
      cases he : w.thread.exposeRequested
      · rfl
      · have := (hex he).2
        rw [hskip.2] at this
        cases this
    rw [if_pos hskip] at h5
    refine ⟨rl2, w2, _,
      (if 0 < w2.thread.vsyncDelta - rl2.elapsed then
        [Effect.msleep (w2.thread.vsyncDelta - rl2.elapsed)] else []),
      h1, hw2, h2, h5, ?_, ?_, hthr, ?_, ?_, fun k => ?_, fun x => ?_, ?_⟩
    · split <;> simp [ThreadedRenderLoop.emit]
    · split <;> rfl
    · split <;> simp [hne, List.count_cons]
    · split <;> simp [hne, List.count_cons]
    · split <;> simp [List.count_cons]
    · split <;> simp [List.count_cons]
    · intro he
      rw [hne] at he
      cases he
  · -- the frame is rendered
    rw [if_neg hskip] at h5
    refine ⟨rl2, w2, _, renderCalls w2.thread (rl2.qwindow win) win
      w.thread.exposeRequested,
      h1, hw2, h2, h5, (renderFrame_spec _ _ _ _).1, (renderFrame_spec _ _ _ _).2, hthr,
      r.1, r.2.1, r.2.2.1, r.2.2.2, ?_⟩
    intro he
    rw [he]

/-- C24: for every value of `pendingUpdate`, one call of `syncAndRender` by a render thread
with a bound window returns, and it calls `waitCondition.wakeOne()` and unlocks the mutex
once each when the Sync bit is pending and never when it is not. The wake is made inside
`sync` when the Expose bits are not all pending, and after the render step when they are.
When the Expose bits are all pending, so are the Sync and the Repaint bit, and the frame is
not skipped. -/
theorem syncAndRender_wakes_once (rl : ThreadedRenderLoop) (i : Nat) (w : Window)
    (win : WindowId) (hw : rl.m_windows[i]? = some w) (hwin : w.thread.window = some win) :
    ∃ rl2 w2 rl1 synced rendered,
      RenderThread.syncIfRequested
        (rl.setThread i { w.thread with syncResultedInChanges := false, pendingUpdate := 0 })
        i w.thread.syncRequested w.thread.exposeRequested = some rl2 ∧
      rl2.m_windows[i]? = some w2 ∧
      rl2.log = rl.log ++ synced ∧
      RenderThread.syncAndRender rl i = some rl1 ∧
      rl1.log = rl2.log ++ rendered ∧
      synced.count (Effect.wakeOne w.thread.id) =
        (if w.thread.syncRequested = true ∧ w.thread.exposeRequested = false then 1 else 0) ∧
      rendered.count (Effect.wakeOne w.thread.id) =
        (if w.thread.exposeRequested = true then 1 else 0) ∧
      (synced ++ rendered).count (Effect.wakeOne w.thread.id) =
        (if w.thread.pendingUpdate &&& SyncRequest ≠ 0 then 1 else 0) ∧
      synced.count (Effect.mutexUnlock w.thread.id) =
        (if w.thread.syncRequested = true ∧ w.thread.exposeRequested = false then 1 else 0) ∧
      rendered.count (Effect.mutexUnlock w.thread.id) =
        (if w.thread.exposeRequested = true then 1 else 0) ∧
      (synced ++ rendered).count (Effect.mutexUnlock w.thread.id) =
        (if w.thread.pendingUpdate &&& SyncRequest ≠ 0 then 1 else 0) ∧
      (w.thread.pendingUpdate &&& ExposeRequest = ExposeRequest →
        w.thread.pendingUpdate &&& SyncRequest ≠ 0 ∧
        w.thread.pendingUpdate &&& RepaintRequest ≠ 0 ∧
        rl1 = RenderThread.renderFrame rl2 w2.thread win true) := by
  obtain ⟨rl2, w2, rl1, rendered, h1, hw2, h2, h5, h6, _, _, r1, r2, _, _, hren⟩ :=
    syncAndRender_parts rl i w win hw hwin
  obtain ⟨s2, s3, _⟩ := (syncCalls_count w.thread (rl.qwindow win) win
    w.thread.exposeRequested).2
  have s2 := s2 w.thread.id
  have s3 := s3 w.thread.id
  have hex := exposeRequested_implies rl w.thread win
  have hbit : w.thread.syncRequested = true ↔ w.thread.pendingUpdate &&& SyncRequest ≠ 0 := by
    simp [RenderThread.syncRequested]
  have hebit : w.thread.exposeRequested = true ↔
      w.thread.pendingUpdate &&& ExposeRequest = ExposeRequest := by
    simp [RenderThread.exposeRequested]
  have hsynced : (if w.thread.syncRequested = true then
        syncCalls w.thread (rl.qwindow win) win w.thread.exposeRequested else []).count
        (Effect.wakeOne w.thread.id) =
        (if w.thread.syncRequested = true ∧ w.thread.exposeRequested = false then 1 else 0) ∧
      (if w.thread.syncRequested = true then
        syncCalls w.thread (rl.qwindow win) win w.thread.exposeRequested else []).count
        (Effect.mutexUnlock w.thread.id) =
        (if w.thread.syncRequested = true ∧ w.thread.exposeRequested = false then 1 else 0) := by
    by_cases hsy : w.thread.syncRequested = true
    · simp only [hsy, if_true, s2, s3, true_and, and_true]
    · simp [hsy]
  have htot := wake_total w.thread.syncRequested w.thread.exposeRequested _ _
    (fun he => (hex he).1) hsynced.1 r1
  have htot2 := wake_total w.thread.syncRequested w.thread.exposeRequested _ _
    (fun he => (hex he).1) hsynced.2 r2
  refine ⟨rl2, w2, rl1, _, rendered, h1, hw2, h2, h5, h6, hsynced.1, r1, ?_, hsynced.2, r2,
    ?_, ?_⟩
  · rw [List.count_append, htot]
    by_cases hsy : w.thread.syncRequested = true
    · simp [hsy, hbit.1 hsy]
    · simp [hsy, mt hbit.2 hsy]
  · rw [List.count_append, htot2]
    by_cases hsy : w.thread.syncRequested = true
    · simp [hsy, hbit.1 hsy]
    · simp [hsy, mt hbit.2 hsy]
  · intro he
    have hb := expose_bits _ he
    exact ⟨hb.1, hb.2, hren (hebit.2 he)⟩

/-- C23: one call of `syncAndRender` by a render thread with a bound window returns, and
`pendingUpdate` is zero from the moment the flags have been read: in the state `sync`
leaves and in the state on return. When `sync` left `syncResultedInChanges` clear and no
repaint is requested (the Repaint bit is clear and the window has no custom render stage),
the frame is skipped: the only outside call made after `sync` is one `msleep` for
`vsyncDelta` minus the elapsed time when that is positive and none otherwise, so the thread
sleeps for the maximum of zero and that difference, and the scene graph is not rendered,
`fireFrameSwapped` is not called and the animator driver is not advanced. -/
theorem syncAndRender_skips_frame (rl : ThreadedRenderLoop) (i : Nat) (w : Window)
    (win : WindowId) (hw : rl.m_windows[i]? = some w) (hwin : w.thread.window = some win) :
    ∃ rl2 w2 rl1 w1,
      RenderThread.syncIfRequested
        (rl.setThread i { w.thread with syncResultedInChanges := false, pendingUpdate := 0 })
        i w.thread.syncRequested w.thread.exposeRequested = some rl2 ∧
      rl2.m_windows[i]? = some w2 ∧ w2.thread.pendingUpdate = 0 ∧
      RenderThread.syncAndRender rl i = some rl1 ∧
      rl1.m_windows[i]? = some w1 ∧ w1.thread.pendingUpdate = 0 ∧
      (w2.thread.syncResultedInChanges = false →
        w.thread.pendingUpdate &&& RepaintRequest = 0 →
        (rl.qwindow win).customRenderStage = false →
        rl1 = (if 0 < w.thread.vsyncDelta - rl.elapsed then
            rl2.emit (Effect.msleep (w.thread.vsyncDelta - rl.elapsed)) else rl2) ∧
        ∃ slept, rl1.log = rl2.log ++ slept ∧
          msleepTotal slept = max 0 (w.thread.vsyncDelta - rl.elapsed) ∧
          (∀ x s, slept.count (Effect.renderSceneGraph x s) = 0) ∧
          (∀ x, slept.count (Effect.fireFrameSwapped x) = 0) ∧
          (∀ k, slept.count (Effect.animatorAdvance k) = 0)) := by
  obtain ⟨rl2, h1, _, h3, h4⟩ := syncIfRequested_result rl i w win hw hwin
  have h5 := syncAndRender_result rl i w win rl2 _ hw hwin h1 h3
  obtain ⟨w2, hw2, hp2, hv2, h5⟩ : ∃ w2, rl2.m_windows[i]? = some w2 ∧
      w2.thread.pendingUpdate = 0 ∧ w2.thread.vsyncDelta = w.thread.vsyncDelta ∧
      RenderThread.syncAndRender rl i =
        some (if w2.thread.syncResultedInChanges = false ∧
              RenderThread.repaintRequested rl w.thread win = false then
            (if 0 < w2.thread.vsyncDelta - rl2.elapsed then
              rl2.emit (Effect.msleep (w2.thread.vsyncDelta - rl2.elapsed)) else rl2)
          else RenderThread.renderFrame rl2 w2.thread win w.thread.exposeRequested) :=
    ⟨_, h3, rfl, rfl, h5⟩
  rw [hv2, h4] at h5
  have hm : (if w2.thread.syncResultedInChanges = false ∧
        RenderThread.repaintRequested rl w.thread win = false then
      (if 0 < w.thread.vsyncDelta - rl.elapsed then
        rl2.emit (Effect.msleep (w.thread.vsyncDelta - rl.elapsed)) else rl2)
      else RenderThread.renderFrame rl2 w2.thread win w.thread.exposeRequested).m_windows =
      rl2.m_windows := by
    split
    · split <;> rfl
    · exact (renderFrame_spec _ _ _ _).2
  refine ⟨rl2, w2, _, w2, h1, hw2, hp2, h5, by rw [hm]; exact hw2, hp2, ?_⟩
  intro hnc hrep hcustom
  have hskip : w2.thread.syncResultedInChanges = false ∧
      RenderThread.repaintRequested rl w.thread win = false :=
    ⟨hnc, by simp [RenderThread.repaintRequested, hrep, hcustom]⟩
  rw [if_pos hskip]
  refine ⟨rfl, (if 0 < w.thread.vsyncDelta - rl.elapsed then
    [Effect.msleep (w.thread.vsyncDelta - rl.elapsed)] else []), ?_, ?_, ?_, ?_, ?_⟩
  · split <;> simp [ThreadedRenderLoop.emit]
  · by_cases hd : 0 < w.thread.vsyncDelta - rl.elapsed
    · simp only [hd, if_true, msleepTotal]
      omega
    · simp only [hd, if_false, msleepTotal]
      omega
  · intro x s
    split <;> simp [List.count_cons]
  · intro x
    split <;> simp [List.count_cons]
  · intro k
    split <;> simp [List.count_cons]

/-! ## Sleeping and waking of the render thread -/

/-- Handling `WM_RequestSync` in a sleeping render thread: the thread after the handler. No
outside call is made. -/
theorem dispatch_requestSync (rl : ThreadedRenderLoop) (i : Nat) (w : Window)
    (win : WindowId) (size : QSize) (ex force : Bool)
    (hw : rl.m_windows[i]? = some w) (hsl : w.thread.sleeping = true) :
    ∃ w1, (dispatch rl i (WMEvent.requestSync win size ex force)).m_windows[i]? = some w1 ∧
      (dispatch rl i (WMEvent.requestSync win size ex force)).log = rl.log ∧
      (dispatch rl i (WMEvent.requestSync win size ex force)).qwindow = rl.qwindow ∧
      w1.thread.stopEventProcessing = true ∧ w1.thread.sleeping = true ∧
      w1.thread.active = w.thread.active ∧ w1.thread.window = some win ∧
      w1.thread.windowSize = size ∧ w1.thread.id = w.thread.id ∧
      w1.thread.pendingUpdate &&& SyncRequest ≠ 0 ∧
      w1.thread.eventQueue = w.thread.eventQueue := by
  have hi : i < rl.m_windows.length := (List.getElem?_eq_some.1 hw).1
  have hbit : ∀ p : Nat, (p ||| SyncRequest) &&& SyncRequest ≠ 0 := by
    intro p
    rw [Nat.lor_comm, or_keeps_bits]
    decide
  have hbit2 : ∀ p a : Nat, p &&& SyncRequest ≠ 0 → (p ||| a) &&& SyncRequest ≠ 0 := by
    intro p a h hz
    apply h
    apply Nat.eq_of_testBit_eq
    intro j
    have := congrArg (fun x => Nat.testBit x j) hz
    simp only [Nat.testBit_and, Nat.testBit_or, Nat.zero_testBit] at this ⊢
    cases hp : Nat.testBit p j <;> simp [hp] at this ⊢
    exact this
  cases ex <;> cases force <;>
    simp [dispatch, RenderThread.event, hw, deleteEvent, ThreadedRenderLoop.setThread,
      ThreadedRenderLoop.setWindow, hi, hsl, hbit, hbit2]

/-- The outside calls of `sync` lock the mutex of the thread once. -/
theorem syncCalls_lock_count (t : RenderThread) (q : QQuickWindow) (win : WindowId)
    (inExpose : Bool) : (syncCalls t q win inExpose).count (Effect.mutexLock t.id) = 1 := by
  by_cases hpos : 0 < t.windowSize.width ∧ 0 < t.windowSize.height <;>
    cases inExpose <;> cases hr : q.renderer <;> cases hc : q.syncCreatesRenderer <;>
    simp [syncCalls, syncCurrentCalls, wakeCalls, hpos, hr, hc, List.count_cons]

/-- Handling `WM_Obscure`, `WM_Grab`, `WM_PostJob` or `WM_RequestRepaint` writes neither
`stopEventProcessing` nor `sleeping`, `active` or the event queue. -/
theorem dispatch_keeps_waiting (rl : ThreadedRenderLoop) (i : Nat) (w : Window) (e : WMEvent)
    (hw : rl.m_windows[i]? = some w)
    (he : (∃ x, e = WMEvent.obscure x) ∨ (∃ x, e = WMEvent.grab x) ∨
      (∃ x j, e = WMEvent.postJob x j) ∨ (∃ x, e = WMEvent.requestRepaint x)) :
    ∃ w1, (dispatch rl i e).m_windows[i]? = some w1 ∧
      w1.thread.stopEventProcessing = w.thread.stopEventProcessing ∧
      w1.thread.sleeping = w.thread.sleeping ∧ w1.thread.active = w.thread.active ∧
      w1.thread.eventQueue = w.thread.eventQueue := by
  have hi : i < rl.m_windows.length := (List.getElem?_eq_some.1 hw).1
  rcases he with ⟨x, rfl⟩ | ⟨x, rfl⟩ | ⟨x, j, rfl⟩ | ⟨x, rfl⟩
  · cases hwin : w.thread.window <;>
      simp [dispatch, RenderThread.event, hw, deleteEvent, ThreadedRenderLoop.setThread,
        ThreadedRenderLoop.setWindow, ThreadedRenderLoop.emit, hi, hwin]
  · cases hwin : w.thread.window <;>
      simp [dispatch, RenderThread.event, hw, deleteEvent, ThreadedRenderLoop.setThread,
        ThreadedRenderLoop.setWindow, ThreadedRenderLoop.emit,
        ThreadedRenderLoop.syncSceneGraph, hi, hwin]
  · cases j <;> cases hwin : w.thread.window <;>
      simp [dispatch, RenderThread.event, hw, deleteEvent, ThreadedRenderLoop.setThread,
        ThreadedRenderLoop.setWindow, ThreadedRenderLoop.emit, hi, hwin]
  · simp [dispatch, RenderThread.event, hw, deleteEvent, ThreadedRenderLoop.setThread,
      ThreadedRenderLoop.setWindow, ThreadedRenderLoop.emit, hi]

/-- The statement `if (window) ...` of `run` for a render thread with a bound window and the
Sync bit pending: `syncAndRender` calls `sync`, which locks the mutex once, and the GUI
thread is woken and the mutex unlocked once; the scene graph of the window is synchronised
when the stored size is positive. -/
theorem frame_syncs (rl : ThreadedRenderLoop) (i : Nat) (w : Window) (win : WindowId)
    (hw : rl.m_windows[i]? = some w) (hwin : w.thread.window = some win)
    (hsync : w.thread.pendingUpdate &&& SyncRequest ≠ 0) :
    ∃ rl3 added, RenderThread.frame rl i = some rl3 ∧ rl3.log = rl.log ++ added ∧
      added.count (Effect.mutexLock w.thread.id) = 1 ∧
      added.count (Effect.wakeOne w.thread.id) = 1 ∧
      added.count (Effect.mutexUnlock w.thread.id) = 1 ∧
      added.count (Effect.syncSceneGraph win) =
        (if 0 < w.thread.windowSize.width ∧ 0 < w.thread.windowSize.height then 1 else 0) := by
  have hw0 : (rl.emit Effect.initializeIfNeeded).m_windows[i]? = some w := hw
  obtain ⟨rl2, w2, rl1, rendered, _, _, h2, h5, h6, _, _, r1, r2, r3, r4, _⟩ :=
    syncAndRender_parts (rl.emit Effect.initializeIfNeeded) i w win hw0 hwin
  have hsy : w.thread.syncRequested = true := by
    simp [RenderThread.syncRequested, hsync]
  rw [if_pos hsy] at h2
  obtain ⟨c1, c2, c3, _⟩ := syncCalls_count w.thread
    ((rl.emit Effect.initializeIfNeeded).qwindow win) win w.thread.exposeRequested
  have c0 := syncCalls_lock_count w.thread
    ((rl.emit Effect.initializeIfNeeded).qwindow win) win w.thread.exposeRequested
  have hf : RenderThread.frame rl i = some rl1 := by
    simp only [RenderThread.frame, hw, hwin, Option.isSome_some, if_true]
    exact h5
  refine ⟨rl1, [Effect.initializeIfNeeded] ++
    syncCalls w.thread ((rl.emit Effect.initializeIfNeeded).qwindow win) win
      w.thread.exposeRequested ++ rendered, hf, ?_, ?_, ?_, ?_, ?_⟩
  · rw [h6, h2]
    simp [ThreadedRenderLoop.emit]
  · simp only [List.count_append, c0, r3, List.count_cons, List.count_nil]
    simp
  · simp only [List.count_append, c2, r1, List.count_cons, List.count_nil]
    cases w.thread.exposeRequested <;> simp
  · simp only [List.count_append, c3, r2, List.count_cons, List.count_nil]
    cases w.thread.exposeRequested <;> simp
  · simp only [List.count_append, c1, r4, List.count_cons, List.count_nil]
    simp

/-- C25: a render thread that is active and sleeping in `processEventsAndWaitForMore` takes
the event at the head of its queue, handles and deletes it, and comes to the loop test
again. When the event is `WM_RequestSync`, the handler has set `stopEventProcessing`, so the
wait loop ends, `sleeping` is cleared, and the next iteration of `while (active)` finds the
window of the event bound and the Sync bit pending and runs `syncAndRender`, in which `sync`
is called (it locks the mutex once, and synchronises the scene graph when the size of the
event is positive) and the GUI thread is woken once. When the event is `WM_Obscure`,
`WM_Grab`, `WM_PostJob` or `WM_RequestRepaint`, `stopEventProcessing` is still clear and
`sleeping` still set after the handler, and with nothing else queued the thread parks in
`takeEvent(true)` again. -/
theorem requestSync_ends_wait (rl : ThreadedRenderLoop) (i : Nat) (w : Window) (e : WMEvent)
    (rest : List WMEvent) (n : Nat)
    (hw : rl.m_windows[i]? = some w) (hact : w.thread.active = true)
    (hsl : w.thread.sleeping = true) (hstop : w.thread.stopEventProcessing = false)
    (hq : w.thread.eventQueue.events = e :: rest) :
    ∃ rl1 w1,
      rl1 = dispatch (rl.setThread i
        { w.thread with eventQueue := { w.thread.eventQueue with events := rest } }) i e ∧
      rl1.m_windows[i]? = some w1 ∧
      RenderThread.runFrom (n + 1) RunPoint.stopTest rl i =
        RenderThread.runFrom n RunPoint.stopTest rl1 i ∧
      (∀ win size ex force, e = WMEvent.requestSync win size ex force →
        w1.thread.stopEventProcessing = true ∧ w1.thread.active = true ∧
        w1.thread.window = some win ∧ w1.thread.pendingUpdate &&& SyncRequest ≠ 0 ∧
        RenderThread.runFrom (n + 2) RunPoint.stopTest rl i =
          RenderThread.runFrom n RunPoint.activeTest
            (rl1.setThread i { w1.thread with sleeping := false }) i ∧
        ∃ rl3 added,
          RenderThread.frame (rl1.setThread i { w1.thread with sleeping := false }) i =
            some rl3 ∧
          rl3.log = rl.log ++ added ∧
          added.count (Effect.mutexLock w.thread.id) = 1 ∧
          added.count (Effect.wakeOne w.thread.id) = 1 ∧
          added.count (Effect.mutexUnlock w.thread.id) = 1 ∧
          added.count (Effect.syncSceneGraph win) =
            (if 0 < size.width ∧ 0 < size.height then 1 else 0)) ∧
      (((∃ x, e = WMEvent.obscure x) ∨ (∃ x, e = WMEvent.grab x) ∨
          (∃ x j, e = WMEvent.postJob x j) ∨ (∃ x, e = WMEvent.requestRepaint x)) →
        w1.thread.stopEventProcessing = false ∧ w1.thread.sleeping = true ∧
        (rest = [] → RenderThread.runFrom (n + 2) RunPoint.stopTest rl i =
          some (rl1.setThread i
            { w1.thread with eventQueue := { w1.thread.eventQueue with waiting := true } })))
    := by
  have hS := setThread_getElem rl i w
    { w.thread with eventQueue := { w.thread.eventQueue with events := rest } } hw
  have hSlog := setThread_log rl i
    { w.thread with eventQueue := { w.thread.eventQueue with events := rest } }
  have hstep := fun m => runFrom_stopTest_event m rl i w e rest hw hstop hq
  obtain ⟨w1, hw1, _, _⟩ := (dispatch_touches (rl.setThread i
    { w.thread with eventQueue := { w.thread.eventQueue with events := rest } }) i e).same
      _ hS
  refine ⟨_, w1, rfl, hw1, hstep n, ?_, ?_⟩
  · intro win size ex force he
    subst he
    obtain ⟨v, hv, hlog, _, k1, k2, k3, k4, k5, k6, k7, _⟩ := dispatch_requestSync _ i _ win
      size ex force hS hsl
    rw [hw1] at hv
    cases hv
    have hX := setThread_getElem _ i w1 { w1.thread with sleeping := false } hw1
    obtain ⟨rl3, added, f1, f2, f3, f4, f5, f6⟩ := frame_syncs _ i _ win hX k4 k7
    refine ⟨k1, by rw [k3]; exact hact, k4, k7, ?_, rl3, added, f1, ?_, ?_, ?_, ?_, ?_⟩
    · rw [hstep (n + 1)]
      exact runFrom_stopTest_stop n _ i w1 hw1 k1
    · rw [f2, setThread_log, hlog, hSlog]
    · rw [← k6]; exact f3
    · rw [← k6]; exact f4
    · rw [← k6]; exact f5
    · rw [← k5]; exact f6
  · intro he
    obtain ⟨v, hv, k1, k2, _, k4⟩ := dispatch_keeps_waiting _ i _ e hS he
    rw [hw1] at hv
    cases hv
    refine ⟨by rw [k1]; exact hstop, by rw [k2]; exact hsl, ?_⟩
    intro hrest
    rw [hstep (n + 1)]
    exact runFrom_stopTest_park n _ i w1 hw1 (by rw [k1]; exact hstop)
      (by rw [k4]; exact hrest)

/-- The loop of `processEvents` ends with an empty queue. -/
theorem processEventsLoop_drained (fuel : Nat) :
    ∀ (rl : ThreadedRenderLoop) (i : Nat) (r : ThreadedRenderLoop),
      processEventsLoop fuel rl i = some r →
      ∃ v, r.m_windows[i]? = some v ∧ v.thread.eventQueue.events = [] := by
  induction fuel with
  | zero => intro rl i r h; simp [processEventsLoop] at h
  | succ n ih =>
    intro rl i r h
    cases hw : rl.m_windows[i]? with
    | none => simp [processEventsLoop, hw] at h
    | some w =>
      simp only [processEventsLoop, hw] at h
      by_cases hm : w.thread.eventQueue.hasMoreEvents = true
      · rw [if_pos hm] at h
        split at h
        · exact ih _ i r h
        · cases h
        · cases h
      · rw [if_neg hm] at h
        cases h
        refine ⟨w, hw, ?_⟩
        simpa [RenderThreadEventQueue.hasMoreEvents] using hm

/-- The member `processEvents` returns with an empty queue. -/
theorem processEvents_drained (rl : ThreadedRenderLoop) (i : Nat) (r : ThreadedRenderLoop)
    (h : RenderThread.processEvents rl i = some r) :
    ∃ v, r.m_windows[i]? = some v ∧ v.thread.eventQueue.events = [] := by
  cases hw : rl.m_windows[i]? with
  | none => simp [RenderThread.processEvents, hw] at h
  | some w =>
    simp only [RenderThread.processEvents, hw] at h
    exact processEventsLoop_drained _ rl i r h

/-- Counterexample to C21 as stated, in both directions. A render thread that handles a
release from the destructor while draining its queue comes to the test with nothing pending
and an empty queue, and it does not sleep: `active` is clear, so it leaves `run`. A render
thread that handles a repaint request and then an obscure event while draining its queue
sets `sleeping` and blocks in `takeEvent(true)` although the Repaint bit is pending, because
no window is bound. -/
theorem run_sleep_not_as_specified :
    (∃ r v, RenderThread.runFrom 5 RunPoint.activeTest releasingLoop 0 = some r ∧
      r.m_windows[0]? = some v ∧ v.thread.pendingUpdate = 0 ∧
      v.thread.eventQueue.events = [] ∧ specSleepCondition v.thread = true ∧
      v.thread.sleepCondition = false ∧ v.thread.sleeping = false ∧
      v.thread.eventQueue.waiting = false ∧ v.thread.isRunning = false) ∧
    (∃ r v, RenderThread.runFrom 5 RunPoint.activeTest repaintObscureLoop 0 = some r ∧
      r.m_windows[0]? = some v ∧ v.thread.sleeping = true ∧
      v.thread.eventQueue.waiting = true ∧ v.thread.isRunning = true ∧
      v.thread.pendingUpdate = RepaintRequest ∧ v.thread.window = none ∧
      v.thread.sleepCondition = true ∧ specSleepCondition v.thread = false) := by
  refine ⟨⟨_, _, rfl, rfl, ?_⟩, ⟨_, _, rfl, rfl, ?_⟩⟩
  · decide
  · decide

/-- One iteration of `while (active)` from the state `rl2` in which `processEvents` has
returned: the queue is empty, and the thread enters the wait loop and parks, or goes to the
next test of `while (active)`, as the sleep test says. -/
theorem run_sleep_step (fuel : Nat) (rl rl1 rl2 : ThreadedRenderLoop) (i : Nat)
    (w w3 : Window) (hw : rl.m_windows[i]? = some w) (hact : w.thread.active = true)
    (hframe : RenderThread.frame rl i = some rl1)
    (hdrain : RenderThread.processEvents rl1 i = some rl2)
    (hw3 : rl2.m_windows[i]? = some w3) :
    w3.thread.eventQueue.events = [] ∧
    (w3.thread.sleepCondition = true ↔
      (w3.thread.active = true ∧
        (w3.thread.pendingUpdate = 0 ∨ w3.thread.window = none))) ∧
    (w3.thread.sleepCondition = true →
      RenderThread.runFrom (fuel + 2) RunPoint.activeTest rl i =
        some ((rl2.emit Effect.processAppEvents).setThread i
          { w3.thread with sleeping := true, stopEventProcessing := false,
                           eventQueue := { w3.thread.eventQueue with waiting := true } })) ∧
    (w3.thread.sleepCondition = false →
      RenderThread.runFrom (fuel + 1) RunPoint.activeTest rl i =
        RenderThread.runFrom fuel RunPoint.activeTest (rl2.emit Effect.processAppEvents) i) ∧
    (∀ (n : Nat) (r : ThreadedRenderLoop) (v : Window), r.m_windows[i]? = some v →
      v.thread.stopEventProcessing = true →
      RenderThread.runFrom (n + 1) RunPoint.stopTest r i =
        RenderThread.runFrom n RunPoint.activeTest
          (r.setThread i { v.thread with sleeping := false }) i) := by
  obtain ⟨v, hv, hempty⟩ := processEvents_drained rl1 i rl2 hdrain
  rw [hw3] at hv
  cases hv
  have hw3a : (rl2.emit Effect.processAppEvents).m_windows[i]? = some w3 := hw3
  have hcond : w3.thread.sleepCondition = true ↔
      (w3.thread.active = true ∧
        (w3.thread.pendingUpdate = 0 ∨ w3.thread.window = none)) := by
    simp [RenderThread.sleepCondition]
  have hcond2 : w3.thread.sleepCondition = true ↔
      (w3.thread.active = true ∧
        (w3.thread.pendingUpdate = 0 ∨ w3.thread.window.isNone = true)) := by
    simp [RenderThread.sleepCondition]
  refine ⟨hempty, hcond, ?_, ?_, ?_⟩
  · intro hs
    have hc := hcond2.1 hs
    have hstep : RenderThread.runFrom (fuel + 2) RunPoint.activeTest rl i =
        RenderThread.runFrom (fuel + 1) RunPoint.stopTest
          ((rl2.emit Effect.processAppEvents).setThread i
            { w3.thread with sleeping := true, stopEventProcessing := false }) i := by
      simp only [RenderThread.runFrom, hw, hact, hframe, hdrain, hw3a, if_pos hc]
      simp
    rw [hstep]
    have hX := setThread_getElem _ i w3
      { w3.thread with sleeping := true, stopEventProcessing := false } hw3a
    rw [runFrom_stopTest_park fuel _ i _ hX rfl hempty, setThread_setThread]
  · intro hs
    have hc : ¬ (w3.thread.active = true ∧
        (w3.thread.pendingUpdate = 0 ∨ w3.thread.window.isNone = true)) := by
      intro h
      rw [hcond2.2 h] at hs
      cases hs
    simp only [RenderThread.runFrom, hw, hact, hframe, hdrain, hw3a, if_neg hc]
    simp
  · intro n r v hv hs
    exact runFrom_stopTest_stop n r i v hv hs

/-- The statement `if (window) ...` of `run` returns for every render thread of a record. -/
theorem frame_returns (rl : ThreadedRenderLoop) (i : Nat) (w : Window)
    (hw : rl.m_windows[i]? = some w) : ∃ rl1, RenderThread.frame rl i = some rl1 := by
  cases hwin : w.thread.window with
  | none => exact ⟨rl, by simp [RenderThread.frame, hw, hwin]⟩
  | some win =>
    have hw0 : (rl.emit Effect.initializeIfNeeded).m_windows[i]? = some w := hw
    obtain ⟨_, _, rl1, _, _, _, _, h5, _⟩ :=
      syncAndRender_parts (rl.emit Effect.initializeIfNeeded) i w win hw0 hwin
    exact ⟨rl1, by simp [RenderThread.frame, hw, hwin, h5]⟩

/-- The member `processEvents` returns for every render thread of a record. -/
theorem processEvents_returns (rl : ThreadedRenderLoop) (i : Nat) (w : Window)
    (hw : rl.m_windows[i]? = some w) : ∃ rl2, RenderThread.processEvents rl i = some rl2 := by
  have h := processEventsLoop_fold w.thread.eventQueue.events
    (w.thread.eventQueue.events.length + 1) rl i w hw rfl (Nat.lt_succ_self _)
  exact ⟨_, by simp only [RenderThread.processEvents, hw]; exact h⟩

/-- C21 (amended): in an iteration of `while (active)`, `syncAndRender` runs for a bound
window and `processEvents` drains the queue; both return, and the queue is empty then. The
render thread then sets `sleeping` and blocks in `takeEvent(true)` exactly when `active` is
set and `pendingUpdate` is zero or no window is bound; otherwise it goes to the next test of
`while (active)` without writing `sleeping`. When the wait loop ends, `sleeping` is cleared
before the next test of `while (active)`. -/
theorem run_sleeps_when (fuel : Nat) (rl : ThreadedRenderLoop) (i : Nat) (w : Window)
    (hw : rl.m_windows[i]? = some w) (hact : w.thread.active = true) :
    ∃ rl1 rl2 w3, RenderThread.frame rl i = some rl1 ∧
      RenderThread.processEvents rl1 i = some rl2 ∧ rl2.m_windows[i]? = some w3 ∧
      w3.thread.eventQueue.events = [] ∧
      (w3.thread.sleepCondition = true ↔
        (w3.thread.active = true ∧
          (w3.thread.pendingUpdate = 0 ∨ w3.thread.window = none))) ∧
      (w3.thread.sleepCondition = true →
        RenderThread.runFrom (fuel + 2) RunPoint.activeTest rl i =
          some ((rl2.emit Effect.processAppEvents).setThread i
            { w3.thread with sleeping := true, stopEventProcessing := false,
                             eventQueue := { w3.thread.eventQueue with waiting := true } })) ∧
      (w3.thread.sleepCondition = false →
        RenderThread.runFrom (fuel + 1) RunPoint.activeTest rl i =
          RenderThread.runFrom fuel RunPoint.activeTest (rl2.emit Effect.processAppEvents) i) ∧
      (∀ (n : Nat) (r : ThreadedRenderLoop) (v : Window), r.m_windows[i]? = some v →
        v.thread.stopEventProcessing = true →
        RenderThread.runFrom (n + 1) RunPoint.stopTest r i =
          RenderThread.runFrom n RunPoint.activeTest
            (r.setThread i { v.thread with sleeping := false }) i) := by
  obtain ⟨rl1, hframe⟩ := frame_returns rl i w hw
  obtain ⟨w1, hw1, _, _⟩ := (frame_touches rl i rl1 hframe).same w hw
  obtain ⟨rl2, hdrain⟩ := processEvents_returns rl1 i w1 hw1
  obtain ⟨w3, hw3, _⟩ := processEvents_drained rl1 i rl2 hdrain
  obtain ⟨h1, h2, h3, h4, h5⟩ := run_sleep_step fuel rl rl1 rl2 i w w3 hw hact hframe hdrain hw3
  exact ⟨rl1, rl2, w3, hframe, hdrain, hw3, h1, h2, h3, h4, h5⟩

/-- Witness of `run_sleeps_when`: the render thread of `repaintObscureLoop` skips the frame,
drains its two events, finds no window bound and parks with `sleeping` set. -/
theorem run_sleeps_when_witness :
    ∃ (rl2 : ThreadedRenderLoop) (w3 : Window), rl2.m_windows[0]? = some w3 ∧
      w3.thread.sleepCondition = true ∧
      RenderThread.runFrom 5 RunPoint.activeTest repaintObscureLoop 0 =
        some ((rl2.emit Effect.processAppEvents).setThread 0
          { w3.thread with sleeping := true, stopEventProcessing := false,
                           eventQueue := { w3.thread.eventQueue with waiting := true } }) := by
  obtain ⟨rl1, rl2, w3, h1, h2, h3, _, _, h6, _⟩ :=
    run_sleeps_when 3 repaintObscureLoop 0 _ rfl rfl
  have hd : (((RenderThread.frame repaintObscureLoop 0).bind
      (fun a => RenderThread.processEvents a 0)).bind (fun b => b.m_windows[0]?)).map
      (fun v => v.thread.sleepCondition) = some true := by decide
  simp only [h1, h2, h3, Option.some_bind, Option.map_some'] at hd
  exact ⟨rl2, w3, h3, Option.some.inj hd, h6 (Option.some.inj hd)⟩

/-- Witness of `sync_iff_positive_size`: with the size 640 by 480 stored and outside an
expose, the scene graph of window 1 is synchronised and the GUI thread is woken. -/
theorem sync_iff_positive_size_witness :
    ∃ rl1, RenderThread.sync sizedLoop 0 false = some rl1 ∧
      rl1.log = sizedLoop.log ++ syncCalls sizedWindow.thread (sizedLoop.qwindow 1) 1 false ∧
      syncCalls sizedWindow.thread (sizedLoop.qwindow 1) 1 false =
        [Effect.mutexLock 7, Effect.syncSceneGraph 1, Effect.connectSceneGraphChanged 1,
          Effect.sendPostedDeferredDelete, Effect.wakeOne 7, Effect.mutexUnlock 7] :=
  (sync_iff_positive_size sizedLoop 0 sizedWindow 1 false rfl (fun _ => rfl)).imp
    (fun _ h => ⟨h.1, h.2.1, by decide⟩)

/-- Witness of `syncAndRender_wakes_once`: with all Expose bits pending, the render thread of
`exposingLoop` wakes the GUI thread once, after the render step. -/
theorem syncAndRender_wakes_once_witness :
    ∃ rl1 synced rendered, RenderThread.syncAndRender exposingLoop 0 = some rl1 ∧
      rl1.log = exposingLoop.log ++ synced ++ rendered ∧
      synced.count (Effect.wakeOne 7) = 0 ∧ rendered.count (Effect.wakeOne 7) = 1 ∧
      (synced ++ rendered).count (Effect.wakeOne 7) = 1 ∧
      (synced ++ rendered).count (Effect.mutexUnlock 7) = 1 := by
  obtain ⟨rl2, w2, rl1, synced, rendered, _, _, h3, h4, h5, h6, h7, h8, _, _, h11, _⟩ :=
    syncAndRender_wakes_once exposingLoop 0 exposingWindow 1 rfl rfl
  exact ⟨rl1, synced, rendered, h4, by rw [h5, h3], h6, h7, h8, h11⟩

/-- Witness of `syncAndRender_skips_frame`: the parked render thread of `parkedLoop` has
nothing pending; a call of `syncAndRender` skips the frame and sleeps for 16 ms. -/
theorem syncAndRender_skips_frame_witness :
    ∃ rl1 w1, RenderThread.syncAndRender parkedLoop 0 = some rl1 ∧
      rl1.m_windows[0]? = some w1 ∧ w1.thread.pendingUpdate = 0 ∧
      rl1.log = parkedLoop.log ++ [Effect.msleep 16] := by
  obtain ⟨rl2, w2, rl1, w1, h1, h2, _, h4, h5, h6, h7⟩ :=
    syncAndRender_skips_frame parkedLoop 0 parkedWindow 1 rfl rfl
  have e2 : rl2 = parkedLoop.setThread 0
      { parkedWindow.thread with syncResultedInChanges := false, pendingUpdate := 0 } :=
    (Option.some.inj h1).symm
  subst e2
  have ew : w2 = parkedWindow := (Option.some.inj h2).symm
  subst ew
  obtain ⟨k1, _⟩ := h7 rfl rfl rfl
  refine ⟨rl1, w1, h4, h5, h6, ?_⟩
  rw [k1]
  rfl

/-- Witness of `requestSync_ends_wait`: the sleeping render thread of `syncPostedLoop`
handles the sync request, leaves the wait loop, and in the next iteration synchronises the
scene graph of window 1 and wakes the GUI thread. -/
theorem requestSync_ends_wait_witness :
    ∃ rl1 w1,
      rl1 = dispatch (syncPostedLoop.setThread 0
        { syncPostedWindow.thread with
          eventQueue := { syncPostedWindow.thread.eventQueue with events := [] } }) 0
        (WMEvent.requestSync 1 { width := 640, height := 480 } false false) ∧
      rl1.m_windows[0]? = some w1 ∧
      w1.thread.stopEventProcessing = true ∧ w1.thread.active = true ∧
      w1.thread.window = some 1 ∧ w1.thread.pendingUpdate &&& SyncRequest ≠ 0 ∧
      RenderThread.runFrom 7 RunPoint.stopTest syncPostedLoop 0 =
        RenderThread.runFrom 5 RunPoint.activeTest
          (rl1.setThread 0 { w1.thread with sleeping := false }) 0 ∧
      ∃ rl3 added,
        RenderThread.frame (rl1.setThread 0 { w1.thread with sleeping := false }) 0 =
          some rl3 ∧
        rl3.log = syncPostedLoop.log ++ added ∧
        added.count (Effect.mutexLock 7) = 1 ∧ added.count (Effect.wakeOne 7) = 1 ∧
        added.count (Effect.mutexUnlock 7) = 1 ∧
        added.count (Effect.syncSceneGraph 1) = 1 := by
  obtain ⟨rl1, w1, h1, h2, _, h4, _⟩ := requestSync_ends_wait syncPostedLoop 0
    syncPostedWindow (WMEvent.requestSync 1 { width := 640, height := 480 } false false)
    [] 5 rfl rfl rfl rfl rfl
  obtain ⟨k1, k2, k3, k4, k5, rl3, added, f1, f2, f3, f4, f5, f6⟩ := h4 1 _ false false rfl
  exact ⟨rl1, w1, h1, h2, k1, k2, k3, k4, k5, rl3, added, f1, f2, f3, f4, f5, f6⟩

/-! ## Properties of the software layer -/

/-- The slot `markDirtyTexture` writes `m_dirtyTexture` only. -/
theorem markDirtyTexture_fields (l : SoftwareLayer) :
    l.markDirtyTexture.m_item = l.m_item ∧ l.markDirtyTexture.m_size = l.m_size ∧
      l.markDirtyTexture.m_live = l.m_live ∧ l.markDirtyTexture.m_pixmap = l.m_pixmap ∧
      l.markDirtyTexture.m_grab = l.m_grab ∧
      l.markDirtyTexture.m_recursive = l.m_recursive ∧
      l.markDirtyTexture.m_renderer = l.m_renderer ∧
      l.markDirtyTexture.sceneGraphChanges = l.sceneGraphChanges := by
  unfold SoftwareLayer.markDirtyTexture
  simp only []
  split <;> simp [SoftwareLayer.emit]

/-- A call that marks a node dirty writes `m_dirtyTexture` only. -/
theorem notified_fields (l : SoftwareLayer) (e : LayerEffect) :
    (l.notified e).m_item = l.m_item ∧ (l.notified e).m_size = l.m_size ∧
      (l.notified e).m_live = l.m_live ∧ (l.notified e).m_pixmap = l.m_pixmap ∧
      (l.notified e).m_grab = l.m_grab ∧ (l.notified e).m_recursive = l.m_recursive ∧
      (l.notified e).m_renderer = l.m_renderer ∧
      (l.notified e).sceneGraphChanges = l.sceneGraphChanges := by
  unfold SoftwareLayer.notified
  split
  · obtain ⟨h1, h2, h3, h4, h5, h6, h7, h8⟩ := markDirtyTexture_fields (l.emit e)
    exact ⟨h1, h2, h3, h4, h5, h6, h7, h8⟩
  · simp [SoftwareLayer.emit]

/-- The member `grab` writes neither the item, the size nor the flags `m_live` and
`m_grab`. -/
theorem grab_fields (l : SoftwareLayer) :
    l.grab.m_item = l.m_item ∧ l.grab.m_size = l.m_size ∧ l.grab.m_live = l.m_live ∧
      l.grab.m_grab = l.m_grab := by
  unfold SoftwareLayer.grab
  split
  · simp
  · split
    · simp
    · split
      · simp
      · rename_i item _ _ _
        simp only [SoftwareLayer.grabFinish]
        have hr : ∀ (x : SoftwareLayer) (r : Nat),
            (x.grabRender r).m_item = x.m_item ∧ (x.grabRender r).m_size = x.m_size ∧
            (x.grabRender r).m_live = x.m_live ∧ (x.grabRender r).m_grab = x.m_grab := by
          intro x r
          obtain ⟨a1, a2, a3, _, a5, _⟩ := notified_fields x (LayerEffect.markDirty r)
          obtain ⟨b1, b2, b3, _, b5, _⟩ := notified_fields
            (x.notified (LayerEffect.markDirty r)) (LayerEffect.nodeChanged r)
          simp [SoftwareLayer.grabRender, SoftwareLayer.emit, a1, a2, a3, a5, b1, b2, b3, b5]
        have hp : ∀ (x : SoftwareLayer),
            x.grabPixmap.m_item = x.m_item ∧ x.grabPixmap.m_size = x.m_size ∧
            x.grabPixmap.m_live = x.m_live ∧ x.grabPixmap.m_grab = x.m_grab := by
          intro x
          unfold SoftwareLayer.grabPixmap
          split <;> simp
        have hg : ∀ (x : SoftwareLayer) (r : Nat),
            (x.grabRenderer r).m_item = x.m_item ∧ (x.grabRenderer r).m_size = x.m_size ∧
            (x.grabRenderer r).m_live = x.m_live ∧ (x.grabRenderer r).m_grab = x.m_grab := by
          intro x r
          unfold SoftwareLayer.grabRenderer
          split <;> simp [SoftwareLayer.emit]
        obtain ⟨g1, g2, g3, g4⟩ := hg l item.findRoot.id
        obtain ⟨p1, p2, p3, p4⟩ := hp (l.grabRenderer item.findRoot.id)
        obtain ⟨r1, r2, r3, r4⟩ := hr (l.grabRenderer item.findRoot.id).grabPixmap
          item.findRoot.id
        obtain ⟨n1, n2, n3, _, n5, _⟩ := notified_fields
          (((l.grabRenderer item.findRoot.id).grabPixmap).grabRender item.findRoot.id)
          (LayerEffect.markDirty item.findRoot.id)
        split
        · obtain ⟨m1, m2, m3, _, m5, _⟩ := markDirtyTexture_fields
            ((((l.grabRenderer item.findRoot.id).grabPixmap).grabRender
              item.findRoot.id).notified (LayerEffect.markDirty item.findRoot.id))
          exact ⟨by rw [m1, n1, r1, p1, g1], by rw [m2, n2, r2, p2, g2],
            by rw [m3, n3, r3, p3, g3], by rw [m5, n5, r4, p4, g4]⟩
        · exact ⟨by rw [n1, r1, p1, g1], by rw [n2, r2, p2, g2],
            by rw [n3, r3, p3, g3], by rw [n5, r4, p4, g4]⟩

/-- The member `grab` leaves a null pixmap when there is no item or the size is null. -/
theorem grab_null (l : SoftwareLayer) (h : l.m_item = none ∨ l.m_size.isNull = true) :
    l.grab.m_pixmap = QPixmap.null := by
  unfold SoftwareLayer.grab
  split
  · rfl
  · rename_i item hitem
    rcases h with h | h
    · rw [h] at hitem
      cases hitem
    · rw [if_pos h]

/-- One call keeps the property that a live layer without an item or with a null size holds
the null pixmap. -/
theorem LayerCall.run_keeps (l : SoftwareLayer) (c : LayerCall)
    (h : l.m_live = true → (l.m_item = none ∨ l.m_size.isNull = true) →
      l.m_pixmap = QPixmap.null) :
    (c.run l).m_live = true → ((c.run l).m_item = none ∨ (c.run l).m_size.isNull = true) →
      (c.run l).m_pixmap = QPixmap.null := by
  have hgrab : ∀ x : SoftwareLayer, x.grab.m_live = true →
      (x.grab.m_item = none ∨ x.grab.m_size.isNull = true) →
      x.grab.m_pixmap = QPixmap.null := by
    intro x _ hn
    obtain ⟨g1, g2, _, _⟩ := grab_fields x
    rw [g1, g2] at hn
    exact grab_null x hn
  cases c with
  | setItem item =>
    simp only [LayerCall.run, SoftwareLayer.setItem]
    split
    · exact h
    · obtain ⟨m1, m2, m3, m4, _⟩ := markDirtyTexture_fields
        (if ({ l with m_item := item } : SoftwareLayer).m_live = true ∧
            ({ l with m_item := item } : SoftwareLayer).m_item.isNone = true then
          { { l with m_item := item } with m_pixmap := QPixmap.null }
          else { l with m_item := item })
      rw [m1, m2, m3, m4]
      split
      · intro _ _; rfl
      · rename_i hn
        intro hl hc
        simp only [not_and] at hn
        rcases hc with hc | hc
        · exact absurd (by simpa using hc) (hn hl)
        · exact h hl (Or.inr hc)
  | setRect rect =>
    simp only [LayerCall.run, SoftwareLayer.setRect]
    split
    · exact h
    · obtain ⟨m1, m2, m3, m4, _⟩ := markDirtyTexture_fields { l with m_rect := rect }
      rw [m1, m2, m3, m4]
      exact h
  | setSize size =>
    simp only [LayerCall.run, SoftwareLayer.setSize]
    split
    · exact h
    · obtain ⟨m1, m2, m3, m4, _⟩ := markDirtyTexture_fields
        (if ({ l with m_size := size } : SoftwareLayer).m_live = true ∧
            ({ l with m_size := size } : SoftwareLayer).m_size.isNull = true then
          { { l with m_size := size } with m_pixmap := QPixmap.null }
          else { l with m_size := size })
      rw [m1, m2, m3, m4]
      split
      · intro _ _; rfl
      · rename_i hn
        intro hl hc
        simp only [not_and] at hn
        rcases hc with hc | hc
        · exact h hl (Or.inl hc)
        · exact absurd hc (hn hl)
  | setLive live =>
    simp only [LayerCall.run, SoftwareLayer.setLive]
    split
    · exact h
    · obtain ⟨m1, m2, m3, m4, _⟩ := markDirtyTexture_fields
        (if ({ l with m_live := live } : SoftwareLayer).m_live = true ∧
            (({ l with m_live := live } : SoftwareLayer).m_item.isNone = true ∨
             ({ l with m_live := live } : SoftwareLayer).m_size.isNull = true) then
          { { l with m_live := live } with m_pixmap := QPixmap.null }
          else { l with m_live := live })
      rw [m1, m2, m3, m4]
      split
      · intro _ _; rfl
      · rename_i hn
        intro hl hc
        simp only [not_and] at hn
        exfalso
        apply hn hl
        rcases hc with hc | hc
        · exact Or.inl (by simpa using hc)
        · exact Or.inr hc
  | setRecursive r => exact h
  | setMirrorHorizontal m =>
    simp only [LayerCall.run, SoftwareLayer.setMirrorHorizontal]
    split
    · exact h
    · obtain ⟨m1, m2, m3, m4, _⟩ := markDirtyTexture_fields { l with m_mirrorHorizontal := m }
      rw [m1, m2, m3, m4]
      exact h
  | setMirrorVertical m =>
    simp only [LayerCall.run, SoftwareLayer.setMirrorVertical]
    split
    · exact h
    · obtain ⟨m1, m2, m3, m4, _⟩ := markDirtyTexture_fields { l with m_mirrorVertical := m }
      rw [m1, m2, m3, m4]
      exact h
  | scheduleUpdate =>
    simp only [LayerCall.run, SoftwareLayer.scheduleUpdate]
    split
    · exact h
    · split
      · exact h
      · exact h
  | updateTexture =>
    simp only [LayerCall.run, SoftwareLayer.updateTexture]
    have hl1 : ∀ x : SoftwareLayer, (x.m_live = true →
        (x.m_item = none ∨ x.m_size.isNull = true) → x.m_pixmap = QPixmap.null) →
        ((if x.m_grab = true then x.emit LayerEffect.scheduledUpdateCompleted else x).m_live
          = true →
        ((if x.m_grab = true then x.emit LayerEffect.scheduledUpdateCompleted else x).m_item
          = none ∨
         (if x.m_grab = true then x.emit LayerEffect.scheduledUpdateCompleted
          else x).m_size.isNull = true) →
        (if x.m_grab = true then x.emit LayerEffect.scheduledUpdateCompleted else x).m_pixmap
          = QPixmap.null) := by
      intro x hx
      split
      · exact hx
      · exact hx
    split
    · exact hl1 _ (hgrab l)
    · exact hl1 _ h
  | grab => exact hgrab l

/-- C28: after construction and after any sequence of calls of `setItem`, `setRect`,
`setSize`, `setLive`, `setRecursive`, `setMirrorHorizontal`, `setMirrorVertical`,
`scheduleUpdate`, `updateTexture` and `grab`, a layer that is live and has no item or whose
size is null holds the null pixmap. -/
theorem layer_pixmap_null (c : Bool) (calls : List LayerCall) :
    (calls.foldl LayerCall.run (SoftwareLayer.new c)).m_live = true →
    ((calls.foldl LayerCall.run (SoftwareLayer.new c)).m_item = none ∨
      (calls.foldl LayerCall.run (SoftwareLayer.new c)).m_size.isNull = true) →
    (calls.foldl LayerCall.run (SoftwareLayer.new c)).m_pixmap = QPixmap.null := by
  have hall : ∀ (cs : List LayerCall) (l : SoftwareLayer),
      (l.m_live = true → (l.m_item = none ∨ l.m_size.isNull = true) →
        l.m_pixmap = QPixmap.null) →
      ((cs.foldl LayerCall.run l).m_live = true →
        ((cs.foldl LayerCall.run l).m_item = none ∨
          (cs.foldl LayerCall.run l).m_size.isNull = true) →
        (cs.foldl LayerCall.run l).m_pixmap = QPixmap.null) := by
    intro cs
    induction cs with
    | nil => intro l h; exact h
    | cons x rest ih =>
      intro l h
      exact ih (x.run l) (LayerCall.run_keeps l x h)
  exact hall calls (SoftwareLayer.new c) (fun _ _ => rfl)

/-- Witness of `layer_pixmap_null`: after `sampleLayerCalls` the layer is live and has no
item, and its pixmap is null although a frame had been rendered into it. -/
theorem layer_pixmap_null_witness :
    ((sampleLayerCalls.take 3).foldl LayerCall.run (SoftwareLayer.new false)).m_pixmap =
        QPixmap.image { width := 64, height := 32 } (some 1) ∧
      (sampleLayerCalls.foldl LayerCall.run (SoftwareLayer.new false)).m_live = true ∧
      (sampleLayerCalls.foldl LayerCall.run (SoftwareLayer.new false)).m_item = none ∧
      (sampleLayerCalls.foldl LayerCall.run (SoftwareLayer.new false)).m_pixmap =
        QPixmap.null :=
  ⟨by decide, by decide, by decide,
    layer_pixmap_null false sampleLayerCalls (by decide) (Or.inl (by decide))⟩

/-- Counterexample to C30 as stated: window 1 is tracked, renderable and visible and has an
update pending, but a handler of the delayed touch event destroys it; `renderWindow` then
returns after `flushDelayedTouchEvent()` without polishing, synchronising or rendering, and
`fireFrameSwapped` is not called. -/
theorem renderWindow_returns_early :
    touchedLoop.isRenderable 1 = true ∧
    touchedLoop.value 1 = some { updatePending := true, grabOnly := false } ∧
    (touchedLoop.qwindow 1).isVisible = true ∧
    (touchedLoop.renderWindow 1).log =
      [Effect.initializeIfNeeded, Effect.flushDelayedTouchEvent 1, Effect.fireAboutToStop 1,
        Effect.cleanupNodesOnShutdown 1, Effect.invalidateContext,
        Effect.sendPostedDeferredDelete] ∧
    (touchedLoop.renderWindow 1).log.count (Effect.fireFrameSwapped 1) = 0 ∧
    (touchedLoop.renderWindow 1).contains 1 = false := by
  decide

/-- After a write through the reference of a tracked window, the entry holds what was
written. -/
theorem RenderLoop.value_setData (rl : RenderLoop) (window : WindowId) (d d1 : WindowData)
    (h : rl.value window = some d) : (rl.setData window d1).value window = some d1 := by
  have key : ∀ l : List (WindowId × WindowData),
      (l.find? (fun e => e.1 == window)).map Prod.snd = some d →
      ((l.map (fun e => if e.1 = window then (window, d1) else e)).find?
        (fun e => e.1 == window)).map Prod.snd = some d1 := by
    intro l
    induction l with
    | nil => intro h; simp at h
    | cons x rest ih =>
      intro h
      by_cases hx : x.1 = window
      · simp [List.find?_cons, hx]
      · have hx1 : (x.1 == window) = false := by simpa using hx
        simp only [List.find?_cons, hx1] at h
        simp only [List.map_cons, hx, if_false, List.find?_cons, hx1]
        exact ih h
  exact key rl.m_windows h

/-- A window with an entry is tracked. -/
theorem RenderLoop.contains_of_value (rl : RenderLoop) (window : WindowId) (d : WindowData)
    (h : rl.value window = some d) : rl.contains window = true := by
  unfold RenderLoop.value at h
  unfold RenderLoop.contains
  cases hf : rl.m_windows.find? (fun e => e.1 == window) with
  | none => simp [hf] at h
  | some x =>
    have hm := List.mem_of_find?_eq_some hf
    have hp := List.find?_some hf
    exact List.any_eq_true.2 ⟨x, hm, hp⟩

/-- A tracked window has an entry. -/
theorem RenderLoop.value_of_contains (rl : RenderLoop) (window : WindowId)
    (h : rl.contains window = true) : ∃ d, rl.value window = some d := by
  unfold RenderLoop.contains at h
  obtain ⟨x, hm, hp⟩ := List.any_eq_true.1 h
  unfold RenderLoop.value
  cases hf : rl.m_windows.find? (fun e => e.1 == window) with
  | none =>
    have := List.find?_eq_none.1 hf x hm
    exact absurd hp this
  | some y => exact ⟨y.2, rfl⟩

/-- After `m_windows.remove(window)` the window is not tracked. -/
theorem RenderLoop.contains_remove (rl : RenderLoop) (window : WindowId) :
    (rl.remove window).contains window = false := by
  simp [RenderLoop.contains, RenderLoop.remove]

/-- The member `windowDestroyed` of the basic render loop: the window is not tracked
afterwards, and none of `polishItems`, `syncSceneGraph`, `renderSceneGraph` and
`fireFrameSwapped` is called. -/
theorem RenderLoop.windowDestroyed_spec (rl : RenderLoop) (window : WindowId) :
    (rl.windowDestroyed window).contains window = false ∧
    ∃ added, (rl.windowDestroyed window).log = rl.log ++ added ∧
      (∀ x, added.count (Effect.polishItems x) = 0) ∧
      (∀ x, added.count (Effect.syncSceneGraph x) = 0) ∧
      (∀ x s, added.count (Effect.renderSceneGraph x s) = 0) ∧
      (∀ x, added.count (Effect.fireFrameSwapped x) = 0) := by
  have hc := rl.contains_remove window
  unfold RenderLoop.windowDestroyed
  simp only []
  split
  · refine ⟨hc, [Effect.fireAboutToStop window, Effect.cleanupNodesOnShutdown window,
      Effect.invalidateContext, Effect.sendPostedDeferredDelete], ?_, ?_, ?_, ?_, ?_⟩ <;>
      simp [RenderLoop.emit, RenderLoop.hide, RenderLoop.remove, List.count_cons]
  · refine ⟨hc, [Effect.fireAboutToStop window, Effect.cleanupNodesOnShutdown window],
      ?_, ?_, ?_, ?_, ?_⟩ <;>
      simp [RenderLoop.emit, RenderLoop.hide, RenderLoop.remove, List.count_cons]

/-- The member `maybeUpdate` for a tracked window. -/
theorem RenderLoop.maybeUpdate_spec (rl : RenderLoop) (window : WindowId) (d : WindowData)
    (h : rl.value window = some d) :
    (rl.maybeUpdate window).log = rl.log ++ [Effect.requestUpdate window] ∧
      (rl.maybeUpdate window).value window = some { d with updatePending := true } ∧
      (rl.maybeUpdate window).qwindow = rl.qwindow ∧
      (rl.maybeUpdate window).syncUpdates = rl.syncUpdates := by
  have hv := rl.value_setData window d { d with updatePending := true } h
  simp only [RenderLoop.maybeUpdate, h]
  exact ⟨rfl, hv, rfl, rfl⟩

/-- The call `cd->syncSceneGraph()` for a tracked window. -/
theorem RenderLoop.syncSceneGraph_spec (rl : RenderLoop) (window : WindowId) (d : WindowData)
    (h : rl.value window = some d) :
    (rl.syncSceneGraph window).log = rl.log ++ [Effect.syncSceneGraph window] ++
        (if rl.syncUpdates window then [Effect.requestUpdate window] else []) ∧
      (rl.syncSceneGraph window).value window =
        some { d with updatePending := d.updatePending || rl.syncUpdates window } ∧
      (rl.syncSceneGraph window).qwindow = rl.qwindow ∧
      (rl.syncSceneGraph window).syncUpdates = rl.syncUpdates := by
  unfold RenderLoop.syncSceneGraph
  by_cases hs : rl.syncUpdates window = true
  · have h1 : (rl.emit (Effect.syncSceneGraph window)).value window = some d := h
    obtain ⟨m1, m2, m3, m4⟩ := RenderLoop.maybeUpdate_spec _ window d h1
    rw [if_pos hs, m1, m2, m3, m4]
    simp [hs, RenderLoop.emit]
  · rw [if_neg hs]
    have hs1 : rl.syncUpdates window = false := by simpa using hs
    refine ⟨by simp [hs1, RenderLoop.emit], ?_, rfl, rfl⟩
    rw [hs1]
    simpa using h

/-- The statement `if (data.grabOnly) data.grabOnly = false;` for a tracked window. -/
theorem RenderLoop.clearGrabOnly_spec (rl : RenderLoop) (window : WindowId) (d : WindowData)
    (h : rl.value window = some d) :
    (rl.clearGrabOnly window).log = rl.log ∧
      (rl.clearGrabOnly window).value window = some { d with grabOnly := false } ∧
      (rl.clearGrabOnly window).qwindow = rl.qwindow ∧
      (rl.clearGrabOnly window).syncUpdates = rl.syncUpdates := by
  simp only [RenderLoop.clearGrabOnly, h]
  by_cases hg : d.grabOnly = true
  · rw [if_pos hg]
    exact ⟨rfl, rl.value_setData window d _ h, rfl, rfl⟩
  · rw [if_neg hg]
    have hg1 : d.grabOnly = false := by simpa using hg
    refine ⟨rfl, ?_, rfl, rfl⟩
    rw [h, ← hg1]

/-- The statement `if (alsoSwap && window->isVisible()) cd->fireFrameSwapped();`. -/
theorem RenderLoop.swap_spec (rl : RenderLoop) (window : WindowId) (alsoSwap : Bool) :
    (rl.swap window alsoSwap).log = rl.log ++
        (if alsoSwap = true ∧ (rl.qwindow window).isVisible = true then
          [Effect.fireFrameSwapped window] else []) ∧
      (rl.swap window alsoSwap).value window = rl.value window ∧
      (rl.swap window alsoSwap).qwindow = rl.qwindow ∧
      (rl.swap window alsoSwap).syncUpdates = rl.syncUpdates := by
  unfold RenderLoop.swap
  split
  · exact ⟨rfl, rfl, rfl, rfl⟩
  · exact ⟨by simp, rfl, rfl, rfl⟩

/-- The statement `if (data.updatePending) maybeUpdate(window);` for a tracked window. -/
theorem RenderLoop.updateAgain_spec (rl : RenderLoop) (window : WindowId) (d : WindowData)
    (h : rl.value window = some d) :
    (rl.updateAgain window).log = rl.log ++
        (if d.updatePending then [Effect.requestUpdate window] else []) ∧
      (rl.updateAgain window).value window = some d := by
  simp only [RenderLoop.updateAgain, h]
  by_cases hp : d.updatePending = true
  · obtain ⟨m1, m2, _, _⟩ := rl.maybeUpdate_spec window d h
    rw [if_pos hp, m1, m2, if_pos hp, ← hp]
    exact ⟨rfl, rfl⟩
  · rw [if_neg hp, if_neg hp]
    exact ⟨by simp, h⟩

/-- The end of a frame of `renderWindow`, from `cd->renderSceneGraph` on, for a tracked
window. -/
theorem RenderLoop.renderWindowFrame_tail (rl : RenderLoop) (window : WindowId)
    (d : WindowData) (alsoSwap : Bool) (e : Effect) (h : rl.value window = some d) :
    ((((rl.emit e).clearGrabOnly window).swap window alsoSwap).updateAgain window).log =
        rl.log ++ [e] ++
        (if alsoSwap = true ∧ (rl.qwindow window).isVisible = true then
          [Effect.fireFrameSwapped window] else []) ++
        (if d.updatePending then [Effect.requestUpdate window] else []) ∧
      ((((rl.emit e).clearGrabOnly window).swap window alsoSwap).updateAgain window).value
        window = some { d with grabOnly := false } := by
  have e1 : (rl.emit e).value window = some d := h
  obtain ⟨c1, c2, c3, _⟩ := RenderLoop.clearGrabOnly_spec (rl.emit e) window d e1
  obtain ⟨w1, w2, _, _⟩ := RenderLoop.swap_spec ((rl.emit e).clearGrabOnly window) window
    alsoSwap
  rw [c2] at w2
  obtain ⟨u1, u2⟩ := RenderLoop.updateAgain_spec _ window _ w2
  refine ⟨?_, u2⟩
  rw [u1, w1, c1, c3]
  rfl

/-- The outside calls of a frame of `renderWindow` that is not cut short, in call order, and
the entry of the window after it. -/
theorem RenderLoop.renderWindowFrame_spec (rl : RenderLoop) (window : WindowId)
    (d : WindowData) (alsoSwap : Bool) (h : rl.value window = some d)
    (hp : d.updatePending = false) :
    (rl.renderWindowFrame window alsoSwap).log = rl.log ++
        ([Effect.polishItems window, Effect.afterAnimating window,
          Effect.syncSceneGraph window] ++
        (if rl.syncUpdates window then [Effect.requestUpdate window] else []) ++
        [Effect.renderSceneGraph window (rl.qwindow window).size] ++
        (if alsoSwap = true ∧ (rl.qwindow window).isVisible = true then
          [Effect.fireFrameSwapped window] else []) ++
        (if rl.syncUpdates window then [Effect.requestUpdate window] else [])) ∧
      (rl.renderWindowFrame window alsoSwap).value window =
        some { updatePending := rl.syncUpdates window, grabOnly := false } := by
  have e1 : ((rl.emit (Effect.polishItems window)).emit (Effect.afterAnimating window)).value
      window = some d := h
  obtain ⟨s1, s2, s3, _⟩ := RenderLoop.syncSceneGraph_spec _ window d e1
  have q1 : ((rl.emit (Effect.polishItems window)).emit
      (Effect.afterAnimating window)).qwindow = rl.qwindow := rfl
  have q2 : ((rl.emit (Effect.polishItems window)).emit
      (Effect.afterAnimating window)).syncUpdates = rl.syncUpdates := rfl
  have q3 : ((rl.emit (Effect.polishItems window)).emit
      (Effect.afterAnimating window)).log =
      rl.log ++ [Effect.polishItems window, Effect.afterAnimating window] := by
    simp [RenderLoop.emit]
  rw [q1] at s3
  rw [q2] at s1 s2
  rw [q3] at s1
  simp only [RenderLoop.renderWindowFrame]
  generalize ((rl.emit (Effect.polishItems window)).emit
    (Effect.afterAnimating window)).syncSceneGraph window = B at s1 s2 s3 ⊢
  obtain ⟨t1, t2⟩ := RenderLoop.renderWindowFrame_tail B window _ alsoSwap
    (Effect.renderSceneGraph window (B.qwindow window).size) s2
  rw [t1, t2, s1, s3]
  simp [hp]

/-- C30 (amended): `renderWindow` on a window that is not renderable or not tracked returns
the state it was called in. For a renderable, tracked window it calls `initializeIfNeeded()`
and clears `updatePending` before anything else. When the window is not `grabOnly` and a
handler run by `flushDelayedTouchEvent()` destroys it, `renderWindow` returns right after
that call: nothing is polished, synchronised or rendered and `fireFrameSwapped` is not
called, whatever `updatePending` was. In every other case the items are polished, the scene
graph is synchronised and rendered, once each in this order, `grabOnly` is cleared, and
`fireFrameSwapped` is called once when `updatePending` was set on entry and the window is
visible, and not otherwise. -/
theorem renderWindow_spec (rl : RenderLoop) (window : WindowId) :
    ((rl.isRenderable window = false ∨ rl.contains window = false) →
      rl.renderWindow window = rl) ∧
    (∀ data, rl.isRenderable window = true → rl.value window = some data →
      (rl.renderWindowBegin window data).value window =
        some { data with updatePending := false } ∧
      (rl.renderWindowBegin window data).log = rl.log ++ [Effect.initializeIfNeeded] ∧
      (data.grabOnly = false → rl.touchDestroys window = true →
        rl.renderWindow window =
          ((rl.renderWindowBegin window data).emit
            (Effect.flushDelayedTouchEvent window)).windowDestroyed window ∧
        (rl.renderWindow window).contains window = false ∧
        ∃ added, (rl.renderWindow window).log = rl.log ++ added ∧
          (∀ x, added.count (Effect.polishItems x) = 0) ∧
          (∀ x, added.count (Effect.syncSceneGraph x) = 0) ∧
          (∀ x s, added.count (Effect.renderSceneGraph x s) = 0) ∧
          (∀ x, added.count (Effect.fireFrameSwapped x) = 0)) ∧
      ((data.grabOnly = true ∨ rl.touchDestroys window = false) →
        (rl.renderWindow window).log = rl.log ++
          ([Effect.initializeIfNeeded] ++
          (if data.grabOnly then [] else [Effect.flushDelayedTouchEvent window]) ++
          [Effect.polishItems window, Effect.afterAnimating window,
            Effect.syncSceneGraph window] ++
          (if rl.syncUpdates window then [Effect.requestUpdate window] else []) ++
          [Effect.renderSceneGraph window (rl.qwindow window).size] ++
          (if data.updatePending = true ∧ (rl.qwindow window).isVisible = true then
            [Effect.fireFrameSwapped window] else []) ++
          (if rl.syncUpdates window then [Effect.requestUpdate window] else [])) ∧
        (rl.renderWindow window).value window =
          some { updatePending := rl.syncUpdates window, grabOnly := false } ∧
        (rl.renderWindow window).log.count (Effect.fireFrameSwapped window) =
          rl.log.count (Effect.fireFrameSwapped window) +
            (if data.updatePending = true ∧ (rl.qwindow window).isVisible = true
              then 1 else 0))) := by
  refine ⟨?_, ?_⟩
  · intro h
    simp only [RenderLoop.renderWindow, if_pos h]
  · intro data hren hval
    have hcon := rl.contains_of_value window data hval
    have hnot : ¬ (rl.isRenderable window = false ∨ rl.contains window = false) := by
      simp [hren, hcon]
    have hv0 : (rl.emit Effect.initializeIfNeeded).value window = some data := hval
    have hbv : (rl.renderWindowBegin window data).value window =
        some { data with updatePending := false } :=
      RenderLoop.value_setData _ window data _ hv0
    have hbl : (rl.renderWindowBegin window data).log =
        rl.log ++ [Effect.initializeIfNeeded] := rfl
    have hbq : (rl.renderWindowBegin window data).qwindow = rl.qwindow := rfl
    have hbs : (rl.renderWindowBegin window data).syncUpdates = rl.syncUpdates := rfl
    have hbt : (rl.renderWindowBegin window data).touchDestroys = rl.touchDestroys := rfl
    refine ⟨hbv, hbl, ?_, ?_⟩
    · intro hg ht
      have hfl : (rl.renderWindowBegin window data).flushDelayedTouchEvent window =
          ((rl.renderWindowBegin window data).emit
            (Effect.flushDelayedTouchEvent window)).windowDestroyed window := by
        simp only [RenderLoop.flushDelayedTouchEvent, hbt, ht, if_true]
      obtain ⟨d1, added, d2, d3, d4, d5, d6⟩ := RenderLoop.windowDestroyed_spec
        ((rl.renderWindowBegin window data).emit (Effect.flushDelayedTouchEvent window)) window
      have hrw : rl.renderWindow window =
          ((rl.renderWindowBegin window data).emit
            (Effect.flushDelayedTouchEvent window)).windowDestroyed window := by
        simp only [RenderLoop.renderWindow, if_neg hnot, hval, hg, if_true, hfl, d1]
      rw [hrw]
      refine ⟨rfl, d1, [Effect.initializeIfNeeded, Effect.flushDelayedTouchEvent window] ++
        added, ?_, ?_, ?_, ?_, ?_⟩
      · rw [d2]
        simp [RenderLoop.emit, hbl]
      · intro x; simp [List.count_append, d3 x, List.count_cons]
      · intro x; simp [List.count_append, d4 x, List.count_cons]
      · intro x s; simp [List.count_append, d5 x s, List.count_cons]
      · intro x; simp [List.count_append, d6 x, List.count_cons]
    · intro hcase
      have hcount : ∀ (l : List Effect) (su : Bool) (g : Bool) (b : Prop) [Decidable b],
          (l ++ ([Effect.initializeIfNeeded] ++
            (if g then [] else [Effect.flushDelayedTouchEvent window]) ++
            [Effect.polishItems window, Effect.afterAnimating window,
              Effect.syncSceneGraph window] ++
            (if su then [Effect.requestUpdate window] else []) ++
            [Effect.renderSceneGraph window (rl.qwindow window).size] ++
            (if b then [Effect.fireFrameSwapped window] else []) ++
            (if su then [Effect.requestUpdate window] else []))).count
            (Effect.fireFrameSwapped window) =
          l.count (Effect.fireFrameSwapped window) + (if b then 1 else 0) := by
        intro l su g b _
        cases su <;> cases g <;> by_cases hb : b <;>
          simp [List.count_append, List.count_cons, hb]
      by_cases hg : data.grabOnly = true
      · -- a grab: the touch event is not flushed
        have hrw : rl.renderWindow window =
            (rl.renderWindowBegin window data).renderWindowFrame window data.updatePending := by
          simp only [RenderLoop.renderWindow, if_neg hnot, hval, hg]
          simp
        obtain ⟨f1, f2⟩ := RenderLoop.renderWindowFrame_spec _ window _ data.updatePending
          hbv rfl
        rw [hbl, hbq, hbs] at f1
        rw [hbs] at f2
        have hlog : (rl.renderWindow window).log = rl.log ++
            ([Effect.initializeIfNeeded] ++
            (if data.grabOnly then [] else [Effect.flushDelayedTouchEvent window]) ++
            [Effect.polishItems window, Effect.afterAnimating window,
              Effect.syncSceneGraph window] ++
            (if rl.syncUpdates window then [Effect.requestUpdate window] else []) ++
            [Effect.renderSceneGraph window (rl.qwindow window).size] ++
            (if data.updatePending = true ∧ (rl.qwindow window).isVisible = true then
              [Effect.fireFrameSwapped window] else []) ++
            (if rl.syncUpdates window then [Effect.requestUpdate window] else [])) := by
          rw [hrw, f1]
          simp [hg]
        refine ⟨hlog, by rw [hrw, f2], ?_⟩
        rw [hlog]
        exact hcount _ _ _ _
      · -- the touch event is flushed and the window stays
        have hg1 : data.grabOnly = false := by simpa using hg
        have ht : rl.touchDestroys window = false := by
          rcases hcase with h | h
          · exact absurd h hg
          · exact h
        have hfl : (rl.renderWindowBegin window data).flushDelayedTouchEvent window =
            (rl.renderWindowBegin window data).emit (Effect.flushDelayedTouchEvent window) := by
          simp [RenderLoop.flushDelayedTouchEvent, hbt, ht]
        have hfv : ((rl.renderWindowBegin window data).emit
            (Effect.flushDelayedTouchEvent window)).value window =
            some { data with updatePending := false } := hbv
        have hfc := RenderLoop.contains_of_value _ window _ hfv
        have hrw : rl.renderWindow window =
            ((rl.renderWindowBegin window data).emit
              (Effect.flushDelayedTouchEvent window)).renderWindowFrame window
              data.updatePending := by
          simp only [RenderLoop.renderWindow, if_neg hnot, hval, hg1, if_true, hfl, hfc]
          simp
        obtain ⟨f1, f2⟩ := RenderLoop.renderWindowFrame_spec _ window _ data.updatePending
          hfv rfl
        have hl2 : ((rl.renderWindowBegin window data).emit
            (Effect.flushDelayedTouchEvent window)).log =
            rl.log ++ [Effect.initializeIfNeeded, Effect.flushDelayedTouchEvent window] := by
          simp [RenderLoop.emit, hbl]
        have hq2 : ((rl.renderWindowBegin window data).emit
            (Effect.flushDelayedTouchEvent window)).qwindow = rl.qwindow := rfl
        have hs2 : ((rl.renderWindowBegin window data).emit
            (Effect.flushDelayedTouchEvent window)).syncUpdates = rl.syncUpdates := rfl
        rw [hl2, hq2, hs2] at f1
        rw [hs2] at f2
        have hlog : (rl.renderWindow window).log = rl.log ++
            ([Effect.initializeIfNeeded] ++
            (if data.grabOnly then [] else [Effect.flushDelayedTouchEvent window]) ++
            [Effect.polishItems window, Effect.afterAnimating window,
              Effect.syncSceneGraph window] ++
            (if rl.syncUpdates window then [Effect.requestUpdate window] else []) ++
            [Effect.renderSceneGraph window (rl.qwindow window).size] ++
            (if data.updatePending = true ∧ (rl.qwindow window).isVisible = true then
              [Effect.fireFrameSwapped window] else []) ++
            (if rl.syncUpdates window then [Effect.requestUpdate window] else [])) := by
          rw [hrw, f1]
          simp [hg1]
        refine ⟨hlog, by rw [hrw, f2], ?_⟩
        rw [hlog]
        exact hcount _ _ _ _

/-- Witness of `renderWindow_spec` on `basicLoop`: window 1 is renderable, visible and has
an update pending, its touch event destroys nothing, and the frame ends with one call of
`fireFrameSwapped`. -/
theorem renderWindow_spec_witness :
    (basicLoop.renderWindow 1).log =
      [Effect.initializeIfNeeded, Effect.flushDelayedTouchEvent 1, Effect.polishItems 1,
        Effect.afterAnimating 1, Effect.syncSceneGraph 1,
        Effect.renderSceneGraph 1 { width := 640, height := 480 },
        Effect.fireFrameSwapped 1] ∧
      (basicLoop.renderWindow 1).value 1 = some { updatePending := false, grabOnly := false } ∧
      (basicLoop.renderWindow 1).log.count (Effect.fireFrameSwapped 1) = 1 :=
  ((renderWindow_spec basicLoop 1).2 { updatePending := true, grabOnly := false }
    rfl rfl).2.2.2 (Or.inr rfl)

/-! ## Release of the resources, with the render thread followed step by step -/

/-- The handler of `WM_TryRelease` for a thread without a window, or from the destructor:
`active` is cleared, `stopEventProcessing` is set when the thread sleeps, and the GUI thread
is woken between locking and unlocking the mutex. -/
theorem dispatch_tryRelease_exit (S : ThreadedRenderLoop) (i : Nat) (v : Window)
    (win : WindowId) (d f : Bool) (hv : S.m_windows[i]? = some v)
    (hc : v.thread.window = none ∨ d = true) :
    dispatch S i (WMEvent.tryRelease win d f) =
      { S with
        m_windows := S.m_windows.set i { v with thread := { v.thread with
          active := false,
          stopEventProcessing := v.thread.sleeping || v.thread.stopEventProcessing } },
        m_lockedForSync := false,
        log := S.log ++ [Effect.mutexLock v.thread.id, Effect.wakeOne v.thread.id,
          Effect.mutexUnlock v.thread.id] } := by
  have hi : i < S.m_windows.length := (List.getElem?_eq_some.1 hv).1
  have hc2 : v.thread.window.isNone = true ∨ d = true := by
    cases hc with
    | inl h => left; simp [h]
    | inr h => right; exact h
  by_cases hs : v.thread.sleeping = true
  · simp [dispatch, RenderThread.event, deleteEvent, ThreadedRenderLoop.setThread,
      ThreadedRenderLoop.setWindow, hv, hi, ThreadedRenderLoop.emit, hc, hc2, hs]
  · simp [dispatch, RenderThread.event, deleteEvent, ThreadedRenderLoop.setThread,
      ThreadedRenderLoop.setWindow, hv, hi, ThreadedRenderLoop.emit, hc, hc2, hs]

/-- A step of the run loop that is followed by another one before the GUI thread is woken. -/
theorem runToWake_step (n : Nat) (S S1 : ThreadedRenderLoop) (i : Nat) (p q : WorkerPoint)
    (wake : Effect) (before : Nat)
    (hs : RenderThread.step false S i p = Stepped.next S1 q)
    (hc : S1.log.count wake ≤ before) :
    RenderThread.runToWake (n + 1) S i p wake before =
      RenderThread.runToWake n S1 i q wake before := by
  simp [RenderThread.runToWake, hs, Nat.not_lt.2 hc]

/-- A step of the run loop in which the GUI thread is woken. -/
theorem runToWake_done (n : Nat) (S S1 : ThreadedRenderLoop) (i : Nat) (p q : WorkerPoint)
    (wake : Effect) (before : Nat)
    (hs : RenderThread.step false S i p = Stepped.next S1 q)
    (hc : before < S1.log.count wake) :
    RenderThread.runToWake (n + 1) S i p wake before = some (S1, q) := by
  simp [RenderThread.runToWake, hs, hc]

/-- The handler of `WM_TryRelease`, run right after the thread `t0` has been written back
with the event taken from its queue. -/
theorem dispatch_tryRelease_fields (S : ThreadedRenderLoop) (i : Nat) (v : Window)
    (t0 : RenderThread) (win : WindowId) (d f : Bool) (hv : S.m_windows[i]? = some v)
    (hc : t0.window = none ∨ d = true) :
    ∃ v1, (dispatch (S.setThread i t0) i (WMEvent.tryRelease win d f)).m_windows[i]? = some v1 ∧
      v1.thread.active = false ∧ v1.thread.isRunning = t0.isRunning ∧
      v1.thread.id = t0.id ∧ v1.thread.eventQueue = t0.eventQueue ∧
      (t0.sleeping = true → v1.thread.stopEventProcessing = true) ∧
      (dispatch (S.setThread i t0) i (WMEvent.tryRelease win d f)).log =
        S.log ++ [Effect.mutexLock t0.id, Effect.wakeOne t0.id, Effect.mutexUnlock t0.id] := by
  have hi : i < S.m_windows.length := (List.getElem?_eq_some.1 hv).1
  have hv2 := setThread_getElem S i v t0 hv
  rw [dispatch_tryRelease_exit _ i _ win d f hv2 hc]
  refine ⟨_, by simp [ThreadedRenderLoop.setThread, ThreadedRenderLoop.setWindow, hv, hi]; rfl,
    rfl, rfl, rfl, rfl, ?_, ?_⟩
  · intro hs
    simp [hs]
  · simp [setThread_log]

/-- A render thread that is in one of its event loops with `WM_TryRelease` as the only
queued event, and that has no window or is released from the destructor, handles the event
in its next step: the GUI thread is woken, and the thread stands at the loop test again with
`active` clear, still running. -/
theorem step_tryRelease (S : ThreadedRenderLoop) (i : Nat) (v : Window) (win : WindowId)
    (d f : Bool) (p : WorkerPoint) (hv : S.m_windows[i]? = some v)
    (hq : v.thread.eventQueue.events = [WMEvent.tryRelease win d f])
    (hc : v.thread.window = none ∨ d = true)
    (hp : p = WorkerPoint.drainTest ∨
      ((p = WorkerPoint.stopTest ∨ p = WorkerPoint.inTakeEvent) ∧
        v.thread.sleeping = true ∧ v.thread.stopEventProcessing = false)) :
    ∃ T q v1, RenderThread.step false S i p = Stepped.next T q ∧
      T.m_windows[i]? = some v1 ∧ v1.thread.active = false ∧
      v1.thread.isRunning = v.thread.isRunning ∧ v1.thread.id = v.thread.id ∧
      v1.thread.eventQueue.events = [] ∧
      T.log = S.log ++ [Effect.mutexLock v.thread.id, Effect.wakeOne v.thread.id,
        Effect.mutexUnlock v.thread.id] ∧
      (q = WorkerPoint.drainTest ∨
        (q = WorkerPoint.stopTest ∧ v1.thread.stopEventProcessing = true)) := by
  rcases hp with hp | ⟨hp | hp, hsl, hst⟩
  · subst hp
    obtain ⟨v1, h1, h2, h3, h4, h5, h6, h7⟩ := dispatch_tryRelease_fields S i v
      { v.thread with eventQueue := { v.thread.eventQueue with events := [] } } win d f hv hc
    refine ⟨_, WorkerPoint.drainTest, v1, ?_, h1, h2, h3, h4, by rw [h5], h7, Or.inl rfl⟩
    simp [RenderThread.step, RenderThread.stepDrain, hv,
      RenderThreadEventQueue.hasMoreEvents, hq, RenderThreadEventQueue.takeEvent,
      RenderThreadEventQueue.dequeue, RenderThread.stepEvent]
  · subst hp
    obtain ⟨v1, h1, h2, h3, h4, h5, h6, h7⟩ := dispatch_tryRelease_fields S i v
      { v.thread with eventQueue := { v.thread.eventQueue with events := [] } } win d f hv hc
    refine ⟨_, WorkerPoint.stopTest, v1, ?_, h1, h2, h3, h4, by rw [h5], h7,
      Or.inr ⟨rfl, h6 hsl⟩⟩
    simp [RenderThread.step, RenderThread.stepStop, hv, hst,
      hq, RenderThreadEventQueue.takeEvent,
      RenderThreadEventQueue.dequeue, RenderThread.stepEvent]
  · subst hp
    obtain ⟨v1, h1, h2, h3, h4, h5, h6, h7⟩ := dispatch_tryRelease_fields S i v
      { v.thread with eventQueue := { events := [], waiting := false } } win d f hv hc
    refine ⟨_, WorkerPoint.stopTest, v1, ?_, h1, h2, h3, h4, by rw [h5], h7,
      Or.inr ⟨rfl, h6 hsl⟩⟩
    simp [RenderThread.step, RenderThread.stepWoken, hv, hst,
      hq, RenderThreadEventQueue.takeEventWoken,
      RenderThreadEventQueue.dequeue, RenderThread.stepEvent]

/-- A step that brings the render thread to the end of `run` is the step in which `run`
returns, and there `isRunning` is cleared. -/
theorem step_to_finished (held : Bool) (S S1 : ThreadedRenderLoop) (i : Nat) (p : WorkerPoint)
    (h : RenderThread.step held S i p = Stepped.next S1 WorkerPoint.finished) :
    ∃ v, S1.m_windows[i]? = some v ∧ v.thread.isRunning = false := by
  cases p with
  | activeTest =>
    simp only [RenderThread.step, RenderThread.stepActive] at h
    split at h
    · cases h
    · rename_i w hw
      split at h
      · injection h with h1 h2
        subst h1
        exact ⟨_, setThread_getElem _ i w _ hw, rfl⟩
      · split at h
        · cases h
        · split at h
          · cases h
          · split at h <;> cases h
  | afterSync win r e =>
    simp only [RenderThread.step] at h
    split at h <;> cases h
  | drainTest =>
    simp only [RenderThread.step, RenderThread.stepDrain, RenderThread.stepEvent] at h
    split at h
    · cases h
    · split at h
      · split at h
        · split at h <;> cases h
        · cases h
        · cases h
      · split at h <;> cases h
  | stopTest =>
    simp only [RenderThread.step, RenderThread.stepStop, RenderThread.stepEvent] at h
    split at h
    · cases h
    · split at h
      · cases h
      · split at h
        · split at h <;> cases h
        · cases h
        · cases h
  | inTakeEvent =>
    simp only [RenderThread.step, RenderThread.stepWoken, RenderThread.stepEvent] at h
    split at h
    · cases h
    · split at h
      · cases h
      · split at h
        · split at h <;> cases h
        · cases h
        · cases h
  | finished =>
    simp [RenderThread.step] at h

/-- When the wait of the GUI thread ends with the render thread at the end of `run`, the
thread is not running. -/
theorem runToWake_finished (n : Nat) (S R : ThreadedRenderLoop) (i : Nat) (p : WorkerPoint)
    (wake : Effect) (before : Nat)
    (h : RenderThread.runToWake n S i p wake before = some (R, WorkerPoint.finished)) :
    ∃ v, R.m_windows[i]? = some v ∧ v.thread.isRunning = false := by
  induction n generalizing S p with
  | zero => simp [RenderThread.runToWake] at h
  | succ n ih =>
    simp only [RenderThread.runToWake] at h
    split at h
    · rename_i S1 q hs
      split at h
      · injection h with h1
        injection h1 with h2 h3
        subst h2 h3
        exact step_to_finished false S _ i p hs
      · exact ih S1 q h
    · cases h
    · cases h

/-- When the render thread has come to rest at the end of `run`, it is not running. -/
theorem runToRest_finished (held : Bool) (n : Nat) (S R : ThreadedRenderLoop) (i : Nat)
    (p : WorkerPoint)
    (h : RenderThread.runToRest held n S i p = some (R, WorkerPoint.finished))
    (h0 : p = WorkerPoint.finished → ∃ v, S.m_windows[i]? = some v ∧ v.thread.isRunning = false) :
    ∃ v, R.m_windows[i]? = some v ∧ v.thread.isRunning = false := by
  induction n generalizing S p with
  | zero => simp [RenderThread.runToRest] at h
  | succ n ih =>
    simp only [RenderThread.runToRest] at h
    split at h
    · rename_i S1 q hs
      refine ih S1 q h ?_
      intro hq
      subst hq
      exact step_to_finished held S S1 i p hs
    · injection h with h1
      injection h1 with h2 h3
      subst h2
      exact h0 h3
    · cases h

/-- A step of the render thread that is followed by another one. -/
theorem runToRest_next (held : Bool) (n : Nat) (S S1 : ThreadedRenderLoop) (i : Nat)
    (p q : WorkerPoint) (hs : RenderThread.step held S i p = Stepped.next S1 q) :
    RenderThread.runToRest held (n + 1) S i p = RenderThread.runToRest held n S1 i q := by
  simp [RenderThread.runToRest, hs]

/-- A render thread at the test of `while (active)` with `active` clear returns from `run`
and rests there. -/
theorem runToRest_active_exit (held : Bool) (n : Nat) (T : ThreadedRenderLoop) (i : Nat)
    (v : Window) (hv : T.m_windows[i]? = some v) (ha : v.thread.active = false) :
    RenderThread.runToRest held (n + 2) T i WorkerPoint.activeTest =
      some ((T.emit (Effect.deleteAnimationDriver v.thread.id)).setThread i
          { v.thread with isRunning := false }, WorkerPoint.finished) := by
  have h1 : RenderThread.step held T i WorkerPoint.activeTest =
      Stepped.next ((T.emit (Effect.deleteAnimationDriver v.thread.id)).setThread i
          { v.thread with isRunning := false }) WorkerPoint.finished := by
    simp [RenderThread.step, RenderThread.stepActive, hv, ha]
  rw [runToRest_next held (n + 1) _ _ i _ _ h1]
  simp [RenderThread.runToRest, RenderThread.step]

/-- A render thread at the test of the loop of `processEvents` with nothing queued and
`active` clear does not sleep; it returns from `run`. -/
theorem runToRest_drain_exit (held : Bool) (n : Nat) (T : ThreadedRenderLoop) (i : Nat)
    (v : Window) (hv : T.m_windows[i]? = some v) (ha : v.thread.active = false)
    (hq : v.thread.eventQueue.events = []) :
    RenderThread.runToRest held (n + 3) T i WorkerPoint.drainTest =
      some (((T.emit Effect.processAppEvents).emit
        (Effect.deleteAnimationDriver v.thread.id)).setThread i
          { v.thread with isRunning := false }, WorkerPoint.finished) := by
  have h1 : RenderThread.step held T i WorkerPoint.drainTest =
      Stepped.next (T.emit Effect.processAppEvents) WorkerPoint.activeTest := by
    simp [RenderThread.step, RenderThread.stepDrain, hv,
      RenderThreadEventQueue.hasMoreEvents, hq, RenderThread.sleepCondition, ha]
  rw [runToRest_next held (n + 2) _ _ i _ _ h1]
  exact runToRest_active_exit held n _ i v hv ha

/-- A render thread at the test of its wait loop with `stopEventProcessing` set and `active`
clear leaves both loops and returns from `run`. -/
theorem runToRest_stop_exit (held : Bool) (n : Nat) (T : ThreadedRenderLoop) (i : Nat)
    (v : Window) (hv : T.m_windows[i]? = some v) (ha : v.thread.active = false)
    (hs : v.thread.stopEventProcessing = true) :
    RenderThread.runToRest held (n + 3) T i WorkerPoint.stopTest =
      some (((T.setThread i { v.thread with sleeping := false }).emit
        (Effect.deleteAnimationDriver v.thread.id)).setThread i
          { v.thread with sleeping := false, isRunning := false }, WorkerPoint.finished) := by
  have h1 : RenderThread.step held T i WorkerPoint.stopTest =
      Stepped.next (T.setThread i { v.thread with sleeping := false })
        WorkerPoint.activeTest := by
    simp [RenderThread.step, RenderThread.stepStop, hv, hs]
  rw [runToRest_next held (n + 2) _ _ i _ _ h1]
  exact runToRest_active_exit held n _ i _
    (setThread_getElem T i v { v.thread with sleeping := false } hv) ha

/-- The part of `releaseResources` after the wait, for a render thread that has handled
`WM_TryRelease` with `active` cleared and stands at the test of one of its event loops with
nothing queued: `QThread::wait()` lets it return from `run`, and the call returns with the
thread not running. -/
theorem releaseResourcesJoin_exit (T : ThreadedRenderLoop) (i : Nat) (v : Window)
    (fb : Bool) (q : WorkerPoint) (hv : T.m_windows[i]? = some v)
    (ha : v.thread.active = false) (he : v.thread.eventQueue.events = [])
    (hq : q = WorkerPoint.drainTest ∨
      (q = WorkerPoint.stopTest ∧ v.thread.stopEventProcessing = true)) :
    ∃ R w1 added, T.releaseResourcesJoin i fb q = some (R, WorkerPoint.finished) ∧
      R.m_windows[i]? = some w1 ∧ w1.thread.isRunning = false ∧ w1.thread.active = false ∧
      w1.thread.id = v.thread.id ∧
      R.log = T.log ++ added ++
        [Effect.deleteAnimationDriver v.thread.id, Effect.waitThread v.thread.id,
          Effect.mutexUnlock v.thread.id] := by
  have hv1 : (if fb = true then T.emit Effect.deleteFallbackSurface else T).m_windows[i]? =
      some v := by
    split <;> exact hv
  have hl : ∃ l, (if fb = true then T.emit Effect.deleteFallbackSurface else T).log =
      T.log ++ l := by
    cases fb
    · exact ⟨[], by simp⟩
    · exact ⟨[Effect.deleteFallbackSurface], by simp [ThreadedRenderLoop.emit]⟩
  obtain ⟨l, hl⟩ := hl
  have hemit : ∀ (S : ThreadedRenderLoop) (e : Effect), (S.emit e).log = S.log ++ [e] :=
    fun _ _ => rfl
  have hfuel : v.thread.fuel = 5 + 3 := by simp [RenderThread.fuel, he]
  rcases hq with hq | ⟨hq, hs⟩
  · subst hq
    have hj : T.releaseResourcesJoin i fb WorkerPoint.drainTest =
        some ((((((if fb = true then T.emit Effect.deleteFallbackSurface else T).emit
          Effect.processAppEvents).emit (Effect.deleteAnimationDriver v.thread.id)).setThread i
            { v.thread with isRunning := false }).emit (Effect.waitThread v.thread.id)).emit
              (Effect.mutexUnlock v.thread.id), WorkerPoint.finished) := by
      simp only [ThreadedRenderLoop.releaseResourcesJoin, hv]
      rw [if_pos ha, hfuel, runToRest_drain_exit true 5 _ i v hv1 ha he]
      rfl
    refine ⟨_, { v with thread := { v.thread with isRunning := false } },
      l ++ [Effect.processAppEvents], hj, ?_, rfl, ha, rfl, ?_⟩
    · have := setThread_getElem (((if fb = true then T.emit Effect.deleteFallbackSurface
        else T).emit Effect.processAppEvents).emit
          (Effect.deleteAnimationDriver v.thread.id)) i v
          { v.thread with isRunning := false } hv1
      simpa [ThreadedRenderLoop.emit] using this
    · simp only [hemit, setThread_log, hl, List.append_assoc, List.cons_append,
        List.nil_append]
  · subst hq
    have hj : T.releaseResourcesJoin i fb WorkerPoint.stopTest =
        some ((((((if fb = true then T.emit Effect.deleteFallbackSurface else T).setThread i
          { v.thread with sleeping := false }).emit
            (Effect.deleteAnimationDriver v.thread.id)).setThread i
            { v.thread with sleeping := false, isRunning := false }).emit
              (Effect.waitThread v.thread.id)).emit
              (Effect.mutexUnlock v.thread.id), WorkerPoint.finished) := by
      simp only [ThreadedRenderLoop.releaseResourcesJoin, hv]
      rw [if_pos ha, hfuel, runToRest_stop_exit true 5 _ i v hv1 ha hs]
      rfl
    refine ⟨_, { v with thread := { v.thread with sleeping := false, isRunning := false } },
      l, hj, ?_, rfl, ha, rfl, ?_⟩
    · have h2 := setThread_getElem (if fb = true then T.emit Effect.deleteFallbackSurface
        else T) i v { v.thread with sleeping := false } hv1
      have := setThread_getElem (((if fb = true then T.emit Effect.deleteFallbackSurface
        else T).setThread i { v.thread with sleeping := false }).emit
          (Effect.deleteAnimationDriver v.thread.id)) i _
          { v.thread with sleeping := false, isRunning := false } h2
      simpa [ThreadedRenderLoop.emit] using this
    · simp only [hemit, setThread_log, hl, List.append_assoc, List.cons_append,
        List.nil_append]

/-- The part of `syncAndRender` after `sync` when no expose was requested: it returns,
writes no record and does not wake the GUI thread. -/
theorem afterSync_quiet (S : ThreadedRenderLoop) (i : Nat) (v : Window) (win : WindowId)
    (rep : Bool) (hv : S.m_windows[i]? = some v) :
    ∃ S2, RenderThread.afterSync S i win rep false = some S2 ∧
      S2.m_windows = S.m_windows ∧
      S2.log.count (Effect.wakeOne v.thread.id) = S.log.count (Effect.wakeOne v.thread.id) := by
  simp only [RenderThread.afterSync, hv]
  split
  · split
    · exact ⟨_, rfl, rfl, by simp [ThreadedRenderLoop.emit, List.count_append]⟩
    · exact ⟨_, rfl, rfl, rfl⟩
  · refine ⟨_, rfl, (renderFrame_spec S v.thread win false).2, ?_⟩
    rw [(renderFrame_spec S v.thread win false).1, List.count_append,
      (renderCalls_count v.thread (S.qwindow win) win false).1]
    simp

/-- A render thread in one of its event loops, with `WM_TryRelease` as the only queued
event, wakes the GUI thread in its next step when it has no window or is released from the
destructor. -/
theorem runToWake_handles (n : Nat) (S : ThreadedRenderLoop) (i : Nat) (v : Window)
    (win : WindowId) (d f : Bool) (p : WorkerPoint) (before : Nat)
    (hv : S.m_windows[i]? = some v)
    (hq : v.thread.eventQueue.events = [WMEvent.tryRelease win d f])
    (hc : v.thread.window = none ∨ d = true)
    (hp : p = WorkerPoint.drainTest ∨
      ((p = WorkerPoint.stopTest ∨ p = WorkerPoint.inTakeEvent) ∧
        v.thread.sleeping = true ∧ v.thread.stopEventProcessing = false))
    (hb : S.log.count (Effect.wakeOne v.thread.id) = before) :
    ∃ T q v1, RenderThread.runToWake (n + 1) S i p (Effect.wakeOne v.thread.id) before =
        some (T, q) ∧
      T.m_windows[i]? = some v1 ∧ v1.thread.active = false ∧
      v1.thread.isRunning = v.thread.isRunning ∧ v1.thread.id = v.thread.id ∧
      v1.thread.eventQueue.events = [] ∧
      (q = WorkerPoint.drainTest ∨
        (q = WorkerPoint.stopTest ∧ v1.thread.stopEventProcessing = true)) := by
  obtain ⟨T, q, v1, hs, h1, h2, h3, h4, h5, h6, h7⟩ := step_tryRelease S i v win d f p hv hq hc hp
  refine ⟨T, q, v1, runToWake_done n S T i p q _ before hs ?_, h1, h2, h3, h4, h5, h7⟩
  rw [h6, List.count_append, hb]
  simp [List.count_cons]

/-- A render thread that owes the GUI thread no wake-up, with `WM_TryRelease` as the only
queued event, comes to handle the event wherever it stands when the event is posted, and
when it has no window or is released from the destructor the GUI thread is woken with
`active` clear and the thread still running. -/
theorem runToWake_tryRelease (n : Nat) (S : ThreadedRenderLoop) (i : Nat) (v : Window)
    (win : WindowId) (d f : Bool) (p : WorkerPoint) (before : Nat)
    (hv : S.m_windows[i]? = some v)
    (hq : v.thread.eventQueue.events = [WMEvent.tryRelease win d f])
    (ha : v.thread.active = true)
    (hc : v.thread.window = none ∨ d = true)
    (hf : p.free v.thread = true)
    (hb : S.log.count (Effect.wakeOne v.thread.id) = before) :
    ∃ T q v1, RenderThread.runToWake (n + 3) S i p (Effect.wakeOne v.thread.id) before =
        some (T, q) ∧
      T.m_windows[i]? = some v1 ∧ v1.thread.active = false ∧
      v1.thread.isRunning = v.thread.isRunning ∧ v1.thread.id = v.thread.id ∧
      v1.thread.eventQueue.events = [] ∧
      (q = WorkerPoint.drainTest ∨
        (q = WorkerPoint.stopTest ∧ v1.thread.stopEventProcessing = true)) := by
  cases p with
  | drainTest =>
    exact runToWake_handles (n + 2) S i v win d f _ before hv hq hc (Or.inl rfl) hb
  | stopTest =>
    simp only [WorkerPoint.free, Bool.and_eq_true, Bool.not_eq_true'] at hf
    exact runToWake_handles (n + 2) S i v win d f _ before hv hq hc
      (Or.inr ⟨Or.inl rfl, hf.1, hf.2⟩) hb
  | inTakeEvent =>
    simp only [WorkerPoint.free, Bool.and_eq_true, Bool.not_eq_true'] at hf
    exact runToWake_handles (n + 2) S i v win d f _ before hv hq hc
      (Or.inr ⟨Or.inr rfl, hf.1, hf.2⟩) hb
  | finished => simp [WorkerPoint.free] at hf
  | afterSync win0 rep e =>
    simp only [WorkerPoint.free, Bool.not_eq_true'] at hf
    subst hf
    obtain ⟨S2, h1, h2, h3⟩ := afterSync_quiet S i v win0 rep hv
    have hs : RenderThread.step false S i (WorkerPoint.afterSync win0 rep false) =
        Stepped.next S2 WorkerPoint.drainTest := by
      simp [RenderThread.step, h1]
    rw [runToWake_step (n + 2) S S2 i _ _ _ before hs (by rw [h3, hb])]
    exact runToWake_handles (n + 1) S2 i v win d f _ before (by rw [h2]; exact hv) hq hc
      (Or.inl rfl) (by rw [h3, hb])
  | activeTest =>
    simp only [WorkerPoint.free, Bool.not_eq_true'] at hf
    cases hwin : v.thread.window with
    | none =>
      have hs : RenderThread.step false S i WorkerPoint.activeTest =
          Stepped.next S WorkerPoint.drainTest := by
        simp [RenderThread.step, RenderThread.stepActive, hv, ha, hwin]
      rw [runToWake_step (n + 2) S S i _ _ _ before hs (by rw [hb])]
      exact runToWake_handles (n + 1) S i v win d f _ before hv hq hc (Or.inl rfl) hb
    | some win0 =>
      have he := expose_needs_sync v.thread hf
      have hs : RenderThread.step false S i WorkerPoint.activeTest =
          Stepped.next ((S.emit Effect.initializeIfNeeded).setThread i
              { v.thread with syncResultedInChanges := false, pendingUpdate := 0 })
            (WorkerPoint.afterSync win0
              (RenderThread.repaintRequested (S.emit Effect.initializeIfNeeded) v.thread win0)
              false) := by
        simp [RenderThread.step, RenderThread.stepActive, hv, ha, hwin, hf, he,
          RenderThread.syncIfRequested]
      have hv1 := setThread_getElem (S.emit Effect.initializeIfNeeded) i v
        { v.thread with syncResultedInChanges := false, pendingUpdate := 0 } hv
      have hc1 : ((S.emit Effect.initializeIfNeeded).setThread i
          { v.thread with syncResultedInChanges := false, pendingUpdate := 0 }).log.count
            (Effect.wakeOne v.thread.id) = before := by
        rw [setThread_log]
        simp [ThreadedRenderLoop.emit, List.count_append, hb]
      rw [runToWake_step (n + 2) S _ i _ _ _ before hs (by rw [hc1])]
      obtain ⟨S2, h1, h2, h3⟩ := afterSync_quiet _ i _ win0
        (RenderThread.repaintRequested (S.emit Effect.initializeIfNeeded) v.thread win0) hv1
      have hs2 : RenderThread.step false ((S.emit Effect.initializeIfNeeded).setThread i
              { v.thread with syncResultedInChanges := false, pendingUpdate := 0 }) i
            (WorkerPoint.afterSync win0
              (RenderThread.repaintRequested (S.emit Effect.initializeIfNeeded) v.thread win0)
              false) =
          Stepped.next S2 WorkerPoint.drainTest := by
        simp [RenderThread.step, h1]
      have hc2 : S2.log.count (Effect.wakeOne v.thread.id) = before := by
        rw [← hc1]
        exact h3
      rw [runToWake_step (n + 1) _ S2 i _ _ _ before hs2 (by rw [hc2])]
      exact runToWake_handles n S2 i
        { v with thread := { v.thread with syncResultedInChanges := false, pendingUpdate := 0 } }
        win d f _ before (by rw [h2]; exact hv1) hq hc (Or.inl rfl) hc2

/-- The part of `releaseResources(Window *w, bool)` before the wait, for a render thread that
is running and active: the mutex is locked, a fallback surface is created when the window
has no platform handle, and `WM_TryRelease` is posted. -/
theorem releaseResourcesW_waiting (rl : ThreadedRenderLoop) (i : Nat) (w : Window) (d : Bool)
    (hw : rl.m_windows[i]? = some w) (hr : w.thread.isRunning = true)
    (ha : w.thread.active = true) :
    rl.releaseResourcesW i d =
        Call.waiting ((if (!(rl.qwindow w.window).handle) = true then
            (rl.emit (Effect.mutexLock w.thread.id)).emit
              (Effect.createFallbackSurface w.actualWindowFormat)
          else rl.emit (Effect.mutexLock w.thread.id)).setThread i
            (w.thread.postEvent
              (WMEvent.tryRelease w.window d (!(rl.qwindow w.window).handle)))) ∧
      ((if (!(rl.qwindow w.window).handle) = true then
            (rl.emit (Effect.mutexLock w.thread.id)).emit
              (Effect.createFallbackSurface w.actualWindowFormat)
          else rl.emit (Effect.mutexLock w.thread.id)).setThread i
            (w.thread.postEvent
              (WMEvent.tryRelease w.window d (!(rl.qwindow w.window).handle)))).m_windows[i]? =
        some { w with thread := (w.thread.postEvent
          (WMEvent.tryRelease w.window d (!(rl.qwindow w.window).handle))) } := by
  have hrec : (if (!(rl.qwindow w.window).handle) = true then
        (rl.emit (Effect.mutexLock w.thread.id)).emit
          (Effect.createFallbackSurface w.actualWindowFormat)
        else rl.emit (Effect.mutexLock w.thread.id)).m_windows[i]? = some w := by
    split <;> exact hw
  refine ⟨?_, setThread_getElem _ i w _ hrec⟩
  simp only [ThreadedRenderLoop.releaseResourcesW, hw, hr, ha, and_self, if_true]
  rfl

/-- A whole call of `releaseResources(Window *w, bool)`, followed step by step, for a render
thread that is running and active with nothing queued and owes the GUI thread no wake-up,
when the thread has no window or the call comes from the destructor. Wherever the thread
stands, it handles `WM_TryRelease` and wakes the GUI thread while it is still running;
`QThread::wait()` then lets it return from `run`, and the call returns with the thread not
running. -/
theorem releaseResourcesStepwise_exit (rl : ThreadedRenderLoop) (i : Nat) (w : Window)
    (d : Bool) (p : WorkerPoint) (hw : rl.m_windows[i]? = some w)
    (hr : w.thread.isRunning = true) (ha : w.thread.active = true)
    (hq : w.thread.eventQueue.events = []) (hf : p.free w.thread = true)
    (hc : w.thread.window = none ∨ d = true) :
    ∃ r0 w0 rl2 q w2 r w1 added,
      rl.releaseResourcesW i d = Call.waiting r0 ∧ r0.m_windows[i]? = some w0 ∧
      RenderThread.runToWake w0.thread.fuel r0 i p (Effect.wakeOne w.thread.id)
        (r0.log.count (Effect.wakeOne w.thread.id)) = some (rl2, q) ∧
      rl2.m_windows[i]? = some w2 ∧ w2.thread.active = false ∧
      w2.thread.isRunning = true ∧
      rl.releaseResourcesStepwise i d p = some (r, WorkerPoint.finished) ∧
      r.m_windows[i]? = some w1 ∧ w1.thread.isRunning = false ∧
      w1.thread.active = false ∧ w1.thread.id = w.thread.id ∧
      r.log = rl2.log ++ added ++
        [Effect.deleteAnimationDriver w.thread.id, Effect.waitThread w.thread.id,
          Effect.mutexUnlock w.thread.id] := by
  obtain ⟨h0, hw0⟩ := releaseResourcesW_waiting rl i w d hw hr ha
  have hq0 : ({ w with thread := (w.thread.postEvent
        (WMEvent.tryRelease w.window d (!(rl.qwindow w.window).handle))) } :
        Window).thread.eventQueue.events =
      [WMEvent.tryRelease w.window d (!(rl.qwindow w.window).handle)] := by
    simp [RenderThread.postEvent, RenderThreadEventQueue.addEvent, hq]
  have hfuel : ({ w with thread := (w.thread.postEvent
        (WMEvent.tryRelease w.window d (!(rl.qwindow w.window).handle))) } :
        Window).thread.fuel = 6 + 3 := by
    simp [RenderThread.fuel, RenderThread.postEvent, RenderThreadEventQueue.addEvent, hq]
  have hf0 : p.free ({ w with thread := (w.thread.postEvent
        (WMEvent.tryRelease w.window d (!(rl.qwindow w.window).handle))) } :
        Window).thread = true := by
    cases p <;> exact hf
  obtain ⟨T, q, v1, k1, k2, k3, k4, k5, k6, k7⟩ := runToWake_tryRelease 6 _ i _ w.window d
    (!(rl.qwindow w.window).handle) p _ hw0 hq0 ha hc hf0 rfl
  obtain ⟨R, w1, added, j1, j2, j3, j4, j5, j6⟩ := releaseResourcesJoin_exit T i v1
    (!(rl.qwindow w.window).handle) q k2 k3 k6 k7
  have k5b : v1.thread.id = w.thread.id := k5
  rw [k5b] at j6
  refine ⟨_, _, T, q, v1, R, w1, added, h0, hw0, ?_, k2, k3, by rw [k4]; exact hr, ?_, j2, j3,
    j4, by rw [j5]; exact k5, j6⟩
  · rw [hfuel]
    exact k1
  · simp only [ThreadedRenderLoop.releaseResourcesStepwise, h0, hw0]
    rw [hfuel]
    have k1b := k1
    simp only [RenderThread.postEvent] at k1b ⊢
    rw [k1b]
    exact j1

/-- Whenever a call of `releaseResources(Window *w, bool)`, followed step by step, that found
the render thread running and active returns with `active` clear, the render thread has
returned from `run`. -/
theorem releaseResourcesStepwise_joined (rl : ThreadedRenderLoop) (i : Nat) (w : Window)
    (d : Bool) (p q : WorkerPoint) (r : ThreadedRenderLoop) (w1 : Window)
    (hw : rl.m_windows[i]? = some w)
    (hr : w.thread.isRunning = true) (ha : w.thread.active = true)
    (h : rl.releaseResourcesStepwise i d p = some (r, q))
    (hw1 : r.m_windows[i]? = some w1) (hina : w1.thread.active = false) :
    w1.thread.isRunning = false ∧ q = WorkerPoint.finished := by
  obtain ⟨h0, hw0⟩ := releaseResourcesW_waiting rl i w d hw hr ha
  simp only [ThreadedRenderLoop.releaseResourcesStepwise, h0, hw0] at h
  split at h
  · cases h
  · rename_i r2 h2
    simp only [ThreadedRenderLoop.releaseResourcesJoin] at h
    split at h
    · cases h
    · rename_i v hv
      split at h
      · split at h
        · cases h
        · rename_i r3 h3
          split at h
          · rename_i hfin
            injection h with h
            injection h with e1 e2
            subst e1 e2
            have hp3 : RenderThread.runToRest true v.thread.fuel
                (if (!(rl.qwindow w.window).handle) = true then
                  r2.1.emit Effect.deleteFallbackSurface else r2.1) i r2.2 =
                some (r3.1, WorkerPoint.finished) := by
              rw [← hfin]
              exact h3
            have hpre : r2.2 = WorkerPoint.finished →
                ∃ v0, (if (!(rl.qwindow w.window).handle) = true then
                  r2.1.emit Effect.deleteFallbackSurface else r2.1).m_windows[i]? = some v0 ∧
                  v0.thread.isRunning = false := by
              intro hq2
              have h2b := h2
              have hr2 : r2 = (r2.1, WorkerPoint.finished) := by rw [← hq2]
              rw [hr2] at h2b
              obtain ⟨v0, hv0, hr0⟩ := runToWake_finished _ _ _ i p _ _ h2b
              refine ⟨v0, ?_, hr0⟩
              split <;> exact hv0
            obtain ⟨v3, hv3, hr3⟩ := runToRest_finished true _ _ _ i _ hp3 hpre
            have hw1b : r3.1.m_windows[i]? = some w1 := hw1
            rw [hv3] at hw1b
            injection hw1b with e
            subst e
            exact ⟨hr3, rfl⟩
          · cases h
      · rename_i hact
        injection h with h
        injection h with e1 e2
        subst e1
        have hw1b : r2.1.m_windows[i]? = some w1 := by
          revert hw1
          split <;> exact id
        rw [hv] at hw1b
        injection hw1b with e
        subst e
        exact absurd hina hact

/-- C14: `releaseResources(w, inDestructor)` for the record `w` at index `i`, with the render
thread followed step by step from the point `p` where it stands when the call is made. When
the render thread is not running or not active, the call locks and unlocks the mutex and
returns: no event is posted, nothing is waited for and the render thread makes no step. When
it is running and active, exactly one `WM_TryRelease` is posted and the GUI thread waits.
Whenever such a call returns with `active` clear, the render thread has returned from `run`:
`isRunning` is false. And the call does return in that way: when nothing else is queued, the
render thread owes no wake-up, and it has no window or `inDestructor` is set, then wherever
the thread stands it handles the event and wakes the GUI thread with `active` clear while it
is still running, `QThread::wait()` lets it run to the end of `run`, and the call returns
after that with `isRunning` false. -/
theorem releaseResources_joins (rl : ThreadedRenderLoop) (i : Nat) (w : Window) (d : Bool)
    (hw : rl.m_windows[i]? = some w) :
    (¬ (w.thread.isRunning = true ∧ w.thread.active = true) →
      rl.releaseResourcesW i d =
          Call.returned { rl with log := rl.log ++ [Effect.mutexLock w.thread.id,
            Effect.mutexUnlock w.thread.id] } () ∧
      ∀ p, rl.releaseResourcesStepwise i d p =
          some ({ rl with log := rl.log ++ [Effect.mutexLock w.thread.id,
            Effect.mutexUnlock w.thread.id] }, p)) ∧
    (w.thread.isRunning = true → w.thread.active = true →
      ∃ r0 w0, rl.releaseResourcesW i d = Call.waiting r0 ∧ r0.m_windows[i]? = some w0 ∧
        w0.thread.eventQueue.events = w.thread.eventQueue.events ++
          [WMEvent.tryRelease w.window d (!(rl.qwindow w.window).handle)]) ∧
    (∀ p q r w1, rl.releaseResourcesStepwise i d p = some (r, q) →
      r.m_windows[i]? = some w1 →
      w.thread.isRunning = true → w.thread.active = true → w1.thread.active = false →
      w1.thread.isRunning = false ∧ q = WorkerPoint.finished) ∧
    (∀ p, w.thread.isRunning = true → w.thread.active = true →
      w.thread.eventQueue.events = [] → p.free w.thread = true →
      (w.thread.window = none ∨ d = true) →
      ∃ r0 w0 rl2 q w2 r w1 added,
        rl.releaseResourcesW i d = Call.waiting r0 ∧ r0.m_windows[i]? = some w0 ∧
        RenderThread.runToWake w0.thread.fuel r0 i p (Effect.wakeOne w.thread.id)
          (r0.log.count (Effect.wakeOne w.thread.id)) = some (rl2, q) ∧
        rl2.m_windows[i]? = some w2 ∧ w2.thread.active = false ∧
        w2.thread.isRunning = true ∧
        rl.releaseResourcesStepwise i d p = some (r, WorkerPoint.finished) ∧
        r.m_windows[i]? = some w1 ∧ w1.thread.isRunning = false ∧
        w1.thread.active = false ∧ w1.thread.id = w.thread.id ∧
        r.log = rl2.log ++ added ++
          [Effect.deleteAnimationDriver w.thread.id, Effect.waitThread w.thread.id,
            Effect.mutexUnlock w.thread.id]) := by
  refine ⟨?_, ?_, ?_, ?_⟩
  · intro hc
    simp [ThreadedRenderLoop.releaseResourcesStepwise, ThreadedRenderLoop.releaseResourcesW, hw,
      hc, ThreadedRenderLoop.emit]
  · intro hr ha
    obtain ⟨h0, hw0⟩ := releaseResourcesW_waiting rl i w d hw hr ha
    exact ⟨_, _, h0, hw0, by simp [RenderThread.postEvent, RenderThreadEventQueue.addEvent]⟩
  · intro p q r w1 h hw1 hr ha hina
    exact releaseResourcesStepwise_joined rl i w d p q r w1 hw hr ha h hw1 hina
  · intro p hr ha hq hf hc
    exact releaseResourcesStepwise_exit rl i w d p hw hr ha hq hf hc

/-- Witness of `releaseResources_joins`: a release from the destructor makes a render thread
finish and returns with `isRunning` false, both for the thread of `parkedLoop`, which is
blocked in `takeEvent(true)`, and for the thread of `sampleLoop` standing at the test of
`while (active)`; for `idleLoop`, whose thread is not running, the mutex is locked and
unlocked and nothing else happens. -/
theorem releaseResources_joins_witness :
    (∃ r w1, parkedLoop.releaseResourcesStepwise 0 true WorkerPoint.inTakeEvent =
        some (r, WorkerPoint.finished) ∧ r.m_windows[0]? = some w1 ∧
        w1.thread.isRunning = false ∧ w1.thread.active = false) ∧
    (∃ r w1, sampleLoop.releaseResourcesStepwise 0 true WorkerPoint.activeTest =
        some (r, WorkerPoint.finished) ∧ r.m_windows[0]? = some w1 ∧
        w1.thread.isRunning = false ∧ w1.thread.active = false) ∧
    (∀ p, idleLoop.releaseResourcesStepwise 0 true p =
        some ({ idleLoop with log := idleLoop.log ++ [Effect.mutexLock 7,
          Effect.mutexUnlock 7] }, p)) := by
  obtain ⟨_, _, _, _, _, r, w1, _, _, _, _, _, _, _, h7, h8, h9, h10, _, _⟩ :=
    (releaseResources_joins parkedLoop 0 parkedWindow true rfl).2.2.2
      WorkerPoint.inTakeEvent rfl rfl rfl rfl (Or.inr rfl)
  obtain ⟨_, _, _, _, _, r2, w2, _, _, _, _, _, _, _, k7, k8, k9, k10, _, _⟩ :=
    (releaseResources_joins sampleLoop 0 sampleWindow true rfl).2.2.2
      WorkerPoint.activeTest rfl rfl rfl rfl (Or.inr rfl)
  exact ⟨⟨r, w1, h7, h8, h9, h10⟩, ⟨r2, w2, k7, k8, k9, k10⟩,
    ((releaseResources_joins idleLoop 0 _ true rfl).1 (by decide)).2⟩

end SoftwareContext
